import Mathlib

/-!
# Misc.cpp (DOOM-3 game code): save/restore, snapshots, weak references, events

A shallow embedding of the entity classes of `src/neo/game/Misc.cpp`.

Conventions of the embedding
* C `int` values are `Int`; the `thinkFlags` word is a `Nat` holding the 32-bit
  two's-complement pattern, so that `~flags` is `flags ^^^ 0xFFFFFFFF`. The decrement
  `numshots - 1` of Misc.cpp 1306, which leaves the range of an `int` at INT_MIN, wraps
  around as the 32-bit subtraction of the machine does (`wrapInt`).
* C `float` values are `Rat`, and the conversion of a float to `int` drops the fraction.
  The float operations of Misc.cpp 1454 (the fraction of a fade), of Misc.cpp 3120-3127
  (the schedule of the throws) and of `MS2SEC` are rounded to IEEE 754 binary32 one by one
  (`f32`, `itof`); elsewhere float arithmetic is exact rational arithmetic.
* A save game is a list of typed items; a typed read fails (`none`) when the next
  item has another type or the archive is exhausted.
* Code that lives outside `Misc.cpp` (idEntity, idEntityPtr, idSaveGame, idBitMsgDelta,
  the event queue) is modelled from the specification and marked as such.
* An entity pointer handed to a handler is the number of the entity, `none` for NULL; the
  calls a handler makes on objects that have no state here (targets, sounds, the force
  object) are recorded in lists, in the order they are made.
-/

namespace Misc

/-! ## Basic value types -/

/-- Three-component vector (idVec3). -/
structure idVec3 where
  x : Rat
  y : Rat
  z : Rat
deriving DecidableEq, Repr

/-- Four-component vector (idVec4). -/
structure idVec4 where
  x : Rat
  y : Rat
  z : Rat
  w : Rat
deriving DecidableEq, Repr

/-- Modelled from the spec: the null vector: what `idVec3::Zero()` stores. -/
def idVec3.Zero : idVec3 := ⟨0, 0, 0⟩

/-- Modelled from the spec: the origin vector constant `vec3_origin`. -/
def vec3_origin : idVec3 := ⟨0, 0, 0⟩

/-- Modelled from the spec: serialized form of an object written through `WriteStaticObject`
(idForce_Spring, idPhysics_Parametric): produced and consumed by that object's
own Save/Restore, which are outside Misc.cpp. -/
abbrev ObjectData := List Int

/-! ## Machine arithmetic: the 32-bit `int` and the binary32 `float` -/

/-- Smallest value of a C `int` (32 bits, two's complement). -/
def INT_MIN : Int := -2147483648

/-- Largest value of a C `int`. -/
def INT_MAX : Int := 2147483647

/-- The value a 32-bit `int` holds for the mathematical result `x` of an addition or a
subtraction: `x` modulo 2^32, taken in the range INT_MIN .. INT_MAX. -/
def wrapInt (x : Int) : Int := (x + 2147483648) % 4294967296 - 2147483648

/-- Rounding of a rational to the nearest integer, a tie going to the even neighbour. -/
def roundEven (q : Rat) : Int :=
  let floor := ⌊q⌋
  let rest := q - floor
  if rest < 1 / 2 then floor
  else if 1 / 2 < rest then floor + 1
  else if floor % 2 = 0 then floor else floor + 1

/-- Exponent of the binade a binary32 value of magnitude `|q|` lies in: the largest `e`
with 2^e <= |q|, and -126, the exponent of the subnormal numbers, below 2^-126. -/
def f32.exponent (q : Rat) : Int :=
  if |q| < 2 ^ (-126 : Int) then -126 else Int.log 2 |q|

/-- The C `float` (IEEE 754 binary32) nearest to the real number `q`: 24 significant bits,
so a multiple of 2^(e - 23) in the binade of exponent `e`, rounded to nearest with a tie
going to the even significand. The exponent has no upper limit here: a magnitude of 2^128
or more, which is infinite on the machine, is rounded like any other. -/
def f32 (q : Rat) : Rat :=
  let ulp : Rat := 2 ^ (f32.exponent q - 23)
  roundEven (q / ulp) * ulp

/-- The conversion `( float )n` of an `int`. -/
def itof (n : Int) : Rat := f32 n

/-! ## Think flags (Entity.h) -/

/-- Modelled from the spec: the activation mask flag "run think function each frame". -/
def TH_THINK : Nat := 1
/-- Modelled from the spec: the activation mask flag "run physics each frame". -/
def TH_PHYSICS : Nat := 2
/-- Modelled from the spec: the activation mask flag "update animation each frame". -/
def TH_ANIMATE : Nat := 4
/-- Modelled from the spec: the activation mask flag "update visuals". -/
def TH_UPDATEVISUALS : Nat := 8
/-- Modelled from the spec: the activation mask flag "update particles". -/
def TH_UPDATEPARTICLES : Nat := 16
/-- Modelled from the spec: all flags, the 32-bit pattern of `-1`. -/
def TH_ALL : Nat := 4294967295

/-- Modelled from the spec: bitwise complement of a 32-bit word (`~flags`). -/
def compl32 (flags : Nat) : Nat := flags ^^^ 4294967295

/-! ## Weak entity references (Game_local.h) -/

/-- Modelled from the spec: a weak relational reference is a stable identifier that is
resolved on demand against the registry of live objects; `none` is the NULL reference. -/
structure idEntityPtr where
  spawnId : Option Nat
deriving DecidableEq, Repr

/-- Modelled from the spec: the NULL reference (`ptr = NULL`). -/
def idEntityPtr.null : idEntityPtr := ⟨none⟩

/-- Modelled from the spec: assignment of a live entity, given by its identifier. -/
def idEntityPtr.assign (num : Nat) : idEntityPtr := ⟨some num⟩

/-- Modelled from the spec: resolve-on-demand lookup into the live-object registry;
yields the identifier and the object, or `none` ("absent") when the reference is NULL or
the object was destroyed. -/
def idEntityPtr.GetEntity {α : Type} (entities : Nat → Option α) (p : idEntityPtr) :
    Option (Nat × α) :=
  match p.spawnId with
  | none => none
  | some num =>
    match entities num with
    | none => none
    | some e => some (num, e)

/-! ## The save-game archive (SaveGame.h) -/

/-- Modelled from the spec: the type tag of one archive item. -/
inductive ArchiveType where
  | Int
  | Bool
  | Float
  | Vec3
  | Vec4
  | Joint
  | String
  | Particle
  | Object
  | StaticObject
deriving DecidableEq, Repr

/-- Modelled from the spec: one typed value in a save game. -/
inductive SaveItem where
  | int (v : Int)
  | bool (v : Bool)
  | float (v : Rat)
  | vec3 (v : idVec3)
  | vec4 (v : idVec4)
  | joint (v : Int)
  | string (v : String)
  | particle (v : Option String)
  | object (v : idEntityPtr)
  | staticObject (v : ObjectData)
deriving DecidableEq, Repr

/-- Modelled from the spec: the type tag of an archive item. -/
def SaveItem.type : SaveItem → ArchiveType
  | .int _ => .Int
  | .bool _ => .Bool
  | .float _ => .Float
  | .vec3 _ => .Vec3
  | .vec4 _ => .Vec4
  | .joint _ => .Joint
  | .string _ => .String
  | .particle _ => .Particle
  | .object _ => .Object
  | .staticObject _ => .StaticObject

/-- Modelled from the spec: the writer side of the persistence codec, the ordered
sequence of items written so far. -/
abbrev idSaveGame := List SaveItem

/-- Modelled from the spec: writer primitive `WriteInt`. -/
def idSaveGame.WriteInt (savefile : idSaveGame) (v : Int) : idSaveGame := savefile ++ [.int v]
/-- Modelled from the spec: writer primitive `WriteBool`. -/
def idSaveGame.WriteBool (savefile : idSaveGame) (v : Bool) : idSaveGame := savefile ++ [.bool v]
/-- Modelled from the spec: writer primitive `WriteFloat`. -/
def idSaveGame.WriteFloat (savefile : idSaveGame) (v : Rat) : idSaveGame := savefile ++ [.float v]
/-- Modelled from the spec: writer primitive `WriteVec3`. -/
def idSaveGame.WriteVec3 (savefile : idSaveGame) (v : idVec3) : idSaveGame := savefile ++ [.vec3 v]
/-- Modelled from the spec: writer primitive `WriteVec4`. -/
def idSaveGame.WriteVec4 (savefile : idSaveGame) (v : idVec4) : idSaveGame := savefile ++ [.vec4 v]
/-- Modelled from the spec: writer primitive `WriteJoint`. -/
def idSaveGame.WriteJoint (savefile : idSaveGame) (v : Int) : idSaveGame := savefile ++ [.joint v]
/-- Modelled from the spec: writer primitive `WriteString`. -/
def idSaveGame.WriteString (savefile : idSaveGame) (v : String) : idSaveGame :=
  savefile ++ [.string v]
/-- Modelled from the spec: writer primitive `WriteParticle`. -/
def idSaveGame.WriteParticle (savefile : idSaveGame) (v : Option String) : idSaveGame :=
  savefile ++ [.particle v]
/-- Modelled from the spec: writer primitive `WriteStaticObject`. -/
def idSaveGame.WriteStaticObject (savefile : idSaveGame) (v : ObjectData) : idSaveGame :=
  savefile ++ [.staticObject v]

/-- Modelled from the spec: a weak reference is saved as its stable identifier. -/
def idEntityPtr.Save (p : idEntityPtr) (savefile : idSaveGame) : idSaveGame :=
  savefile ++ [.object p]

/-- Modelled from the spec: the reader side of the persistence codec: the items not yet
consumed, the types of the reads performed so far, and the build number of the archive. -/
structure idRestoreGame where
  file : List SaveItem
  reads : List ArchiveType
  buildNumber : Int
deriving DecidableEq, Repr

/-- Modelled from the spec: the build number of the first release (an older archive
layout); the constant is declared outside Misc.cpp and only compared for equality. -/
def INITIAL_RELEASE_BUILD_NUMBER : Int := 1262

/-- Modelled from the spec: reader accessor `GetBuildNumber`. -/
def idRestoreGame.GetBuildNumber (savefile : idRestoreGame) : Int := savefile.buildNumber

/-- Modelled from the spec: reader primitive `ReadInt`. -/
def idRestoreGame.ReadInt (savefile : idRestoreGame) : Option (Int × idRestoreGame) :=
  match savefile.file with
  | .int v :: rest => some (v, { savefile with file := rest, reads := savefile.reads ++ [.Int] })
  | _ => none
/-- Modelled from the spec: reader primitive `ReadBool`. -/
def idRestoreGame.ReadBool (savefile : idRestoreGame) : Option (Bool × idRestoreGame) :=
  match savefile.file with
  | .bool v :: rest => some (v, { savefile with file := rest, reads := savefile.reads ++ [.Bool] })
  | _ => none
/-- Modelled from the spec: reader primitive `ReadFloat`. -/
def idRestoreGame.ReadFloat (savefile : idRestoreGame) : Option (Rat × idRestoreGame) :=
  match savefile.file with
  | .float v :: rest =>
    some (v, { savefile with file := rest, reads := savefile.reads ++ [.Float] })
  | _ => none
/-- Modelled from the spec: reader primitive `ReadVec3`. -/
def idRestoreGame.ReadVec3 (savefile : idRestoreGame) : Option (idVec3 × idRestoreGame) :=
  match savefile.file with
  | .vec3 v :: rest => some (v, { savefile with file := rest, reads := savefile.reads ++ [.Vec3] })
  | _ => none
/-- Modelled from the spec: reader primitive `ReadVec4`. -/
def idRestoreGame.ReadVec4 (savefile : idRestoreGame) : Option (idVec4 × idRestoreGame) :=
  match savefile.file with
  | .vec4 v :: rest => some (v, { savefile with file := rest, reads := savefile.reads ++ [.Vec4] })
  | _ => none
/-- Modelled from the spec: reader primitive `ReadJoint`. -/
def idRestoreGame.ReadJoint (savefile : idRestoreGame) : Option (Int × idRestoreGame) :=
  match savefile.file with
  | .joint v :: rest =>
    some (v, { savefile with file := rest, reads := savefile.reads ++ [.Joint] })
  | _ => none
/-- Modelled from the spec: reader primitive `ReadString`. -/
def idRestoreGame.ReadString (savefile : idRestoreGame) : Option (String × idRestoreGame) :=
  match savefile.file with
  | .string v :: rest =>
    some (v, { savefile with file := rest, reads := savefile.reads ++ [.String] })
  | _ => none
/-- Modelled from the spec: reader primitive `ReadParticle`. -/
def idRestoreGame.ReadParticle (savefile : idRestoreGame) :
    Option (Option String × idRestoreGame) :=
  match savefile.file with
  | .particle v :: rest =>
    some (v, { savefile with file := rest, reads := savefile.reads ++ [.Particle] })
  | _ => none
/-- Modelled from the spec: reader primitive `ReadStaticObject`. -/
def idRestoreGame.ReadStaticObject (savefile : idRestoreGame) :
    Option (ObjectData × idRestoreGame) :=
  match savefile.file with
  | .staticObject v :: rest =>
    some (v, { savefile with file := rest, reads := savefile.reads ++ [.StaticObject] })
  | _ => none

/-- Modelled from the spec: a weak reference is restored as its stable identifier; it is
resolved only later, on demand. -/
def idEntityPtr.Restore (savefile : idRestoreGame) : Option (idEntityPtr × idRestoreGame) :=
  match savefile.file with
  | .object v :: rest =>
    some (v, { savefile with file := rest, reads := savefile.reads ++ [.Object] })
  | _ => none

/-! ## The base entity (Entity.h) and the game state (Game_local.h) -/

/-- Entity flag bits `fl` used by Misc.cpp. -/
structure entityFlags_s where
  hidden : Bool := false
  takedamage : Bool := false
  neverDormant : Bool := false
deriving DecidableEq, Repr

/-- Modelled from the spec: the immutable key-value configuration record of an object. -/
abbrev idDict := List (String × String)

/-- Modelled from the spec: configuration lookup `GetString(key, default)`. -/
def idDict.GetString (args : idDict) (key : String) (defaultString : String := "") : String :=
  match args.find? (fun kv => kv.1 == key) with
  | some kv => kv.2
  | none => defaultString

/-- Modelled from the spec: configuration update `Set(key, value)`: replaces the value of an existing key or adds
the pair. -/
def idDict.Set (args : idDict) (key : String) (value : String) : idDict :=
  if args.any (fun kv => kv.1 == key) then
    args.map (fun kv => if kv.1 == key then (key, value) else kv)
  else
    args ++ [(key, value)]

/-- Modelled from the spec: decimal value of a run of leading digits, the unsigned core of C `atoi`. -/
def atoiDigits : List Char → Nat → Nat
  | [], acc => acc
  | c :: cs, acc => if c.isDigit then atoiDigits cs (10 * acc + (c.toNat - 48)) else acc

/-- Modelled from the spec: C `atoi`: optional sign followed by decimal digits; anything else yields 0. -/
def atoi (s : String) : Int :=
  match s.toList with
  | '-' :: cs => - Int.ofNat (atoiDigits cs 0)
  | '+' :: cs => Int.ofNat (atoiDigits cs 0)
  | cs => Int.ofNat (atoiDigits cs 0)

/-- Modelled from the spec: configuration lookup `GetBool(key, default)`: the integer value of the string is
non-zero. -/
def idDict.GetBool (args : idDict) (key : String) (defaultString : String := "0") : Bool :=
  atoi (args.GetString key defaultString) != 0

/-- The visual state handed to the renderer: the shader parameters, and which of the user
interfaces `gui[ 0 ]`, `gui[ 1 ]`, `gui[ 2 ]` the entity has. -/
structure renderEntity_s where
  shaderParms : Nat → Rat := fun _ => 0
  gui : Nat → Bool := fun _ => false

/-- Modelled from the spec: shader parameter index of the time offset. -/
def SHADERPARM_TIMEOFFSET : Nat := 4
/-- Modelled from the spec: shader parameter index of the particle stop time. -/
def SHADERPARM_PARTICLE_STOPTIME : Nat := 8
/-- Modelled from the spec: shader parameter index of the beam end point, x. -/
def SHADERPARM_BEAM_END_X : Nat := 8
/-- Modelled from the spec: shader parameter index of the beam end point, y. -/
def SHADERPARM_BEAM_END_Y : Nat := 9
/-- Modelled from the spec: shader parameter index of the beam end point, z. -/
def SHADERPARM_BEAM_END_Z : Nat := 10
/-- Modelled from the spec: shader parameter index of the beam width. -/
def SHADERPARM_BEAM_WIDTH : Nat := 11

/-- Calls into external collaborators that the embedding records; `StateChanged` is the
call `renderEntity.gui[ gui ]->StateChanged( time, true )`. -/
inductive EntityCall where
  | UpdateVisuals
  | Hide
  | Show
  | StateChanged (gui : Nat) (time : Int)
deriving DecidableEq, Repr

/-- Modelled from the spec: state of the external collaborators (physics, bind master,
colour, GUI) that an entity replicates in a snapshot; opaque to Misc.cpp. -/
structure replicatedState where
  physics : ObjectData := []
  bind : ObjectData := []
  color : ObjectData := []
  gui : ObjectData := []
deriving DecidableEq, Repr

/-- Modelled from the spec: the part of the base SimObject that Misc.cpp touches: the
activation mask, the flag bits, health, the list of targets, the configuration record, the
visual state, the physics origin, contents and velocities, the replicated collaborator
state, and the record of calls made to the renderer collaborator. -/
structure idEntity where
  thinkFlags : Nat := 0
  fl : entityFlags_s := {}
  health : Int := 0
  targets : List idEntityPtr := []
  spawnArgs : idDict := []
  renderEntity : renderEntity_s := {}
  origin : idVec3 := vec3_origin
  contents : Int := 0
  linearVelocity : idVec3 := vec3_origin
  angularVelocity : idVec3 := vec3_origin
  replicated : replicatedState := {}
  calls : List EntityCall := []

/-- Modelled from the spec: `SetActive(subsystem)` sets the given flags of the mask. -/
def idEntity.BecomeActive (self : idEntity) (flags : Nat) : idEntity :=
  { self with thinkFlags := self.thinkFlags ||| flags }

/-- Modelled from the spec: `SetInactive(subsystem)` clears the given flags of the mask. -/
def idEntity.BecomeInactive (self : idEntity) (flags : Nat) : idEntity :=
  { self with thinkFlags := self.thinkFlags &&& compl32 flags }

/-- Modelled from the spec: visibility query. -/
def idEntity.IsHidden (self : idEntity) : Bool := self.fl.hidden

/-- Modelled from the spec: hide the entity (visibility is part of the visual state). -/
def idEntity.Hide (self : idEntity) : idEntity :=
  { self with fl := { self.fl with hidden := true }, calls := self.calls ++ [.Hide] }

/-- Modelled from the spec: show the entity (visibility is part of the visual state). -/
def idEntity.Show (self : idEntity) : idEntity :=
  { self with fl := { self.fl with hidden := false }, calls := self.calls ++ [.Show] }

/-- Modelled from the spec: the renderer is told to refresh by an explicit UpdateVisuals
call; the call is recorded. -/
def idEntity.UpdateVisuals (self : idEntity) : idEntity :=
  { self with calls := self.calls ++ [.UpdateVisuals] }

/-- Modelled from the spec: the base class saves the activation mask. -/
def idEntity.Save (self : idEntity) (savefile : idSaveGame) : idSaveGame :=
  savefile.WriteInt (Int.ofNat self.thinkFlags)

/-- Modelled from the spec: the base class restores the activation mask. -/
def idEntity.Restore (self : idEntity) (savefile : idRestoreGame) :
    Option (idEntity × idRestoreGame) := do
  let (flags, savefile) ← savefile.ReadInt
  pure ({ self with thinkFlags := flags.toNat }, savefile)

/-- Modelled from the spec: the two AAS area content kinds switched by Misc.cpp. -/
inductive AreaContents where
  | AREACONTENTS_CLUSTERPORTAL
  | AREACONTENTS_OBSTACLE
deriving DecidableEq, Repr

/-- Modelled from the spec: the process-wide simulation context: the current time, whether
a cinematic is playing, the portal flag words of the render world, the AAS area switches
requested so far, the `SetPortalState` calls made so far (portal handle and blocking bits),
the warnings logged so far, and the identifier of the local player, if there is one. -/
structure idGameLocal where
  time : Int := 0
  inCinematic : Bool := false
  portalState : Int → Int := fun _ => 0
  aasAreaStates : List (AreaContents × Bool) := []
  portalCalls : List (Int × Int) := []
  warnings : List String := []
  localPlayer : Option Nat := none

/-- Modelled from the spec: render-world query `GetPortalState`. -/
def idGameLocal.GetPortalState (gameLocal : idGameLocal) (portal : Int) : Int :=
  gameLocal.portalState portal

/-- Modelled from the spec: game call `SetPortalState`: the call is recorded and the flag
word of the portal becomes the given blocking bits. -/
def idGameLocal.SetPortalState (gameLocal : idGameLocal) (portal : Int) (blockingBits : Int) :
    idGameLocal :=
  { gameLocal with
    portalState := Function.update gameLocal.portalState portal blockingBits
    portalCalls := gameLocal.portalCalls ++ [(portal, blockingBits)] }

/-- Modelled from the spec: game query `GetLocalPlayer`: the identifier of the local player,
or `none` (NULL) when there is none. -/
def idGameLocal.GetLocalPlayer (gameLocal : idGameLocal) : Option Nat := gameLocal.localPlayer

/-- Modelled from the spec: game call `Warning`: the message is logged. -/
def idGameLocal.Warning (gameLocal : idGameLocal) (message : String) : idGameLocal :=
  { gameLocal with warnings := gameLocal.warnings ++ [message] }

/-- Modelled from the spec: game call `SetAASAreaState`, for the bounds of the calling entity. -/
def idGameLocal.SetAASAreaState (gameLocal : idGameLocal) (areaContents : AreaContents)
    (closed : Bool) : idGameLocal :=
  { gameLocal with aasAreaStates := gameLocal.aasAreaStates ++ [(areaContents, closed)] }

/-! ## Entity classes of Misc.cpp: state, Save and Restore -/

/-- State of idPlayerStart. -/
structure idPlayerStart extends idEntity where
  teleportStage : Int := 0

/-- Save of idPlayerStart (Misc.cpp 99-101). -/
def idPlayerStart.Save (self : idPlayerStart) (savefile : idSaveGame) : idSaveGame :=
  savefile.WriteInt self.teleportStage

/-- Restore of idPlayerStart (Misc.cpp 108-110). -/
def idPlayerStart.Restore (self : idPlayerStart) (savefile : idRestoreGame) :
    Option (idPlayerStart × idRestoreGame) := do
  let (teleportStage, savefile) ← savefile.ReadInt
  pure ({ self with teleportStage := teleportStage }, savefile)

/-- State of idActivator. -/
structure idActivator extends idEntity where
  stay_on : Bool := false

/-- Save of idActivator (Misc.cpp 213-215). -/
def idActivator.Save (self : idActivator) (savefile : idSaveGame) : idSaveGame :=
  savefile.WriteBool self.stay_on

/-- Restore of idActivator (Misc.cpp 222-228). -/
def idActivator.Restore (self : idActivator) (savefile : idRestoreGame) :
    Option (idActivator × idRestoreGame) := do
  let (stay_on, savefile) ← savefile.ReadBool
  let self := { self with stay_on := stay_on }
  if self.stay_on then
    pure ({ self with toidEntity := self.toidEntity.BecomeActive TH_THINK }, savefile)
  else
    pure (self, savefile)

/-- Event handler idActivator::Event_Activate (Misc.cpp 271-277). -/
def idActivator.Event_Activate (self : idActivator) : idActivator :=
  if self.thinkFlags &&& TH_THINK ≠ 0 then
    { self with toidEntity := self.toidEntity.BecomeInactive TH_THINK }
  else
    { self with toidEntity := self.toidEntity.BecomeActive TH_THINK }

/-- State of idDamagable. -/
structure idDamagable extends idEntity where
  count : Int := 0
  nextTriggerTime : Int := 0

/-- Save of idDamagable (Misc.cpp 392-395). -/
def idDamagable.Save (self : idDamagable) (savefile : idSaveGame) : idSaveGame :=
  let savefile := savefile.WriteInt self.count
  savefile.WriteInt self.nextTriggerTime

/-- Restore of idDamagable (Misc.cpp 402-405). -/
def idDamagable.Restore (self : idDamagable) (savefile : idRestoreGame) :
    Option (idDamagable × idRestoreGame) := do
  let (count, savefile) ← savefile.ReadInt
  let (nextTriggerTime, savefile) ← savefile.ReadInt
  pure ({ self with count := count, nextTriggerTime := nextTriggerTime }, savefile)

/-- State of idSpring. -/
structure idSpring extends idEntity where
  ent1 : idEntityPtr := idEntityPtr.null
  ent2 : idEntityPtr := idEntityPtr.null
  id1 : Int := 0
  id2 : Int := 0
  p1 : idVec3 := vec3_origin
  p2 : idVec3 := vec3_origin
  spring : ObjectData := []

/-- Save of idSpring (Misc.cpp 689-698). -/
def idSpring.Save (self : idSpring) (savefile : idSaveGame) : idSaveGame :=
  let savefile := self.ent1.Save savefile
  let savefile := self.ent2.Save savefile
  let savefile := savefile.WriteInt self.id1
  let savefile := savefile.WriteInt self.id2
  let savefile := savefile.WriteVec3 self.p1
  let savefile := savefile.WriteVec3 self.p2
  savefile.WriteStaticObject self.spring

/-- Restore of idSpring (Misc.cpp 700-709). -/
def idSpring.Restore (self : idSpring) (savefile : idRestoreGame) :
    Option (idSpring × idRestoreGame) := do
  let (ent1, savefile) ← idEntityPtr.Restore savefile
  let (ent2, savefile) ← idEntityPtr.Restore savefile
  let (id1, savefile) ← savefile.ReadInt
  let (id2, savefile) ← savefile.ReadInt
  let (p1, savefile) ← savefile.ReadVec3
  let (p2, savefile) ← savefile.ReadVec3
  let (spring, savefile) ← savefile.ReadStaticObject
  pure ({ self with ent1 := ent1, ent2 := ent2, id1 := id1, id2 := id2, p1 := p1, p2 := p2,
                    spring := spring }, savefile)

/-- Modelled from the spec: the invalid joint handle. -/
def INVALID_JOINT : Int := -1

/-- State of idAnimated. -/
structure idAnimated extends idEntity where
  current_anim_index : Int := 0
  num_anims : Int := 0
  anim : Int := 0
  blendFrames : Int := 0
  soundJoint : Int := INVALID_JOINT
  activator : idEntityPtr := idEntityPtr.null
  activated : Bool := false

/-- Save of idAnimated (Misc.cpp 910-918). -/
def idAnimated.Save (self : idAnimated) (savefile : idSaveGame) : idSaveGame :=
  let savefile := savefile.WriteInt self.current_anim_index
  let savefile := savefile.WriteInt self.num_anims
  let savefile := savefile.WriteInt self.anim
  let savefile := savefile.WriteInt self.blendFrames
  let savefile := savefile.WriteJoint self.soundJoint
  let savefile := self.activator.Save savefile
  savefile.WriteBool self.activated

/-- Restore of idAnimated (Misc.cpp 925-933). -/
def idAnimated.Restore (self : idAnimated) (savefile : idRestoreGame) :
    Option (idAnimated × idRestoreGame) := do
  let (current_anim_index, savefile) ← savefile.ReadInt
  let (num_anims, savefile) ← savefile.ReadInt
  let (anim, savefile) ← savefile.ReadInt
  let (blendFrames, savefile) ← savefile.ReadInt
  let (soundJoint, savefile) ← savefile.ReadJoint
  let (activator, savefile) ← idEntityPtr.Restore savefile
  let (activated, savefile) ← savefile.ReadBool
  pure ({ self with current_anim_index := current_anim_index, num_anims := num_anims,
                    anim := anim, blendFrames := blendFrames, soundJoint := soundJoint,
                    activator := activator, activated := activated }, savefile)

/-- State of idStaticEntity. -/
structure idStaticEntity extends idEntity where
  spawnTime : Int := 0
  active : Bool := false
  fadeFrom : idVec4 := ⟨1, 1, 1, 1⟩
  fadeTo : idVec4 := ⟨1, 1, 1, 1⟩
  fadeStart : Int := 0
  fadeEnd : Int := 0
  runGui : Bool := false

/-- Save of idStaticEntity (Misc.cpp 1344-1352). -/
def idStaticEntity.Save (self : idStaticEntity) (savefile : idSaveGame) : idSaveGame :=
  let savefile := savefile.WriteInt self.spawnTime
  let savefile := savefile.WriteBool self.active
  let savefile := savefile.WriteVec4 self.fadeFrom
  let savefile := savefile.WriteVec4 self.fadeTo
  let savefile := savefile.WriteInt self.fadeStart
  let savefile := savefile.WriteInt self.fadeEnd
  savefile.WriteBool self.runGui

/-- Restore of idStaticEntity (Misc.cpp 1359-1367). -/
def idStaticEntity.Restore (self : idStaticEntity) (savefile : idRestoreGame) :
    Option (idStaticEntity × idRestoreGame) := do
  let (spawnTime, savefile) ← savefile.ReadInt
  let (active, savefile) ← savefile.ReadBool
  let (fadeFrom, savefile) ← savefile.ReadVec4
  let (fadeTo, savefile) ← savefile.ReadVec4
  let (fadeStart, savefile) ← savefile.ReadInt
  let (fadeEnd, savefile) ← savefile.ReadInt
  let (runGui, savefile) ← savefile.ReadBool
  pure ({ self with spawnTime := spawnTime, active := active, fadeFrom := fadeFrom,
                    fadeTo := fadeTo, fadeStart := fadeStart, fadeEnd := fadeEnd,
                    runGui := runGui }, savefile)

/-- State of idFuncEmitter, a subclass of idStaticEntity with its own `hidden` member. -/
structure idFuncEmitter extends idStaticEntity where
  hidden : Bool := false

/-- Save of idFuncEmitter (Misc.cpp 1617-1619). -/
def idFuncEmitter.Save (self : idFuncEmitter) (savefile : idSaveGame) : idSaveGame :=
  savefile.WriteBool self.hidden

/-- Restore of idFuncEmitter (Misc.cpp 1626-1628). -/
def idFuncEmitter.Restore (self : idFuncEmitter) (savefile : idRestoreGame) :
    Option (idFuncEmitter × idRestoreGame) := do
  let (hidden, savefile) ← savefile.ReadBool
  pure ({ self with hidden := hidden }, savefile)

/-- State of idFuncSmoke; `smoke` is the particle declaration, by name, or NULL. -/
structure idFuncSmoke extends idEntity where
  smokeTime : Int := 0
  smoke : Option String := none
  restart : Bool := false

/-- Save of idFuncSmoke (Misc.cpp 1784-1788). -/
def idFuncSmoke.Save (self : idFuncSmoke) (savefile : idSaveGame) : idSaveGame :=
  let savefile := savefile.WriteInt self.smokeTime
  let savefile := savefile.WriteParticle self.smoke
  savefile.WriteBool self.restart

/-- Restore of idFuncSmoke (Misc.cpp 1795-1799). -/
def idFuncSmoke.Restore (self : idFuncSmoke) (savefile : idRestoreGame) :
    Option (idFuncSmoke × idRestoreGame) := do
  let (smokeTime, savefile) ← savefile.ReadInt
  let (smoke, savefile) ← savefile.ReadParticle
  let (restart, savefile) ← savefile.ReadBool
  pure ({ self with smokeTime := smokeTime, smoke := smoke, restart := restart }, savefile)

/-- State of idTextEntity. -/
structure idTextEntity extends idEntity where
  text : String := ""
  playerOriented : Bool := false

/-- Save of idTextEntity (Misc.cpp 1907-1910). -/
def idTextEntity.Save (self : idTextEntity) (savefile : idSaveGame) : idSaveGame :=
  let savefile := savefile.WriteString self.text
  savefile.WriteBool self.playerOriented

/-- Restore of idTextEntity (Misc.cpp 1917-1920). -/
def idTextEntity.Restore (self : idTextEntity) (savefile : idRestoreGame) :
    Option (idTextEntity × idRestoreGame) := do
  let (text, savefile) ← savefile.ReadString
  let (playerOriented, savefile) ← savefile.ReadBool
  pure ({ self with text := text, playerOriented := playerOriented }, savefile)

/-- State of idVacuumSeparatorEntity. -/
structure idVacuumSeparatorEntity extends idEntity where
  portal : Int := 0

/-- Save of idVacuumSeparatorEntity (Misc.cpp 1970-1973). -/
def idVacuumSeparatorEntity.Save (self : idVacuumSeparatorEntity) (gameLocal : idGameLocal)
    (savefile : idSaveGame) : idSaveGame :=
  let savefile := savefile.WriteInt self.portal
  savefile.WriteInt (gameLocal.GetPortalState self.portal)

/-- Restore of idVacuumSeparatorEntity (Misc.cpp 1980-1987). -/
def idVacuumSeparatorEntity.Restore (self : idVacuumSeparatorEntity) (gameLocal : idGameLocal)
    (savefile : idRestoreGame) :
    Option (idVacuumSeparatorEntity × idGameLocal × idRestoreGame) := do
  let (portal, savefile) ← savefile.ReadInt
  let (state, savefile) ← savefile.ReadInt
  let self := { self with portal := portal }
  pure (self, gameLocal.SetPortalState self.portal state, savefile)

/-- State of idBeam. -/
structure idBeam extends idEntity where
  target : idEntityPtr := idEntityPtr.null
  master : idEntityPtr := idEntityPtr.null

/-- Save of idBeam (Misc.cpp 2154-2157). -/
def idBeam.Save (self : idBeam) (savefile : idSaveGame) : idSaveGame :=
  let savefile := self.target.Save savefile
  self.master.Save savefile

/-- Restore of idBeam (Misc.cpp 2164-2167). -/
def idBeam.Restore (self : idBeam) (savefile : idRestoreGame) :
    Option (idBeam × idRestoreGame) := do
  let (target, savefile) ← idEntityPtr.Restore savefile
  let (master, savefile) ← idEntityPtr.Restore savefile
  pure ({ self with target := target, master := master }, savefile)

/-- State of idShaking; `physicsObj` is the parametric physics object it owns. -/
structure idShaking extends idEntity where
  active : Bool := false
  physicsObj : ObjectData := []

/-- Save of idShaking (Misc.cpp 2417-2420). -/
def idShaking.Save (self : idShaking) (savefile : idSaveGame) : idSaveGame :=
  let savefile := savefile.WriteBool self.active
  savefile.WriteStaticObject self.physicsObj

/-- Restore of idShaking (Misc.cpp 2427-2431); `RestorePhysics` re-attaches the physics
object that was just read and reads nothing from the archive. -/
def idShaking.Restore (self : idShaking) (savefile : idRestoreGame) :
    Option (idShaking × idRestoreGame) := do
  let (active, savefile) ← savefile.ReadBool
  let (physicsObj, savefile) ← savefile.ReadStaticObject
  pure ({ self with active := active, physicsObj := physicsObj }, savefile)

/-- State of idEarthQuake. -/
structure idEarthQuake extends idEntity where
  nextTriggerTime : Int := 0
  shakeStopTime : Int := 0
  wait : Rat := 0
  random : Rat := 0
  triggered : Bool := false
  playerOriented : Bool := false
  disabled : Bool := false
  shakeTime : Rat := 0

/-- Save of idEarthQuake (Misc.cpp 2516-2525). -/
def idEarthQuake.Save (self : idEarthQuake) (savefile : idSaveGame) : idSaveGame :=
  let savefile := savefile.WriteInt self.nextTriggerTime
  let savefile := savefile.WriteInt self.shakeStopTime
  let savefile := savefile.WriteFloat self.wait
  let savefile := savefile.WriteFloat self.random
  let savefile := savefile.WriteBool self.triggered
  let savefile := savefile.WriteBool self.playerOriented
  let savefile := savefile.WriteBool self.disabled
  savefile.WriteFloat self.shakeTime

/-- Restore of idEarthQuake (Misc.cpp 2532-2545). -/
def idEarthQuake.Restore (self : idEarthQuake) (gameLocal : idGameLocal)
    (savefile : idRestoreGame) : Option (idEarthQuake × idRestoreGame) := do
  let (nextTriggerTime, savefile) ← savefile.ReadInt
  let (shakeStopTime, savefile) ← savefile.ReadInt
  let (wait, savefile) ← savefile.ReadFloat
  let (random, savefile) ← savefile.ReadFloat
  let (triggered, savefile) ← savefile.ReadBool
  let (playerOriented, savefile) ← savefile.ReadBool
  let (disabled, savefile) ← savefile.ReadBool
  let (shakeTime, savefile) ← savefile.ReadFloat
  let self := { self with nextTriggerTime := nextTriggerTime, shakeStopTime := shakeStopTime,
                          wait := wait, random := random, triggered := triggered,
                          playerOriented := playerOriented, disabled := disabled,
                          shakeTime := shakeTime }
  if self.shakeStopTime > gameLocal.time then
    pure ({ self with toidEntity := self.toidEntity.BecomeActive TH_THINK }, savefile)
  else
    pure (self, savefile)

/-- Modelled from the spec: portal blocking bits (RenderWorld.h): nothing blocked. -/
def PS_BLOCK_NONE : Int := 0
/-- Modelled from the spec: portal blocking bit: view. -/
def PS_BLOCK_VIEW : Int := 1
/-- Modelled from the spec: portal blocking bits: all. -/
def PS_BLOCK_ALL : Int := 7

/-- State of idFuncPortal. -/
structure idFuncPortal extends idEntity where
  portal : Int := 0
  state : Bool := false

/-- Save of idFuncPortal (Misc.cpp 2673-2680); `HUMANHEAD` is the compile-time switch. -/
def idFuncPortal.Save (HUMANHEAD : Bool) (self : idFuncPortal) (gameLocal : idGameLocal)
    (savefile : idSaveGame) : idSaveGame :=
  let savefile := savefile.WriteInt self.portal
  let savefile := savefile.WriteBool self.state
  if HUMANHEAD then
    let flags := gameLocal.GetPortalState self.portal
    savefile.WriteInt flags
  else
    savefile

/-- Restore of idFuncPortal (Misc.cpp 2687-2697); `HUMANHEAD` is the compile-time switch. -/
def idFuncPortal.Restore (HUMANHEAD : Bool) (self : idFuncPortal) (gameLocal : idGameLocal)
    (savefile : idRestoreGame) : Option (idFuncPortal × idGameLocal × idRestoreGame) := do
  let (portal, savefile) ← savefile.ReadInt
  let (state, savefile) ← savefile.ReadBool
  let self := { self with portal := portal, state := state }
  if HUMANHEAD then
    let (flags, savefile) ← savefile.ReadInt
    pure (self, gameLocal.SetPortalState self.portal flags, savefile)
  else
    pure (self, gameLocal.SetPortalState self.portal
            (if self.state then PS_BLOCK_ALL else PS_BLOCK_NONE), savefile)

/-- State of idFuncAASPortal. -/
structure idFuncAASPortal extends idEntity where
  state : Bool := false

/-- Save of idFuncAASPortal (Misc.cpp 2773-2775). -/
def idFuncAASPortal.Save (self : idFuncAASPortal) (savefile : idSaveGame) : idSaveGame :=
  savefile.WriteBool self.state

/-- Restore of idFuncAASPortal (Misc.cpp 2782-2785). -/
def idFuncAASPortal.Restore (self : idFuncAASPortal) (gameLocal : idGameLocal)
    (savefile : idRestoreGame) : Option (idFuncAASPortal × idGameLocal × idRestoreGame) := do
  let (state, savefile) ← savefile.ReadBool
  let self := { self with state := state }
  pure (self, gameLocal.SetAASAreaState .AREACONTENTS_CLUSTERPORTAL self.state, savefile)

/-- State of idFuncAASObstacle. -/
structure idFuncAASObstacle extends idEntity where
  state : Bool := false

/-- Save of idFuncAASObstacle (Misc.cpp 2833-2835). -/
def idFuncAASObstacle.Save (self : idFuncAASObstacle) (savefile : idSaveGame) : idSaveGame :=
  savefile.WriteBool self.state

/-- Restore of idFuncAASObstacle (Misc.cpp 2842-2845). -/
def idFuncAASObstacle.Restore (self : idFuncAASObstacle) (gameLocal : idGameLocal)
    (savefile : idRestoreGame) : Option (idFuncAASObstacle × idGameLocal × idRestoreGame) := do
  let (state, savefile) ← savefile.ReadBool
  let self := { self with state := state }
  pure (self, gameLocal.SetAASAreaState .AREACONTENTS_OBSTACLE self.state, savefile)

/-- State of idFuncRadioChatter. -/
structure idFuncRadioChatter extends idEntity where
  time : Rat := 0

/-- Save of idFuncRadioChatter (Misc.cpp 2899-2901). -/
def idFuncRadioChatter.Save (self : idFuncRadioChatter) (savefile : idSaveGame) : idSaveGame :=
  savefile.WriteFloat self.time

/-- Restore of idFuncRadioChatter (Misc.cpp 2908-2910). -/
def idFuncRadioChatter.Restore (self : idFuncRadioChatter) (savefile : idRestoreGame) :
    Option (idFuncRadioChatter × idRestoreGame) := do
  let (time, savefile) ← savefile.ReadFloat
  pure ({ self with time := time }, savefile)

/-! ### Dispatch over the classes that define Save and Restore -/

/-- An entity of one of the Misc.cpp classes that define both Save and Restore and are
written with fixed-length field sequences. -/
inductive MiscEntity where
  | PlayerStart (e : idPlayerStart)
  | Activator (e : idActivator)
  | Damagable (e : idDamagable)
  | Spring (e : idSpring)
  | Animated (e : idAnimated)
  | StaticEntity (e : idStaticEntity)
  | FuncEmitter (e : idFuncEmitter)
  | FuncSmoke (e : idFuncSmoke)
  | TextEntity (e : idTextEntity)
  | VacuumSeparatorEntity (e : idVacuumSeparatorEntity)
  | Beam (e : idBeam)
  | Shaking (e : idShaking)
  | EarthQuake (e : idEarthQuake)
  | FuncPortal (e : idFuncPortal)
  | FuncAASPortal (e : idFuncAASPortal)
  | FuncAASObstacle (e : idFuncAASObstacle)
  | FuncRadioChatter (e : idFuncRadioChatter)

/-- The class of an entity, as an index into the list of classes. -/
def MiscEntity.classIndex : MiscEntity → Nat
  | .PlayerStart _ => 0
  | .Activator _ => 1
  | .Damagable _ => 2
  | .Spring _ => 3
  | .Animated _ => 4
  | .StaticEntity _ => 5
  | .FuncEmitter _ => 6
  | .FuncSmoke _ => 7
  | .TextEntity _ => 8
  | .VacuumSeparatorEntity _ => 9
  | .Beam _ => 10
  | .Shaking _ => 11
  | .EarthQuake _ => 12
  | .FuncPortal _ => 13
  | .FuncAASPortal _ => 14
  | .FuncAASObstacle _ => 15
  | .FuncRadioChatter _ => 16

/-- The class's own Save, selected by the dynamic type of the entity. -/
def MiscEntity.Save (HUMANHEAD : Bool) (gameLocal : idGameLocal) (savefile : idSaveGame) :
    MiscEntity → idSaveGame
  | .PlayerStart e => e.Save savefile
  | .Activator e => e.Save savefile
  | .Damagable e => e.Save savefile
  | .Spring e => e.Save savefile
  | .Animated e => e.Save savefile
  | .StaticEntity e => e.Save savefile
  | .FuncEmitter e => e.Save savefile
  | .FuncSmoke e => e.Save savefile
  | .TextEntity e => e.Save savefile
  | .VacuumSeparatorEntity e => e.Save gameLocal savefile
  | .Beam e => e.Save savefile
  | .Shaking e => e.Save savefile
  | .EarthQuake e => e.Save savefile
  | .FuncPortal e => e.Save HUMANHEAD gameLocal savefile
  | .FuncAASPortal e => e.Save savefile
  | .FuncAASObstacle e => e.Save savefile
  | .FuncRadioChatter e => e.Save savefile

/-- The class's own Restore, selected by the dynamic type of the entity; returns the
restored entity, the game state after the calls Restore makes, and the reader. -/
def MiscEntity.Restore (HUMANHEAD : Bool) (gameLocal : idGameLocal) (savefile : idRestoreGame) :
    MiscEntity → Option (MiscEntity × idGameLocal × idRestoreGame)
  | .PlayerStart e => (e.Restore savefile).map fun r => (.PlayerStart r.1, gameLocal, r.2)
  | .Activator e => (e.Restore savefile).map fun r => (.Activator r.1, gameLocal, r.2)
  | .Damagable e => (e.Restore savefile).map fun r => (.Damagable r.1, gameLocal, r.2)
  | .Spring e => (e.Restore savefile).map fun r => (.Spring r.1, gameLocal, r.2)
  | .Animated e => (e.Restore savefile).map fun r => (.Animated r.1, gameLocal, r.2)
  | .StaticEntity e => (e.Restore savefile).map fun r => (.StaticEntity r.1, gameLocal, r.2)
  | .FuncEmitter e => (e.Restore savefile).map fun r => (.FuncEmitter r.1, gameLocal, r.2)
  | .FuncSmoke e => (e.Restore savefile).map fun r => (.FuncSmoke r.1, gameLocal, r.2)
  | .TextEntity e => (e.Restore savefile).map fun r => (.TextEntity r.1, gameLocal, r.2)
  | .VacuumSeparatorEntity e =>
    (e.Restore gameLocal savefile).map fun r => (.VacuumSeparatorEntity r.1, r.2.1, r.2.2)
  | .Beam e => (e.Restore savefile).map fun r => (.Beam r.1, gameLocal, r.2)
  | .Shaking e => (e.Restore savefile).map fun r => (.Shaking r.1, gameLocal, r.2)
  | .EarthQuake e =>
    (e.Restore gameLocal savefile).map fun r => (.EarthQuake r.1, gameLocal, r.2)
  | .FuncPortal e =>
    (e.Restore HUMANHEAD gameLocal savefile).map fun r => (.FuncPortal r.1, r.2.1, r.2.2)
  | .FuncAASPortal e =>
    (e.Restore gameLocal savefile).map fun r => (.FuncAASPortal r.1, r.2.1, r.2.2)
  | .FuncAASObstacle e =>
    (e.Restore gameLocal savefile).map fun r => (.FuncAASObstacle r.1, r.2.1, r.2.2)
  | .FuncRadioChatter e =>
    (e.Restore savefile).map fun r => (.FuncRadioChatter r.1, gameLocal, r.2)

/-! ## idPhantomObjects -/

/-- Modelled from the spec: `idList::SetNum` makes the list exactly `num` long; the
elements kept are the old ones, and a slot that is new holds an indeterminate value, here
the given `junk`. -/
def idList.SetNum {α : Type} (list : List α) (num : Nat) (junk : α) : List α :=
  list.take num ++ List.replicate (num - list.length) junk

/-- State of idPhantomObjects. -/
structure idPhantomObjects extends idEntity where
  target : idEntityPtr := idEntityPtr.null
  end_time : Int := 0
  throw_time : Rat := 0
  shake_time : Rat := 0
  shake_ang : idVec3 := idVec3.Zero
  speed : Rat := 0
  min_wait : Int := 0
  max_wait : Int := 0
  targetTime : List Int := []
  lastTargetPos : List idVec3 := []

/-- Save of idPhantomObjects (Misc.cpp 2998-3017); each loop writes the elements of its
own list, in index order. -/
def idPhantomObjects.Save (self : idPhantomObjects) (savefile : idSaveGame) : idSaveGame :=
  let savefile := savefile.WriteInt self.end_time
  let savefile := savefile.WriteFloat self.throw_time
  let savefile := savefile.WriteFloat self.shake_time
  let savefile := savefile.WriteVec3 self.shake_ang
  let savefile := savefile.WriteFloat self.speed
  let savefile := savefile.WriteInt self.min_wait
  let savefile := savefile.WriteInt self.max_wait
  let savefile := self.target.Save savefile
  let savefile := savefile.WriteInt (Int.ofNat self.targetTime.length)
  let savefile := self.targetTime.foldl (fun savefile t => savefile.WriteInt t) savefile
  self.lastTargetPos.foldl (fun savefile v => savefile.WriteVec3 v) savefile

/-- The loop `for( i = 0; i < num; i++ ) savefile->ReadInt( targetTime[ i ] )`, with
`remaining = num - i` iterations left (Misc.cpp 3043-3045). -/
def idPhantomObjects.RestoreTargetTime :
    (remaining i : Nat) → List Int → idRestoreGame → Option (List Int × idRestoreGame)
  | 0, _, targetTime, savefile => some (targetTime, savefile)
  | remaining + 1, i, targetTime, savefile => do
    let (t, savefile) ← savefile.ReadInt
    idPhantomObjects.RestoreTargetTime remaining (i + 1) (targetTime.set i t) savefile

/-- The loop `for( i = 0; i < num; i++ ) lastTargetPos[ i ].Zero()`, with
`remaining = num - i` iterations left (Misc.cpp 3049-3051). -/
def idPhantomObjects.ZeroLastTargetPos : (remaining i : Nat) → List idVec3 → List idVec3
  | 0, _, lastTargetPos => lastTargetPos
  | remaining + 1, i, lastTargetPos =>
    idPhantomObjects.ZeroLastTargetPos remaining (i + 1) (lastTargetPos.set i idVec3.Zero)

/-- The loop `for( i = 0; i < num; i++ ) savefile->ReadVec3( lastTargetPos[ i ] )`, with
`remaining = num - i` iterations left (Misc.cpp 3053-3055). -/
def idPhantomObjects.RestoreLastTargetPos :
    (remaining i : Nat) → List idVec3 → idRestoreGame → Option (List idVec3 × idRestoreGame)
  | 0, _, lastTargetPos, savefile => some (lastTargetPos, savefile)
  | remaining + 1, i, lastTargetPos, savefile => do
    let (v, savefile) ← savefile.ReadVec3
    idPhantomObjects.RestoreLastTargetPos remaining (i + 1) (lastTargetPos.set i v) savefile

/-- Restore of idPhantomObjects (Misc.cpp 3024-3057). `junkTime` and `junkPos` are the
indeterminate contents of list slots created by `SetNum`; a negative count violates the
precondition of `SetNum` and is a failed restore. -/
def idPhantomObjects.Restore (self : idPhantomObjects) (junkTime : Int) (junkPos : idVec3)
    (savefile : idRestoreGame) : Option (idPhantomObjects × idRestoreGame) := do
  let (end_time, savefile) ← savefile.ReadInt
  let (throw_time, savefile) ← savefile.ReadFloat
  let (shake_time, savefile) ← savefile.ReadFloat
  let (shake_ang, savefile) ← savefile.ReadVec3
  let (speed, savefile) ← savefile.ReadFloat
  let (min_wait, savefile) ← savefile.ReadInt
  let (max_wait, savefile) ← savefile.ReadInt
  let (target, savefile) ← idEntityPtr.Restore savefile
  let (num, savefile) ← savefile.ReadInt
  if num < 0 then
    none
  else
    let targetTime := idList.SetNum self.targetTime num.toNat junkTime
    let lastTargetPos := idList.SetNum self.lastTargetPos num.toNat junkPos
    let (targetTime, savefile) ←
      idPhantomObjects.RestoreTargetTime num.toNat 0 targetTime savefile
    let self := { self with end_time := end_time, throw_time := throw_time,
                            shake_time := shake_time, shake_ang := shake_ang, speed := speed,
                            min_wait := min_wait, max_wait := max_wait, target := target,
                            targetTime := targetTime }
    if savefile.GetBuildNumber = INITIAL_RELEASE_BUILD_NUMBER then
      -- these weren't saved out in the first release
      pure ({ self with lastTargetPos :=
                idPhantomObjects.ZeroLastTargetPos num.toNat 0 lastTargetPos }, savefile)
    else
      let (lastTargetPos, savefile) ←
        idPhantomObjects.RestoreLastTargetPos num.toNat 0 lastTargetPos savefile
      pure ({ self with lastTargetPos := lastTargetPos }, savefile)

/-! ## idActivator: the whole object in the archive -/

/-- Modelled from the spec: the persistent state of an object is written base class
first: the base entity writes the activation mask, then the class writes its own
fields. -/
def idActivator.SaveObject (self : idActivator) (savefile : idSaveGame) : idSaveGame :=
  self.Save (self.toidEntity.Save savefile)

/-- Modelled from the spec: the object is restored in the order it was saved: the base
entity restores the activation mask, then `idActivator::Restore` runs. -/
def idActivator.RestoreObject (self : idActivator) (savefile : idRestoreGame) :
    Option (idActivator × idRestoreGame) := do
  let (base, savefile) ← self.toidEntity.Restore savefile
  idActivator.Restore { self with toidEntity := base } savefile

/-! ## Network snapshots (BitMsg.h) and the snapshot codecs of Misc.cpp -/

/-- One field of a snapshot: a block written by an external collaborator (physics, bind,
colour, GUI), an integer of a given bit width, or a float. -/
inductive SnapField where
  | physics (data : ObjectData)
  | bind (data : ObjectData)
  | color (data : ObjectData)
  | gui (data : ObjectData)
  | bits (value : Int) (numBits : Nat)
  | float (value : Rat)
deriving DecidableEq, Repr

/-- The encoding of a snapshot field: what it is and how wide, without its value. -/
inductive SnapEncoding where
  | physics
  | bind
  | color
  | gui
  | bits (numBits : Nat)
  | float
deriving DecidableEq, Repr

/-- The encoding of a field. -/
def SnapField.encoding : SnapField → SnapEncoding
  | .physics _ => .physics
  | .bind _ => .bind
  | .color _ => .color
  | .gui _ => .gui
  | .bits _ numBits => .bits numBits
  | .float _ => .float

/-- Width in bits of an encoding; `blockBits` gives the width of the collaborator blocks,
whose formats are outside Misc.cpp. -/
def SnapEncoding.numBits (blockBits : SnapEncoding → Nat) : SnapEncoding → Nat
  | .bits numBits => numBits
  | .float => 32
  | e => blockBits e

/-- Total width in bits of a sequence of encodings. -/
def bitCount (blockBits : SnapEncoding → Nat) (encodings : List SnapEncoding) : Nat :=
  (encodings.map (SnapEncoding.numBits blockBits)).sum

/-- Modelled from the spec: a snapshot message. `fields` are the fields written so far
(writer) or not yet read (reader); `base` is the receiver's previously applied state,
field by field; `changed` records whether any field read so far differed from it; `reads`
are the encodings of the reads performed so far. -/
structure idBitMsgDelta where
  fields : List SnapField := []
  base : List SnapField := []
  changed : Bool := false
  reads : List SnapEncoding := []
deriving DecidableEq, Repr

/-- Modelled from the spec: writer primitive `WriteBits( value, numBits )`. -/
def idBitMsgDelta.WriteBits (msg : idBitMsgDelta) (value : Int) (numBits : Nat) :
    idBitMsgDelta :=
  { msg with fields := msg.fields ++ [.bits value numBits] }

/-- Modelled from the spec: writer primitive `WriteFloat`. -/
def idBitMsgDelta.WriteFloat (msg : idBitMsgDelta) (value : Rat) : idBitMsgDelta :=
  { msg with fields := msg.fields ++ [.float value] }

/-- Modelled from the spec: the reader after consuming `field`: `changed` becomes true
when the field differs from the receiver's previously applied one (or there is none). -/
def idBitMsgDelta.consume (msg : idBitMsgDelta) (field : SnapField) (rest : List SnapField) :
    idBitMsgDelta :=
  { fields := rest,
    base := msg.base.tail,
    changed := msg.changed || (msg.base.head? != some field),
    reads := msg.reads ++ [field.encoding] }

/-- Modelled from the spec: reader primitive `ReadBits( numBits )`. -/
def idBitMsgDelta.ReadBits (msg : idBitMsgDelta) (numBits : Nat) :
    Option (Int × idBitMsgDelta) :=
  match msg.fields with
  | .bits value n :: rest =>
    if n = numBits then some (value, msg.consume (.bits value n) rest) else none
  | _ => none

/-- Modelled from the spec: reader primitive `ReadFloat`. -/
def idBitMsgDelta.ReadFloat (msg : idBitMsgDelta) : Option (Rat × idBitMsgDelta) :=
  match msg.fields with
  | .float value :: rest => some (value, msg.consume (.float value) rest)
  | _ => none

/-- Modelled from the spec: reader query `HasChanged`. -/
def idBitMsgDelta.HasChanged (msg : idBitMsgDelta) : Bool := msg.changed

/-- Modelled from the spec: the physics collaborator writes its replicated state. -/
def idEntity.WritePhysicsToSnapshot (self : idEntity) (msg : idBitMsgDelta) : idBitMsgDelta :=
  { msg with fields := msg.fields ++ [.physics self.replicated.physics] }

/-- Modelled from the spec: the physics collaborator reads back its replicated state. -/
def idEntity.ReadPhysicsFromSnapshot (self : idEntity) (msg : idBitMsgDelta) :
    Option (idEntity × idBitMsgDelta) :=
  match msg.fields with
  | .physics data :: rest =>
    some ({ self with replicated := { self.replicated with physics := data } },
      msg.consume (.physics data) rest)
  | _ => none

/-- Modelled from the spec: the base entity writes its bind state. -/
def idEntity.WriteBindToSnapshot (self : idEntity) (msg : idBitMsgDelta) : idBitMsgDelta :=
  { msg with fields := msg.fields ++ [.bind self.replicated.bind] }

/-- Modelled from the spec: the base entity reads back its bind state. -/
def idEntity.ReadBindFromSnapshot (self : idEntity) (msg : idBitMsgDelta) :
    Option (idEntity × idBitMsgDelta) :=
  match msg.fields with
  | .bind data :: rest =>
    some ({ self with replicated := { self.replicated with bind := data } },
      msg.consume (.bind data) rest)
  | _ => none

/-- Modelled from the spec: the base entity writes its colour. -/
def idEntity.WriteColorToSnapshot (self : idEntity) (msg : idBitMsgDelta) : idBitMsgDelta :=
  { msg with fields := msg.fields ++ [.color self.replicated.color] }

/-- Modelled from the spec: the base entity reads back its colour. -/
def idEntity.ReadColorFromSnapshot (self : idEntity) (msg : idBitMsgDelta) :
    Option (idEntity × idBitMsgDelta) :=
  match msg.fields with
  | .color data :: rest =>
    some ({ self with replicated := { self.replicated with color := data } },
      msg.consume (.color data) rest)
  | _ => none

/-- Modelled from the spec: the base entity writes its GUI state. -/
def idEntity.WriteGUIToSnapshot (self : idEntity) (msg : idBitMsgDelta) : idBitMsgDelta :=
  { msg with fields := msg.fields ++ [.gui self.replicated.gui] }

/-- Modelled from the spec: the base entity reads back its GUI state. -/
def idEntity.ReadGUIFromSnapshot (self : idEntity) (msg : idBitMsgDelta) :
    Option (idEntity × idBitMsgDelta) :=
  match msg.fields with
  | .gui data :: rest =>
    some ({ self with replicated := { self.replicated with gui := data } },
      msg.consume (.gui data) rest)
  | _ => none

/-- Modelled from the spec: physics contents bit of a solid body. -/
def CONTENTS_SOLID : Int := 1

/-- Modelled from the spec: physics call `GetPhysics()->SetContents`. -/
def idEntity.SetContents (self : idEntity) (contents : Int) : idEntity :=
  { self with contents := contents }

/-- Method idStaticEntity::Hide (Misc.cpp 1483-1486). -/
def idStaticEntity.Hide (self : idStaticEntity) : idStaticEntity :=
  let self := { self with toidEntity := self.toidEntity.Hide }
  { self with toidEntity := self.toidEntity.SetContents 0 }

/-- Method idStaticEntity::Show (Misc.cpp 1493-1498). -/
def idStaticEntity.Show (self : idStaticEntity) : idStaticEntity :=
  let self := { self with toidEntity := self.toidEntity.Show }
  if self.spawnArgs.GetBool "solid" then
    { self with toidEntity := self.toidEntity.SetContents CONTENTS_SOLID }
  else
    self

/-- Snapshot writer of idStaticEntity (Misc.cpp 1538-1544). -/
def idStaticEntity.WriteToSnapshot (self : idStaticEntity) (msg : idBitMsgDelta) :
    idBitMsgDelta :=
  let msg := self.toidEntity.WritePhysicsToSnapshot msg
  let msg := self.toidEntity.WriteBindToSnapshot msg
  let msg := self.toidEntity.WriteColorToSnapshot msg
  let msg := self.toidEntity.WriteGUIToSnapshot msg
  msg.WriteBits (if self.IsHidden then 1 else 0) 1

/-- Snapshot reader of idStaticEntity (Misc.cpp 1551-1569). -/
def idStaticEntity.ReadFromSnapshot (self : idStaticEntity) (msg : idBitMsgDelta) :
    Option (idStaticEntity × idBitMsgDelta) := do
  let (base, msg) ← self.toidEntity.ReadPhysicsFromSnapshot msg
  let (base, msg) ← base.ReadBindFromSnapshot msg
  let (base, msg) ← base.ReadColorFromSnapshot msg
  let (base, msg) ← base.ReadGUIFromSnapshot msg
  let self := { self with toidEntity := base }
  let (value, msg) ← msg.ReadBits 1
  let hidden : Bool := value == 1
  let self :=
    if hidden != self.IsHidden then
      if hidden then self.Hide else self.Show
    else
      self
  if msg.HasChanged then
    pure ({ self with toidEntity := self.toidEntity.UpdateVisuals }, msg)
  else
    pure (self, msg)

/-- Snapshot writer of idFuncEmitter (Misc.cpp 1652-1656). -/
def idFuncEmitter.WriteToSnapshot (self : idFuncEmitter) (msg : idBitMsgDelta) :
    idBitMsgDelta :=
  let msg := msg.WriteBits (if self.hidden then 1 else 0) 1
  let msg := msg.WriteFloat (self.renderEntity.shaderParms SHADERPARM_PARTICLE_STOPTIME)
  msg.WriteFloat (self.renderEntity.shaderParms SHADERPARM_TIMEOFFSET)

/-- Assignment `renderEntity.shaderParms[ index ] = value`. -/
def idEntity.SetShaderParm (self : idEntity) (index : Nat) (value : Rat) : idEntity :=
  { self with renderEntity :=
      { self.renderEntity with
        shaderParms := Function.update self.renderEntity.shaderParms index value } }

/-- Snapshot reader of idFuncEmitter (Misc.cpp 1663-1670). -/
def idFuncEmitter.ReadFromSnapshot (self : idFuncEmitter) (msg : idBitMsgDelta) :
    Option (idFuncEmitter × idBitMsgDelta) := do
  let (value, msg) ← msg.ReadBits 1
  let self := { self with hidden := value != 0 }
  let (stopTime, msg) ← msg.ReadFloat
  let self :=
    { self with
      toidEntity := self.toidEntity.SetShaderParm SHADERPARM_PARTICLE_STOPTIME stopTime }
  let (timeOffset, msg) ← msg.ReadFloat
  let self :=
    { self with toidEntity := self.toidEntity.SetShaderParm SHADERPARM_TIMEOFFSET timeOffset }
  if msg.HasChanged then
    pure ({ self with toidEntity := self.toidEntity.UpdateVisuals }, msg)
  else
    pure (self, msg)

/-- Snapshot writer of idBeam (Misc.cpp 2301-2308). -/
def idBeam.WriteToSnapshot (self : idBeam) (msg : idBitMsgDelta) : idBitMsgDelta :=
  let msg := self.toidEntity.WritePhysicsToSnapshot msg
  let msg := self.toidEntity.WriteBindToSnapshot msg
  let msg := self.toidEntity.WriteColorToSnapshot msg
  let msg := msg.WriteFloat (self.renderEntity.shaderParms SHADERPARM_BEAM_END_X)
  let msg := msg.WriteFloat (self.renderEntity.shaderParms SHADERPARM_BEAM_END_Y)
  msg.WriteFloat (self.renderEntity.shaderParms SHADERPARM_BEAM_END_Z)

/-- Snapshot reader of idBeam (Misc.cpp 2315-2325). -/
def idBeam.ReadFromSnapshot (self : idBeam) (msg : idBitMsgDelta) :
    Option (idBeam × idBitMsgDelta) := do
  let (base, msg) ← self.toidEntity.ReadPhysicsFromSnapshot msg
  let (base, msg) ← base.ReadBindFromSnapshot msg
  let (base, msg) ← base.ReadColorFromSnapshot msg
  let (x, msg) ← msg.ReadFloat
  let base := base.SetShaderParm SHADERPARM_BEAM_END_X x
  let (y, msg) ← msg.ReadFloat
  let base := base.SetShaderParm SHADERPARM_BEAM_END_Y y
  let (z, msg) ← msg.ReadFloat
  let base := base.SetShaderParm SHADERPARM_BEAM_END_Z z
  let self := { self with toidEntity := base }
  if msg.HasChanged then
    pure ({ self with toidEntity := self.toidEntity.UpdateVisuals }, msg)
  else
    pure (self, msg)

/-! ## The registry of live objects -/

/-- How a handler can stop abnormally: a fatal `gameLocal.Error`, an access through a
NULL pointer, or an index outside a list. -/
inductive Fault where
  | Error (message : String)
  | NullDereference
  | IndexOutOfRange
deriving DecidableEq, Repr

/-- Modelled from the spec: state of an idActor as far as Misc.cpp reads it: the base entity and the eye position
that `GetEyePosition` returns. -/
structure idActor extends idEntity where
  eyePosition : idVec3 := vec3_origin

/-- Modelled from the spec: state of an idMoveable as far as Misc.cpp touches it: the base entity and the last
`EnableDamage( enable, duration )` request. -/
structure idMoveable extends idEntity where
  damage : Option (Bool × Rat) := none

/-- State of idPathCorner: the base entity only. -/
structure idPathCorner extends idEntity

/-- A live object with its dynamic type: one of the classes Misc.cpp tests with `IsType`,
or any other entity. -/
inductive gameEntity where
  | Entity (e : idEntity)
  | Beam (e : idBeam)
  | Actor (e : idActor)
  | Moveable (e : idMoveable)
  | PathCorner (e : idPathCorner)

/-- The base-entity part of a live object. -/
def gameEntity.toEntity : gameEntity → idEntity
  | .Entity e => e
  | .Beam e => e.toidEntity
  | .Actor e => e.toidEntity
  | .Moveable e => e.toidEntity
  | .PathCorner e => e.toidEntity

/-- Modelled from the spec: the registry of live objects, by stable identifier; `none`
where no object lives (never spawned, or destroyed). -/
abbrev EntityRegistry := Nat → Option gameEntity

/-! ## idBeam: the master/target link -/

/-- Method idBeam::SetMaster (Misc.cpp 2214-2216). -/
def idBeam.SetMaster (self : idBeam) (masterbeam : idEntityPtr) : idBeam :=
  { self with master := masterbeam }

/-- Method idBeam::SetBeamTarget (Misc.cpp 2223-2230). -/
def idBeam.SetBeamTarget (self : idBeam) (origin : idVec3) : idBeam :=
  if self.renderEntity.shaderParms SHADERPARM_BEAM_END_X ≠ origin.x
      ∨ self.renderEntity.shaderParms SHADERPARM_BEAM_END_Y ≠ origin.y
      ∨ self.renderEntity.shaderParms SHADERPARM_BEAM_END_Z ≠ origin.z then
    let base := self.toidEntity.SetShaderParm SHADERPARM_BEAM_END_X origin.x
    let base := base.SetShaderParm SHADERPARM_BEAM_END_Y origin.y
    let base := base.SetShaderParm SHADERPARM_BEAM_END_Z origin.z
    { self with toidEntity := base.UpdateVisuals }
  else
    self

/-- Method idBeam::Show (Misc.cpp 2237-2247). -/
def idBeam.Show (entities : EntityRegistry) (self : idBeam) : idBeam :=
  let self := { self with toidEntity := self.toidEntity.Show }
  match self.target.GetEntity entities with
  | some (_, targetEnt) => self.SetBeamTarget targetEnt.toEntity.origin
  | none => self

/-- The search loop of Event_MatchTarget (Misc.cpp 2263-2270): the first entry of the
targets list that resolves to a live idBeam. -/
def idBeam.FindTargetBeam (entities : EntityRegistry) : List idEntityPtr → Option Nat
  | [] => none
  | targetPtr :: targets =>
    match targetPtr.GetEntity entities with
    | some (num, .Beam _) => some num
    | _ => idBeam.FindTargetBeam entities targets

/-- Event handler idBeam::Event_MatchTarget (Misc.cpp 2254-2281), delivered to the live
beam with identifier `this`; returns the registry after the handler. -/
def idBeam.Event_MatchTarget (entities : EntityRegistry) (this : Nat) :
    Except Fault EntityRegistry :=
  match entities this with
  | some (.Beam self) =>
    if self.targets.length = 0 then
      .ok entities
    else
      match idBeam.FindTargetBeam entities self.targets with
      | none => .error (.Error "Could not find valid beam target")
      | some targetBeam =>
        -- target = targetBeam;
        let self := { self with target := idEntityPtr.assign targetBeam }
        let entities := Function.update entities this (some (.Beam self))
        -- targetBeam->SetMaster( this );
        let entities :=
          match entities targetBeam with
          | some (.Beam targetEnt) =>
            Function.update entities targetBeam
              (some (.Beam (targetEnt.SetMaster (idEntityPtr.assign this))))
          | _ => entities
        if !(self.spawnArgs.GetBool "start_off") then
          match entities this with
          | some (.Beam self) =>
            .ok (Function.update entities this (some (.Beam (idBeam.Show entities self))))
          | _ => .ok entities
        else
          .ok entities
  | _ => .ok entities

/-- Modelled from the spec: the beams with the given identifiers are saved one after the
other into one archive, each through its own Save. -/
def SaveBeams (entities : EntityRegistry) : List Nat → idSaveGame → idSaveGame
  | [], savefile => savefile
  | num :: nums, savefile =>
    match entities num with
    | some (.Beam self) => SaveBeams entities nums (self.Save savefile)
    | _ => SaveBeams entities nums savefile

/-- Modelled from the spec: two-phase restore. The objects are already allocated in the
registry; each beam, in the order of the archive, reads its fields through its own
Restore. References are only resolved afterwards, on demand. -/
def RestoreBeams : List Nat → EntityRegistry → idRestoreGame →
    Option (EntityRegistry × idRestoreGame)
  | [], entities, savefile => some (entities, savefile)
  | num :: nums, entities, savefile =>
    match entities num with
    | some (.Beam self) =>
      match self.Restore savefile with
      | some (self, savefile) =>
        RestoreBeams nums (Function.update entities num (some (.Beam self))) savefile
      | none => none
    | _ => none

/-! ## idPhantomObjects::Think -/

/-- Modelled from the spec: the process-wide deterministic random stream, as the sequence
of its raw outputs and the position of the next one. -/
structure idRandom where
  stream : Nat → Nat := fun _ => 0
  position : Nat := 0

/-- Modelled from the spec: largest raw output of the random stream. -/
def idRandom.MAX_RAND : Nat := 32767

/-- Modelled from the spec: random draw `RandomInt()`: the next raw output. -/
def idRandom.RandomInt (random : idRandom) : Int × idRandom :=
  (Int.ofNat (random.stream random.position % (idRandom.MAX_RAND + 1)),
    { random with position := random.position + 1 })

/-- Modelled from the spec: random draw `RandomInt( max )`: the next raw output modulo `max` (C remainder), or 0
without a draw when `max` is 0. -/
def idRandom.RandomIntMax (random : idRandom) (max : Int) : Int × idRandom :=
  if max = 0 then
    (0, random)
  else
    let (raw, random) := random.RandomInt
    (raw.tmod max, random)

/-- Modelled from the spec: random draw `RandomFloat()`, in [0, 1). -/
def idRandom.RandomFloat (random : idRandom) : Rat × idRandom :=
  let (raw, random) := random.RandomInt
  ((raw : Rat) / ((idRandom.MAX_RAND : Rat) + 1), random)

/-- Modelled from the spec: random draw `CRandomFloat()`, in [-1, 1). -/
def idRandom.CRandomFloat (random : idRandom) : Rat × idRandom :=
  let (f, random) := random.RandomFloat
  (2 * (f - 1 / 2), random)

/-- Modelled from the spec: conversion `MS2SEC` of whole milliseconds to seconds: the int
is converted to float and multiplied by the float constant `0.001f`, each rounded to
binary32. -/
def MS2SEC (t : Int) : Rat := f32 (itof t * f32 (1 / 1000))

/-- Modelled from the spec: result of a collision trace: the fraction of the path travelled and the entity hit. -/
structure trace_t where
  fraction : Rat
  entity : Option Nat

/-- Modelled from the spec: the external collaborators idPhantomObjects::Think queries:
the dormancy check, the clip world trace from a point to a point ignoring one entity, and
the trajectory prediction (from, to, speed, thrown entity) that yields the launch
direction. -/
structure ThinkCollaborators where
  CheckDormant : Bool := false
  TracePoint : idVec3 → idVec3 → Nat → trace_t := fun _ _ _ => ⟨1, none⟩
  PredictTrajectory : idVec3 → idVec3 → Rat → Nat → idVec3 := fun _ _ _ _ => vec3_origin

/-- Modelled from the spec: scaling of a vector (`vec *= s`). -/
def idVec3.scale (v : idVec3) (s : Rat) : idVec3 := ⟨v.x * s, v.y * s, v.z * s⟩

/-- The working state of one Think call: the entity itself, the registry, the random
stream and the counter `num`. -/
structure ThinkState where
  self : idPhantomObjects
  entities : EntityRegistry
  random : idRandom
  num : Nat

/-- A live object with its base entity replaced. -/
def gameEntity.withEntity (base : idEntity) : gameEntity → gameEntity
  | .Entity _ => .Entity base
  | .Beam e => .Beam { e with toidEntity := base }
  | .Actor e => .Actor { e with toidEntity := base }
  | .Moveable e => .Moveable { e with toidEntity := base }
  | .PathCorner e => .PathCorner { e with toidEntity := base }

/-- Modelled from the spec: the call `ment->EnableDamage( true, 2.5f )` made when the object is an idMoveable. -/
def gameEntity.EnableDamageIfMoveable : gameEntity → gameEntity
  | .Moveable e => .Moveable { e with damage := some (true, 5 / 2) }
  | e => e

/-- One iteration of the loop over the targets in idPhantomObjects::Think (Misc.cpp
3167-3218), for index `i` and the list entry `targetPtr`; `targetEnt` is the identifier of
the resolved target actor and `toPos` its eye position. -/
def idPhantomObjects.ThinkObject (collaborators : ThinkCollaborators) (gameLocal : idGameLocal)
    (targetEnt : Nat) (toPos : idVec3) (i : Nat) (targetPtr : idEntityPtr)
    (state : ThinkState) : Except Fault ThinkState :=
  match targetPtr.GetEntity state.entities with
  | none => .ok state
  | some (entNum, ent) =>
    if ent.toEntity.fl.hidden then
      -- don't throw hidden objects
      .ok state
    else
      match state.self.targetTime[i]? with
      | none => .error .IndexOutOfRange
      | some targetTime =>
        if targetTime = 0 then
          -- already threw this object
          .ok state
        else
          let state := { state with num := state.num + 1 }
          let time := MS2SEC (targetTime - gameLocal.time)
          if time > state.self.shake_time then
            .ok state
          else
            let entOrg := ent.toEntity.origin
            let tr := collaborators.TracePoint entOrg toPos entNum
            let clear : Bool := decide (tr.fraction ≥ 1) || decide (tr.entity = some targetEnt)
            if clear && decide (state.self.lastTargetPos.length ≤ i) then
              -- lastTargetPos[ i ] = toPos; with i outside the list
              .error .IndexOutOfRange
            else
              let lastTargetPos :=
                if clear then state.self.lastTargetPos.set i toPos
                else state.self.lastTargetPos
              let self := { state.self with lastTargetPos := lastTargetPos }
              if time < 0 then
                match self.lastTargetPos[i]? with
                | none => .error .IndexOutOfRange
                | some aimPos =>
                  let vel := collaborators.PredictTrajectory entOrg aimPos self.speed entNum
                  let vel := vel.scale self.speed
                  let ent := ent.withEntity { ent.toEntity with linearVelocity := vel }
                  let next : Int × idRandom :=
                    if self.end_time = (0 : Int) then
                      (0, state.random)
                    else
                      let draw := state.random.RandomIntMax (self.max_wait - self.min_wait)
                      (gameLocal.time + draw.1 + self.min_wait, draw.2)
                  let newTime := next.1
                  let random := next.2
                  let self := { self with targetTime := self.targetTime.set i newTime }
                  let ent := ent.EnableDamageIfMoveable
                  .ok { state with self := self, random := random,
                                   entities := Function.update state.entities entNum (some ent) }
              else
                -- this is not the right way to set the angular velocity, but the effect is
                -- nice, so I'm keeping it. :)
                let (rx, random) := state.random.CRandomFloat
                let (ry, random) := random.CRandomFloat
                let (rz, random) := random.CRandomFloat
                let ang : idVec3 :=
                  ⟨rx * self.shake_ang.x, ry * self.shake_ang.y, rz * self.shake_ang.z⟩
                let ang := ang.scale (1 - time / self.shake_time)
                let ent := ent.withEntity { ent.toEntity with angularVelocity := ang }
                .ok { state with self := self, random := random,
                                 entities := Function.update state.entities entNum (some ent) }

/-- The loop `for ( i = 0; i < targets.Num(); i++ )` of idPhantomObjects::Think, from
index `i` over the remaining list entries. -/
def idPhantomObjects.ThinkLoop (collaborators : ThinkCollaborators) (gameLocal : idGameLocal)
    (targetEnt : Nat) (toPos : idVec3) :
    Nat → List idEntityPtr → ThinkState → Except Fault ThinkState
  | _, [], state => .ok state
  | i, targetPtr :: targets, state =>
    match idPhantomObjects.ThinkObject collaborators gameLocal targetEnt toPos i targetPtr
        state with
    | .error fault => .error fault
    | .ok state =>
      idPhantomObjects.ThinkLoop collaborators gameLocal targetEnt toPos (i + 1) targets state

/-- Method idPhantomObjects::Think (Misc.cpp 3138-3223). The target reference is only ever
assigned an idActor, so a reference that does not resolve to a live idActor is the NULL
case; `targetEnt->GetEyePosition()` through a NULL `targetEnt` is an access through a NULL
pointer. -/
def idPhantomObjects.Think (collaborators : ThinkCollaborators) (gameLocal : idGameLocal)
    (entities : EntityRegistry) (random : idRandom) (self : idPhantomObjects) :
    Except Fault (idPhantomObjects × EntityRegistry × idRandom) :=
  -- if we are completely closed off from the player, don't do anything at all
  if collaborators.CheckDormant then
    .ok (self, entities, random)
  else if self.thinkFlags &&& TH_THINK = 0 then
    .ok ({ self with toidEntity :=
             self.toidEntity.BecomeInactive (self.thinkFlags &&& compl32 TH_THINK) },
         entities, random)
  else
    let targetEnt : Option (Nat × idActor) :=
      match self.target.GetEntity entities with
      | some (num, .Actor actor) => some (num, actor)
      | _ => none
    let stop : Bool :=
      match targetEnt with
      | none => true
      | some (_, actor) =>
        decide (actor.health ≤ 0)
          || (decide (self.end_time ≠ 0) && decide (gameLocal.time > self.end_time))
          || gameLocal.inCinematic
    let self :=
      if stop then { self with toidEntity := self.toidEntity.BecomeInactive TH_THINK } else self
    -- const idVec3 &toPos = targetEnt->GetEyePosition();
    match targetEnt with
    | none => .error .NullDereference
    | some (targetNum, actor) =>
      let toPos := actor.eyePosition
      match idPhantomObjects.ThinkLoop collaborators gameLocal targetNum toPos 0 self.targets
          ⟨self, entities, random, 0⟩ with
      | .error fault => .error fault
      | .ok state =>
        if state.num = 0 then
          .ok ({ state.self with toidEntity := state.self.toidEntity.BecomeInactive TH_THINK },
               state.entities, state.random)
        else
          .ok (state.self, state.entities, state.random)

/-! ## Deferred events and the missile chain of idAnimated -/

/-- The event types the missile chain is concerned with: the chained update event, and any
other event of the entity, by name. -/
inductive idEventDef where
  | EV_LaunchMissilesUpdate
  | other (name : String)
deriving DecidableEq, Repr

/-- Modelled from the spec: a pending deferred event of one owner: its type, the time it
is scheduled for, and its arguments. -/
structure idEvent where
  eventdef : idEventDef
  time : Int
  args : List Int
deriving DecidableEq, Repr

/-- Modelled from the spec: `PostEvent(owner, type, delay, args)` inserts the event at
`now + delay`; the queue is ordered by scheduled time, first in first out within one time.
A post never runs the handler, so a delay-zero post of the event that is executing does
not recurse. -/
def PostEventMS (events : List idEvent) (now : Int) (eventdef : idEventDef) (delay : Int)
    (args : List Int) : List idEvent :=
  events.takeWhile (fun e => decide (e.time ≤ now + delay))
    ++ ⟨eventdef, now + delay, args⟩
      :: events.dropWhile (fun e => decide (e.time ≤ now + delay))

/-- Modelled from the spec: `CancelEvents(owner, type)` removes every pending event of
that type. -/
def CancelEvents (events : List idEvent) (eventdef : idEventDef) : List idEvent :=
  events.filter (fun e => e.eventdef != eventdef)

/-- Modelled from the spec: a projectile created and launched by an idAnimated: the definition it was spawned
from, the joints it was aimed along, and the launch time. Launch position and direction
are computed by the animator from these joints. -/
structure idProjectile where
  projectilename : String
  launchjoint : Int
  targetjoint : Int
  time : Int
deriving DecidableEq, Repr

/-- Modelled from the spec: an entity definition as far as the missile chain looks at it: whether spawning it
yields an idProjectile. -/
structure idDeclEntityDef where
  spawnsProjectile : Bool
deriving DecidableEq, Repr

/-- Modelled from the spec: the collaborators of the missile chain, all outside Misc.cpp: the lookup of entity
definitions, the animator's joint lookup, and the frame-to-millisecond conversion. -/
structure MissileCollaborators where
  FindEntityDefDict : String → Option idDeclEntityDef
  GetJointHandle : String → Int
  FRAME2MS : Int → Int

/-- The state the missile chain of one idAnimated acts on: the entity, its pending events,
the projectiles launched so far, and the warnings logged so far. -/
structure MissileState where
  self : idAnimated := {}
  events : List idEvent := []
  projectiles : List idProjectile := []
  warnings : List String := []

/-- Event handler idAnimated::Event_LaunchMissilesUpdate (Misc.cpp 1234-1273), run at game
time `now`. The sound and the joint transforms feed the audio system and the launch
position of the projectile, which are not part of the state. -/
def idAnimated.Event_LaunchMissilesUpdate (collaborators : MissileCollaborators) (now : Int)
    (launchjoint targetjoint numshots framedelay : Int) (state : MissileState) :
    Except Fault MissileState :=
  let projectilename := state.self.spawnArgs.GetString "projectilename"
  match collaborators.FindEntityDefDict projectilename with
  | none =>
    let warning := "launchMissiles called with unknown projectile " ++ projectilename
    .ok { state with warnings := state.warnings ++ [warning] }
  | some projectileDef =>
    -- gameLocal.SpawnEntityDef( *projectileDef, &ent, false );
    if !projectileDef.spawnsProjectile then
      .error (.Error (projectilename ++ " is not an idProjectile"))
    else
      -- projectile->Create( this, launchPos, dir ); projectile->Launch( ... );
      let projectile : idProjectile := ⟨projectilename, launchjoint, targetjoint, now⟩
      let state := { state with projectiles := state.projectiles ++ [projectile] }
      if numshots > 0 then
        let events :=
          PostEventMS state.events now .EV_LaunchMissilesUpdate
            (collaborators.FRAME2MS framedelay)
            [launchjoint, targetjoint, numshots - 1, framedelay]
        .ok { state with events := events }
      else
        .ok state

/-- Event handler idAnimated::Event_LaunchMissiles (Misc.cpp 1280-1307), run at game time
`now`. The argument `numshots - 1` of the first update is an `int` subtraction: at
`numshots` = INT_MIN it wraps around to INT_MAX. The `numshots - 1` of the update itself is
computed under `numshots > 0` and stays in range. -/
def idAnimated.Event_LaunchMissiles (collaborators : MissileCollaborators) (now : Int)
    (projectilename sound launchjoint targetjoint : String) (numshots framedelay : Int)
    (state : MissileState) : Except Fault MissileState :=
  match collaborators.FindEntityDefDict projectilename with
  | none =>
    let warning := "unknown projectile " ++ projectilename
    .ok { state with warnings := state.warnings ++ [warning] }
  | some _ =>
    let launch := collaborators.GetJointHandle launchjoint
    if launch = INVALID_JOINT then
      -- gameLocal.Warning( ... ); gameLocal.Error( "Unknown joint '%s'", launchjoint );
      .error (.Error ("Unknown joint " ++ launchjoint))
    else
      let target := collaborators.GetJointHandle targetjoint
      let warnings :=
        if target = INVALID_JOINT then
          state.warnings ++ ["unknown target joint " ++ targetjoint]
        else
          state.warnings
      let spawnArgs := state.self.spawnArgs.Set "projectilename" projectilename
      let spawnArgs := spawnArgs.Set "missilesound" sound
      let events := CancelEvents state.events .EV_LaunchMissilesUpdate
      -- ProcessEvent( &EV_LaunchMissilesUpdate, launch, target, numshots - 1, framedelay );
      idAnimated.Event_LaunchMissilesUpdate collaborators now launch target
        (wrapInt (numshots - 1)) framedelay
        { self := { state.self with spawnArgs := spawnArgs }
          events := events
          projectiles := state.projectiles
          warnings := warnings }

/-- Delivery of a due event to its handler. Events other than the chained update have
handlers that do not touch the missile chain. -/
def idAnimated.ProcessEvent (collaborators : MissileCollaborators) (now : Int) (event : idEvent)
    (state : MissileState) : Except Fault MissileState :=
  match event.eventdef, event.args with
  | .EV_LaunchMissilesUpdate, [launchjoint, targetjoint, numshots, framedelay] =>
    idAnimated.Event_LaunchMissilesUpdate collaborators now launchjoint targetjoint numshots
      framedelay state
  | _, _ => .ok state

/-- Modelled from the spec: one step of event delivery at game time `now`: the first
pending event, if it is due, is removed from the queue and delivered. -/
def ServiceEvent (collaborators : MissileCollaborators) (now : Int) (state : MissileState) :
    Except Fault MissileState :=
  match state.events with
  | [] => .ok state
  | event :: events =>
    if event.time ≤ now then
      idAnimated.ProcessEvent collaborators now event { state with events := events }
    else
      .ok state

/-- A run of delivery steps at the given successive game times. -/
def ServiceEvents (collaborators : MissileCollaborators) :
    List Int → MissileState → Except Fault MissileState
  | [], state => .ok state
  | now :: times, state =>
    match ServiceEvent collaborators now state with
    | .error fault => .error fault
    | .ok state => ServiceEvents collaborators times state

/-- Number of pending EV_LaunchMissilesUpdate events. -/
def pendingUpdates (events : List idEvent) : Nat :=
  (events.filter (fun e => e.eventdef == .EV_LaunchMissilesUpdate)).length

/-- The states of the missile chain that can be reached: from a state with no update
pending, by calls of `launchMissiles` with any arguments, by delivery of due events, and by
posts of events of other types. -/
inductive MissileReachable (collaborators : MissileCollaborators) : MissileState → Prop where
  | spawn (state : MissileState) (h : pendingUpdates state.events = 0) :
      MissileReachable collaborators state
  | launch (state next : MissileState) (now : Int)
      (projectilename sound launchjoint targetjoint : String) (numshots framedelay : Int)
      (h : MissileReachable collaborators state)
      (hstep : idAnimated.Event_LaunchMissiles collaborators now projectilename sound
        launchjoint targetjoint numshots framedelay state = .ok next) :
      MissileReachable collaborators next
  | service (state next : MissileState) (now : Int)
      (h : MissileReachable collaborators state)
      (hstep : ServiceEvent collaborators now state = .ok next) :
      MissileReachable collaborators next
  | post (state : MissileState) (now delay : Int) (name : String) (args : List Int)
      (h : MissileReachable collaborators state) :
      MissileReachable collaborators
        { state with events := PostEventMS state.events now (.other name) delay args }

/-- The pending updates all belong to the chain of one `launchMissiles` call: the
configured projectile name is the call's, and every pending update event carries the
joints the call resolved. -/
def MissileState.chainOf (projectilename : String) (launch target : Int)
    (state : MissileState) : Prop :=
  state.self.spawnArgs.GetString "projectilename" = projectilename
  ∧ ∀ e ∈ state.events, e.eventdef = .EV_LaunchMissilesUpdate →
      ∃ numshots framedelay, e.args = [launch, target, numshots, framedelay]

/-- The projectiles of one `launchMissiles` call: spawned from its definition and aimed
along its joints. -/
def idProjectile.ofCall (projectilename : String) (launch target : Int)
    (projectile : idProjectile) : Prop :=
  projectile.projectilename = projectilename ∧ projectile.launchjoint = launch
  ∧ projectile.targetjoint = target

/-- Number of projectiles a pending event stands for: an update event carrying `numshots`
launches one projectile when it is delivered and, while `numshots > 0`, posts itself again
with `numshots - 1`; any other event launches none. -/
def idEvent.shots (event : idEvent) : Nat :=
  match event.eventdef, event.args with
  | .EV_LaunchMissilesUpdate, [_, _, numshots, _] => numshots.toNat + 1
  | _, _ => 0

/-- Number of projectiles the pending events stand for. -/
def shotsPending (events : List idEvent) : Nat := (events.map idEvent.shots).sum

/-- Modelled from the spec: delivery of the pending events in the order of the queue, the
clock advancing to the time the next event is scheduled for when that lies ahead; `fuel`
bounds the number of deliveries. -/
def RunEvents (collaborators : MissileCollaborators) :
    Nat → Int → MissileState → Except Fault MissileState
  | 0, _, state => .ok state
  | fuel + 1, now, state =>
    match state.events with
    | [] => .ok state
    | event :: _ =>
      let now := max now event.time
      match ServiceEvent collaborators now state with
      | .error fault => .error fault
      | .ok state => RunEvents collaborators fuel now state

/-- Modelled from the spec: configuration lookup `GetInt(key, default)`: the integer value
of the string found, or of the default. -/
def idDict.GetInt (args : idDict) (key : String) (defaultString : String := "0") : Int :=
  atoi (args.GetString key defaultString)

/-- Method idDamagable::Spawn (Misc.cpp 412-427). `CheckModel` is the loader of the render
model manager. A fatal `gameLocal.Error` ends the spawn; the error carries the entity as it
is at that point. -/
def idDamagable.Spawn (CheckModel : String → Bool) (self : idDamagable) :
    Except (Fault × idDamagable) idDamagable :=
  let health := self.spawnArgs.GetInt "health" "5"
  let self := { self with toidEntity := { self.toidEntity with health := health } }
  let self := { self with count := self.spawnArgs.GetInt "count" "1" }
  let self := { self with nextTriggerTime := 0 }
  -- make sure the model gets cached
  let broken := self.spawnArgs.GetString "broken" ""
  if broken.length ≠ 0 ∧ CheckModel broken = false then
    .error (.Error ("cannot load broken model " ++ broken), self)
  else
    let self := { self with toidEntity := { self.toidEntity with
                                            fl := { self.fl with takedamage := true } } }
    .ok { self with toidEntity := self.toidEntity.SetContents CONTENTS_SOLID }

/-- Modelled from the spec: axis-aligned bounds (idBounds), given by two corner points. -/
structure idBounds where
  b0 : idVec3
  b1 : idVec3
deriving DecidableEq, Repr

/-- Modelled from the spec: the bounds that hold just one point (`idBounds( point )`). -/
def idBounds.ofPoint (point : idVec3) : idBounds := ⟨point, point⟩

/-- Modelled from the spec: the bounds grown by `d` in every direction (`Expand( d )`). -/
def idBounds.Expand (bounds : idBounds) (d : Rat) : idBounds :=
  ⟨⟨bounds.b0.x - d, bounds.b0.y - d, bounds.b0.z - d⟩,
    ⟨bounds.b1.x + d, bounds.b1.y + d, bounds.b1.z + d⟩⟩

/-- Modelled from the spec: portal blocking bit: location. -/
def PS_BLOCK_LOCATION : Int := 2
/-- Modelled from the spec: portal blocking bit: air. -/
def PS_BLOCK_AIR : Int := 4

/-- Modelled from the spec: the collaborators of the separator and portal entities, all
outside Misc.cpp: the vector parser of the configuration record, the absolute bounds the
physics collaborator reports for an entity, and the portal lookup of the render world,
which yields 0 when the bounds contact no portal. -/
structure PortalCollaborators where
  GetVector : idDict → String → idVec3
  GetAbsBounds : idEntity → idBounds
  FindPortal : idBounds → Int

/-- Method idVacuumSeparatorEntity::Spawn (Misc.cpp 1994-2004). -/
def idVacuumSeparatorEntity.Spawn (collaborators : PortalCollaborators) (gameLocal : idGameLocal)
    (self : idVacuumSeparatorEntity) : idVacuumSeparatorEntity × idGameLocal :=
  let b := (idBounds.ofPoint (collaborators.GetVector self.spawnArgs "origin")).Expand 16
  let self := { self with portal := collaborators.FindPortal b }
  if self.portal = 0 then
    (self, gameLocal.Warning
      ("VacuumSeparator " ++ self.spawnArgs.GetString "name" ++ " did not contact a portal"))
  else
    (self, gameLocal.SetPortalState self.portal (Int.lor PS_BLOCK_AIR PS_BLOCK_LOCATION))

/-- Event handler idVacuumSeparatorEntity::Event_Activate (Misc.cpp 2011-2016). -/
def idVacuumSeparatorEntity.Event_Activate (gameLocal : idGameLocal)
    (self : idVacuumSeparatorEntity) : idGameLocal :=
  if self.portal = 0 then
    gameLocal
  else
    gameLocal.SetPortalState self.portal PS_BLOCK_NONE

/-- State of idLocationSeparatorEntity: the base entity only. -/
structure idLocationSeparatorEntity extends idEntity

/-- Method idLocationSeparatorEntity::Spawn (Misc.cpp 2035-2050); `HUMANHEAD` is the
compile-time switch. -/
def idLocationSeparatorEntity.Spawn (HUMANHEAD : Bool) (collaborators : PortalCollaborators)
    (gameLocal : idGameLocal) (self : idLocationSeparatorEntity) : idGameLocal :=
  let b := (idBounds.ofPoint (collaborators.GetVector self.spawnArgs "origin")).Expand 16
  let portal := collaborators.FindPortal b
  let gameLocal :=
    if portal = 0 then
      gameLocal.Warning
        ("LocationSeparator " ++ self.spawnArgs.GetString "name" ++ " did not contact a portal")
    else
      gameLocal
  if HUMANHEAD then
    -- Don't wipe out the old flags
    let flags := gameLocal.GetPortalState portal
    let flags := Int.lor flags PS_BLOCK_LOCATION
    gameLocal.SetPortalState portal flags
  else
    gameLocal.SetPortalState portal PS_BLOCK_LOCATION

/-- Method idFuncPortal::Spawn (Misc.cpp 2704-2722); `HUMANHEAD` is the compile-time
switch. -/
def idFuncPortal.Spawn (HUMANHEAD : Bool) (collaborators : PortalCollaborators)
    (gameLocal : idGameLocal) (self : idFuncPortal) : idFuncPortal × idGameLocal :=
  let portal := collaborators.FindPortal ((collaborators.GetAbsBounds self.toidEntity).Expand 32)
  let self := { self with portal := portal }
  if self.portal > 0 then
    let self := { self with state := self.spawnArgs.GetBool "start_on" }
    if HUMANHEAD then
      -- Func_portals shouldn't wipe out other flags, just affect PS_BLOCK_VIEW
      let flags := gameLocal.GetPortalState self.portal
      let flags :=
        if self.state then Int.lor flags PS_BLOCK_VIEW
        else Int.land flags (Int.lnot PS_BLOCK_VIEW)
      (self, gameLocal.SetPortalState self.portal flags)
    else
      (self, gameLocal.SetPortalState self.portal
        (if self.state then PS_BLOCK_ALL else PS_BLOCK_NONE))
  else
    (self, gameLocal)

/-- Event handler idFuncPortal::Event_Activate (Misc.cpp 2729-2745); `HUMANHEAD` is the
compile-time switch. -/
def idFuncPortal.Event_Activate (HUMANHEAD : Bool) (gameLocal : idGameLocal)
    (self : idFuncPortal) : idFuncPortal × idGameLocal :=
  if self.portal > 0 then
    let self := { self with state := !self.state }
    if HUMANHEAD then
      -- Func_portals shouldn't wipe out other flags, just affect PS_BLOCK_VIEW
      let flags := gameLocal.GetPortalState self.portal
      let flags :=
        if self.state then Int.lor flags PS_BLOCK_VIEW
        else Int.land flags (Int.lnot PS_BLOCK_VIEW)
      (self, gameLocal.SetPortalState self.portal flags)
    else
      (self, gameLocal.SetPortalState self.portal
        (if self.state then PS_BLOCK_ALL else PS_BLOCK_NONE))
  else
    (self, gameLocal)

/-- The flag word `new` is the flag word `old` with only the PS_BLOCK_VIEW bit rewritten:
set when `state` is true and cleared when it is false, every other bit as it was. -/
def PortalFlagsUpdated (old new : Int) (state : Bool) : Prop :=
  new = (if state then Int.lor old PS_BLOCK_VIEW else Int.land old (Int.lnot PS_BLOCK_VIEW))
  ∧ new.testBit 0 = state
  ∧ ∀ k, k ≠ 0 → new.testBit k = old.testBit k

/-- Modelled from the spec: shader parameter indices of the colour: red, green, blue and
alpha. -/
def SHADERPARM_RED : Nat := 0
/-- Modelled from the spec: shader parameter index of the green component. -/
def SHADERPARM_GREEN : Nat := 1
/-- Modelled from the spec: shader parameter index of the blue component. -/
def SHADERPARM_BLUE : Nat := 2
/-- Modelled from the spec: shader parameter index of the alpha component. -/
def SHADERPARM_ALPHA : Nat := 3

/-- Modelled from the spec: `SetColor( color )` of the base entity stores the colour in the
visual state and asks for a visual refresh. -/
def idEntity.SetColor (self : idEntity) (color : idVec4) : idEntity :=
  let self := self.SetShaderParm SHADERPARM_RED color.x
  let self := self.SetShaderParm SHADERPARM_GREEN color.y
  let self := self.SetShaderParm SHADERPARM_BLUE color.z
  let self := self.SetShaderParm SHADERPARM_ALPHA color.w
  self.UpdateVisuals

/-- Modelled from the spec: linear interpolation of colours (`idVec4::Lerp`): `v1` up to
`l = 0`, `v2` from `l = 1` on, and `v1 + l * ( v2 - v1 )` in between. -/
def idVec4.Lerp (v1 v2 : idVec4) (l : Rat) : idVec4 :=
  if l ≤ 0 then v1
  else if l ≥ 1 then v2
  else ⟨v1.x + l * (v2.x - v1.x), v1.y + l * (v2.y - v1.y), v1.z + l * (v2.z - v1.z),
        v1.w + l * (v2.w - v1.w)⟩

/-- Modelled from the spec: the collaborators the Think functions of Misc.cpp call, all
outside Misc.cpp: `idEntity::Think` (run the physics, then present) and `idEntity::Present`
of the base entity, which act on the base entity, and the evaluation of a force field at a
time, which applies the field to the physics bodies inside its volume. -/
structure TickCollaborators where
  Think : idEntity → idEntity
  Present : idEntity → idEntity
  Evaluate : ObjectData → Int → EntityRegistry → EntityRegistry

/-- State of idForceField: the force object it owns. -/
structure idForceField extends idEntity where
  forceField : ObjectData := []

/-- Save of idForceField (Misc.cpp 759-761). -/
def idForceField.Save (self : idForceField) (savefile : idSaveGame) : idSaveGame :=
  savefile.WriteStaticObject self.forceField

/-- Restore of idForceField (Misc.cpp 768-770). -/
def idForceField.Restore (self : idForceField) (savefile : idRestoreGame) :
    Option (idForceField × idRestoreGame) := do
  let (forceField, savefile) ← savefile.ReadStaticObject
  pure ({ self with forceField := forceField }, savefile)

/-- Method idForceField::Think (Misc.cpp 746-752). -/
def idForceField.Think (collaborators : TickCollaborators) (gameLocal : idGameLocal)
    (entities : EntityRegistry) (self : idForceField) : idForceField × EntityRegistry :=
  let entities :=
    if self.thinkFlags &&& TH_THINK ≠ 0 then
      -- evaluate force
      collaborators.Evaluate self.forceField gameLocal.time entities
    else
      entities
  ({ self with toidEntity := collaborators.Present self.toidEntity }, entities)

/-- Consecutive Think calls of an idForceField, one for each tick, with no event between
them. -/
def idForceField.ThinkTicks (collaborators : TickCollaborators) :
    List idGameLocal → idForceField × EntityRegistry → idForceField × EntityRegistry
  | [], state => state
  | gameLocal :: ticks, state =>
    idForceField.ThinkTicks collaborators ticks
      (idForceField.Think collaborators gameLocal state.2 state.1)

/-- The calls `renderEntity.gui[ k ]->StateChanged( gameLocal.time, true )` of
idStaticEntity::Think (Misc.cpp 1442-1448): for user interface 0, and for 1 and 2 where
they exist. -/
def idStaticEntity.GuiStateChanged (gameLocal : idGameLocal) (self : idEntity) : idEntity :=
  let self := { self with calls := self.calls ++ [EntityCall.StateChanged 0 gameLocal.time] }
  let self :=
    if self.renderEntity.gui 1 then
      { self with calls := self.calls ++ [EntityCall.StateChanged 1 gameLocal.time] }
    else self
  if self.renderEntity.gui 2 then
    { self with calls := self.calls ++ [EntityCall.StateChanged 2 gameLocal.time] }
  else self

/-- The fraction of a fade that idStaticEntity::Think hands to `Lerp` (Misc.cpp 1454),
`( float )( gameLocal.time - fadeStart ) / ( float )( fadeEnd - fadeStart )`: the two
conversions and the division are each rounded to binary32. -/
def idStaticEntity.FadeFraction (time fadeStart fadeEnd : Int) : Rat :=
  f32 (itof (time - fadeStart) / itof (fadeEnd - fadeStart))

/-- Method idStaticEntity::Think (Misc.cpp 1436-1463). -/
def idStaticEntity.Think (collaborators : TickCollaborators) (gameLocal : idGameLocal)
    (self : idStaticEntity) : idStaticEntity :=
  let self := { self with toidEntity := collaborators.Think self.toidEntity }
  if self.thinkFlags &&& TH_THINK ≠ 0 then
    let self :=
      if self.runGui = true ∧ self.renderEntity.gui 0 = true then
        match gameLocal.GetLocalPlayer with
        | some _ =>
          { self with toidEntity := idStaticEntity.GuiStateChanged gameLocal self.toidEntity }
        | none => self
      else self
    if self.fadeEnd > 0 then
      if gameLocal.time < self.fadeEnd then
        let color := idVec4.Lerp self.fadeFrom self.fadeTo
          (idStaticEntity.FadeFraction gameLocal.time self.fadeStart self.fadeEnd)
        { self with toidEntity := self.toidEntity.SetColor color }
      else
        let color := self.fadeTo
        let self := { self with fadeEnd := 0 }
        let self := { self with toidEntity := self.toidEntity.BecomeInactive TH_THINK }
        { self with toidEntity := self.toidEntity.SetColor color }
    else
      self
  else
    self

/-- Consecutive Think calls of an idStaticEntity, one for each tick, with no event between
them. -/
def idStaticEntity.ThinkTicks (collaborators : TickCollaborators) :
    List idGameLocal → idStaticEntity → idStaticEntity
  | [], self => self
  | gameLocal :: ticks, self =>
    idStaticEntity.ThinkTicks collaborators ticks
      (idStaticEntity.Think collaborators gameLocal self)

/-- Modelled from the spec: the collaborators of idFuncSmoke, outside Misc.cpp: the lookup
of a particle declaration by name (`declManager->FindType( DECL_PARTICLE, name )`), and
`EmitSmoke` of the smoke system for a declaration, a start time, a diversity and an origin,
which reports whether the effect is still running. -/
structure SmokeCollaborators where
  FindType : String → Option String
  EmitSmoke : Option String → Int → Rat → idVec3 → Bool

/-- Method idFuncSmoke::Spawn (Misc.cpp 1806-1823). -/
def idFuncSmoke.Spawn (collaborators : SmokeCollaborators) (gameLocal : idGameLocal)
    (self : idFuncSmoke) : idFuncSmoke :=
  let smokeName := self.spawnArgs.GetString "smoke"
  let self :=
    if smokeName ≠ "" then { self with smoke := collaborators.FindType smokeName }
    else { self with smoke := none }
  let self :=
    if self.spawnArgs.GetBool "start_off" then
      let self := { self with smokeTime := -1 }
      let self := { self with restart := false }
      { self with toidEntity := { self.toidEntity with fl := { self.fl with hidden := true } } }
    else if self.smoke ≠ none then
      let self := { self with smokeTime := gameLocal.time }
      let self := { self with toidEntity := self.toidEntity.BecomeActive TH_UPDATEPARTICLES }
      { self with restart := true }
    else
      self
  { self with toidEntity := self.toidEntity.SetContents 0 }

/-- Event handler idFuncSmoke::Event_Activate (Misc.cpp 1830-1850). -/
def idFuncSmoke.Event_Activate (gameLocal : idGameLocal) (self : idFuncSmoke) : idFuncSmoke :=
  if self.spawnArgs.GetBool "cycletrigger" then
    -- Restart the effect
    let self :=
      { self with toidEntity := { self.toidEntity with fl := { self.fl with hidden := false } } }
    let self := { self with smokeTime := gameLocal.time }
    { self with toidEntity := self.toidEntity.BecomeActive TH_UPDATEPARTICLES }
  else
    -- Straight toggle on/off
    if self.IsHidden then
      let self :=
        { self with
          toidEntity := { self.toidEntity with fl := { self.fl with hidden := false } } }
      let self := { self with smokeTime := gameLocal.time }
      { self with toidEntity := self.toidEntity.BecomeActive TH_UPDATEPARTICLES }
    else
      let self :=
        { self with toidEntity := { self.toidEntity with fl := { self.fl with hidden := true } } }
      let self := { self with smokeTime := -1 }
      { self with toidEntity := self.toidEntity.BecomeInactive TH_UPDATEPARTICLES }

/-- Method idFuncSmoke::Think (Misc.cpp 1857-1873); the axis handed to `EmitSmoke` is not
part of the state. -/
def idFuncSmoke.Think (collaborators : SmokeCollaborators) (random : idRandom)
    (self : idFuncSmoke) : idFuncSmoke × idRandom :=
  let self :=
    if self.thinkFlags &&& TH_UPDATEVISUALS ≠ 0 then
      { self with toidEntity := self.toidEntity.BecomeInactive TH_UPDATEVISUALS }
    else
      self
  if self.smoke = none ∨ self.smokeTime = -1 then
    (self, random)
  else if self.thinkFlags &&& TH_UPDATEPARTICLES ≠ 0 ∧ self.IsHidden = false then
    let (diversity, random) := random.CRandomFloat
    if collaborators.EmitSmoke self.smoke self.smokeTime diversity self.origin = false then
      ({ self with toidEntity := self.toidEntity.BecomeInactive TH_UPDATEPARTICLES }, random)
    else
      (self, random)
  else
    (self, random)

/-- The states of an idFuncSmoke that can be reached: by Spawn of an entity as its
constructor leaves it, visible and without the particle flag, and from there by any
sequence of Event_Activate and Think calls; game time is never negative. -/
inductive idFuncSmoke.Reachable (collaborators : SmokeCollaborators) : idFuncSmoke → Prop where
  | spawn (gameLocal : idGameLocal) (base : idEntity)
      (hflag : base.thinkFlags &&& TH_UPDATEPARTICLES = 0) (hshown : base.fl.hidden = false)
      (htime : 0 ≤ gameLocal.time) :
      idFuncSmoke.Reachable collaborators
        (idFuncSmoke.Spawn collaborators gameLocal { toidEntity := base })
  | activate (gameLocal : idGameLocal) (self : idFuncSmoke) (htime : 0 ≤ gameLocal.time)
      (h : idFuncSmoke.Reachable collaborators self) :
      idFuncSmoke.Reachable collaborators (idFuncSmoke.Event_Activate gameLocal self)
  | think (random : idRandom) (self : idFuncSmoke)
      (h : idFuncSmoke.Reachable collaborators self) :
      idFuncSmoke.Reachable collaborators (idFuncSmoke.Think collaborators random self).1

/-- Modelled from the spec: the capacity of the entity table (`MAX_GENTITIES` of
Game_local.h, 1 << 12), which is also the size of the local buffer of RandomPath. -/
def MAX_GENTITIES : Nat := 4096

/-- The test `ent && ( ent != ignore ) && ent->IsType( idPathCorner::Type )` of
idPathCorner::RandomPath (Misc.cpp 333-334) for one entry of the targets: the identifier of
the path corner when the entry passes; `ignore` is `none` for a NULL pointer. -/
def idPathCorner.Eligible (entities : EntityRegistry) (ignore : Option Nat)
    (targetPtr : idEntityPtr) : Option Nat :=
  match targetPtr.GetEntity entities with
  | some (num, .PathCorner _) => if some num ≠ ignore then some num else none
  | _ => none

/-- The loop of idPathCorner::RandomPath (Misc.cpp 332-340) over the entries of the targets
not yet visited; `path` holds what was written into the local buffer so far, `path.length`
being `num`. A write at an index outside the buffer of MAX_GENTITIES slots is a fault. -/
def idPathCorner.CollectPaths (entities : EntityRegistry) (ignore : Option Nat) :
    List idEntityPtr → List Nat → Except Fault (List Nat)
  | [], path => .ok path
  | targetPtr :: targets, path =>
    match idPathCorner.Eligible entities ignore targetPtr with
    | some ent =>
      -- path[ num++ ] = static_cast<idPathCorner *>( ent );
      if MAX_GENTITIES ≤ path.length then
        .error .IndexOutOfRange
      else if (path ++ [ent]).length ≥ MAX_GENTITIES then
        .ok (path ++ [ent])
      else
        idPathCorner.CollectPaths entities ignore targets (path ++ [ent])
    | none => idPathCorner.CollectPaths entities ignore targets path

/-- Method idPathCorner::RandomPath (Misc.cpp 324-348): the identifier of the path corner
returned, or `none` for NULL, and the random stream afterwards. -/
def idPathCorner.RandomPath (entities : EntityRegistry) (random : idRandom) (source : idEntity)
    (ignore : Option Nat) : Except Fault (Option Nat × idRandom) :=
  match idPathCorner.CollectPaths entities ignore source.targets [] with
  | .error fault => .error fault
  | .ok path =>
    if path.length = 0 then
      .ok (none, random)
    else
      let draw := random.RandomIntMax (Int.ofNat path.length)
      let which := draw.1
      if which < 0 then
        .error .IndexOutOfRange
      else
        match path[which.toNat]? with
        | some ent => .ok (some ent, draw.2)
        | none => .error .IndexOutOfRange

/-- Modelled from the spec: conversion of a C `float` to `int`, which drops the fraction
(rounds toward zero). -/
def ftoi (f : Rat) : Int := if 0 ≤ f then ⌊f⌋ else ⌈f⌉

/-- Modelled from the spec: conversion `SEC2MS` of seconds to whole milliseconds. -/
def SEC2MS (t : Rat) : Int := ftoi (t * 1000)

/-- Modelled from the spec: configuration lookup `GetFloat(key, default)`: the number the
string found, or the default, stands for; `atof` is the C library's reading of a number. -/
def idDict.GetFloat (atof : String → Rat) (args : idDict) (key : String)
    (defaultString : String := "0") : Rat :=
  atof (args.GetString key defaultString)

/-- Modelled from the spec: `RemoveNullTargets` of the base entity drops the targets that
resolve to absent. -/
def idEntity.RemoveNullTargets (entities : EntityRegistry) (self : idEntity) : idEntity :=
  { self with targets := self.targets.filter fun t => (t.GetEntity entities).isSome }

/-- Method idPhantomObjects::Spawn (Misc.cpp 3064-3078); `atof` and `ParseVector` are the
readers of the configuration collaborator for numbers and vectors. -/
def idPhantomObjects.Spawn (atof : String → Rat) (ParseVector : String → idVec3)
    (self : idPhantomObjects) : idPhantomObjects :=
  let self := { self with throw_time := self.spawnArgs.GetFloat atof "time" "5" }
  let self := { self with speed := self.spawnArgs.GetFloat atof "speed" "1200" }
  let self := { self with shake_time := self.spawnArgs.GetFloat atof "shake_time" "1" }
  let self := { self with throw_time := self.throw_time - self.shake_time }
  let self := if self.throw_time < 0 then { self with throw_time := 0 } else self
  let self := { self with min_wait := SEC2MS (self.spawnArgs.GetFloat atof "min_wait" "1") }
  let self := { self with max_wait := SEC2MS (self.spawnArgs.GetFloat atof "max_wait" "3") }
  let self :=
    { self with shake_ang := ParseVector (self.spawnArgs.GetString "shake_ang" "65 65 65") }
  let self := { self with toidEntity := self.toidEntity.Hide }
  { self with toidEntity := self.toidEntity.SetContents 0 }

/-- The choice of the target in idPhantomObjects::Event_Activate (Misc.cpp 3101-3105): the
activator when it is a live idActor, the local player otherwise. -/
def idPhantomObjects.ChooseTarget (gameLocal : idGameLocal) (entities : EntityRegistry)
    (activator : Option Nat) : idEntityPtr :=
  match (idEntityPtr.mk activator).GetEntity entities with
  | some (num, .Actor _) => idEntityPtr.assign num
  | _ =>
    match gameLocal.GetLocalPlayer with
    | some player => idEntityPtr.assign player
    | none => idEntityPtr.null

/-- The first loop of idPhantomObjects::Event_Activate (Misc.cpp 3115-3122), from index `i`
with `remaining` iterations left, `num` being `targetTime.Num()`: the values written to
`targetTime[ i ]`, `targetTime[ i + 1 ]`, ..., the value of `time` after the loop, and the
random stream after the loop. The conversions of `i` and `targetTime.Num()`, the constant
`0.1f` and every float operation of the two assignments are rounded to binary32. -/
def idPhantomObjects.RelativeTimes (num : Nat) :
    (remaining i : Nat) → Rat → idRandom → List Int × Rat × idRandom
  | 0, _, time, random => ([], time, random)
  | remaining + 1, i, time, random =>
    -- targetTime[ i ] = SEC2MS( time );
    let written := SEC2MS time
    -- frac = 1.0f - ( float )i / ( float )targetTime.Num();
    let frac := f32 (1 - f32 (itof i / itof num))
    let draw := random.RandomFloat
    -- time += ( gameLocal.random.RandomFloat() + 1.0f ) * 0.5f * frac + 0.1f;
    let step := f32 (f32 (f32 (f32 (draw.1 + 1) * (1 / 2)) * frac) + f32 (1 / 10))
    let time := f32 (time + step)
    let rest := idPhantomObjects.RelativeTimes num remaining (i + 1) time draw.2
    (written :: rest.1, rest.2)

/-- Event handler idPhantomObjects::Event_Activate (Misc.cpp 3085-3131), run with the
activator given by its identifier or NULL. Both lists are set to the number of targets and
every entry is written by the loops, `lastTargetPos[ i ]` with the eye position of the
target; an eye position read through a NULL target is an access through a NULL pointer.
The division of Misc.cpp 3125 and the assignment of Misc.cpp 3127 are float arithmetic:
the int sum `gameLocal.time + SEC2MS( shake_time )` and the int `targetTime[ i ]` are
converted to float, the product and the sum are rounded to binary32, and the result is
converted back to `int`. -/
def idPhantomObjects.Event_Activate (atof : String → Rat) (gameLocal : idGameLocal)
    (entities : EntityRegistry) (random : idRandom) (activator : Option Nat)
    (self : idPhantomObjects) : Except Fault (idPhantomObjects × idRandom) :=
  if self.thinkFlags &&& TH_THINK ≠ 0 then
    .ok ({ self with toidEntity := self.toidEntity.BecomeInactive TH_THINK }, random)
  else
    let self := { self with toidEntity := self.toidEntity.RemoveNullTargets entities }
    if self.targets.length = 0 then
      .ok (self, random)
    else
      let self := { self with target := idPhantomObjects.ChooseTarget gameLocal entities activator }
      let end_time := gameLocal.time + SEC2MS (self.spawnArgs.GetFloat atof "end_time" "0")
      let self := { self with end_time := end_time }
      let num := self.targets.length
      match self.target.GetEntity entities with
      | some (_, .Actor actor) =>
        let toPos := actor.eyePosition
        -- calculate the relative times of all the objects
        let relative := idPhantomObjects.RelativeTimes num num 0 0 random
        let time := relative.2.1
        -- scale up the times to fit within throw_time
        let scale := f32 (self.throw_time / time)
        let start := gameLocal.time + SEC2MS self.shake_time
        -- targetTime[ i ] = gameLocal.time + SEC2MS( shake_time ) + targetTime[ i ] * scale;
        let targetTime := relative.1.map fun (t : Int) =>
          ftoi (f32 (itof start + f32 (itof t * scale)))
        let self := { self with targetTime := targetTime }
        let self := { self with lastTargetPos := List.replicate num toPos }
        .ok ({ self with toidEntity := self.toidEntity.BecomeActive TH_THINK }, relative.2.2)
      | _ => .error .NullDereference

/-! ## idDamagable::BecomeBroken and idDamagable::Killed -/

/-- Modelled from the spec: shader parameter index of the mode. -/
def SHADERPARM_MODE : Nat := 7

/-- The event idDamagable posts to itself to become whole again. -/
def EV_RestoreDamagable : idEventDef := .other "EV_RestoreDamagable"

/-- The state the damage handlers of one idDamagable act on: the entity, the model set by
the last `SetModel` call, the pending events of the entity, the activators of the
`ActivateTargets` calls made so far, and the random stream of the game. -/
structure DamagableState where
  self : idDamagable := {}
  model : Option String := none
  events : List idEvent := []
  activations : List (Option Nat) := []
  random : idRandom := {}

/-- The count block of idDamagable::BecomeBroken (Misc.cpp 446-453). -/
def idDamagable.BecomeBrokenCount (self : idDamagable) : idDamagable :=
  if self.count > 0 then
    let self := { self with count := self.count - 1 }
    if self.count = 0 then
      { self with toidEntity := { self.toidEntity with
                                  fl := { self.fl with takedamage := false } } }
    else
      { self with toidEntity := { self.toidEntity with
                                  health := self.spawnArgs.GetInt "health" "5" } }
  else
    self

/-- The state parm block of idDamagable::BecomeBroken (Misc.cpp 465-479). -/
def idDamagable.BecomeBrokenMode (atof : String → Rat) (random : idRandom)
    (self : idDamagable) : idDamagable × idRandom :=
  let numStates : Int := self.spawnArgs.GetInt "numstates" "1"
  let cycle : Int := self.spawnArgs.GetInt "cycle" "0"
  let forceState : Rat := idDict.GetFloat atof self.spawnArgs "forcestate" "0"
  -- set the state parm
  if cycle ≠ 0 then
    let mode := self.renderEntity.shaderParms SHADERPARM_MODE + 1
    let self := { self with toidEntity := self.toidEntity.SetShaderParm SHADERPARM_MODE mode }
    if self.renderEntity.shaderParms SHADERPARM_MODE > ((numStates : Int) : Rat) then
      ({ self with toidEntity := self.toidEntity.SetShaderParm SHADERPARM_MODE 0 }, random)
    else
      (self, random)
  else if forceState ≠ 0 then
    ({ self with toidEntity := self.toidEntity.SetShaderParm SHADERPARM_MODE forceState },
      random)
  else
    let drawn := random.RandomIntMax numStates
    let mode : Rat := ((drawn.1 + 1 : Int) : Rat)
    ({ self with toidEntity := self.toidEntity.SetShaderParm SHADERPARM_MODE mode }, drawn.2)

/-- Method idDamagable::BecomeBroken (Misc.cpp 434-496), run at game time `gameLocal.time`
for the given activator (`none` is NULL). -/
def idDamagable.BecomeBroken (atof : String → Rat) (gameLocal : idGameLocal)
    (activator : Option Nat) (state : DamagableState) : DamagableState :=
  if gameLocal.time < state.self.nextTriggerTime then
    state
  else
    let self := state.self
    let wait := idDict.GetFloat atof self.spawnArgs "wait" "0.1"
    let self := { self with nextTriggerTime := gameLocal.time + SEC2MS wait }
    let self := self.BecomeBrokenCount
    let broken := self.spawnArgs.GetString "broken" ""
    let model := if broken.length ≠ 0 then some broken else state.model
    -- offset the start time of the shader to sync it to the gameLocal time
    let offset := -MS2SEC gameLocal.time
    let self := { self with toidEntity := self.toidEntity.SetShaderParm SHADERPARM_TIMEOFFSET offset }
    let result := idDamagable.BecomeBrokenMode atof state.random self
    let self := result.1
    let random := result.2
    let offset := -MS2SEC gameLocal.time
    let self := { self with toidEntity := self.toidEntity.SetShaderParm SHADERPARM_TIMEOFFSET offset }
    let activations := state.activations ++ [activator]
    let self :=
      if self.spawnArgs.GetBool "nonSolidWhenBroken" then
        { self with toidEntity := self.toidEntity.SetContents 0 }
      else
        self
    if self.spawnArgs.GetBool "hideWhenBroken" then
      let self := { self with toidEntity := self.toidEntity.Hide }
      let delay := self.nextTriggerTime - gameLocal.time
      let events := PostEventMS state.events gameLocal.time EV_RestoreDamagable delay []
      let self := { self with toidEntity := self.toidEntity.BecomeActive TH_THINK }
      { self := self, model := model, events := events, activations := activations,
        random := random }
    else
      { self := self, model := model, events := state.events, activations := activations,
        random := random }

/-- Method idDamagable::Killed (Misc.cpp 503-510). The inflictor, the direction and the
location of the damage are not used. -/
def idDamagable.Killed (atof : String → Rat) (gameLocal : idGameLocal)
    (attacker : Option Nat) (damage : Int) (state : DamagableState) : DamagableState :=
  if gameLocal.time < state.self.nextTriggerTime then
    { state with self := { state.self with toidEntity := { state.self.toidEntity with
                             health := state.self.health + damage } } }
  else
    idDamagable.BecomeBroken atof gameLocal attacker state

/-- Event handler idDamagable::Event_BecomeBroken (Misc.cpp 517-519). -/
def idDamagable.Event_BecomeBroken (atof : String → Rat) (gameLocal : idGameLocal)
    (activator : Option Nat) (state : DamagableState) : DamagableState :=
  idDamagable.BecomeBroken atof gameLocal activator state

/-- Event handler idDamagable::Event_RestoreDamagable (Misc.cpp 526-530). -/
def idDamagable.Event_RestoreDamagable (self : idDamagable) : idDamagable :=
  let self := { self with toidEntity := { self.toidEntity with
                            health := self.spawnArgs.GetInt "health" "5" } }
  let self := { self with toidEntity := self.toidEntity.SetContents CONTENTS_SOLID }
  { self with toidEntity := self.toidEntity.Show }

/-! ## idAnimated: Spawn and the animation sequence -/

/-- Modelled from the spec: configuration lookup that tells a missing key from an empty
value: the value of the key, or `none` (NULL) when the key is absent. The `Get*` lookups
with an output argument return whether the key was found. -/
def idDict.FindKey (args : idDict) (key : String) : Option String :=
  (args.find? (fun kv => kv.1 == key)).map (fun kv => kv.2)

/-- The event that activates an entity. -/
def EV_Activate : idEventDef := .other "EV_Activate"
/-- The event that removes an entity from the game. -/
def EV_Remove : idEventDef := .other "EV_Remove"
/-- The event idAnimated posts to itself for the end of an animation. -/
def EV_AnimDone : idEventDef := .other "EV_AnimDone"

/-- Modelled from the spec: the animator of an idAnimated, outside Misc.cpp: the joint
lookup, whether there is a model definition, the lookup of an animation by name (0 when
there is none), and the play length in milliseconds of an animation started with the
given cycle count. -/
structure AnimatorCollaborators where
  GetJointHandle : String → Int
  ModelDef : Bool
  GetAnim : String → Int
  PlayLength : Int → Int → Int

/-- The state the animation sequence of one idAnimated acts on: the entity, its pending
events, the warnings logged so far, and the references given to the `ActivateTargets`
calls made so far. -/
structure AnimationState where
  self : idAnimated := {}
  events : List idEvent := []
  warnings : List String := []
  activations : List idEntityPtr := []

/-- The lookups at the start of idAnimated::Spawn (Misc.cpp 946-983): the sound joint, the
damage flag, the index and the number of animations, the blend frames and the first
animation. The configuration does not change in between, so the values are read first and
assigned together. -/
def idAnimated.SpawnLookups (collaborators : AnimatorCollaborators) (self : idAnimated) :
    idAnimated :=
  let joint := self.spawnArgs.GetString "sound_bone" "origin"
  let soundJoint := collaborators.GetJointHandle joint
  -- allow the entity to take damage
  let takedamage := if self.spawnArgs.GetBool "takeDamage" "0" then true else self.fl.takedamage
  -- blendFrames = 0; current_anim_index = 0;
  let num_anims := self.spawnArgs.GetInt "num_anims" "0"
  let blendFrames := self.spawnArgs.GetInt "blend_in"
  let animname := self.spawnArgs.GetString (if num_anims ≠ 0 then "anim1" else "anim")
  let anim := if animname.length = 0 then 0 else collaborators.GetAnim animname
  { self with
    toidEntity := { self.toidEntity with fl := { self.fl with takedamage := takedamage } }
    soundJoint := soundJoint
    current_anim_index := 0
    num_anims := num_anims
    blendFrames := blendFrames
    anim := anim }

/-- The end of idAnimated::Spawn (Misc.cpp 1006-1010): the delayed activation of the
entity by itself. -/
def idAnimated.SpawnWait (atof : String → Rat) (gameLocal : idGameLocal) (this : Nat)
    (state : AnimationState) : AnimationState :=
  let wait := idDict.GetFloat atof state.self.spawnArgs "wait" "-1"
  if wait ≥ 0 then
    { state with events :=
        PostEventMS state.events gameLocal.time EV_Activate (SEC2MS wait) [Int.ofNat this] }
  else
    state

/-- Method idAnimated::Spawn (Misc.cpp 940-1011) of the entity with number `this`, run at
game time `gameLocal.time`. The articulated figure, the combat model and the pose of the
animator are not part of the state. A fatal `gameLocal.Error` ends the spawn; the error
carries the state as it is at that point. -/
def idAnimated.Spawn (atof : String → Rat) (collaborators : AnimatorCollaborators)
    (gameLocal : idGameLocal) (this : Nat) (state : AnimationState) :
    Except (Fault × AnimationState) AnimationState :=
  let joint := state.self.spawnArgs.GetString "sound_bone" "origin"
  let warnings :=
    if collaborators.GetJointHandle joint = INVALID_JOINT ∧ collaborators.ModelDef = true then
      state.warnings ++ ["idAnimated: cannot find joint " ++ joint ++ " for sound playback"]
    else
      state.warnings
  let self := idAnimated.SpawnLookups collaborators state.self
  let state := { state with self := self
                            warnings := warnings }
  let animname := self.spawnArgs.GetString (if self.num_anims ≠ 0 then "anim1" else "anim")
  if animname.length ≠ 0 ∧ self.anim = 0 then
    .error (.Error ("idAnimated: cannot find anim " ++ animname), state)
  else if self.spawnArgs.GetBool "hide" then
    let self := { self with toidEntity := self.toidEntity.Hide }
    let self := if self.num_anims = 0 then { self with blendFrames := 0 } else self
    .ok (idAnimated.SpawnWait atof gameLocal this { state with self := self })
  else
    match self.spawnArgs.FindKey "start_anim" with
    | some animname =>
      if collaborators.GetAnim animname = 0 then
        .error (.Error ("idAnimated: cannot find start_anim " ++ animname), state)
      else
        .ok (idAnimated.SpawnWait atof gameLocal this state)
    | none =>
      if self.anim ≠ 0 then
        -- init joints to the first frame of the animation
        let self := if self.num_anims = 0 then { self with blendFrames := 0 } else self
        .ok (idAnimated.SpawnWait atof gameLocal this { state with self := self })
      else
        .ok (idAnimated.SpawnWait atof gameLocal this state)

/-- Method idAnimated::PlayNextAnim (Misc.cpp 1069-1124), run at game time
`gameLocal.time`. The calls that pose the animator and present the model are not part of
the state. -/
def idAnimated.PlayNextAnim (collaborators : AnimatorCollaborators) (gameLocal : idGameLocal)
    (state : AnimationState) : AnimationState :=
  let self := state.self
  if self.current_anim_index ≥ self.num_anims then
    let self := { self with toidEntity := self.toidEntity.Hide }
    if self.spawnArgs.GetBool "remove" then
      { state with self := self
                   events := PostEventMS state.events gameLocal.time EV_Remove 0 [] }
    else
      { state with self := { self with current_anim_index := 0 } }
  else
    let self := { self with toidEntity := self.toidEntity.Show }
    let self := { self with current_anim_index := self.current_anim_index + 1 }
    match self.spawnArgs.FindKey ("anim" ++ toString self.current_anim_index) with
    | none =>
      { state with self := { self with anim := 0 } }
    | some animname =>
      let self := { self with anim := collaborators.GetAnim animname }
      if self.anim = 0 then
        { state with self := self
                     warnings := state.warnings ++ ["missing anim " ++ animname] }
      else
        let cycle := self.spawnArgs.GetInt "cycle" "1"
        let cycle :=
          if self.current_anim_index = self.num_anims ∧ self.spawnArgs.GetBool "loop_last_anim" = true
          then -1 else cycle
        let len := collaborators.PlayLength self.anim cycle
        let events :=
          if len ≥ 0 then
            PostEventMS state.events gameLocal.time EV_AnimDone len [self.current_anim_index]
          else
            state.events
        -- offset the start time of the shader to sync it to the game time
        let offset := -MS2SEC gameLocal.time
        let self := { self with toidEntity := self.toidEntity.SetShaderParm SHADERPARM_TIMEOFFSET offset }
        let self := { self with toidEntity := self.toidEntity.UpdateVisuals }
        { state with self := self
                     events := events }

/-- Event handler idAnimated::Event_AnimDone (Misc.cpp 1140-1156). -/
def idAnimated.Event_AnimDone (collaborators : AnimatorCollaborators) (gameLocal : idGameLocal)
    (animindex : Int) (state : AnimationState) : AnimationState :=
  let state :=
    if animindex ≥ state.self.num_anims ∧ state.self.spawnArgs.GetBool "remove" = true then
      { state with self := { state.self with toidEntity := state.self.toidEntity.Hide }
                   events := PostEventMS state.events gameLocal.time EV_Remove 0 [] }
    else if state.self.spawnArgs.GetBool "auto_advance" then
      idAnimated.PlayNextAnim collaborators gameLocal state
    else
      { state with self := { state.self with activated := false } }
  { state with activations := state.activations ++ [state.self.activator] }

/-- Event handler idAnimated::Event_Start (Misc.cpp 1185-1218). -/
def idAnimated.Event_Start (collaborators : AnimatorCollaborators) (gameLocal : idGameLocal)
    (state : AnimationState) : AnimationState :=
  let state := { state with self := { state.self with toidEntity := state.self.toidEntity.Show } }
  if state.self.num_anims ≠ 0 then
    idAnimated.PlayNextAnim collaborators gameLocal state
  else
    let self := state.self
    let events :=
      if self.anim ≠ 0 then
        let cycle := self.spawnArgs.GetInt "cycle" "1"
        let len := collaborators.PlayLength self.anim cycle
        if len ≥ 0 then PostEventMS state.events gameLocal.time EV_AnimDone len [1]
        else state.events
      else
        state.events
    -- offset the start time of the shader to sync it to the game time
    let offset := -MS2SEC gameLocal.time
    let self := { self with toidEntity := self.toidEntity.SetShaderParm SHADERPARM_TIMEOFFSET offset }
    let self := { self with toidEntity := self.toidEntity.UpdateVisuals }
    { state with self := self
                 events := events }

/-- Event handler idAnimated::Event_Activate (Misc.cpp 1163-1178) for the given activator
(`none` is NULL). The event EV_Animated_Start is processed at once, by Event_Start. -/
def idAnimated.Event_Activate (collaborators : AnimatorCollaborators) (gameLocal : idGameLocal)
    (_activator : Option Nat) (state : AnimationState) : AnimationState :=
  if state.self.num_anims ≠ 0 then
    let state := idAnimated.PlayNextAnim collaborators gameLocal state
    { state with self := { state.self with activator := ⟨_activator⟩ } }
  else if state.self.activated then
    -- already activated
    state
  else
    let state := { state with self := { state.self with activated := true } }
    let state := { state with self := { state.self with activator := ⟨_activator⟩ } }
    idAnimated.Event_Start collaborators gameLocal state

/-! ## idEarthQuake: Spawn, Event_Activate and Think -/

/-- Modelled from the spec: `PostEventSec` posts the event with the delay, given in
seconds, converted to milliseconds. -/
def PostEventSec (events : List idEvent) (now : Int) (eventdef : idEventDef) (time : Rat)
    (args : List Int) : List idEvent :=
  PostEventMS events now eventdef (SEC2MS time) args

/-- Modelled from the spec: the sound world, outside Misc.cpp: the shake amplitude at a
game time for the view position of a player. -/
structure QuakeCollaborators where
  CurrentShakeAmplitudeForPosition : Int → Nat → Rat

/-- The state the handlers of one idEarthQuake act on: the entity, its pending events,
the activators of the `ActivateTargets` calls made so far, the sounds started so far (the
shader name, and the player when the sound is started on the player), the magnitudes of
the `RadiusPush` calls made so far, and the random stream of the game. -/
structure QuakeState where
  self : idEarthQuake := {}
  events : List idEvent := []
  activations : List (Option Nat) := []
  sounds : List (String × Option Nat) := []
  pushes : List Rat := []
  random : idRandom := {}

/-- Method idEarthQuake::Spawn (Misc.cpp 2552-2566) of the entity with number `this`, run
at game time `gameLocal.time`. -/
def idEarthQuake.Spawn (atof : String → Rat) (gameLocal : idGameLocal) (this : Nat)
    (state : QuakeState) : QuakeState :=
  let self := state.self
  let triggered := self.spawnArgs.GetBool "triggered"
  let self :=
    { self with
      nextTriggerTime := 0
      shakeStopTime := 0
      wait := idDict.GetFloat atof self.spawnArgs "wait" "15"
      random := idDict.GetFloat atof self.spawnArgs "random" "5"
      triggered := triggered
      playerOriented := self.spawnArgs.GetBool "playerOriented"
      disabled := false
      shakeTime := idDict.GetFloat atof self.spawnArgs "shakeTime" "0" }
  let events :=
    if triggered = false then
      PostEventSec state.events gameLocal.time EV_Activate
        (idDict.GetFloat atof self.spawnArgs "wait") [Int.ofNat this]
    else
      state.events
  let self := { self with toidEntity := self.toidEntity.BecomeInactive TH_THINK }
  { state with self := self
               events := events }

/-- The part of idEarthQuake::Event_Activate that starts the quake (Misc.cpp 2600-2622),
for the local player `player`. -/
def idEarthQuake.Event_ActivateQuake (gameLocal : idGameLocal) (this : Nat)
    (activator : Option Nat) (player : Nat) (state : QuakeState) : QuakeState :=
  let state := { state with activations := state.activations ++ [activator] }
  let shader := state.self.spawnArgs.GetString "snd_quake"
  let listener := if state.self.playerOriented then some player else none
  let state := { state with sounds := state.sounds ++ [(shader, listener)] }
  let state : QuakeState :=
    if state.self.shakeTime > 0 then
      let stop := gameLocal.time + SEC2MS state.self.shakeTime
      let self := { state.self with shakeStopTime := stop }
      { state with self := { self with toidEntity := self.toidEntity.BecomeActive TH_THINK } }
    else
      state
  if state.self.wait > 0 then
    let drawn := state.random.CRandomFloat
    let delay := state.self.wait + state.self.random * drawn.1
    if state.self.triggered = false then
      { state with events := PostEventSec state.events gameLocal.time EV_Activate delay
                               [Int.ofNat this]
                   random := drawn.2 }
    else
      { state with self := { state.self with nextTriggerTime := gameLocal.time + SEC2MS delay }
                   random := drawn.2 }
  else if state.self.shakeTime = 0 then
    { state with events := PostEventMS state.events gameLocal.time EV_Remove 0 [] }
  else
    state

/-- Event handler idEarthQuake::Event_Activate (Misc.cpp 2573-2623) of the entity with
number `this`, for the given activator (`none` is NULL), run at game time
`gameLocal.time`. The assignment `disabled ^= 1` toggles the flag. -/
def idEarthQuake.Event_Activate (gameLocal : idGameLocal) (this : Nat)
    (activator : Option Nat) (state : QuakeState) : QuakeState :=
  if state.self.nextTriggerTime > gameLocal.time then
    state
  else if state.self.disabled = true ∧ activator = some this then
    state
  else
    match gameLocal.GetLocalPlayer with
    | none => state
    | some player =>
      let state := { state with self := { state.self with nextTriggerTime := 0 } }
      if state.self.triggered = false ∧ activator ≠ some this then
        -- if we are not triggered ( i.e. random ), disable or enable
        let state := { state with self := { state.self with disabled := !state.self.disabled } }
        if state.self.disabled then
          state
        else
          let drawn := state.random.CRandomFloat
          let delay := state.self.wait + state.self.random * drawn.1
          let state :=
            { state with events := PostEventSec state.events gameLocal.time EV_Activate delay
                                     [Int.ofNat this]
                         random := drawn.2 }
          idEarthQuake.Event_ActivateQuake gameLocal this activator player state
      else
        idEarthQuake.Event_ActivateQuake gameLocal this activator player state

/-- Method idEarthQuake::Think (Misc.cpp 2631-2644), run at game time `gameLocal.time`.
The view position is read through the local player without a NULL check. -/
def idEarthQuake.Think (collaborators : QuakeCollaborators) (gameLocal : idGameLocal)
    (state : QuakeState) : Except Fault QuakeState :=
  let self := state.self
  if self.thinkFlags &&& TH_THINK ≠ 0 then
    if gameLocal.time > self.shakeStopTime then
      let self := { self with toidEntity := self.toidEntity.BecomeInactive TH_THINK }
      if self.wait ≤ 0 then
        .ok { state with self := self
                         events := PostEventMS state.events gameLocal.time EV_Remove 0 [] }
      else
        .ok { state with self := self }
    else
      match gameLocal.GetLocalPlayer with
      | none => .error .NullDereference
      | some player =>
        let shakeVolume :=
          collaborators.CurrentShakeAmplitudeForPosition gameLocal.time player
        let self := { self with toidEntity := self.toidEntity.BecomeInactive TH_UPDATEVISUALS }
        .ok { state with self := self
                         pushes := state.pushes ++ [1500 * shakeVolume] }
  else
    .ok { state with self := { self with toidEntity :=
                                 self.toidEntity.BecomeInactive TH_UPDATEVISUALS } }

/-- Modelled from the spec: the persistent state of an object is written base class
first: the base entity writes the activation mask, then the class writes its own
fields. -/
def idEarthQuake.SaveObject (self : idEarthQuake) (savefile : idSaveGame) : idSaveGame :=
  self.Save (self.toidEntity.Save savefile)

/-- Modelled from the spec: the object is restored in the order it was saved: the base
entity restores the activation mask, then `idEarthQuake::Restore` runs. -/
def idEarthQuake.RestoreObject (self : idEarthQuake) (gameLocal : idGameLocal)
    (savefile : idRestoreGame) : Option (idEarthQuake × idRestoreGame) := do
  let (base, savefile) ← self.toidEntity.Restore savefile
  idEarthQuake.Restore { self with toidEntity := base } gameLocal savefile

/-- The states of an idEarthQuake that can be reached, each with the game time it is
reached at: from Spawn at a non-negative game time, by Event_Activate and by Think at game
times that do not decrease, and by the passing of time without a call. -/
inductive idEarthQuake.Reachable (collaborators : QuakeCollaborators) (this : Nat) :
    QuakeState → Int → Prop where
  | spawn (atof : String → Rat) (gameLocal : idGameLocal) (state : QuakeState)
      (htime : 0 ≤ gameLocal.time) :
      idEarthQuake.Reachable collaborators this
        (idEarthQuake.Spawn atof gameLocal this state) gameLocal.time
  | activate (gameLocal : idGameLocal) (activator : Option Nat) (state : QuakeState)
      (now : Int) (h : idEarthQuake.Reachable collaborators this state now)
      (htime : now ≤ gameLocal.time) :
      idEarthQuake.Reachable collaborators this
        (idEarthQuake.Event_Activate gameLocal this activator state) gameLocal.time
  | think (gameLocal : idGameLocal) (state next : QuakeState) (now : Int)
      (h : idEarthQuake.Reachable collaborators this state now)
      (htime : now ≤ gameLocal.time)
      (hstep : idEarthQuake.Think collaborators gameLocal state = .ok next) :
      idEarthQuake.Reachable collaborators this next gameLocal.time
  | pass (state : QuakeState) (now later : Int)
      (h : idEarthQuake.Reachable collaborators this state now) (htime : now ≤ later) :
      idEarthQuake.Reachable collaborators this state later

/-! ## idStaticEntity: Spawn and Fade -/

/-- Modelled from the spec: `GetColor( out )` of the base entity reads the colour from
the visual state. -/
def idEntity.GetColor (self : idEntity) : idVec4 :=
  ⟨self.renderEntity.shaderParms SHADERPARM_RED, self.renderEntity.shaderParms SHADERPARM_GREEN,
    self.renderEntity.shaderParms SHADERPARM_BLUE, self.renderEntity.shaderParms SHADERPARM_ALPHA⟩

/-- Modelled from the spec: contents bit of bodies that only projectiles hit; the constant
is declared outside Misc.cpp and only passed on. -/
def CONTENTS_SHOOTABLE : Int := 4096

/-- Modelled from the spec: `idStr::Icmp( a, b ) == 0`: the strings are equal when case is
ignored. -/
def idStr.IcmpEq (a b : String) : Bool := a.toLower == b.toLower

/-- Modelled from the spec: `idStr::Find( text ) >= 0`: the text occurs in the string. -/
def idStr.Contains (s text : String) : Bool := decide ((s.splitOn text).length > 1)

/-- Method idStaticEntity::Spawn (Misc.cpp 1374-1421), run at game time `gameLocal.time`
with the configuration `world` of the world entity and the random stream of the game. A
fatal `gameLocal.Error` ends the spawn; the error carries the entity as it is at that
point. -/
def idStaticEntity.Spawn (gameLocal : idGameLocal) (world : idDict) (random : idRandom)
    (self : idStaticEntity) : Except (Fault × idStaticEntity) (idStaticEntity × idRandom) :=
  -- an inline static model will not do anything at all
  if self.spawnArgs.GetInt "inline" ≠ 0 ∨ world.GetBool "inlineAllStatics" = true then
    if idStr.IcmpEq (self.spawnArgs.GetString "classname") "func_static" then
      .error (.Error ("Attempted to spawn inline func_static "
        ++ self.spawnArgs.GetString "name"), self)
    else
      .ok (self.Hide, random)
  else
    let solid := self.spawnArgs.GetBool "solid"
    let hidden := self.spawnArgs.GetBool "hide"
    let contents := if solid = true ∧ hidden = false then CONTENTS_SOLID else 0
    -- Only projectiles hit, not monsters or players
    let contents := if self.spawnArgs.GetBool "bulletsonly" then CONTENTS_SHOOTABLE else contents
    let model := self.spawnArgs.GetString "model"
    -- we want the parametric particles out of sync with each other
    let drawn := if idStr.Contains model ".prt" then random.RandomIntMax 32767 else (0, random)
    let offset : Rat :=
      if idStr.Contains model ".prt" then ((drawn.1 : Int) : Rat)
      else self.renderEntity.shaderParms SHADERPARM_TIMEOFFSET
    let runGui := self.spawnArgs.GetBool "runGui"
    let base := (self.toidEntity.SetContents contents).SetShaderParm SHADERPARM_TIMEOFFSET offset
    -- NOTE: this should be used very rarely because it is expensive
    let base := if runGui then base.BecomeActive TH_THINK else base
    .ok ({ self with
           toidEntity := base
           spawnTime := gameLocal.time
           active := false
           fadeFrom := ⟨1, 1, 1, 1⟩
           fadeTo := ⟨1, 1, 1, 1⟩
           fadeStart := 0
           fadeEnd := 0
           runGui := runGui }, drawn.2)

/-- Method idStaticEntity::Fade (Misc.cpp 1470-1476), run at game time
`gameLocal.time`; `toColor` is the argument named `to` in the source. -/
def idStaticEntity.Fade (gameLocal : idGameLocal) (self : idStaticEntity) (toColor : idVec4)
    (fadeTime : Rat) : idStaticEntity :=
  { self with
    toidEntity := self.toidEntity.BecomeActive TH_THINK
    fadeFrom := self.toidEntity.GetColor
    fadeTo := toColor
    fadeStart := gameLocal.time
    fadeEnd := gameLocal.time + SEC2MS fadeTime }

/-! ## idPhantomObjects: the reachable states -/

/-- The states of an idPhantomObjects that can be reached: from the constructor, which
leaves both lists empty, by Spawn, and by every Event_Activate, Think and Restore that
completes, with any arguments. -/
inductive idPhantomObjects.Reachable (collaborators : ThinkCollaborators) :
    idPhantomObjects → Prop where
  | construct (base : idEntity) :
      idPhantomObjects.Reachable collaborators { toidEntity := base }
  | spawn (atof : String → Rat) (ParseVector : String → idVec3) (self : idPhantomObjects)
      (h : idPhantomObjects.Reachable collaborators self) :
      idPhantomObjects.Reachable collaborators (idPhantomObjects.Spawn atof ParseVector self)
  | activate (atof : String → Rat) (gameLocal : idGameLocal) (entities : EntityRegistry)
      (random random1 : idRandom) (activator : Option Nat) (self next : idPhantomObjects)
      (h : idPhantomObjects.Reachable collaborators self)
      (hstep : idPhantomObjects.Event_Activate atof gameLocal entities random activator self
        = .ok (next, random1)) :
      idPhantomObjects.Reachable collaborators next
  | think (gameLocal : idGameLocal) (entities entities1 : EntityRegistry)
      (random random1 : idRandom) (self next : idPhantomObjects)
      (h : idPhantomObjects.Reachable collaborators self)
      (hstep : idPhantomObjects.Think collaborators gameLocal entities random self
        = .ok (next, entities1, random1)) :
      idPhantomObjects.Reachable collaborators next
  | restore (junkTime : Int) (junkPos : idVec3) (savefile savefile1 : idRestoreGame)
      (self next : idPhantomObjects)
      (h : idPhantomObjects.Reachable collaborators self)
      (hstep : idPhantomObjects.Restore self junkTime junkPos savefile
        = some (next, savefile1)) :
      idPhantomObjects.Reachable collaborators next

/-! ## idForceField::Spawn -/

/-- Modelled from the spec: how a force field acts on the bodies inside its volume: as a
force, as a velocity change, or as an impulse. -/
inductive forceFieldApplyType where
  | FORCEFIELD_APPLY_FORCE
  | FORCEFIELD_APPLY_VELOCITY
  | FORCEFIELD_APPLY_IMPULSE
deriving DecidableEq, Repr

/-- The configuration calls idForceField makes on the force object it owns: the three
calls that choose the field type with its magnitude (a constant force, an explosion, an
implosion), and the calls that set the random torque, the apply type, the two filters and
the collision model. -/
inductive ForceFieldCall where
  | Uniform (force : idVec3)
  | Explosion (force : Rat)
  | Implosion (force : Rat)
  | RandomTorque (force : Rat)
  | SetApplyType (type : forceFieldApplyType)
  | SetPlayerOnly (set : Bool)
  | SetMonsterOnly (set : Bool)
  | SetClipModel
deriving DecidableEq, Repr

/-- Whether the call chooses the field type. -/
def ForceFieldCall.isFieldType : ForceFieldCall → Bool
  | .Uniform _ => true
  | .Explosion _ => true
  | .Implosion _ => true
  | _ => false

/-- Whether the call sets the apply type. -/
def ForceFieldCall.isApplyType : ForceFieldCall → Bool
  | .SetApplyType _ => true
  | _ => false

/-- The state idForceField::Spawn acts on: the entity, the configuration calls made on
its force object so far, and whether the physics object of the entity still has its
collision model. -/
structure ForceFieldState where
  self : idForceField := {}
  calls : List ForceFieldCall := []
  physicsClipModel : Bool := true

/-- Method idForceField::Spawn (Misc.cpp 777-813); `atof` and `ParseVector` are the
readers of the configuration collaborator for numbers and vectors. The lookups with an
output argument return whether the key was found. -/
def idForceField.Spawn (atof : String → Rat) (ParseVector : String → idVec3)
    (state : ForceFieldState) : ForceFieldState :=
  let self := state.self
  let calls := state.calls
  let calls :=
    match self.spawnArgs.FindKey "uniform" with
    | some uniform => calls ++ [ForceFieldCall.Uniform (ParseVector uniform)]
    | none =>
      match self.spawnArgs.FindKey "explosion" with
      | some explosion => calls ++ [ForceFieldCall.Explosion (atof explosion)]
      | none =>
        match self.spawnArgs.FindKey "implosion" with
        | some implosion => calls ++ [ForceFieldCall.Implosion (atof implosion)]
        | none => calls
  let calls :=
    match self.spawnArgs.FindKey "randomTorque" with
    | some randomTorque => calls ++ [ForceFieldCall.RandomTorque (atof randomTorque)]
    | none => calls
  let calls :=
    if self.spawnArgs.GetBool "applyForce" "0" then
      calls ++ [ForceFieldCall.SetApplyType .FORCEFIELD_APPLY_FORCE]
    else if self.spawnArgs.GetBool "applyImpulse" "0" then
      calls ++ [ForceFieldCall.SetApplyType .FORCEFIELD_APPLY_IMPULSE]
    else
      calls ++ [ForceFieldCall.SetApplyType .FORCEFIELD_APPLY_VELOCITY]
  let calls := calls ++ [ForceFieldCall.SetPlayerOnly (self.spawnArgs.GetBool "playerOnly" "0")]
  let calls := calls ++ [ForceFieldCall.SetMonsterOnly (self.spawnArgs.GetBool "monsterOnly" "0")]
  -- set the collision model on the force field
  let calls := calls ++ [ForceFieldCall.SetClipModel]
  -- remove the collision model from the physics object
  let physicsClipModel := false
  let self :=
    if self.spawnArgs.GetBool "start_on" then
      { self with toidEntity := self.toidEntity.BecomeActive TH_THINK }
    else
      self
  { self := self, calls := calls, physicsClipModel := physicsClipModel }

/-- Method idForceField::Toggle (Misc.cpp 733-739). -/
def idForceField.Toggle (self : idForceField) : idForceField :=
  if self.thinkFlags &&& TH_THINK ≠ 0 then
    { self with toidEntity := self.toidEntity.BecomeInactive TH_THINK }
  else
    { self with toidEntity := self.toidEntity.BecomeActive TH_THINK }

/-! ## Concrete states used as witnesses -/

/-- A static entity in the middle of a fade. -/
def exampleFading : idStaticEntity := { spawnTime := 100, fadeStart := 100, fadeEnd := 600 }

/-- A phantom-objects entity with two scheduled objects. -/
def examplePhantom : idPhantomObjects :=
  { targetTime := [1500, 2300], lastTargetPos := [⟨1, 2, 3⟩, ⟨4, 5, 6⟩], end_time := 9000,
    speed := 1200 }

/-- An activator that stays on and is currently thinking. -/
def exampleActivator : idActivator := { stay_on := true, thinkFlags := TH_THINK }

/-- Beam A of the witness: its targets are a destroyed entity and then beam 2. -/
def exampleBeamA : idBeam := { targets := [⟨some 7⟩, ⟨some 2⟩] }

/-- Beam B of the witness. -/
def exampleBeamB : idBeam := {}

/-- A registry with beam A at 1 and beam B at 2. -/
def exampleBeams : EntityRegistry := fun num =>
  if num = 1 then some (.Beam exampleBeamA)
  else if num = 2 then some (.Beam exampleBeamB)
  else none

/-- The registry after the allocation phase of a restore: fresh beams at 1 and 2. -/
def exampleAllocated : EntityRegistry := fun num =>
  if num = 1 then some (.Beam {})
  else if num = 2 then some (.Beam {})
  else none

/-- An active phantom-objects entity whose target reference names entity 5. -/
def examplePhantomActive : idPhantomObjects := { thinkFlags := TH_THINK, target := ⟨some 5⟩ }

/-- Collaborators of the missile chain in which only the definition "rocket" and the
joints "muzzle" and "aim" exist; frames are 24 per second. -/
def exampleMissiles : MissileCollaborators :=
  { FindEntityDefDict := fun name => if name = "rocket" then some ⟨true⟩ else none
    GetJointHandle := fun joint =>
      if joint = "muzzle" then 3 else if joint = "aim" then 4 else INVALID_JOINT
    FRAME2MS := fun framenum => (framenum * 1000).tdiv 24 }

/-- A missile chain in progress: one update of an earlier call is pending. -/
def exampleChain : MissileState :=
  { events := [⟨.EV_LaunchMissilesUpdate, 83, [3, 4, 1, 2]⟩],
    projectiles := [⟨"rocket", 3, 4, 0⟩] }

/-- A damagable crate with a broken model configured and a health of 20. -/
def exampleCrate : idDamagable :=
  { spawnArgs := [("health", "20"), ("broken", "models/crate_broken.lwo")] }

/-- Collaborators of a map without portals: no bounds contact one. -/
def exampleNoPortals : PortalCollaborators :=
  { GetVector := fun _ _ => vec3_origin
    GetAbsBounds := fun e => idBounds.ofPoint e.origin
    FindPortal := fun _ => 0 }

/-- Collaborators of a map in which every bounds contact portal 3. -/
def examplePortals : PortalCollaborators :=
  { GetVector := fun _ _ => vec3_origin
    GetAbsBounds := fun e => idBounds.ofPoint e.origin
    FindPortal := fun _ => 3 }

/-- A location separator of the map. -/
def exampleSeparator : idLocationSeparatorEntity :=
  { spawnArgs := [("name", "sep_1"), ("origin", "512 0 0")] }

/-- A portal entity bound to portal 3 and currently open. -/
def examplePortalEntity : idFuncPortal := { portal := 3, state := false }

/-- A throwable crate at (10, 0, 0), entity 7 of the witness. -/
def exampleThrowable : gameEntity := .Moveable { origin := ⟨10, 0, 0⟩ }

/-- Collaborators of Think for which every trace is blocked half way by the world. -/
def exampleBlocked : ThinkCollaborators :=
  { TracePoint := fun _ _ _ => ⟨1 / 2, none⟩
    PredictTrajectory := fun _ aim _ _ => aim }

/-- A registry with an actor at 5, whose eyes are at (0, 0, 64), and the throwable crate
at 7. -/
def exampleThinkRegistry : EntityRegistry := fun num =>
  if num = 5 then some (.Actor { eyePosition := ⟨0, 0, 64⟩ })
  else if num = 7 then some exampleThrowable
  else none

/-- An active phantom-objects entity aimed at actor 5; its object 0, entity 7, is overdue
for its throw at time 1000 and remembers (1, 2, 3) as the last position it had a clear
line to. -/
def exampleThinkingPhantom : idPhantomObjects :=
  { thinkFlags := TH_THINK, target := ⟨some 5⟩, targets := [⟨some 7⟩], targetTime := [900],
    lastTargetPos := [⟨1, 2, 3⟩], shake_time := 1, speed := 2 }

/-- Base-entity collaborators that present the entity when a visual update is pending and
clear that flag; the force evaluation leaves the bodies where they are. -/
def exampleTick : TickCollaborators :=
  { Think := fun e => (e.BecomeInactive TH_UPDATEVISUALS).UpdateVisuals
    Present := fun e => (e.BecomeInactive TH_UPDATEVISUALS).UpdateVisuals
    Evaluate := fun _ _ entities => entities }

/-- A static entity that runs its user interface every tick and is not fading. -/
def exampleGuiStatic : idStaticEntity :=
  { thinkFlags := TH_THINK ||| TH_UPDATEVISUALS, runGui := true, spawnTime := 100 }

/-- Collaborators of idFuncSmoke for which every named declaration exists and every effect
keeps running. -/
def exampleSmoke : SmokeCollaborators :=
  { FindType := fun name => some name
    EmitSmoke := fun _ _ _ _ => true }

/-- A smoke entity configured to start off and without a "smoke" key, spawned at time 0 and
triggered at time 100. -/
def exampleSmokeTriggered : idFuncSmoke :=
  idFuncSmoke.Event_Activate { time := 100 }
    (idFuncSmoke.Spawn exampleSmoke {} { spawnArgs := [("start_off", "1")] })

/-- A registry with path corners 2, 3 and 5 and a plain entity 4. -/
def examplePaths : EntityRegistry := fun num =>
  if num = 2 ∨ num = 3 ∨ num = 5 then some (.PathCorner {})
  else if num = 4 then some (.Entity {})
  else none

/-- An entity whose targets name a destroyed entity, the path corners 2, 3 and 5 and the
plain entity 4. -/
def examplePathSource : idEntity :=
  { targets := [⟨some 9⟩, ⟨some 2⟩, ⟨some 4⟩, ⟨some 3⟩, ⟨none⟩, ⟨some 5⟩] }

/-- A crate that hides when broken, broken at time 1000 and due again at time 3000. -/
def exampleBrokenCrate : DamagableState :=
  { self := { spawnArgs := [("hideWhenBroken", "1"), ("wait", "2")]
              health := -3
              count := 2
              nextTriggerTime := 3000 } }

/-- An animator that knows every animation; each plays for one second. -/
def exampleAnimator : AnimatorCollaborators :=
  { GetJointHandle := fun _ => 0
    ModelDef := true
    GetAnim := fun _ => 1
    PlayLength := fun _ _ => 1000 }

/-- An idAnimated with a sequence of two animations, before Spawn. -/
def exampleSequence : AnimationState :=
  { self := { spawnArgs := [("num_anims", "2"), ("anim1", "open"), ("anim2", "close")] } }

/-- A sound world that is silent. -/
def exampleQuiet : QuakeCollaborators :=
  { CurrentShakeAmplitudeForPosition := fun _ _ => 0 }

/-- A game at time 2000 with local player 0. -/
def exampleGameWithPlayer : idGameLocal :=
  { time := 2000
    localPlayer := some 0 }

/-- An earthquake that repeats by itself (not triggered), enabled, with wait 15. -/
def exampleQuake : QuakeState :=
  { self := { wait := 15
              random := 5 } }

/-- The same earthquake, disabled. -/
def exampleQuakeDisabled : QuakeState :=
  { self := { wait := 15
              random := 5
              disabled := true } }

/-- A static entity that runs its user interface, with a fade to black that started at
time 1000 and ends at time 3000. -/
def exampleFadingGui : idStaticEntity :=
  { thinkFlags := 1
    renderEntity := { gui := fun k => decide (k = 0) }
    fadeFrom := ⟨1, 1, 1, 1⟩
    fadeTo := ⟨0, 0, 0, 1⟩
    fadeStart := 1000
    fadeEnd := 3000
    runGui := true }

/-- The phantom-objects entity that Restore makes of a fresh entity and the saved state of
the example with two scheduled objects. -/
def examplePhantomRestored : idPhantomObjects :=
  { end_time := 9000, speed := 1200, targetTime := [1500, 2300],
    lastTargetPos := [⟨1, 2, 3⟩, ⟨4, 5, 6⟩] }

/-- A force field configured with an explosion of 500 and nothing else. -/
def exampleExplosionField : ForceFieldState :=
  { self := { spawnArgs := [("explosion", "500")] } }

/-- A reader of numbers that knows the text "500". -/
def exampleAtof (s : String) : Rat := if s = "500" then 500 else 0

/-! # Properties -/

/-! ## Machine arithmetic: rounding to binary32 -/

theorem roundEven_bounds (q : Rat) : ⌊q⌋ ≤ roundEven q ∧ roundEven q ≤ ⌊q⌋ + 1 := by
  unfold roundEven
  dsimp only
  split_ifs <;> constructor <;> omega

theorem roundEven_intCast (n : Int) : roundEven (n : Rat) = n := by
  unfold roundEven
  dsimp only
  rw [Int.floor_intCast, sub_self, if_pos (by norm_num)]

theorem roundEven_mono {a b : Rat} (h : a ≤ b) : roundEven a ≤ roundEven b := by
  have hfloor : ⌊a⌋ ≤ ⌊b⌋ := Int.floor_mono h
  rcases lt_or_eq_of_le hfloor with hlt | heq
  · have := (roundEven_bounds a).2
    have := (roundEven_bounds b).1
    omega
  · unfold roundEven
    dsimp only
    rw [heq]
    have hcast : ((⌊a⌋ : Int) : Rat) = ((⌊b⌋ : Int) : Rat) := by rw [heq]
    split_ifs <;> first | omega | (exfalso; linarith)

theorem f32.exponent_ge (q : Rat) : -126 ≤ f32.exponent q := by
  unfold f32.exponent
  split_ifs with h
  · exact le_refl _
  · have hpos : (0 : Rat) < |q| := lt_of_lt_of_le (by positivity) (not_lt.mp h)
    exact (Int.zpow_le_iff_le_log (by norm_num) hpos).mp (not_lt.mp h)

theorem f32.lt_exponent_succ (q : Rat) : |q| < 2 ^ (f32.exponent q + 1) := by
  unfold f32.exponent
  split_ifs with h
  · exact lt_trans h (by norm_num)
  · exact Int.lt_zpow_succ_log_self (by norm_num) _

theorem f32.exponent_le (q : Rat) (h : -126 < f32.exponent q) :
    2 ^ (f32.exponent q) ≤ |q| := by
  unfold f32.exponent at h ⊢
  split_ifs at h ⊢ with hsub
  · exact absurd h (lt_irrefl _)
  · have hpos : (0 : Rat) < |q| := lt_of_lt_of_le (by positivity) (not_lt.mp hsub)
    exact Int.zpow_log_le_self (by norm_num) hpos

theorem f32.ulp_pos (q : Rat) : (0 : Rat) < 2 ^ (f32.exponent q - 23) := by positivity

theorem f32.zpow_succ_eq (e : Int) : (2 : Rat) ^ (e + 1) = 16777216 * 2 ^ (e - 23) := by
  have h : (2 : Rat) ^ (e + 1) = 2 ^ (24 : Int) * 2 ^ (e - 23) := by
    rw [← zpow_add₀ (by norm_num : (2 : Rat) ≠ 0)]
    congr 1
    ring
  rw [h]
  norm_num

theorem f32.zpow_eq (e : Int) : (2 : Rat) ^ e = 8388608 * 2 ^ (e - 23) := by
  have h : (2 : Rat) ^ e = 2 ^ (23 : Int) * 2 ^ (e - 23) := by
    rw [← zpow_add₀ (by norm_num : (2 : Rat) ≠ 0)]
    congr 1
    ring
  rw [h]
  norm_num

/-- The rounded value does not leave the binade of its argument. -/
theorem f32_abs_le (q : Rat) :
    -(2 ^ (f32.exponent q + 1)) ≤ f32 q ∧ f32 q ≤ 2 ^ (f32.exponent q + 1) := by
  have hu := f32.ulp_pos q
  have hlt := f32.lt_exponent_succ q
  rw [f32.zpow_succ_eq] at hlt ⊢
  have habs := abs_lt.mp hlt
  unfold f32
  dsimp only
  constructor
  · have h1 : ((-16777216 : Int) : Rat) ≤ q / 2 ^ (f32.exponent q - 23) := by
      rw [le_div_iff₀ hu]
      push_cast
      linarith [habs.1]
    have h2 := roundEven_mono h1
    rw [roundEven_intCast] at h2
    have h3 : ((-16777216 : Int) : Rat) ≤ (roundEven (q / 2 ^ (f32.exponent q - 23)) : Rat) := by
      exact_mod_cast h2
    have := mul_le_mul_of_nonneg_right h3 (le_of_lt hu)
    push_cast at this
    linarith
  · have h1 : q / 2 ^ (f32.exponent q - 23) ≤ ((16777216 : Int) : Rat) := by
      rw [div_le_iff₀ hu]
      push_cast
      linarith [habs.2]
    have h2 := roundEven_mono h1
    rw [roundEven_intCast] at h2
    have h3 : (roundEven (q / 2 ^ (f32.exponent q - 23)) : Rat) ≤ ((16777216 : Int) : Rat) := by
      exact_mod_cast h2
    have := mul_le_mul_of_nonneg_right h3 (le_of_lt hu)
    push_cast at this
    linarith

/-- A value at or above the lower end of its normal binade stays there. -/
theorem f32_ge_binade (q : Rat) (hq : 0 ≤ q) (he : -126 < f32.exponent q) :
    2 ^ (f32.exponent q) ≤ f32 q := by
  have hu := f32.ulp_pos q
  have hle := f32.exponent_le q he
  rw [abs_of_nonneg hq, f32.zpow_eq] at hle
  rw [f32.zpow_eq]
  unfold f32
  dsimp only
  have h1 : ((8388608 : Int) : Rat) ≤ q / 2 ^ (f32.exponent q - 23) := by
    rw [le_div_iff₀ hu]
    push_cast
    linarith
  have h2 := roundEven_mono h1
  rw [roundEven_intCast] at h2
  have h3 : ((8388608 : Int) : Rat) ≤ (roundEven (q / 2 ^ (f32.exponent q - 23)) : Rat) := by
    exact_mod_cast h2
  have := mul_le_mul_of_nonneg_right h3 (le_of_lt hu)
  push_cast at this
  linarith

theorem f32_le_neg_binade (q : Rat) (hq : q ≤ 0) (he : -126 < f32.exponent q) :
    f32 q ≤ -(2 ^ (f32.exponent q)) := by
  have hu := f32.ulp_pos q
  have hle := f32.exponent_le q he
  rw [abs_of_nonpos hq, f32.zpow_eq] at hle
  rw [f32.zpow_eq]
  unfold f32
  dsimp only
  have h1 : q / 2 ^ (f32.exponent q - 23) ≤ ((-8388608 : Int) : Rat) := by
    rw [div_le_iff₀ hu]
    push_cast
    linarith
  have h2 := roundEven_mono h1
  rw [roundEven_intCast] at h2
  have h3 : (roundEven (q / 2 ^ (f32.exponent q - 23)) : Rat) ≤ ((-8388608 : Int) : Rat) := by
    exact_mod_cast h2
  have := mul_le_mul_of_nonneg_right h3 (le_of_lt hu)
  push_cast at this
  linarith

/-- Rounding to binary32 is monotone. -/
theorem f32_mono {a b : Rat} (h : a ≤ b) : f32 a ≤ f32 b := by
  rcases lt_trichotomy (f32.exponent a) (f32.exponent b) with hlt | heq | hgt
  · -- b lies in a higher binade: b is positive
    have heb : -126 < f32.exponent b := lt_of_le_of_lt (f32.exponent_ge a) hlt
    have hpow : (2 : Rat) ^ (f32.exponent a + 1) ≤ 2 ^ (f32.exponent b) :=
      zpow_le_zpow_right₀ (by norm_num) (by omega)
    have hb : 0 ≤ b := by
      by_contra hneg
      have hneg := not_le.mp hneg
      have h1 := f32.lt_exponent_succ a
      have h2 := f32.exponent_le b heb
      rw [abs_of_neg hneg] at h2
      rw [abs_of_neg (lt_of_le_of_lt h hneg)] at h1
      linarith
    exact le_trans (f32_abs_le a).2 (le_trans hpow (f32_ge_binade b hb heb))
  · unfold f32
    dsimp only
    rw [heq]
    have hu := f32.ulp_pos b
    apply mul_le_mul_of_nonneg_right _ (le_of_lt hu)
    exact_mod_cast roundEven_mono (div_le_div_of_nonneg_right h (le_of_lt hu))
  · have hea : -126 < f32.exponent a := lt_of_le_of_lt (f32.exponent_ge b) hgt
    have hpow : (2 : Rat) ^ (f32.exponent b + 1) ≤ 2 ^ (f32.exponent a) :=
      zpow_le_zpow_right₀ (by norm_num) (by omega)
    have ha : a ≤ 0 := by
      by_contra hpos
      have hpos := not_le.mp hpos
      have h1 := f32.lt_exponent_succ b
      have h2 := f32.exponent_le a hea
      rw [abs_of_pos hpos] at h2
      rw [abs_of_pos (lt_of_lt_of_le hpos h)] at h1
      linarith
    have := f32_le_neg_binade a ha hea
    have := (f32_abs_le b).1
    linarith

/-- A multiple of a power of two with fewer than 24 significant bits is a float. -/
theorem f32_fix_lt (q : Rat) (m k : Int) (hq : q = (m : Rat) * 2 ^ k) (hm : |m| < 16777216)
    (hk : -149 ≤ k) : f32 q = q := by
  have hu : f32.exponent q - 23 ≤ k := by
    by_contra hcon
    have hcon := not_le.mp hcon
    have he : -126 < f32.exponent q := by omega
    have h1 := f32.exponent_le q he
    have hmabs : |(m : Rat)| < 16777216 := by
      have : ((|m| : Int) : Rat) < ((16777216 : Int) : Rat) := by exact_mod_cast hm
      rwa [Int.cast_abs] at this
    have h2 : |q| < 2 ^ (k + 24) := by
      rw [hq, abs_mul, abs_of_pos (by positivity : (0 : Rat) < 2 ^ k)]
      have h24 : (2 : Rat) ^ (k + 24) = 16777216 * 2 ^ k := by
        rw [zpow_add₀ (by norm_num : (2 : Rat) ≠ 0)]
        norm_num
        ring
      rw [h24]
      exact mul_lt_mul_of_pos_right hmabs (by positivity)
    have h3 : (2 : Rat) ^ (k + 24) ≤ 2 ^ (f32.exponent q) :=
      zpow_le_zpow_right₀ (by norm_num) (by omega)
    linarith
  unfold f32
  dsimp only
  generalize f32.exponent q = e at hu
  obtain ⟨n, hn⟩ := Int.eq_ofNat_of_zero_le (sub_nonneg.mpr hu)
  have hk2 : k = (e - 23) + (n : Int) := by omega
  have hpos : (0 : Rat) < 2 ^ (e - 23) := by positivity
  have hdiv : q / 2 ^ (e - 23) = ((m * 2 ^ n : Int) : Rat) := by
    rw [div_eq_iff (ne_of_gt hpos), hq, hk2, zpow_add₀ (by norm_num : (2 : Rat) ≠ 0),
      zpow_natCast]
    push_cast
    ring
  rw [hdiv, roundEven_intCast, ← hdiv, div_mul_cancel₀ _ (ne_of_gt hpos)]

/-- A multiple of a power of two with at most 24 significant bits is a float: rounding
leaves it as it is. -/
theorem f32_fix (q : Rat) (m k : Int) (hq : q = (m : Rat) * 2 ^ k) (hm : |m| ≤ 16777216)
    (hk : -149 ≤ k) : f32 q = q := by
  rcases lt_or_eq_of_le hm with hlt | heq
  · exact f32_fix_lt q m k hq hlt hk
  · have h2 : (2 : Rat) ^ (k + 1) = 2 * 2 ^ k := by
      rw [zpow_add₀ (by norm_num : (2 : Rat) ≠ 0)]
      norm_num
      ring
    rcases abs_eq (by norm_num : (0 : Int) ≤ 16777216) |>.mp heq with h | h
    · apply f32_fix_lt q 8388608 (k + 1) _ (by norm_num) (by omega)
      rw [hq, h, h2]
      push_cast
      ring
    · apply f32_fix_lt q (-8388608) (k + 1) _ (by norm_num) (by omega)
      rw [hq, h, h2]
      push_cast
      ring

/-- An int of magnitude up to 2^24 is converted exactly. -/
theorem itof_exact (n : Int) (h : |n| ≤ 16777216) : itof n = n :=
  f32_fix n n 0 (by simp) h (by norm_num)

theorem f32_zero : f32 0 = 0 := f32_fix 0 0 0 (by simp) (by norm_num) (by norm_num)

theorem f32_one : f32 1 = 1 := f32_fix 1 1 0 (by simp) (by norm_num) (by norm_num)

theorem f32_nonneg {q : Rat} (h : 0 ≤ q) : 0 ≤ f32 q := by
  have := f32_mono h
  rwa [f32_zero] at this

theorem f32_nonpos {q : Rat} (h : q ≤ 0) : f32 q ≤ 0 := by
  have := f32_mono h
  rwa [f32_zero] at this

theorem itof_mono {a b : Int} (h : a ≤ b) : itof a ≤ itof b :=
  f32_mono (by exact_mod_cast h)


/-- The exponent of a value inside a normal binade. -/
theorem f32.exponent_eq (q : Rat) (e : Int) (hlo : 2 ^ e ≤ |q|) (hhi : |q| < 2 ^ (e + 1))
    (he : -126 ≤ e) : f32.exponent q = e := by
  have h1 := f32.lt_exponent_succ q
  have h3 := f32.exponent_ge q
  rcases lt_trichotomy (f32.exponent q) e with hlt | heq | hgt
  · have : (2 : Rat) ^ (f32.exponent q + 1) ≤ 2 ^ e :=
      zpow_le_zpow_right₀ (by norm_num) (by omega)
    linarith
  · exact heq
  · have h2 := f32.exponent_le q (by omega)
    have : (2 : Rat) ^ (e + 1) ≤ 2 ^ (f32.exponent q) :=
      zpow_le_zpow_right₀ (by norm_num) (by omega)
    linarith

/-- The value nearest to a number that is no tie. -/
theorem roundEven_eq (q : Rat) (n : Int) (hlo : (n : Rat) - 1 / 2 < q)
    (hhi : q < (n : Rat) + 1 / 2) : roundEven q = n := by
  have h1 : ((n - 1 : Int) : Rat) ≤ q := by push_cast; linarith
  have h2 : q < ((n + 1 : Int) : Rat) := by push_cast; linarith
  have hf1 : n - 1 ≤ ⌊q⌋ := Int.le_floor.mpr h1
  have hf2 : ⌊q⌋ < n + 1 := Int.floor_lt.mpr h2
  have hfl := Int.floor_le q
  have hfl2 := Int.lt_floor_add_one q
  unfold roundEven
  dsimp only
  rcases (by omega : ⌊q⌋ = n - 1 ∨ ⌊q⌋ = n) with h | h
  · have hc : ((⌊q⌋ : Int) : Rat) = (n : Rat) - 1 := by rw [h]; push_cast; ring
    rw [if_neg (by rw [hc]; linarith), if_pos (by rw [hc]; linarith)]
    omega
  · have hc : ((⌊q⌋ : Int) : Rat) = (n : Rat) := by rw [h]
    rw [if_pos (by rw [hc]; linarith)]
    exact h

/-- A tie goes to the even neighbour. -/
theorem roundEven_tie (q : Rat) (n : Int) (hq : q = (n : Rat) + 1 / 2) :
    roundEven q = if n % 2 = 0 then n else n + 1 := by
  have hf : ⌊q⌋ = n := by
    rw [Int.floor_eq_iff, hq]
    constructor <;> linarith
  unfold roundEven
  dsimp only
  rw [hf, hq, if_neg (by norm_num), if_neg (by norm_num)]

/-- The float nearest to a value of a known normal binade. -/
theorem f32_of_binade (q : Rat) (e : Int) (hlo : 2 ^ e ≤ |q|) (hhi : |q| < 2 ^ (e + 1))
    (he : -126 ≤ e) : f32 q = roundEven (q / 2 ^ (e - 23)) * 2 ^ (e - 23) := by
  unfold f32
  dsimp only
  rw [f32.exponent_eq q e hlo hhi he]

/-- The int 16777999 lies halfway between two floats and goes to the one with the even
significand, 16778000. -/
theorem itof_16777999 : itof 16777999 = 16778000 := by
  unfold itof
  rw [f32_of_binade _ 24 (by norm_num) (by norm_num) (by norm_num),
    roundEven_tie _ 8388999 (by norm_num)]
  norm_num

theorem itof_16778000 : itof 16778000 = 16778000 := by
  unfold itof
  exact f32_fix _ 8389000 1 (by norm_num) (by norm_num) (by norm_num)

/-- A time that lies in the past is negative in seconds too. -/
theorem MS2SEC_neg (t : Int) (h : t < 0) : MS2SEC t < 0 := by
  have hone : itof t ≤ -1 := by
    have h1 := itof_mono (show t ≤ -1 by omega)
    rw [itof_exact (-1) (by decide)] at h1
    exact_mod_cast h1
  have hmilli : 1 / 1024 ≤ f32 (1 / 1000) := by
    have h1 := f32_mono (show (1 / 1024 : Rat) ≤ 1 / 1000 by norm_num)
    rwa [f32_fix (1 / 1024) 1 (-10) (by norm_num) (by norm_num) (by norm_num)] at h1
  have hproduct : itof t * f32 (1 / 1000) ≤ -(1 / 1024) := by nlinarith
  have h1 := f32_mono hproduct
  rw [f32_fix (-(1 / 1024)) (-1) (-10) (by norm_num) (by norm_num) (by norm_num)] at h1
  unfold MS2SEC
  linarith

/-! ## Save and Restore visit the same typed fields in the same order -/

/-- Restore of idPlayerStart reads back, type for type, what its Save wrote. -/
theorem idPlayerStart_restore_reads_what_save_wrote (HUMANHEAD : Bool)
    (gameLocal gameLocal' : idGameLocal) (x y : idPlayerStart) (rest : List SaveItem) (build : Int) :
    ∃ y' g', MiscEntity.Restore HUMANHEAD gameLocal'
        ⟨MiscEntity.Save HUMANHEAD gameLocal [] (.PlayerStart x) ++ rest, [], build⟩ (.PlayerStart y)
      = some (y', g',
          ⟨rest, (MiscEntity.Save HUMANHEAD gameLocal [] (.PlayerStart x)).map SaveItem.type,
            build⟩) := by
  exact ⟨_, _, rfl⟩

/-- Restore of idActivator reads back, type for type, what its Save wrote. -/
theorem idActivator_restore_reads_what_save_wrote (HUMANHEAD : Bool)
    (gameLocal gameLocal' : idGameLocal) (x y : idActivator) (rest : List SaveItem) (build : Int) :
    ∃ y' g', MiscEntity.Restore HUMANHEAD gameLocal'
        ⟨MiscEntity.Save HUMANHEAD gameLocal [] (.Activator x) ++ rest, [], build⟩ (.Activator y)
      = some (y', g',
          ⟨rest, (MiscEntity.Save HUMANHEAD gameLocal [] (.Activator x)).map SaveItem.type,
            build⟩) := by
  rcases x with ⟨xe, stay⟩
  cases stay <;> exact ⟨_, _, rfl⟩

/-- Restore of idDamagable reads back, type for type, what its Save wrote. -/
theorem idDamagable_restore_reads_what_save_wrote (HUMANHEAD : Bool)
    (gameLocal gameLocal' : idGameLocal) (x y : idDamagable) (rest : List SaveItem) (build : Int) :
    ∃ y' g', MiscEntity.Restore HUMANHEAD gameLocal'
        ⟨MiscEntity.Save HUMANHEAD gameLocal [] (.Damagable x) ++ rest, [], build⟩ (.Damagable y)
      = some (y', g',
          ⟨rest, (MiscEntity.Save HUMANHEAD gameLocal [] (.Damagable x)).map SaveItem.type,
            build⟩) := by
  exact ⟨_, _, rfl⟩

/-- Restore of idSpring reads back, type for type, what its Save wrote. -/
theorem idSpring_restore_reads_what_save_wrote (HUMANHEAD : Bool)
    (gameLocal gameLocal' : idGameLocal) (x y : idSpring) (rest : List SaveItem) (build : Int) :
    ∃ y' g', MiscEntity.Restore HUMANHEAD gameLocal'
        ⟨MiscEntity.Save HUMANHEAD gameLocal [] (.Spring x) ++ rest, [], build⟩ (.Spring y)
      = some (y', g',
          ⟨rest, (MiscEntity.Save HUMANHEAD gameLocal [] (.Spring x)).map SaveItem.type,
            build⟩) := by
  exact ⟨_, _, rfl⟩

/-- Restore of idAnimated reads back, type for type, what its Save wrote. -/
theorem idAnimated_restore_reads_what_save_wrote (HUMANHEAD : Bool)
    (gameLocal gameLocal' : idGameLocal) (x y : idAnimated) (rest : List SaveItem) (build : Int) :
    ∃ y' g', MiscEntity.Restore HUMANHEAD gameLocal'
        ⟨MiscEntity.Save HUMANHEAD gameLocal [] (.Animated x) ++ rest, [], build⟩ (.Animated y)
      = some (y', g',
          ⟨rest, (MiscEntity.Save HUMANHEAD gameLocal [] (.Animated x)).map SaveItem.type,
            build⟩) := by
  exact ⟨_, _, rfl⟩

/-- Restore of idStaticEntity reads back, type for type, what its Save wrote. -/
theorem idStaticEntity_restore_reads_what_save_wrote (HUMANHEAD : Bool)
    (gameLocal gameLocal' : idGameLocal) (x y : idStaticEntity) (rest : List SaveItem) (build : Int) :
    ∃ y' g', MiscEntity.Restore HUMANHEAD gameLocal'
        ⟨MiscEntity.Save HUMANHEAD gameLocal [] (.StaticEntity x) ++ rest, [], build⟩ (.StaticEntity y)
      = some (y', g',
          ⟨rest, (MiscEntity.Save HUMANHEAD gameLocal [] (.StaticEntity x)).map SaveItem.type,
            build⟩) := by
  exact ⟨_, _, rfl⟩

/-- Restore of idFuncEmitter reads back, type for type, what its Save wrote. -/
theorem idFuncEmitter_restore_reads_what_save_wrote (HUMANHEAD : Bool)
    (gameLocal gameLocal' : idGameLocal) (x y : idFuncEmitter) (rest : List SaveItem) (build : Int) :
    ∃ y' g', MiscEntity.Restore HUMANHEAD gameLocal'
        ⟨MiscEntity.Save HUMANHEAD gameLocal [] (.FuncEmitter x) ++ rest, [], build⟩ (.FuncEmitter y)
      = some (y', g',
          ⟨rest, (MiscEntity.Save HUMANHEAD gameLocal [] (.FuncEmitter x)).map SaveItem.type,
            build⟩) := by
  exact ⟨_, _, rfl⟩

/-- Restore of idFuncSmoke reads back, type for type, what its Save wrote. -/
theorem idFuncSmoke_restore_reads_what_save_wrote (HUMANHEAD : Bool)
    (gameLocal gameLocal' : idGameLocal) (x y : idFuncSmoke) (rest : List SaveItem) (build : Int) :
    ∃ y' g', MiscEntity.Restore HUMANHEAD gameLocal'
        ⟨MiscEntity.Save HUMANHEAD gameLocal [] (.FuncSmoke x) ++ rest, [], build⟩ (.FuncSmoke y)
      = some (y', g',
          ⟨rest, (MiscEntity.Save HUMANHEAD gameLocal [] (.FuncSmoke x)).map SaveItem.type,
            build⟩) := by
  exact ⟨_, _, rfl⟩

/-- Restore of idTextEntity reads back, type for type, what its Save wrote. -/
theorem idTextEntity_restore_reads_what_save_wrote (HUMANHEAD : Bool)
    (gameLocal gameLocal' : idGameLocal) (x y : idTextEntity) (rest : List SaveItem) (build : Int) :
    ∃ y' g', MiscEntity.Restore HUMANHEAD gameLocal'
        ⟨MiscEntity.Save HUMANHEAD gameLocal [] (.TextEntity x) ++ rest, [], build⟩ (.TextEntity y)
      = some (y', g',
          ⟨rest, (MiscEntity.Save HUMANHEAD gameLocal [] (.TextEntity x)).map SaveItem.type,
            build⟩) := by
  exact ⟨_, _, rfl⟩

/-- Restore of idVacuumSeparatorEntity reads back, type for type, what its Save wrote. -/
theorem idVacuumSeparatorEntity_restore_reads_what_save_wrote (HUMANHEAD : Bool)
    (gameLocal gameLocal' : idGameLocal) (x y : idVacuumSeparatorEntity) (rest : List SaveItem) (build : Int) :
    ∃ y' g', MiscEntity.Restore HUMANHEAD gameLocal'
        ⟨MiscEntity.Save HUMANHEAD gameLocal [] (.VacuumSeparatorEntity x) ++ rest, [], build⟩ (.VacuumSeparatorEntity y)
      = some (y', g',
          ⟨rest, (MiscEntity.Save HUMANHEAD gameLocal [] (.VacuumSeparatorEntity x)).map SaveItem.type,
            build⟩) := by
  exact ⟨_, _, rfl⟩

/-- Restore of idBeam reads back, type for type, what its Save wrote. -/
theorem idBeam_restore_reads_what_save_wrote (HUMANHEAD : Bool)
    (gameLocal gameLocal' : idGameLocal) (x y : idBeam) (rest : List SaveItem) (build : Int) :
    ∃ y' g', MiscEntity.Restore HUMANHEAD gameLocal'
        ⟨MiscEntity.Save HUMANHEAD gameLocal [] (.Beam x) ++ rest, [], build⟩ (.Beam y)
      = some (y', g',
          ⟨rest, (MiscEntity.Save HUMANHEAD gameLocal [] (.Beam x)).map SaveItem.type,
            build⟩) := by
  exact ⟨_, _, rfl⟩

/-- Restore of idShaking reads back, type for type, what its Save wrote. -/
theorem idShaking_restore_reads_what_save_wrote (HUMANHEAD : Bool)
    (gameLocal gameLocal' : idGameLocal) (x y : idShaking) (rest : List SaveItem) (build : Int) :
    ∃ y' g', MiscEntity.Restore HUMANHEAD gameLocal'
        ⟨MiscEntity.Save HUMANHEAD gameLocal [] (.Shaking x) ++ rest, [], build⟩ (.Shaking y)
      = some (y', g',
          ⟨rest, (MiscEntity.Save HUMANHEAD gameLocal [] (.Shaking x)).map SaveItem.type,
            build⟩) := by
  exact ⟨_, _, rfl⟩

/-- Restore of idEarthQuake reads back, type for type, what its Save wrote. -/
theorem idEarthQuake_restore_reads_what_save_wrote (HUMANHEAD : Bool)
    (gameLocal gameLocal' : idGameLocal) (x y : idEarthQuake) (rest : List SaveItem) (build : Int) :
    ∃ y' g', MiscEntity.Restore HUMANHEAD gameLocal'
        ⟨MiscEntity.Save HUMANHEAD gameLocal [] (.EarthQuake x) ++ rest, [], build⟩ (.EarthQuake y)
      = some (y', g',
          ⟨rest, (MiscEntity.Save HUMANHEAD gameLocal [] (.EarthQuake x)).map SaveItem.type,
            build⟩) := by
  by_cases h : x.shakeStopTime > gameLocal'.time
  · refine Exists.intro ?active (Exists.intro gameLocal' ?hactive)
    case hactive =>
      show Option.map _ (if x.shakeStopTime > gameLocal'.time then _ else _) = _
      rw [if_pos h]
      exact rfl
  · refine Exists.intro ?idle (Exists.intro gameLocal' ?hidle)
    case hidle =>
      show Option.map _ (if x.shakeStopTime > gameLocal'.time then _ else _) = _
      rw [if_neg h]
      exact rfl

/-- Restore of idFuncPortal reads back, type for type, what its Save wrote. -/
theorem idFuncPortal_restore_reads_what_save_wrote (HUMANHEAD : Bool)
    (gameLocal gameLocal' : idGameLocal) (x y : idFuncPortal) (rest : List SaveItem) (build : Int) :
    ∃ y' g', MiscEntity.Restore HUMANHEAD gameLocal'
        ⟨MiscEntity.Save HUMANHEAD gameLocal [] (.FuncPortal x) ++ rest, [], build⟩ (.FuncPortal y)
      = some (y', g',
          ⟨rest, (MiscEntity.Save HUMANHEAD gameLocal [] (.FuncPortal x)).map SaveItem.type,
            build⟩) := by
  cases HUMANHEAD <;> exact ⟨_, _, rfl⟩

/-- Restore of idFuncAASPortal reads back, type for type, what its Save wrote. -/
theorem idFuncAASPortal_restore_reads_what_save_wrote (HUMANHEAD : Bool)
    (gameLocal gameLocal' : idGameLocal) (x y : idFuncAASPortal) (rest : List SaveItem) (build : Int) :
    ∃ y' g', MiscEntity.Restore HUMANHEAD gameLocal'
        ⟨MiscEntity.Save HUMANHEAD gameLocal [] (.FuncAASPortal x) ++ rest, [], build⟩ (.FuncAASPortal y)
      = some (y', g',
          ⟨rest, (MiscEntity.Save HUMANHEAD gameLocal [] (.FuncAASPortal x)).map SaveItem.type,
            build⟩) := by
  exact ⟨_, _, rfl⟩

/-- Restore of idFuncAASObstacle reads back, type for type, what its Save wrote. -/
theorem idFuncAASObstacle_restore_reads_what_save_wrote (HUMANHEAD : Bool)
    (gameLocal gameLocal' : idGameLocal) (x y : idFuncAASObstacle) (rest : List SaveItem) (build : Int) :
    ∃ y' g', MiscEntity.Restore HUMANHEAD gameLocal'
        ⟨MiscEntity.Save HUMANHEAD gameLocal [] (.FuncAASObstacle x) ++ rest, [], build⟩ (.FuncAASObstacle y)
      = some (y', g',
          ⟨rest, (MiscEntity.Save HUMANHEAD gameLocal [] (.FuncAASObstacle x)).map SaveItem.type,
            build⟩) := by
  exact ⟨_, _, rfl⟩

/-- Restore of idFuncRadioChatter reads back, type for type, what its Save wrote. -/
theorem idFuncRadioChatter_restore_reads_what_save_wrote (HUMANHEAD : Bool)
    (gameLocal gameLocal' : idGameLocal) (x y : idFuncRadioChatter) (rest : List SaveItem) (build : Int) :
    ∃ y' g', MiscEntity.Restore HUMANHEAD gameLocal'
        ⟨MiscEntity.Save HUMANHEAD gameLocal [] (.FuncRadioChatter x) ++ rest, [], build⟩ (.FuncRadioChatter y)
      = some (y', g',
          ⟨rest, (MiscEntity.Save HUMANHEAD gameLocal [] (.FuncRadioChatter x)).map SaveItem.type,
            build⟩) := by
  exact ⟨_, _, rfl⟩

/-- C1: for each of the seventeen classes of Misc.cpp with fixed-length Save and Restore,
Restore run on the items written by Save (followed by any further items) succeeds, the
sequence of typed reads it performs is exactly the sequence of the types written, in the
same order, and it stops exactly at the end of what Save wrote. -/
theorem save_restore_same_typed_sequence (HUMANHEAD : Bool) (gameLocal gameLocal' : idGameLocal)
    (x y : MiscEntity) (hclass : x.classIndex = y.classIndex) (rest : List SaveItem)
    (build : Int) :
    ∃ y' g', MiscEntity.Restore HUMANHEAD gameLocal'
        ⟨MiscEntity.Save HUMANHEAD gameLocal [] x ++ rest, [], build⟩ y
      = some (y', g',
          ⟨rest, (MiscEntity.Save HUMANHEAD gameLocal [] x).map SaveItem.type, build⟩) := by
  cases x <;> cases y <;> try (simp [MiscEntity.classIndex] at hclass; done)
  case PlayerStart.PlayerStart a b =>
    exact idPlayerStart_restore_reads_what_save_wrote HUMANHEAD gameLocal gameLocal' a b rest build
  case Activator.Activator a b =>
    exact idActivator_restore_reads_what_save_wrote HUMANHEAD gameLocal gameLocal' a b rest build
  case Damagable.Damagable a b =>
    exact idDamagable_restore_reads_what_save_wrote HUMANHEAD gameLocal gameLocal' a b rest build
  case Spring.Spring a b =>
    exact idSpring_restore_reads_what_save_wrote HUMANHEAD gameLocal gameLocal' a b rest build
  case Animated.Animated a b =>
    exact idAnimated_restore_reads_what_save_wrote HUMANHEAD gameLocal gameLocal' a b rest build
  case StaticEntity.StaticEntity a b =>
    exact idStaticEntity_restore_reads_what_save_wrote HUMANHEAD gameLocal gameLocal' a b rest build
  case FuncEmitter.FuncEmitter a b =>
    exact idFuncEmitter_restore_reads_what_save_wrote HUMANHEAD gameLocal gameLocal' a b rest build
  case FuncSmoke.FuncSmoke a b =>
    exact idFuncSmoke_restore_reads_what_save_wrote HUMANHEAD gameLocal gameLocal' a b rest build
  case TextEntity.TextEntity a b =>
    exact idTextEntity_restore_reads_what_save_wrote HUMANHEAD gameLocal gameLocal' a b rest build
  case VacuumSeparatorEntity.VacuumSeparatorEntity a b =>
    exact idVacuumSeparatorEntity_restore_reads_what_save_wrote HUMANHEAD gameLocal gameLocal' a b rest build
  case Beam.Beam a b =>
    exact idBeam_restore_reads_what_save_wrote HUMANHEAD gameLocal gameLocal' a b rest build
  case Shaking.Shaking a b =>
    exact idShaking_restore_reads_what_save_wrote HUMANHEAD gameLocal gameLocal' a b rest build
  case EarthQuake.EarthQuake a b =>
    exact idEarthQuake_restore_reads_what_save_wrote HUMANHEAD gameLocal gameLocal' a b rest build
  case FuncPortal.FuncPortal a b =>
    exact idFuncPortal_restore_reads_what_save_wrote HUMANHEAD gameLocal gameLocal' a b rest build
  case FuncAASPortal.FuncAASPortal a b =>
    exact idFuncAASPortal_restore_reads_what_save_wrote HUMANHEAD gameLocal gameLocal' a b rest build
  case FuncAASObstacle.FuncAASObstacle a b =>
    exact idFuncAASObstacle_restore_reads_what_save_wrote HUMANHEAD gameLocal gameLocal' a b rest build
  case FuncRadioChatter.FuncRadioChatter a b =>
    exact idFuncRadioChatter_restore_reads_what_save_wrote HUMANHEAD gameLocal gameLocal' a b rest build

/-- Witness for C1: a static entity in mid-fade, restored into a freshly constructed one. -/
theorem save_restore_same_typed_sequence_witness :
    (MiscEntity.StaticEntity exampleFading).classIndex
      = (MiscEntity.StaticEntity {}).classIndex
    ∧ ∃ y' g', MiscEntity.Restore true {}
        ⟨MiscEntity.Save true {} [] (.StaticEntity exampleFading) ++ [SaveItem.int 7], [],
          1305⟩ (.StaticEntity {})
      = some (y', g',
          ⟨[SaveItem.int 7],
            (MiscEntity.Save true {} [] (.StaticEntity exampleFading)).map SaveItem.type,
            1305⟩) :=
  ⟨rfl, save_restore_same_typed_sequence true {} {} (.StaticEntity exampleFading)
    (.StaticEntity {}) rfl [SaveItem.int 7] 1305⟩

/-! ## idPhantomObjects: Save/Restore round trip and the first-release layout -/


theorem idRestoreGame.ReadInt_cons (v : Int) (rest : List SaveItem) (reads : List ArchiveType) (build : Int) :
    idRestoreGame.ReadInt ⟨.int v :: rest, reads, build⟩
      = some (v, ⟨rest, reads ++ [.Int], build⟩) := rfl
theorem idRestoreGame.ReadVec3_cons (v : idVec3) (rest : List SaveItem) (reads : List ArchiveType) (build : Int) :
    idRestoreGame.ReadVec3 ⟨.vec3 v :: rest, reads, build⟩
      = some (v, ⟨rest, reads ++ [.Vec3], build⟩) := rfl

theorem idSaveGame.foldl_WriteInt (l : List Int) (savefile : idSaveGame) :
    l.foldl (fun savefile t => idSaveGame.WriteInt savefile t) savefile
      = savefile ++ l.map SaveItem.int := by
  induction l generalizing savefile with
  | nil => simp
  | cons t l ih => rw [List.foldl_cons, ih]; simp [idSaveGame.WriteInt]

theorem idSaveGame.foldl_WriteVec3 (l : List idVec3) (savefile : idSaveGame) :
    l.foldl (fun savefile t => idSaveGame.WriteVec3 savefile t) savefile
      = savefile ++ l.map SaveItem.vec3 := by
  induction l generalizing savefile with
  | nil => simp
  | cons t l ih => rw [List.foldl_cons, ih]; simp [idSaveGame.WriteVec3]

theorem take_succ_set_self {α : Type} (v : α) :
    ∀ (l : List α) (i : Nat), i < l.length → (l.set i v).take (i + 1) = l.take i ++ [v] := by
  intro l
  induction l with
  | nil => intro i h; simp at h
  | cons a l ih =>
    intro i h
    cases i with
    | zero => simp
    | succ i =>
      simp only [List.length_cons, Nat.add_lt_add_iff_right] at h
      simp [ih i h]

theorem idPhantomObjects.RestoreTargetTime_spec (vs : List Int) :
    ∀ (i : Nat) (targetTime : List Int) (rest : List SaveItem) (reads : List ArchiveType)
      (build : Int), targetTime.length = i + vs.length →
      idPhantomObjects.RestoreTargetTime vs.length i targetTime
          ⟨vs.map SaveItem.int ++ rest, reads, build⟩
        = some (targetTime.take i ++ vs,
            ⟨rest, reads ++ List.replicate vs.length ArchiveType.Int, build⟩) := by
  induction vs with
  | nil =>
    intro i targetTime rest reads build h
    simp at h
    simp [idPhantomObjects.RestoreTargetTime, ← h]
  | cons v vs ih =>
    intro i targetTime rest reads build h
    simp only [List.length_cons] at h
    have hi : i < targetTime.length := by omega
    simp only [List.length_cons, List.map_cons, List.cons_append,
      idPhantomObjects.RestoreTargetTime, idRestoreGame.ReadInt_cons, Option.bind_eq_bind, Option.some_bind]
    rw [ih (i + 1) (targetTime.set i v) rest _ build (by simp; omega), take_succ_set_self v _ _ hi]
    simp [List.replicate_succ]

theorem idPhantomObjects.RestoreLastTargetPos_spec (vs : List idVec3) :
    ∀ (i : Nat) (lastTargetPos : List idVec3) (rest : List SaveItem)
      (reads : List ArchiveType) (build : Int), lastTargetPos.length = i + vs.length →
      idPhantomObjects.RestoreLastTargetPos vs.length i lastTargetPos
          ⟨vs.map SaveItem.vec3 ++ rest, reads, build⟩
        = some (lastTargetPos.take i ++ vs,
            ⟨rest, reads ++ List.replicate vs.length ArchiveType.Vec3, build⟩) := by
  induction vs with
  | nil =>
    intro i lastTargetPos rest reads build h
    simp at h
    simp [idPhantomObjects.RestoreLastTargetPos, ← h]
  | cons v vs ih =>
    intro i lastTargetPos rest reads build h
    simp only [List.length_cons] at h
    have hi : i < lastTargetPos.length := by omega
    simp only [List.length_cons, List.map_cons, List.cons_append,
      idPhantomObjects.RestoreLastTargetPos, idRestoreGame.ReadVec3_cons, Option.bind_eq_bind,
      Option.some_bind]
    rw [ih (i + 1) (lastTargetPos.set i v) rest _ build (by simp; omega),
      take_succ_set_self v _ _ hi]
    simp [List.replicate_succ]

theorem idPhantomObjects.ZeroLastTargetPos_spec :
    ∀ (n i : Nat) (lastTargetPos : List idVec3), lastTargetPos.length = i + n →
      idPhantomObjects.ZeroLastTargetPos n i lastTargetPos
        = lastTargetPos.take i ++ List.replicate n idVec3.Zero := by
  intro n
  induction n with
  | zero =>
    intro i l h
    simp at h
    simp [idPhantomObjects.ZeroLastTargetPos, ← h]
  | succ n ih =>
    intro i l h
    have hi : i < l.length := by omega
    simp only [idPhantomObjects.ZeroLastTargetPos]
    rw [ih (i + 1) (l.set i idVec3.Zero) (by simp; omega), take_succ_set_self _ _ _ hi]
    simp [List.replicate_succ]

theorem idList.SetNum_length {α : Type} (l : List α) (num : Nat) (junk : α) :
    (idList.SetNum l num junk).length = num := by
  simp [idList.SetNum]
  omega

theorem idRestoreGame.ReadFloat_cons (v : Rat) (rest : List SaveItem) (reads : List ArchiveType) (build : Int) :
    idRestoreGame.ReadFloat ⟨.float v :: rest, reads, build⟩
      = some (v, ⟨rest, reads ++ [.Float], build⟩) := rfl
theorem idEntityPtr.Restore_cons (v : idEntityPtr) (rest : List SaveItem) (reads : List ArchiveType) (build : Int) :
    idEntityPtr.Restore ⟨.object v :: rest, reads, build⟩
      = some (v, ⟨rest, reads ++ [.Object], build⟩) := rfl

theorem idPhantomObjects.Save_eq (x : idPhantomObjects) :
    x.Save [] = [.int x.end_time, .float x.throw_time, .float x.shake_time, .vec3 x.shake_ang,
      .float x.speed, .int x.min_wait, .int x.max_wait, .object x.target,
      .int (Int.ofNat x.targetTime.length)] ++ x.targetTime.map SaveItem.int
      ++ x.lastTargetPos.map SaveItem.vec3 := by
  simp only [idPhantomObjects.Save, idSaveGame.foldl_WriteInt, idSaveGame.foldl_WriteVec3]
  simp [idSaveGame.WriteInt, idSaveGame.WriteFloat, idSaveGame.WriteVec3, idEntityPtr.Save]

theorem idPhantomObjects.Restore_Save (x y : idPhantomObjects) (junkTime : Int) (junkPos : idVec3)
    (rest : List SaveItem) (build : Int)
    (hlen : x.targetTime.length = x.lastTargetPos.length)
    (hbuild : build ≠ INITIAL_RELEASE_BUILD_NUMBER) :
    y.Restore junkTime junkPos ⟨x.Save [] ++ rest, [], build⟩
      = some ({ y with end_time := x.end_time, throw_time := x.throw_time,
                       shake_time := x.shake_time, shake_ang := x.shake_ang, speed := x.speed,
                       min_wait := x.min_wait, max_wait := x.max_wait, target := x.target,
                       targetTime := x.targetTime, lastTargetPos := x.lastTargetPos },
          ⟨rest, (x.Save []).map SaveItem.type, build⟩) := by
  rw [idPhantomObjects.Save_eq]
  unfold idPhantomObjects.Restore
  simp only [List.cons_append, List.nil_append, List.append_assoc]
  simp only [idRestoreGame.ReadInt_cons]
  simp only [Option.bind_eq_bind]
  rw [Option.some_bind]
  dsimp only
  rw [idRestoreGame.ReadFloat_cons, Option.some_bind]
  dsimp only
  rw [idRestoreGame.ReadFloat_cons, Option.some_bind]
  dsimp only
  rw [idRestoreGame.ReadVec3_cons, Option.some_bind]
  dsimp only
  rw [idRestoreGame.ReadFloat_cons, Option.some_bind]
  dsimp only
  rw [idRestoreGame.ReadInt_cons, Option.some_bind]
  dsimp only
  rw [idRestoreGame.ReadInt_cons, Option.some_bind]
  dsimp only
  rw [idEntityPtr.Restore_cons, Option.some_bind]
  dsimp only
  rw [idRestoreGame.ReadInt_cons, Option.some_bind]
  dsimp only
  have hnn : ¬ (Int.ofNat x.targetTime.length < 0) := by simp
  rw [if_neg hnn]
  have htoNat : (Int.ofNat x.targetTime.length).toNat = x.targetTime.length := rfl
  rw [htoNat]
  rw [idPhantomObjects.RestoreTargetTime_spec x.targetTime 0 _ _ _ build (by simp [idList.SetNum_length])]
  simp only [Option.some_bind, idRestoreGame.GetBuildNumber]
  rw [if_neg hbuild, hlen,
    idPhantomObjects.RestoreLastTargetPos_spec x.lastTargetPos 0 _ _ _ build (by simp [idList.SetNum_length])]
  have h1 : ∀ l : List Int,
      List.map (SaveItem.type ∘ SaveItem.int) l = List.replicate l.length ArchiveType.Int := by
    intro l; induction l <;> simp [List.replicate_succ, SaveItem.type, *]
  have h2 : ∀ l : List idVec3,
      List.map (SaveItem.type ∘ SaveItem.vec3) l = List.replicate l.length ArchiveType.Vec3 := by
    intro l; induction l <;> simp [List.replicate_succ, SaveItem.type, *]
  simp [SaveItem.type, idList.SetNum, h1, h2, hlen]

/-- C2: when targetTime and lastTargetPos have the same length and the archive is not of
the first release, Restore applied to the output of Save (followed by any further items)
succeeds, consumes exactly the items written, with reads of the types written, and leaves
end_time, throw_time, shake_time, shake_ang, speed, min_wait, max_wait, the target
reference and both lists equal to the saved ones. -/
theorem idPhantomObjects.restore_save_roundtrip (x y : idPhantomObjects) (junkTime : Int) (junkPos : idVec3)
    (rest : List SaveItem) (build : Int)
    (hlen : x.targetTime.length = x.lastTargetPos.length)
    (hbuild : build ≠ INITIAL_RELEASE_BUILD_NUMBER) :
    y.Restore junkTime junkPos ⟨x.Save [] ++ rest, [], build⟩
      = some ({ y with end_time := x.end_time, throw_time := x.throw_time,
                       shake_time := x.shake_time, shake_ang := x.shake_ang, speed := x.speed,
                       min_wait := x.min_wait, max_wait := x.max_wait, target := x.target,
                       targetTime := x.targetTime, lastTargetPos := x.lastTargetPos },
          ⟨rest, (x.Save []).map SaveItem.type, build⟩) :=
  idPhantomObjects.Restore_Save x y junkTime junkPos rest build hlen hbuild

/-- C4: on an archive of the first release that holds the seven scalars, the target
reference, a count and that many target times, Restore does not fail, reads nothing after
the target times (whatever follows is left unconsumed and no vector read is performed),
stores the times read, and leaves lastTargetPos as exactly that many zero vectors. -/
theorem idPhantomObjects.restore_initial_release (y : idPhantomObjects) (junkTime : Int) (junkPos : idVec3)
    (end_time : Int) (throw_time shake_time : Rat) (shake_ang : idVec3) (speed : Rat)
    (min_wait max_wait : Int) (target : idEntityPtr) (times : List Int)
    (rest : List SaveItem) :
    y.Restore junkTime junkPos
        ⟨[.int end_time, .float throw_time, .float shake_time, .vec3 shake_ang, .float speed,
          .int min_wait, .int max_wait, .object target, .int (Int.ofNat times.length)]
          ++ times.map SaveItem.int ++ rest, [], INITIAL_RELEASE_BUILD_NUMBER⟩
      = some ({ y with end_time := end_time, throw_time := throw_time,
                       shake_time := shake_time, shake_ang := shake_ang, speed := speed,
                       min_wait := min_wait, max_wait := max_wait, target := target,
                       targetTime := times,
                       lastTargetPos := List.replicate times.length idVec3.Zero },
          ⟨rest, [.Int, .Float, .Float, .Vec3, .Float, .Int, .Int, .Object, .Int]
                  ++ List.replicate times.length ArchiveType.Int,
            INITIAL_RELEASE_BUILD_NUMBER⟩) := by
  unfold idPhantomObjects.Restore
  simp only [List.cons_append, List.nil_append, List.append_assoc]
  simp only [idRestoreGame.ReadInt_cons]
  simp only [Option.bind_eq_bind]
  rw [Option.some_bind]
  dsimp only
  rw [idRestoreGame.ReadFloat_cons, Option.some_bind]
  dsimp only
  rw [idRestoreGame.ReadFloat_cons, Option.some_bind]
  dsimp only
  rw [idRestoreGame.ReadVec3_cons, Option.some_bind]
  dsimp only
  rw [idRestoreGame.ReadFloat_cons, Option.some_bind]
  dsimp only
  rw [idRestoreGame.ReadInt_cons, Option.some_bind]
  dsimp only
  rw [idRestoreGame.ReadInt_cons, Option.some_bind]
  dsimp only
  rw [idEntityPtr.Restore_cons, Option.some_bind]
  dsimp only
  rw [idRestoreGame.ReadInt_cons, Option.some_bind]
  dsimp only
  have hnn : ¬ (Int.ofNat times.length < 0) := by simp
  rw [if_neg hnn]
  have htoNat : (Int.ofNat times.length).toNat = times.length := rfl
  rw [htoNat]
  rw [idPhantomObjects.RestoreTargetTime_spec times 0 _ _ _ _ (by simp [idList.SetNum_length])]
  simp only [Option.some_bind, idRestoreGame.GetBuildNumber]
  rw [if_pos trivial, idPhantomObjects.ZeroLastTargetPos_spec _ 0 _ (by simp [idList.SetNum_length])]
  simp

/-- Witness for C2: a state with two scheduled objects, restored from a later build. -/
theorem idPhantomObjects.restore_save_roundtrip_witness :
    examplePhantom.targetTime.length = examplePhantom.lastTargetPos.length
    ∧ (1305 : Int) ≠ INITIAL_RELEASE_BUILD_NUMBER
    ∧ idPhantomObjects.Restore {} 0 idVec3.Zero
        ⟨examplePhantom.Save [] ++ [SaveItem.bool true], [], 1305⟩
      = some ({ ({} : idPhantomObjects) with
                end_time := examplePhantom.end_time, throw_time := examplePhantom.throw_time,
                shake_time := examplePhantom.shake_time,
                shake_ang := examplePhantom.shake_ang, speed := examplePhantom.speed,
                min_wait := examplePhantom.min_wait, max_wait := examplePhantom.max_wait,
                target := examplePhantom.target, targetTime := examplePhantom.targetTime,
                lastTargetPos := examplePhantom.lastTargetPos },
          ⟨[SaveItem.bool true], (examplePhantom.Save []).map SaveItem.type, 1305⟩) :=
  ⟨rfl, by decide,
    idPhantomObjects.restore_save_roundtrip examplePhantom {} 0 idVec3.Zero
      [SaveItem.bool true] 1305 rfl (by decide)⟩

/-! ## idActivator: the activation flag across Save and Restore -/

/-- The think flag is set after `BecomeActive( TH_THINK )`, whatever the mask was. -/
theorem TH_THINK_set_of_lor (flags : Nat) : (flags ||| TH_THINK) &&& TH_THINK ≠ 0 := by
  have h : (flags ||| TH_THINK) &&& TH_THINK = 1 := by
    apply Nat.eq_of_testBit_eq
    intro i
    simp only [TH_THINK, Nat.testBit_and, Nat.testBit_or]
    cases i with
    | zero => simp
    | succ n => simp [Nat.testBit_succ]
  rw [h]
  decide

/-- C3 (counterexample): an activator with stay_on = true whose TH_THINK flag was
cleared by Event_Activate is saved with the flag clear, and comes back from Restore with
the flag set. -/
theorem idActivator.restore_sets_flag_cleared_before_save :
    (idActivator.Event_Activate exampleActivator).stay_on = true
    ∧ (idActivator.Event_Activate exampleActivator).thinkFlags &&& TH_THINK = 0
    ∧ ∃ restored savefile,
        idActivator.RestoreObject {}
            ⟨(idActivator.Event_Activate exampleActivator).SaveObject [], [], 1305⟩
          = some (restored, savefile)
        ∧ restored.thinkFlags &&& TH_THINK ≠ 0 :=
  ⟨rfl, by decide, _, _, rfl, by decide⟩

/-- C3 (amended): restoring a saved activator always succeeds and consumes what was
written; stay_on is the saved one, and TH_THINK is set afterwards exactly when it was set
at save time or stay_on is true. With stay_on false the whole mask is the saved one. -/
theorem idActivator.restore_flag_iff_saved_or_stay_on (s y : idActivator)
    (rest : List SaveItem) (build : Int) :
    ∃ restored,
      y.RestoreObject ⟨s.SaveObject [] ++ rest, [], build⟩
        = some (restored, ⟨rest, [.Int, .Bool], build⟩)
      ∧ restored.stay_on = s.stay_on
      ∧ ((restored.thinkFlags &&& TH_THINK ≠ 0)
          ↔ (s.thinkFlags &&& TH_THINK ≠ 0 ∨ s.stay_on = true))
      ∧ (s.stay_on = false → restored.thinkFlags = s.thinkFlags) := by
  rcases s with ⟨se, stay⟩
  cases stay
  · refine ⟨_, rfl, rfl, ?_, ?_⟩
    · show (se.thinkFlags &&& TH_THINK ≠ 0) ↔ _
      simp
    · intro _
      rfl
  · refine ⟨_, rfl, rfl, ?_, ?_⟩
    · show ((se.thinkFlags ||| TH_THINK) &&& TH_THINK ≠ 0) ↔ _
      simp only [or_true, iff_true]
      exact TH_THINK_set_of_lor se.thinkFlags
    · intro h
      cases h

/-! ## Snapshots: the reader mirrors the writer -/


/-- Both branches of the final `if ( msg.HasChanged() )` of a snapshot reader return; a
property that holds of each branch under its condition holds of the result. -/
theorem exists_read_result {α : Type} (P : α → idBitMsgDelta → Prop) (a b : α)
    (m : idBitMsgDelta) (ha : m.HasChanged = true → P a m)
    (hb : m.HasChanged = false → P b m) :
    ∃ r m', (if m.HasChanged = true then (some (a, m) : Option (α × idBitMsgDelta))
              else some (b, m)) = some (r, m') ∧ P r m' := by
  cases h : m.HasChanged
  · exact ⟨b, m, rfl, hb h⟩
  · exact ⟨a, m, rfl, ha h⟩

/-- idStaticEntity: the reader consumes what the writer produced, encoding by encoding. -/
theorem idStaticEntity_read_matches_write (blockBits : SnapEncoding → Nat)
    (w r : idStaticEntity) (base rest : List SnapField) :
    ∃ r' m', r.ReadFromSnapshot ⟨(w.WriteToSnapshot {}).fields ++ rest, base, false, []⟩
        = some (r', m')
      ∧ (m'.fields = rest
        ∧ m'.reads = (w.WriteToSnapshot {}).fields.map SnapField.encoding
        ∧ m'.reads = [.physics, .bind, .color, .gui, .bits 1]
        ∧ bitCount blockBits m'.reads
            = bitCount blockBits ((w.WriteToSnapshot {}).fields.map SnapField.encoding)) := by
  refine exists_read_result (fun (_ : idStaticEntity) (m' : idBitMsgDelta) =>
      m'.fields = rest
        ∧ m'.reads = (w.WriteToSnapshot {}).fields.map SnapField.encoding
        ∧ m'.reads = [.physics, .bind, .color, .gui, .bits 1]
        ∧ bitCount blockBits m'.reads
            = bitCount blockBits ((w.WriteToSnapshot {}).fields.map SnapField.encoding))
      _ _ _ ?_ ?_ <;> intro _ <;> exact ⟨rfl, rfl, rfl, rfl⟩

/-- idFuncEmitter: the reader consumes what the writer produced, encoding by encoding. -/
theorem idFuncEmitter_read_matches_write (blockBits : SnapEncoding → Nat)
    (w r : idFuncEmitter) (base rest : List SnapField) :
    ∃ r' m', r.ReadFromSnapshot ⟨(w.WriteToSnapshot {}).fields ++ rest, base, false, []⟩
        = some (r', m')
      ∧ (m'.fields = rest
        ∧ m'.reads = (w.WriteToSnapshot {}).fields.map SnapField.encoding
        ∧ m'.reads = [.bits 1, .float, .float]
        ∧ bitCount blockBits m'.reads
            = bitCount blockBits ((w.WriteToSnapshot {}).fields.map SnapField.encoding)) := by
  refine exists_read_result (fun (_ : idFuncEmitter) (m' : idBitMsgDelta) =>
      m'.fields = rest
        ∧ m'.reads = (w.WriteToSnapshot {}).fields.map SnapField.encoding
        ∧ m'.reads = [.bits 1, .float, .float]
        ∧ bitCount blockBits m'.reads
            = bitCount blockBits ((w.WriteToSnapshot {}).fields.map SnapField.encoding))
      _ _ _ ?_ ?_ <;> intro _ <;> exact ⟨rfl, rfl, rfl, rfl⟩

/-- idBeam: the reader consumes what the writer produced, encoding by encoding. -/
theorem idBeam_read_matches_write (blockBits : SnapEncoding → Nat)
    (w r : idBeam) (base rest : List SnapField) :
    ∃ r' m', r.ReadFromSnapshot ⟨(w.WriteToSnapshot {}).fields ++ rest, base, false, []⟩
        = some (r', m')
      ∧ (m'.fields = rest
        ∧ m'.reads = (w.WriteToSnapshot {}).fields.map SnapField.encoding
        ∧ m'.reads = [.physics, .bind, .color, .float, .float, .float]
        ∧ bitCount blockBits m'.reads
            = bitCount blockBits ((w.WriteToSnapshot {}).fields.map SnapField.encoding)) := by
  refine exists_read_result (fun (_ : idBeam) (m' : idBitMsgDelta) =>
      m'.fields = rest
        ∧ m'.reads = (w.WriteToSnapshot {}).fields.map SnapField.encoding
        ∧ m'.reads = [.physics, .bind, .color, .float, .float, .float]
        ∧ bitCount blockBits m'.reads
            = bitCount blockBits ((w.WriteToSnapshot {}).fields.map SnapField.encoding))
      _ _ _ ?_ ?_ <;> intro _ <;> exact ⟨rfl, rfl, rfl, rfl⟩

/-- C5: for idStaticEntity, idFuncEmitter and idBeam, ReadFromSnapshot run on the fields
WriteToSnapshot produced (followed by any further fields) succeeds, leaves exactly the
further fields, and its reads have the encodings of the written fields in the same order
(physics, bind, color, GUI, 1 bit; 1 bit, float, float; physics, bind, color, float,
float, float), so the bits read equal the bits written whatever the block widths are. -/
theorem snapshot_read_matches_write (blockBits : SnapEncoding → Nat) :
    (∀ (w r : idStaticEntity) (base rest : List SnapField),
      ∃ r' m', r.ReadFromSnapshot ⟨(w.WriteToSnapshot {}).fields ++ rest, base, false, []⟩
          = some (r', m')
        ∧ (m'.fields = rest
          ∧ m'.reads = (w.WriteToSnapshot {}).fields.map SnapField.encoding
          ∧ m'.reads = [.physics, .bind, .color, .gui, .bits 1]
          ∧ bitCount blockBits m'.reads
              = bitCount blockBits ((w.WriteToSnapshot {}).fields.map SnapField.encoding)))
    ∧ (∀ (w r : idFuncEmitter) (base rest : List SnapField),
      ∃ r' m', r.ReadFromSnapshot ⟨(w.WriteToSnapshot {}).fields ++ rest, base, false, []⟩
          = some (r', m')
        ∧ (m'.fields = rest
          ∧ m'.reads = (w.WriteToSnapshot {}).fields.map SnapField.encoding
          ∧ m'.reads = [.bits 1, .float, .float]
          ∧ bitCount blockBits m'.reads
              = bitCount blockBits ((w.WriteToSnapshot {}).fields.map SnapField.encoding)))
    ∧ (∀ (w r : idBeam) (base rest : List SnapField),
      ∃ r' m', r.ReadFromSnapshot ⟨(w.WriteToSnapshot {}).fields ++ rest, base, false, []⟩
          = some (r', m')
        ∧ (m'.fields = rest
          ∧ m'.reads = (w.WriteToSnapshot {}).fields.map SnapField.encoding
          ∧ m'.reads = [.physics, .bind, .color, .float, .float, .float]
          ∧ bitCount blockBits m'.reads
              = bitCount blockBits ((w.WriteToSnapshot {}).fields.map SnapField.encoding))) :=
  ⟨idStaticEntity_read_matches_write blockBits, idFuncEmitter_read_matches_write blockBits,
    idBeam_read_matches_write blockBits⟩

/-- idFuncEmitter: the decoded fields are assigned in any case, and UpdateVisuals runs
exactly when the message reports a change. -/
theorem idFuncEmitter_update_iff_changed (r : idFuncEmitter) (v : Int) (a b : Rat)
    (rest base : List SnapField) (changed : Bool) (reads : List SnapEncoding) :
    ∃ r' m',
      r.ReadFromSnapshot ⟨.bits v 1 :: .float a :: .float b :: rest, base, changed, reads⟩
        = some (r', m')
      ∧ (r'.hidden = (v != 0)
        ∧ r'.renderEntity.shaderParms SHADERPARM_PARTICLE_STOPTIME = a
        ∧ r'.renderEntity.shaderParms SHADERPARM_TIMEOFFSET = b
        ∧ r'.calls
            = r.calls ++ (if m'.HasChanged = true then [EntityCall.UpdateVisuals] else [])) := by
  refine exists_read_result (fun (r' : idFuncEmitter) (m' : idBitMsgDelta) =>
      r'.hidden = (v != 0)
        ∧ r'.renderEntity.shaderParms SHADERPARM_PARTICLE_STOPTIME = a
        ∧ r'.renderEntity.shaderParms SHADERPARM_TIMEOFFSET = b
        ∧ r'.calls
            = r.calls ++ (if m'.HasChanged = true then [EntityCall.UpdateVisuals] else []))
      _ _ _ ?_ ?_
  · intro hc
    refine ⟨rfl, ?_, ?_, ?_⟩
    · simp [idEntity.SetShaderParm, idEntity.UpdateVisuals, SHADERPARM_PARTICLE_STOPTIME,
        SHADERPARM_TIMEOFFSET]
    · simp [idEntity.SetShaderParm, idEntity.UpdateVisuals]
    · rw [hc]; rfl
  · intro hc
    refine ⟨rfl, ?_, ?_, ?_⟩
    · simp [idEntity.SetShaderParm, SHADERPARM_PARTICLE_STOPTIME, SHADERPARM_TIMEOFFSET]
    · simp [idEntity.SetShaderParm]
    · rw [hc]; simp [idEntity.SetShaderParm]

/-- idBeam: the decoded fields are assigned in any case, and UpdateVisuals runs exactly
when the message reports a change. -/
theorem idBeam_update_iff_changed (r : idBeam) (p b c : ObjectData) (x y z : Rat)
    (rest base : List SnapField) (changed : Bool) (reads : List SnapEncoding) :
    ∃ r' m',
      r.ReadFromSnapshot
          ⟨.physics p :: .bind b :: .color c :: .float x :: .float y :: .float z :: rest,
            base, changed, reads⟩
        = some (r', m')
      ∧ (r'.renderEntity.shaderParms SHADERPARM_BEAM_END_X = x
        ∧ r'.renderEntity.shaderParms SHADERPARM_BEAM_END_Y = y
        ∧ r'.renderEntity.shaderParms SHADERPARM_BEAM_END_Z = z
        ∧ r'.calls
            = r.calls ++ (if m'.HasChanged = true then [EntityCall.UpdateVisuals] else [])) := by
  refine exists_read_result (fun (r' : idBeam) (m' : idBitMsgDelta) =>
      r'.renderEntity.shaderParms SHADERPARM_BEAM_END_X = x
        ∧ r'.renderEntity.shaderParms SHADERPARM_BEAM_END_Y = y
        ∧ r'.renderEntity.shaderParms SHADERPARM_BEAM_END_Z = z
        ∧ r'.calls
            = r.calls ++ (if m'.HasChanged = true then [EntityCall.UpdateVisuals] else []))
      _ _ _ ?_ ?_
  · intro hc
    refine ⟨?_, ?_, ?_, ?_⟩
    · simp [idEntity.SetShaderParm, idEntity.UpdateVisuals, SHADERPARM_BEAM_END_X,
        SHADERPARM_BEAM_END_Y, SHADERPARM_BEAM_END_Z]
    · simp [idEntity.SetShaderParm, idEntity.UpdateVisuals, SHADERPARM_BEAM_END_Y,
        SHADERPARM_BEAM_END_Z]
    · simp [idEntity.SetShaderParm, idEntity.UpdateVisuals]
    · rw [hc]; rfl
  · intro hc
    refine ⟨?_, ?_, ?_, ?_⟩
    · simp [idEntity.SetShaderParm, SHADERPARM_BEAM_END_X,
        SHADERPARM_BEAM_END_Y, SHADERPARM_BEAM_END_Z]
    · simp [idEntity.SetShaderParm, SHADERPARM_BEAM_END_Y, SHADERPARM_BEAM_END_Z]
    · simp [idEntity.SetShaderParm]
    · rw [hc]; simp [idEntity.SetShaderParm]

/-- C6: idFuncEmitter::ReadFromSnapshot and idBeam::ReadFromSnapshot, on a message holding
their fields, assign every decoded field whether or not the message reports a change, and
call UpdateVisuals exactly when `msg.HasChanged()` is true after the reads: the calls
made are the single UpdateVisuals in that case and none otherwise. -/
theorem snapshot_update_visuals_iff_changed :
    (∀ (r : idFuncEmitter) (v : Int) (a b : Rat) (rest base : List SnapField)
        (changed : Bool) (reads : List SnapEncoding),
      ∃ r' m',
        r.ReadFromSnapshot ⟨.bits v 1 :: .float a :: .float b :: rest, base, changed, reads⟩
          = some (r', m')
        ∧ (r'.hidden = (v != 0)
          ∧ r'.renderEntity.shaderParms SHADERPARM_PARTICLE_STOPTIME = a
          ∧ r'.renderEntity.shaderParms SHADERPARM_TIMEOFFSET = b
          ∧ r'.calls
              = r.calls ++ (if m'.HasChanged = true then [EntityCall.UpdateVisuals] else [])))
    ∧ (∀ (r : idBeam) (p b c : ObjectData) (x y z : Rat) (rest base : List SnapField)
        (changed : Bool) (reads : List SnapEncoding),
      ∃ r' m',
        r.ReadFromSnapshot
            ⟨.physics p :: .bind b :: .color c :: .float x :: .float y :: .float z :: rest,
              base, changed, reads⟩
          = some (r', m')
        ∧ (r'.renderEntity.shaderParms SHADERPARM_BEAM_END_X = x
          ∧ r'.renderEntity.shaderParms SHADERPARM_BEAM_END_Y = y
          ∧ r'.renderEntity.shaderParms SHADERPARM_BEAM_END_Z = z
          ∧ r'.calls
              = r.calls ++ (if m'.HasChanged = true then [EntityCall.UpdateVisuals] else []))) :=
  ⟨idFuncEmitter_update_iff_changed, idBeam_update_iff_changed⟩

/-- C7: reading the snapshot a writer produced, idStaticEntity calls Hide or Show exactly
when the writer's hidden bit differs from the receiver's IsHidden (Hide for 1, Show for 0,
recorded before any UpdateVisuals), and afterwards the receiver's IsHidden equals the
writer's IsHidden at write time. -/
theorem idStaticEntity.snapshot_applies_hidden (w r : idStaticEntity) (base rest : List SnapField)
    (changed : Bool) (reads : List SnapEncoding) :
    ∃ r' m', r.ReadFromSnapshot ⟨(w.WriteToSnapshot {}).fields ++ rest, base, changed, reads⟩
        = some (r', m')
      ∧ (r'.IsHidden = w.IsHidden
        ∧ r'.calls = r.calls
            ++ (if w.IsHidden = r.IsHidden then []
                else [if w.IsHidden = true then EntityCall.Hide else EntityCall.Show])
            ++ (if m'.HasChanged = true then [EntityCall.UpdateVisuals] else [])) := by
  refine exists_read_result (fun (r' : idStaticEntity) (m' : idBitMsgDelta) =>
      r'.IsHidden = w.IsHidden
        ∧ r'.calls = r.calls
            ++ (if w.IsHidden = r.IsHidden then []
                else [if w.IsHidden = true then EntityCall.Hide else EntityCall.Show])
            ++ (if m'.HasChanged = true then [EntityCall.UpdateVisuals] else []))
      _ _ _ ?_ ?_
  · intro hc
    rw [hc]
    cases hw : w.IsHidden <;> cases hr : r.IsHidden <;>
      simp only [idEntity.IsHidden] at hr <;>
      simp [idEntity.IsHidden, idStaticEntity.Hide, idStaticEntity.Show, idEntity.Hide,
        idEntity.Show, idEntity.UpdateVisuals, idEntity.SetContents, hr] <;>
      split <;> simp
  · intro hc
    rw [hc]
    cases hw : w.IsHidden <;> cases hr : r.IsHidden <;>
      simp only [idEntity.IsHidden] at hr <;>
      simp [idEntity.IsHidden, idStaticEntity.Hide, idStaticEntity.Show, idEntity.Hide,
        idEntity.Show, idEntity.UpdateVisuals, idEntity.SetContents, hr] <;>
      split <;> simp

/-! ## idBeam: the master/target cycle across Save and Restore -/


/-- The beam found by the search loop is a live idBeam. -/
theorem idBeam.FindTargetBeam_live (entities : EntityRegistry) :
    ∀ (targets : List idEntityPtr) (b : Nat), idBeam.FindTargetBeam entities targets = some b →
      ∃ B, entities b = some (.Beam B) := by
  intro targets
  induction targets with
  | nil => intro b h; simp [idBeam.FindTargetBeam] at h
  | cons p ps ih =>
    intro b h
    unfold idBeam.FindTargetBeam at h
    split at h
    · rename_i num e heq
      cases h
      unfold idEntityPtr.GetEntity at heq
      split at heq
      · cases heq
      · split at heq
        · cases heq
        · rename_i n hn e' he
          cases heq
          exact ⟨_, he⟩
    · exact ih b h

/-- SetBeamTarget leaves both references alone. -/
theorem idBeam.SetBeamTarget_target (self : idBeam) (origin : idVec3) :
    (self.SetBeamTarget origin).target = self.target
      ∧ (self.SetBeamTarget origin).master = self.master := by
  unfold idBeam.SetBeamTarget
  split <;> exact ⟨rfl, rfl⟩

/-- Show leaves both references alone. -/
theorem idBeam.Show_target (entities : EntityRegistry) (self : idBeam) :
    (idBeam.Show entities self).target = self.target
      ∧ (idBeam.Show entities self).master = self.master := by
  unfold idBeam.Show
  dsimp only
  split
  · exact idBeam.SetBeamTarget_target _ _
  · exact ⟨rfl, rfl⟩

/-- Event_MatchTarget stores the found beam as target and itself as that beam's master. -/
theorem idBeam.Event_MatchTarget_links (entities : EntityRegistry) (a b : Nat) (A : idBeam)
    (hA : entities a = some (.Beam A))
    (hB : idBeam.FindTargetBeam entities A.targets = some b) (hne : a ≠ b) :
    ∃ w1 A1 B1, idBeam.Event_MatchTarget entities a = .ok w1
      ∧ w1 a = some (.Beam A1) ∧ w1 b = some (.Beam B1)
      ∧ A1.target = idEntityPtr.assign b ∧ B1.master = idEntityPtr.assign a := by
  obtain ⟨B, hBlive⟩ := idBeam.FindTargetBeam_live entities A.targets b hB
  have hlen : ¬ A.targets.length = 0 := by
    intro h
    have : A.targets = [] := List.length_eq_zero.mp h
    rw [this] at hB
    simp [idBeam.FindTargetBeam] at hB
  have hba : b ≠ a := fun h => hne h.symm
  unfold idBeam.Event_MatchTarget
  rw [hA]
  dsimp only
  rw [if_neg hlen, hB]
  dsimp only
  have h1 : Function.update entities a (some (gameEntity.Beam
      { A with target := idEntityPtr.assign b })) b = some (.Beam B) := by
    rw [Function.update_noteq hba]; exact hBlive
  rw [h1]
  dsimp only
  by_cases hoff : A.spawnArgs.GetBool "start_off" = true
  · simp only [hoff, Bool.not_true, Bool.false_eq_true, if_false]
    refine ⟨_, ?A1, ?B1, rfl, ?ha, ?hb, ?ht, ?hm⟩
    case ha => rw [Function.update_noteq hne, Function.update_same]; exact rfl
    case hb => rw [Function.update_same]; exact rfl
    case ht => rfl
    case hm => rfl
  · have hoff' : A.spawnArgs.GetBool "start_off" = false := by
      cases h : A.spawnArgs.GetBool "start_off"
      · rfl
      · exact absurd h hoff
    simp only [hoff', Bool.not_false, if_true]
    rw [Function.update_noteq hne, Function.update_same]
    dsimp only
    refine ⟨_, ?A1s, ?B1s, rfl, ?has, ?hbs, ?hts, ?hms⟩
    case has => rw [Function.update_same]; exact rfl
    case hbs => rw [Function.update_noteq hba, Function.update_same]; exact rfl
    case hts => exact (idBeam.Show_target _ _).1
    case hms => rfl

/-- Saving two distinct beams and restoring them in the same order into allocated beams
transfers the four references unchanged. -/
theorem RestoreBeams_pair (w1 w0 : EntityRegistry) (x y : Nat) (X1 Y1 X0 Y0 : idBeam)
    (build : Int) (hxy : x ≠ y)
    (hX1 : w1 x = some (.Beam X1)) (hY1 : w1 y = some (.Beam Y1))
    (hX0 : w0 x = some (.Beam X0)) (hY0 : w0 y = some (.Beam Y0)) :
    RestoreBeams [x, y] w0 ⟨SaveBeams w1 [x, y] [], [], build⟩
      = some (Function.update
          (Function.update w0 x
            (some (.Beam { X0 with target := X1.target, master := X1.master })))
          y (some (.Beam { Y0 with target := Y1.target, master := Y1.master })),
          ⟨[], [.Object, .Object, .Object, .Object], build⟩) := by
  have hyx : y ≠ x := fun h => hxy h.symm
  have hsave : SaveBeams w1 [x, y] []
      = [.object X1.target, .object X1.master, .object Y1.target, .object Y1.master] := by
    simp only [SaveBeams, hX1, hY1]
    rfl
  rw [hsave]
  simp only [RestoreBeams, hX0]
  have hr1 : X0.Restore
      ⟨[.object X1.target, .object X1.master, .object Y1.target, .object Y1.master], [], build⟩
      = some ({ X0 with target := X1.target, master := X1.master },
          ⟨[.object Y1.target, .object Y1.master], [.Object, .Object], build⟩) := rfl
  rw [hr1]
  dsimp only
  rw [Function.update_noteq hyx, hY0]
  dsimp only
  have hr2 : Y0.Restore
      ⟨[.object Y1.target, .object Y1.master], [.Object, .Object], build⟩
      = some ({ Y0 with target := Y1.target, master := Y1.master },
          ⟨[], [.Object, .Object, .Object, .Object], build⟩) := rfl
  rw [hr2]

/-- C8: let B be the first live idBeam in the targets list of beam A (A and B distinct).
After A's Event_MatchTarget, A.target resolves to B and B.master resolves to A; each Save
writes the target reference and then the master reference; and after both beams are saved
and restored into allocated beams, in the order A, B or B, A, the restore consumes the
archive, A.target still resolves to B and B.master still resolves to A. -/
theorem idBeam.link_survives_save_restore (entities w0 : EntityRegistry) (a b : Nat)
    (A Ya Yb : idBeam) (build : Int)
    (hA : entities a = some (.Beam A))
    (hB : idBeam.FindTargetBeam entities A.targets = some b) (hne : a ≠ b)
    (hYa : w0 a = some (.Beam Ya)) (hYb : w0 b = some (.Beam Yb)) :
    ∃ w1 A1 B1, idBeam.Event_MatchTarget entities a = .ok w1
      ∧ w1 a = some (.Beam A1) ∧ w1 b = some (.Beam B1)
      ∧ A1.target.GetEntity w1 = some (b, .Beam B1)
      ∧ B1.master.GetEntity w1 = some (a, .Beam A1)
      ∧ A1.Save [] = [.object A1.target, .object A1.master]
      ∧ B1.Save [] = [.object B1.target, .object B1.master]
      ∧ ∀ order, order = [a, b] ∨ order = [b, a] →
          ∃ w2 A2 B2 savefile,
            RestoreBeams order w0 ⟨SaveBeams w1 order [], [], build⟩ = some (w2, savefile)
            ∧ savefile.file = []
            ∧ w2 a = some (.Beam A2) ∧ w2 b = some (.Beam B2)
            ∧ A2.target.GetEntity w2 = some (b, .Beam B2)
            ∧ B2.master.GetEntity w2 = some (a, .Beam A2) := by
  obtain ⟨w1, A1, B1, hev, hA1, hB1, ht, hm⟩ :=
    idBeam.Event_MatchTarget_links entities a b A hA hB hne
  have hba : b ≠ a := fun h => hne h.symm
  refine ⟨w1, A1, B1, hev, hA1, hB1, ?_, ?_, rfl, rfl, ?_⟩
  · simp [idEntityPtr.GetEntity, ht, idEntityPtr.assign, hB1]
  · simp [idEntityPtr.GetEntity, hm, idEntityPtr.assign, hA1]
  · intro order horder
    rcases horder with h | h
    · subst h
      refine ⟨_, { Ya with target := A1.target, master := A1.master },
        { Yb with target := B1.target, master := B1.master }, _,
        RestoreBeams_pair w1 w0 a b A1 B1 Ya Yb build hne hA1 hB1 hYa hYb, rfl, ?_, ?_, ?_, ?_⟩
      · rw [Function.update_noteq hne, Function.update_same]
      · rw [Function.update_same]
      · simp [idEntityPtr.GetEntity, ht, idEntityPtr.assign]
      · simp [idEntityPtr.GetEntity, hm, idEntityPtr.assign, Function.update_noteq hne]
    · subst h
      refine ⟨_, { Ya with target := A1.target, master := A1.master },
        { Yb with target := B1.target, master := B1.master }, _,
        RestoreBeams_pair w1 w0 b a B1 A1 Yb Ya build hba hB1 hA1 hYb hYa, rfl, ?_, ?_, ?_, ?_⟩
      · rw [Function.update_same]
      · rw [Function.update_noteq hba, Function.update_same]
      · simp [idEntityPtr.GetEntity, ht, idEntityPtr.assign, Function.update_noteq hba]
      · simp [idEntityPtr.GetEntity, hm, idEntityPtr.assign]

/-- Witness for C8: beam 1 targets a destroyed entity and then beam 2. -/
theorem idBeam.link_survives_save_restore_witness :
    exampleBeams 1 = some (.Beam exampleBeamA)
    ∧ idBeam.FindTargetBeam exampleBeams exampleBeamA.targets = some 2
    ∧ (1 : Nat) ≠ 2
    ∧ exampleAllocated 1 = some (.Beam {})
    ∧ exampleAllocated 2 = some (.Beam {})
    ∧ ∃ w1 A1 B1, idBeam.Event_MatchTarget exampleBeams 1 = .ok w1
      ∧ w1 1 = some (.Beam A1) ∧ w1 2 = some (.Beam B1)
      ∧ A1.target.GetEntity w1 = some (2, .Beam B1)
      ∧ B1.master.GetEntity w1 = some (1, .Beam A1)
      ∧ A1.Save [] = [.object A1.target, .object A1.master]
      ∧ B1.Save [] = [.object B1.target, .object B1.master]
      ∧ ∀ order, order = [1, 2] ∨ order = [2, 1] →
          ∃ w2 A2 B2 savefile,
            RestoreBeams order exampleAllocated ⟨SaveBeams w1 order [], [], 1305⟩
              = some (w2, savefile)
            ∧ savefile.file = []
            ∧ w2 1 = some (.Beam A2) ∧ w2 2 = some (.Beam B2)
            ∧ A2.target.GetEntity w2 = some (2, .Beam B2)
            ∧ B2.master.GetEntity w2 = some (1, .Beam A2) :=
  ⟨rfl, rfl, by decide, rfl, rfl,
    idBeam.link_survives_save_restore exampleBeams exampleAllocated 1 2 exampleBeamA {} {}
      1305 rfl rfl (by decide) rfl rfl⟩

/-! ## idPhantomObjects::Think with an absent target -/

/-- C9 (what the code does): when Think runs its body (not dormant, TH_THINK set) and the
target reference resolves to absent, the call does not complete: after the check that
clears TH_THINK there is no return, and the eye position is read through the NULL target,
which is a fault. -/
theorem idPhantomObjects.Think_absent_target_faults (collaborators : ThinkCollaborators)
    (gameLocal : idGameLocal) (entities : EntityRegistry) (random : idRandom)
    (self : idPhantomObjects) (hdormant : collaborators.CheckDormant = false)
    (hthink : self.thinkFlags &&& TH_THINK ≠ 0)
    (habsent : self.target.GetEntity entities = none) :
    idPhantomObjects.Think collaborators gameLocal entities random self
      = .error .NullDereference := by
  unfold idPhantomObjects.Think
  rw [hdormant, if_neg (by decide), if_neg hthink, habsent]

/-- Witness for C9: an active phantom-objects entity whose target, entity 5, was
destroyed. -/
theorem idPhantomObjects.Think_absent_target_faults_witness :
    ({} : ThinkCollaborators).CheckDormant = false
    ∧ examplePhantomActive.thinkFlags &&& TH_THINK ≠ 0
    ∧ examplePhantomActive.target.GetEntity (fun _ => (none : Option gameEntity)) = none
    ∧ idPhantomObjects.Think {} {} (fun _ => none) {} examplePhantomActive
        = .error .NullDereference :=
  ⟨rfl, by decide, rfl,
    idPhantomObjects.Think_absent_target_faults {} {} (fun _ => none) {} examplePhantomActive
      rfl (by decide) rfl⟩

/-! ## idAnimated: the chain of missile update events -/


theorem idDict.GetString_Set_same (args : idDict) (key value defaultString : String) :
    (args.Set key value).GetString key defaultString = value := by
  unfold idDict.Set
  split
  · rename_i h
    unfold idDict.GetString
    induction args with
    | nil => simp at h
    | cons kv rest ih =>
      simp only [List.map_cons, List.find?_cons]
      by_cases hk : kv.1 = key
      · simp [hk]
      · have hk' : (kv.1 == key) = false := by simpa using hk
        simp only [hk', Bool.false_eq_true, if_false]
        simp only [List.any_cons, hk', Bool.false_or] at h
        exact ih h
  · rename_i h
    unfold idDict.GetString
    have hnone : args.find? (fun kv => kv.1 == key) = none := by
      rw [List.find?_eq_none]
      intro x hx hcontra
      apply h
      rw [List.any_eq_true]
      exact ⟨x, hx, hcontra⟩
    simp [List.find?_append, hnone]

theorem idDict.GetString_Set_other (args : idDict) (key other value defaultString : String)
    (hne : key ≠ other) :
    (args.Set other value).GetString key defaultString = args.GetString key defaultString := by
  unfold idDict.Set
  have hne' : (other == key) = false := by simpa using (fun h => hne h.symm)
  split
  · unfold idDict.GetString
    have : ∀ l : List (String × String),
        (l.map (fun kv => if (kv.1 == other) = true then (other, value) else kv)).find?
            (fun kv => kv.1 == key)
          = l.find? (fun kv => kv.1 == key) := by
      intro l
      induction l with
      | nil => rfl
      | cons kv rest ih =>
        simp only [List.map_cons, List.find?_cons]
        by_cases hk : kv.1 = other
        · have hk2 : (kv.1 == key) = false := by rw [hk]; exact hne'
          have hk1 : (kv.1 == other) = true := by simpa using hk
          simp only [hk1, if_true, hne', hk2, ih]
        · have hk' : (kv.1 == other) = false := by simpa using hk
          simp only [hk', Bool.false_eq_true, if_false, ih]
    rw [this]
  · unfold idDict.GetString
    rw [List.find?_append]
    cases hfind : args.find? (fun kv => kv.1 == key) with
    | some kv => simp
    | none => simp [hne']

theorem pendingUpdates_PostEventMS (events : List idEvent) (now : Int) (eventdef : idEventDef)
    (delay : Int) (args : List Int) :
    pendingUpdates (PostEventMS events now eventdef delay args)
      = pendingUpdates events + (if eventdef = .EV_LaunchMissilesUpdate then 1 else 0) := by
  unfold pendingUpdates PostEventMS
  have hsplit : events = events.takeWhile (fun e => decide (e.time ≤ now + delay))
      ++ events.dropWhile (fun e => decide (e.time ≤ now + delay)) :=
    (List.takeWhile_append_dropWhile _ _).symm
  conv => rhs; rw [hsplit]
  simp only [List.filter_append, List.length_append, List.filter_cons]
  by_cases h : eventdef = .EV_LaunchMissilesUpdate
  · simp [h]; omega
  · have h' : (eventdef == idEventDef.EV_LaunchMissilesUpdate) = false := by simpa using h
    simp [h, h']

theorem pendingUpdates_CancelEvents (events : List idEvent) :
    pendingUpdates (CancelEvents events .EV_LaunchMissilesUpdate) = 0 := by
  unfold pendingUpdates CancelEvents
  simp [List.filter_filter]

theorem Event_LaunchMissilesUpdate_pending (collaborators : MissileCollaborators) (now : Int)
    (launchjoint targetjoint numshots framedelay : Int) (state next : MissileState)
    (h : idAnimated.Event_LaunchMissilesUpdate collaborators now launchjoint targetjoint
      numshots framedelay state = .ok next) :
    pendingUpdates next.events ≤ pendingUpdates state.events + 1 := by
  unfold idAnimated.Event_LaunchMissilesUpdate at h
  dsimp only at h
  split at h
  · cases h; simp
  · split at h
    · cases h
    · split at h
      · cases h
        simp [pendingUpdates_PostEventMS]
      · cases h; simp

theorem Event_LaunchMissiles_pending (collaborators : MissileCollaborators) (now : Int)
    (projectilename sound launchjoint targetjoint : String) (numshots framedelay : Int)
    (state next : MissileState)
    (h : idAnimated.Event_LaunchMissiles collaborators now projectilename sound launchjoint
      targetjoint numshots framedelay state = .ok next) :
    pendingUpdates next.events ≤ 1 ∨ next.events = state.events := by
  unfold idAnimated.Event_LaunchMissiles at h
  split at h
  · cases h; exact Or.inr rfl
  · dsimp only at h
    split at h
    · cases h
    · left
      have := Event_LaunchMissilesUpdate_pending _ _ _ _ _ _ _ _ h
      simpa [pendingUpdates_CancelEvents] using this

theorem ServiceEvent_pending (collaborators : MissileCollaborators) (now : Int)
    (state next : MissileState) (hinv : pendingUpdates state.events ≤ 1)
    (h : ServiceEvent collaborators now state = .ok next) :
    pendingUpdates next.events ≤ 1 := by
  unfold ServiceEvent at h
  split at h
  · cases h; exact hinv
  · rename_i event events hev
    rw [hev] at hinv
    split at h
    · unfold idAnimated.ProcessEvent at h
      split at h
      · rename_i heq _
        have hrest : pendingUpdates events = 0 := by
          unfold pendingUpdates at hinv ⊢
          simp only [List.filter_cons, heq, beq_self_eq_true, if_true, List.length_cons] at hinv
          omega
        have := Event_LaunchMissilesUpdate_pending _ _ _ _ _ _ _ _ h
        simp only [hrest] at this
        exact this
      · cases h
        show pendingUpdates events ≤ 1
        unfold pendingUpdates at hinv ⊢
        simp only [List.filter_cons] at hinv
        split at hinv
        · simp only [List.length_cons] at hinv; omega
        · exact hinv
    · cases h; rw [hev]; exact hinv

theorem MissileReachable_pending (collaborators : MissileCollaborators) (state : MissileState)
    (h : MissileReachable collaborators state) : pendingUpdates state.events ≤ 1 := by
  induction h with
  | spawn state h => omega
  | launch state next now projectilename sound launchjoint targetjoint numshots framedelay _
      hstep ih =>
    rcases Event_LaunchMissiles_pending _ _ _ _ _ _ _ _ _ _ hstep with h | h
    · exact h
    · rw [h]; exact ih
  | service state next now _ hstep ih => exact ServiceEvent_pending _ _ _ _ ih hstep
  | post state now delay name args _ ih =>
    simp only [pendingUpdates_PostEventMS]
    simpa using ih

theorem mem_PostEventMS (events : List idEvent) (now : Int) (eventdef : idEventDef)
    (delay : Int) (args : List Int) (e : idEvent) :
    e ∈ PostEventMS events now eventdef delay args
      ↔ e ∈ events ∨ e = ⟨eventdef, now + delay, args⟩ := by
  unfold PostEventMS
  have hsplit : events = events.takeWhile (fun e => decide (e.time ≤ now + delay))
      ++ events.dropWhile (fun e => decide (e.time ≤ now + delay)) :=
    (List.takeWhile_append_dropWhile _ _).symm
  conv => rhs; rw [hsplit]
  simp only [List.mem_append, List.mem_cons]
  tauto

theorem Event_LaunchMissilesUpdate_eq (collaborators : MissileCollaborators) (now : Int)
    (launchjoint targetjoint numshots framedelay : Int) (state : MissileState)
    (projectilename : String) (projectileDef : idDeclEntityDef)
    (hname : state.self.spawnArgs.GetString "projectilename" = projectilename)
    (hdef : collaborators.FindEntityDefDict projectilename = some projectileDef) :
    idAnimated.Event_LaunchMissilesUpdate collaborators now launchjoint targetjoint numshots
        framedelay state
      = if projectileDef.spawnsProjectile = true then
          .ok { state with
                projectiles := state.projectiles
                  ++ [⟨projectilename, launchjoint, targetjoint, now⟩]
                events :=
                  if numshots > 0 then
                    PostEventMS state.events now .EV_LaunchMissilesUpdate
                      (collaborators.FRAME2MS framedelay)
                      [launchjoint, targetjoint, numshots - 1, framedelay]
                  else state.events }
        else .error (.Error (projectilename ++ " is not an idProjectile")) := by
  unfold idAnimated.Event_LaunchMissilesUpdate
  simp only [hname, hdef]
  cases projectileDef.spawnsProjectile
  · simp
  · simp only [Bool.not_true, Bool.false_eq_true, if_false, if_true]
    split <;> rfl

theorem chain_step (collaborators : MissileCollaborators) (now : Int)
    (numshots framedelay : Int) (state next : MissileState)
    (projectilename : String) (launch target : Int) (projectileDef : idDeclEntityDef)
    (hchain : state.chainOf projectilename launch target)
    (hdef : collaborators.FindEntityDefDict projectilename = some projectileDef)
    (hok : idAnimated.Event_LaunchMissilesUpdate collaborators now launch target numshots
      framedelay state = .ok next) :
    next.chainOf projectilename launch target
      ∧ next.projectiles = state.projectiles ++ [⟨projectilename, launch, target, now⟩] := by
  rw [Event_LaunchMissilesUpdate_eq collaborators now launch target numshots framedelay state
    projectilename projectileDef hchain.1 hdef] at hok
  split at hok
  · cases hok
    refine ⟨⟨hchain.1, ?_⟩, rfl⟩
    intro e he hupd
    dsimp only at he
    split at he
    · rw [mem_PostEventMS] at he
      rcases he with he | he
      · exact hchain.2 e he hupd
      · exact ⟨numshots - 1, framedelay, by rw [he]⟩
    · exact hchain.2 e he hupd
  · cases hok

theorem not_update_of_mem_CancelEvents (events : List idEvent) (e : idEvent)
    (he : e ∈ CancelEvents events .EV_LaunchMissilesUpdate) :
    e.eventdef ≠ .EV_LaunchMissilesUpdate := by
  unfold CancelEvents at he
  rw [List.mem_filter] at he
  simpa using he.2

theorem Event_LaunchMissiles_chain (collaborators : MissileCollaborators) (now : Int)
    (projectilename sound launchjoint targetjoint : String) (numshots framedelay : Int)
    (state next : MissileState) (projectileDef : idDeclEntityDef)
    (hdef : collaborators.FindEntityDefDict projectilename = some projectileDef)
    (hok : idAnimated.Event_LaunchMissiles collaborators now projectilename sound launchjoint
      targetjoint numshots framedelay state = .ok next) :
    next.chainOf projectilename (collaborators.GetJointHandle launchjoint)
        (collaborators.GetJointHandle targetjoint)
      ∧ next.projectiles = state.projectiles
          ++ [⟨projectilename, collaborators.GetJointHandle launchjoint,
                collaborators.GetJointHandle targetjoint, now⟩]
      ∧ ∀ e ∈ next.events, e.eventdef = .EV_LaunchMissilesUpdate →
          e = ⟨.EV_LaunchMissilesUpdate, now + collaborators.FRAME2MS framedelay,
                [collaborators.GetJointHandle launchjoint,
                  collaborators.GetJointHandle targetjoint, wrapInt (numshots - 1) - 1,
                  framedelay]⟩ := by
  unfold idAnimated.Event_LaunchMissiles at hok
  simp only [hdef] at hok
  split at hok
  · cases hok
  · have hname : ((state.self.spawnArgs.Set "projectilename" projectilename).Set
        "missilesound" sound).GetString "projectilename" = projectilename := by
      rw [idDict.GetString_Set_other _ _ _ _ _ (by decide), idDict.GetString_Set_same]
    have hstep := chain_step collaborators now (wrapInt (numshots - 1)) framedelay _ next
      projectilename
      (collaborators.GetJointHandle launchjoint) (collaborators.GetJointHandle targetjoint)
      projectileDef
      ⟨hname, fun e he hupd => absurd hupd (not_update_of_mem_CancelEvents _ e he)⟩ hdef hok
    refine ⟨hstep.1, hstep.2, ?_⟩
    rw [Event_LaunchMissilesUpdate_eq collaborators now _ _ (wrapInt (numshots - 1)) framedelay _
      projectilename projectileDef hname hdef] at hok
    split at hok
    · cases hok
      intro e he hupd
      dsimp only at he
      split at he
      · rw [mem_PostEventMS] at he
        rcases he with he | he
        · exact absurd hupd (not_update_of_mem_CancelEvents _ e he)
        · exact he
      · exact absurd hupd (not_update_of_mem_CancelEvents _ e he)
    · cases hok

theorem ServiceEvent_chain (collaborators : MissileCollaborators) (now : Int)
    (state next : MissileState) (projectilename : String) (launch target : Int)
    (projectileDef : idDeclEntityDef)
    (hchain : state.chainOf projectilename launch target)
    (hdef : collaborators.FindEntityDefDict projectilename = some projectileDef)
    (hok : ServiceEvent collaborators now state = .ok next) :
    next.chainOf projectilename launch target
      ∧ ∃ launched, next.projectiles = state.projectiles ++ launched
          ∧ ∀ p ∈ launched, idProjectile.ofCall projectilename launch target p := by
  unfold ServiceEvent at hok
  split at hok
  · cases hok
    exact ⟨hchain, [], by simp, by simp⟩
  · rename_i event events hev
    have hrest : MissileState.chainOf projectilename launch target
        { state with events := events } :=
      ⟨hchain.1, fun e he hupd => hchain.2 e (by rw [hev]; exact List.mem_cons_of_mem _ he) hupd⟩
    split at hok
    · unfold idAnimated.ProcessEvent at hok
      split at hok
      · rename_i lj tj n f hdefeq hargs
        obtain ⟨n', f', hargs'⟩ := hchain.2 event (by rw [hev]; exact List.mem_cons_self _ _) hdefeq
        rw [hargs] at hargs'
        simp only [List.cons.injEq, and_true] at hargs'
        obtain ⟨h1, h2, _, _⟩ := hargs'
        subst h1 h2
        have hstep := chain_step collaborators now n f _ next projectilename lj tj
          projectileDef hrest hdef hok
        exact ⟨hstep.1, [⟨projectilename, lj, tj, now⟩], hstep.2,
          by intro p hp; simp only [List.mem_singleton] at hp; subst hp; exact ⟨rfl, rfl, rfl⟩⟩
      · cases hok
        exact ⟨hrest, [], by simp, by simp⟩
    · cases hok
      exact ⟨hchain, [], by simp, by simp⟩

theorem ServiceEvents_chain (collaborators : MissileCollaborators) (projectilename : String)
    (launch target : Int) (projectileDef : idDeclEntityDef)
    (hdef : collaborators.FindEntityDefDict projectilename = some projectileDef) :
    ∀ (times : List Int) (state later : MissileState),
      state.chainOf projectilename launch target →
      ServiceEvents collaborators times state = .ok later →
      later.chainOf projectilename launch target
        ∧ ∃ launched, later.projectiles = state.projectiles ++ launched
            ∧ ∀ p ∈ launched, idProjectile.ofCall projectilename launch target p := by
  intro times
  induction times with
  | nil =>
    intro state later hchain hok
    cases hok
    exact ⟨hchain, [], by simp, by simp⟩
  | cons now times ih =>
    intro state later hchain hok
    unfold ServiceEvents at hok
    split at hok
    · cases hok
    · rename_i mid hmid
      obtain ⟨hc1, l1, hp1, hl1⟩ := ServiceEvent_chain collaborators now state mid
        projectilename launch target projectileDef hchain hdef hmid
      obtain ⟨hc2, l2, hp2, hl2⟩ := ih mid later hc1 hok
      refine ⟨hc2, l1 ++ l2, by rw [hp2, hp1, List.append_assoc], ?_⟩
      intro p hp
      rcases List.mem_append.mp hp with h | h
      · exact hl1 p h
      · exact hl2 p h

theorem Event_LaunchMissiles_total (collaborators : MissileCollaborators) (now : Int)
    (projectilename sound launchjoint targetjoint : String) (numshots framedelay : Int)
    (state : MissileState)
    (hdef : collaborators.FindEntityDefDict projectilename = some ⟨true⟩)
    (hjoint : collaborators.GetJointHandle launchjoint ≠ INVALID_JOINT) :
    ∃ next, idAnimated.Event_LaunchMissiles collaborators now projectilename sound launchjoint
      targetjoint numshots framedelay state = .ok next := by
  have hname : ((state.self.spawnArgs.Set "projectilename" projectilename).Set
      "missilesound" sound).GetString "projectilename" = projectilename := by
    rw [idDict.GetString_Set_other _ _ _ _ _ (by decide), idDict.GetString_Set_same]
  unfold idAnimated.Event_LaunchMissiles
  simp only [hdef, if_neg hjoint]
  rw [Event_LaunchMissilesUpdate_eq collaborators now _ _ (wrapInt (numshots - 1)) framedelay _
    projectilename ⟨true⟩ hname hdef]
  exact ⟨_, rfl⟩

theorem ServiceEvent_total (collaborators : MissileCollaborators) (now : Int)
    (state : MissileState) (projectilename : String) (launch target : Int)
    (hchain : state.chainOf projectilename launch target)
    (hdef : collaborators.FindEntityDefDict projectilename = some ⟨true⟩) :
    ∃ next, ServiceEvent collaborators now state = .ok next := by
  unfold ServiceEvent
  split
  · exact ⟨_, rfl⟩
  · split
    · unfold idAnimated.ProcessEvent
      split
      · rename_i event events _ _ _ _ lj tj n f _ _
        rw [Event_LaunchMissilesUpdate_eq collaborators now lj tj n f
          { state with events := events } projectilename ⟨true⟩ hchain.1 hdef]
        exact ⟨_, rfl⟩
      · exact ⟨_, rfl⟩
    · exact ⟨_, rfl⟩

theorem ServiceEvents_total (collaborators : MissileCollaborators) (projectilename : String)
    (launch target : Int)
    (hdef : collaborators.FindEntityDefDict projectilename = some ⟨true⟩) :
    ∀ (times : List Int) (state : MissileState),
      state.chainOf projectilename launch target →
      ∃ later, ServiceEvents collaborators times state = .ok later := by
  intro times
  induction times with
  | nil => intro state _; exact ⟨_, rfl⟩
  | cons now times ih =>
    intro state hchain
    obtain ⟨mid, hmid⟩ := ServiceEvent_total collaborators now state projectilename launch
      target hchain hdef
    have hc := (ServiceEvent_chain collaborators now state mid projectilename launch target
      ⟨true⟩ hchain hdef hmid).1
    obtain ⟨later, hlater⟩ := ih mid hc
    refine ⟨later, ?_⟩
    unfold ServiceEvents
    rw [hmid]
    exact hlater

/-- C10 (counterexample): a first `launchMissiles` call starts a chain and leaves one
update pending; a second call that names an unknown projectile returns after its warning
without cancelling anything, so the update scheduled by the first call is still pending,
fires, and launches a projectile of the first call. -/
theorem launchMissiles_unknown_projectile_keeps_first_chain :
    ∃ first second fired,
      idAnimated.Event_LaunchMissiles exampleMissiles 0 "rocket" "snd_rocket" "muzzle" "aim" 3 2
          {} = .ok first
      ∧ idAnimated.Event_LaunchMissiles exampleMissiles 10 "grenade" "snd_grenade" "muzzle"
          "aim" 5 1 first = .ok second
      ∧ second.events = [⟨.EV_LaunchMissilesUpdate, 83, [3, 4, 1, 2]⟩]
      ∧ ServiceEvent exampleMissiles 100 second = .ok fired
      ∧ fired.projectiles = [⟨"rocket", 3, 4, 0⟩, ⟨"rocket", 3, 4, 100⟩] :=
  ⟨_, _, _, rfl, rfl, rfl, rfl, rfl⟩

/-- C10 (amended): in every reachable state at most one EV_LaunchMissilesUpdate is
pending. A `launchMissiles` call whose projectile definition is known and that returns
has cancelled every earlier update: the only update pending afterwards is the one its own
first shot posted, it has launched one projectile of its own, and every projectile
launched by any later run of event deliveries is of this call (its definition, its
joints). When the definition spawns a projectile and the launch joint resolves, the call
and every later run of deliveries do return. -/
theorem launchMissiles_single_chain (collaborators : MissileCollaborators) :
    (∀ state, MissileReachable collaborators state → pendingUpdates state.events ≤ 1)
    ∧ (∀ (state next : MissileState) (now : Int)
        (projectilename sound launchjoint targetjoint : String) (numshots framedelay : Int)
        (projectileDef : idDeclEntityDef),
        collaborators.FindEntityDefDict projectilename = some projectileDef →
        idAnimated.Event_LaunchMissiles collaborators now projectilename sound launchjoint
          targetjoint numshots framedelay state = .ok next →
        (∀ e ∈ next.events, e.eventdef = .EV_LaunchMissilesUpdate →
          e = ⟨.EV_LaunchMissilesUpdate, now + collaborators.FRAME2MS framedelay,
                [collaborators.GetJointHandle launchjoint,
                  collaborators.GetJointHandle targetjoint, wrapInt (numshots - 1) - 1,
                  framedelay]⟩)
        ∧ next.projectiles = state.projectiles
            ++ [⟨projectilename, collaborators.GetJointHandle launchjoint,
                  collaborators.GetJointHandle targetjoint, now⟩]
        ∧ ∀ times later, ServiceEvents collaborators times next = .ok later →
            ∃ launched, later.projectiles = next.projectiles ++ launched
              ∧ ∀ p ∈ launched, idProjectile.ofCall projectilename
                  (collaborators.GetJointHandle launchjoint)
                  (collaborators.GetJointHandle targetjoint) p)
    ∧ (∀ (state : MissileState) (now : Int)
        (projectilename sound launchjoint targetjoint : String) (numshots framedelay : Int),
        collaborators.FindEntityDefDict projectilename = some ⟨true⟩ →
        collaborators.GetJointHandle launchjoint ≠ INVALID_JOINT →
        ∃ next, idAnimated.Event_LaunchMissiles collaborators now projectilename sound
            launchjoint targetjoint numshots framedelay state = .ok next
          ∧ ∀ times, ∃ later, ServiceEvents collaborators times next = .ok later) := by
  refine ⟨MissileReachable_pending collaborators, ?_, ?_⟩
  · intro state next now projectilename sound launchjoint targetjoint numshots framedelay
      projectileDef hdef hok
    obtain ⟨hchain, hproj, hev⟩ := Event_LaunchMissiles_chain collaborators now projectilename
      sound launchjoint targetjoint numshots framedelay state next projectileDef hdef hok
    refine ⟨hev, hproj, ?_⟩
    intro times later hlater
    exact (ServiceEvents_chain collaborators projectilename _ _ projectileDef hdef times next
      later hchain hlater).2
  · intro state now projectilename sound launchjoint targetjoint numshots framedelay hdef
      hjoint
    obtain ⟨next, hnext⟩ := Event_LaunchMissiles_total collaborators now projectilename sound
      launchjoint targetjoint numshots framedelay state hdef hjoint
    refine ⟨next, hnext, ?_⟩
    intro times
    exact ServiceEvents_total collaborators projectilename _ _ hdef times next
      (Event_LaunchMissiles_chain collaborators now projectilename sound launchjoint
        targetjoint numshots framedelay state next ⟨true⟩ hdef hnext).1

/-- Witness for C10: a second call with a known projectile and a known launch joint,
made while an update of an earlier chain is pending. -/
theorem launchMissiles_single_chain_witness :
    exampleMissiles.FindEntityDefDict "rocket" = some ⟨true⟩
    ∧ exampleMissiles.GetJointHandle "muzzle" ≠ INVALID_JOINT
    ∧ ∃ next, idAnimated.Event_LaunchMissiles exampleMissiles 10 "rocket" "snd_rocket"
          "muzzle" "aim" 2 1 exampleChain = .ok next
        ∧ ∀ times, ∃ later, ServiceEvents exampleMissiles times next = .ok later :=
  ⟨rfl, by decide,
    (launchMissiles_single_chain exampleMissiles).2.2 exampleChain 10 "rocket" "snd_rocket"
      "muzzle" "aim" 2 1 rfl (by decide)⟩

/-! ## idAnimated: the missile chain terminates -/

theorem shotsPending_PostEventMS (events : List idEvent) (now : Int) (eventdef : idEventDef)
    (delay : Int) (args : List Int) :
    shotsPending (PostEventMS events now eventdef delay args)
      = shotsPending events + idEvent.shots ⟨eventdef, now + delay, args⟩ := by
  unfold shotsPending PostEventMS
  have hsplit : events = events.takeWhile (fun e => decide (e.time ≤ now + delay))
      ++ events.dropWhile (fun e => decide (e.time ≤ now + delay)) :=
    (List.takeWhile_append_dropWhile _ _).symm
  conv => rhs; rw [hsplit]
  simp only [List.map_append, List.sum_append, List.map_cons, List.sum_cons]
  omega

theorem length_PostEventMS (events : List idEvent) (now : Int) (eventdef : idEventDef)
    (delay : Int) (args : List Int) :
    (PostEventMS events now eventdef delay args).length = events.length + 1 := by
  unfold PostEventMS
  have hsplit : events = events.takeWhile (fun e => decide (e.time ≤ now + delay))
      ++ events.dropWhile (fun e => decide (e.time ≤ now + delay)) :=
    (List.takeWhile_append_dropWhile _ _).symm
  conv => rhs; rw [hsplit]
  simp only [List.length_append, List.length_cons]
  omega

theorem shotsPending_CancelEvents (events : List idEvent) :
    shotsPending (CancelEvents events .EV_LaunchMissilesUpdate) = 0 := by
  unfold shotsPending CancelEvents
  induction events with
  | nil => rfl
  | cons e rest ih =>
    simp only [List.filter_cons]
    split
    · rename_i h
      simp only [List.map_cons, List.sum_cons, ih, Nat.add_zero]
      unfold idEvent.shots
      split
      · rename_i heq _
        simp [heq] at h
      · rfl
    · exact ih

theorem length_CancelEvents (events : List idEvent) (eventdef : idEventDef) :
    (CancelEvents events eventdef).length ≤ events.length := by
  unfold CancelEvents
  exact List.length_filter_le _ _

/-- Delivery of the event at the head of the queue, once it is due: the queue length plus the
shots pending goes down, and launched plus pending shots stays the same. -/
theorem ServiceEvent_due (collaborators : MissileCollaborators) (now : Int)
    (state : MissileState) (event : idEvent) (rest : List idEvent)
    (projectilename : String)
    (hname : state.self.spawnArgs.GetString "projectilename" = projectilename)
    (hdef : collaborators.FindEntityDefDict projectilename = some ⟨true⟩)
    (hev : state.events = event :: rest) (hdue : event.time ≤ now) :
    ∃ next, ServiceEvent collaborators now state = .ok next
      ∧ next.self = state.self
      ∧ next.events.length + shotsPending next.events + 1
          ≤ state.events.length + shotsPending state.events
      ∧ next.projectiles.length + shotsPending next.events
          = state.projectiles.length + shotsPending state.events := by
  unfold ServiceEvent
  rw [hev]
  simp only [hdue, if_true]
  unfold idAnimated.ProcessEvent
  split
  · rename_i lj tj k fd hdefeq hargs
    rw [Event_LaunchMissilesUpdate_eq collaborators now lj tj k fd
      { state with events := rest } projectilename ⟨true⟩ hname hdef]
    refine ⟨_, rfl, rfl, ?_, ?_⟩
    · have hshots : idEvent.shots event = k.toNat + 1 := by
        unfold idEvent.shots
        rw [hdefeq, hargs]
      simp only [shotsPending, List.map_cons, List.sum_cons, List.length_cons, hshots]
      split
      · rename_i hk
        have := shotsPending_PostEventMS rest now .EV_LaunchMissilesUpdate
          (collaborators.FRAME2MS fd) [lj, tj, k - 1, fd]
        unfold shotsPending at this
        rw [this, length_PostEventMS]
        have h2 : idEvent.shots ⟨.EV_LaunchMissilesUpdate, now + collaborators.FRAME2MS fd,
            [lj, tj, k - 1, fd]⟩ = (k - 1).toNat + 1 := rfl
        rw [h2]
        omega
      · omega
    · have hshots : idEvent.shots event = k.toNat + 1 := by
        unfold idEvent.shots
        rw [hdefeq, hargs]
      simp only [shotsPending, List.map_cons, List.sum_cons, List.length_append,
        List.length_singleton, hshots]
      split
      · rename_i hk
        have := shotsPending_PostEventMS rest now .EV_LaunchMissilesUpdate
          (collaborators.FRAME2MS fd) [lj, tj, k - 1, fd]
        unfold shotsPending at this
        rw [this]
        have h2 : idEvent.shots ⟨.EV_LaunchMissilesUpdate, now + collaborators.FRAME2MS fd,
            [lj, tj, k - 1, fd]⟩ = (k - 1).toNat + 1 := rfl
        rw [h2]
        omega
      · omega
  · rename_i hnot
    refine ⟨_, rfl, rfl, ?_, ?_⟩
    · simp only [shotsPending, List.map_cons, List.sum_cons, List.length_cons]
      omega
    · have hshots : idEvent.shots event = 0 := by
        unfold idEvent.shots
        split
        · rename_i a b c d h1 h2
          exact absurd h2 (hnot a b c d h1)
        · rfl
      simp only [shotsPending, List.map_cons, List.sum_cons, hshots]
      omega

theorem RunEvents_drains (collaborators : MissileCollaborators) (projectilename : String)
    (hdef : collaborators.FindEntityDefDict projectilename = some ⟨true⟩) :
    ∀ (fuel : Nat) (now : Int) (state : MissileState),
      state.self.spawnArgs.GetString "projectilename" = projectilename →
      state.events.length + shotsPending state.events ≤ fuel →
      ∃ final, RunEvents collaborators fuel now state = .ok final
        ∧ final.events = []
        ∧ final.projectiles.length = state.projectiles.length + shotsPending state.events := by
  intro fuel
  induction fuel with
  | zero =>
    intro now state _ hfuel
    have hlen : state.events = [] := List.length_eq_zero.mp (by omega)
    exact ⟨state, rfl, hlen, by rw [hlen]; rfl⟩
  | succ fuel ih =>
    intro now state hname hfuel
    unfold RunEvents
    cases hev : state.events with
    | nil => exact ⟨state, rfl, hev, by simp [shotsPending]⟩
    | cons event rest =>
      dsimp only
      obtain ⟨next, hnext, hself, hmeasure, hshots⟩ := ServiceEvent_due collaborators
        (max now event.time) state event rest projectilename hname hdef hev (le_max_right _ _)
      rw [hnext]
      dsimp only
      rw [hev] at hmeasure hshots
      rw [hev] at hfuel
      obtain ⟨final, hfinal, hempty, hcount⟩ := ih (max now event.time) next
        (by rw [hself]; exact hname) (by omega)
      exact ⟨final, hfinal, hempty, by omega⟩

theorem wrapInt_range (x : Int) : INT_MIN ≤ wrapInt x ∧ wrapInt x ≤ INT_MAX := by
  unfold wrapInt INT_MIN INT_MAX
  omega

theorem wrapInt_of_range (x : Int) (hlo : INT_MIN ≤ x) (hhi : x ≤ INT_MAX) : wrapInt x = x := by
  unfold INT_MIN at hlo
  unfold INT_MAX at hhi
  unfold wrapInt
  omega

theorem Event_LaunchMissiles_eq (collaborators : MissileCollaborators) (now : Int)
    (projectilename sound launchjoint targetjoint : String) (numshots framedelay : Int)
    (state : MissileState) (projectileDef : idDeclEntityDef)
    (hdef : collaborators.FindEntityDefDict projectilename = some projectileDef)
    (hjoint : collaborators.GetJointHandle launchjoint ≠ INVALID_JOINT) :
    idAnimated.Event_LaunchMissiles collaborators now projectilename sound launchjoint
        targetjoint numshots framedelay state
      = if projectileDef.spawnsProjectile = true then
          .ok { self := { state.self with
                  spawnArgs := (state.self.spawnArgs.Set "projectilename" projectilename).Set
                    "missilesound" sound }
                projectiles := state.projectiles
                  ++ [⟨projectilename, collaborators.GetJointHandle launchjoint,
                        collaborators.GetJointHandle targetjoint, now⟩]
                warnings :=
                  if collaborators.GetJointHandle targetjoint = INVALID_JOINT then
                    state.warnings ++ ["unknown target joint " ++ targetjoint]
                  else state.warnings
                events :=
                  if wrapInt (numshots - 1) > 0 then
                    PostEventMS (CancelEvents state.events .EV_LaunchMissilesUpdate) now
                      .EV_LaunchMissilesUpdate (collaborators.FRAME2MS framedelay)
                      [collaborators.GetJointHandle launchjoint,
                        collaborators.GetJointHandle targetjoint, wrapInt (numshots - 1) - 1,
                        framedelay]
                  else CancelEvents state.events .EV_LaunchMissilesUpdate }
        else .error (.Error (projectilename ++ " is not an idProjectile")) := by
  have hname : ((state.self.spawnArgs.Set "projectilename" projectilename).Set
      "missilesound" sound).GetString "projectilename" = projectilename := by
    rw [idDict.GetString_Set_other _ _ _ _ _ (by decide), idDict.GetString_Set_same]
  unfold idAnimated.Event_LaunchMissiles
  simp only [hdef, if_neg hjoint]
  rw [Event_LaunchMissilesUpdate_eq collaborators now _ _ (wrapInt (numshots - 1)) framedelay
    _ projectilename projectileDef hname hdef]

theorem Event_LaunchMissiles_shots (collaborators : MissileCollaborators) (now : Int)
    (projectilename sound launchjoint targetjoint : String) (numshots framedelay : Int)
    (state next : MissileState)
    (hdef : collaborators.FindEntityDefDict projectilename = some ⟨true⟩)
    (hok : idAnimated.Event_LaunchMissiles collaborators now projectilename sound launchjoint
      targetjoint numshots framedelay state = .ok next) :
    next.self.spawnArgs.GetString "projectilename" = projectilename
      ∧ next.events.length ≤ state.events.length + 1
      ∧ shotsPending next.events = (wrapInt (numshots - 1)).toNat
      ∧ next.projectiles.length = state.projectiles.length + 1 := by
  have hname : ((state.self.spawnArgs.Set "projectilename" projectilename).Set
      "missilesound" sound).GetString "projectilename" = projectilename := by
    rw [idDict.GetString_Set_other _ _ _ _ _ (by decide), idDict.GetString_Set_same]
  unfold idAnimated.Event_LaunchMissiles at hok
  simp only [hdef] at hok
  split at hok
  · cases hok
  · rw [Event_LaunchMissilesUpdate_eq collaborators now _ _ (wrapInt (numshots - 1)) framedelay
      _ projectilename ⟨true⟩ hname hdef] at hok
    simp only [if_true] at hok
    cases hok
    refine ⟨hname, ?_, ?_, by simp⟩
    · dsimp only
      have := length_CancelEvents state.events .EV_LaunchMissilesUpdate
      split
      · rw [length_PostEventMS]; omega
      · omega
    · dsimp only
      split
      · rename_i hk
        rw [shotsPending_PostEventMS, shotsPending_CancelEvents]
        have h2 : idEvent.shots ⟨.EV_LaunchMissilesUpdate,
            now + collaborators.FRAME2MS framedelay,
            [collaborators.GetJointHandle launchjoint, collaborators.GetJointHandle targetjoint,
              wrapInt (numshots - 1) - 1, framedelay]⟩
            = (wrapInt (numshots - 1) - 1).toNat + 1 := rfl
        rw [h2]
        omega
      · rename_i hk
        rw [shotsPending_CancelEvents]
        omega

/-- C11 (counterexample): a `launchMissiles` call with numshots = INT_MIN, which is not
greater than 0. The decrement INT_MIN - 1 wraps around to INT_MAX, so the first update
launches its projectile and posts itself again, with INT_MAX - 1; when that update is
delivered a second projectile is launched and a third update is pending: more than the
one projectile the claim allows for n <= 0. -/
theorem launchMissiles_at_INT_MIN_launches_more_than_one :
    INT_MIN ≤ 0
    ∧ ∃ first second,
      idAnimated.Event_LaunchMissiles exampleMissiles 0 "rocket" "snd_rocket" "muzzle" "aim"
          INT_MIN 0 {} = .ok first
      ∧ first.projectiles = [⟨"rocket", 3, 4, 0⟩]
      ∧ first.events = [⟨.EV_LaunchMissilesUpdate, 0, [3, 4, INT_MAX - 1, 0]⟩]
      ∧ ServiceEvent exampleMissiles 0 first = .ok second
      ∧ second.projectiles = [⟨"rocket", 3, 4, 0⟩, ⟨"rocket", 3, 4, 0⟩]
      ∧ second.events = [⟨.EV_LaunchMissilesUpdate, 0, [3, 4, INT_MAX - 2, 0]⟩] :=
  ⟨by decide, _, _, rfl, rfl, rfl, rfl, rfl, rfl⟩

/-- C11 (amended): for every numshots and every framedelay the chain started by
Event_LaunchMissiles terminates. Event_LaunchMissilesUpdate posts itself again only when
its numshots argument is greater than 0, and then with that argument decremented by one.
When the projectile definition spawns a projectile and the launch joint resolves, the call
returns, and delivering the pending events in queue order empties the queue within a
number of deliveries bounded by the queue length and 2^31; by then one projectile more
than the 32-bit value of numshots - 1, if that is positive, has been launched: exactly
numshots projectiles for 1 <= numshots <= INT_MAX, exactly one for INT_MIN < numshots <= 0,
and 2^31 for numshots = INT_MIN, where the decrement wraps around to INT_MAX. -/
theorem launchMissiles_chain_terminates (collaborators : MissileCollaborators) :
    (∀ (now launchjoint targetjoint numshots framedelay : Int) (state next : MissileState),
        idAnimated.Event_LaunchMissilesUpdate collaborators now launchjoint targetjoint numshots
          framedelay state = .ok next →
        next.events = state.events
          ∨ (numshots > 0
              ∧ next.events = PostEventMS state.events now .EV_LaunchMissilesUpdate
                  (collaborators.FRAME2MS framedelay)
                  [launchjoint, targetjoint, numshots - 1, framedelay]))
    ∧ (∀ (state : MissileState) (now : Int)
        (projectilename sound launchjoint targetjoint : String) (numshots framedelay : Int),
        collaborators.FindEntityDefDict projectilename = some ⟨true⟩ →
        collaborators.GetJointHandle launchjoint ≠ INVALID_JOINT →
        ∃ next, idAnimated.Event_LaunchMissiles collaborators now projectilename sound
            launchjoint targetjoint numshots framedelay state = .ok next
          ∧ (wrapInt (numshots - 1)).toNat ≤ 2147483647
          ∧ ∀ (fuel : Nat) (clock : Int),
              state.events.length + 1 + (wrapInt (numshots - 1)).toNat ≤ fuel →
              ∃ final, RunEvents collaborators fuel clock next = .ok final
                ∧ final.events = []
                ∧ final.projectiles.length
                    = state.projectiles.length + ((wrapInt (numshots - 1)).toNat + 1)
                ∧ (INT_MIN < numshots → numshots ≤ INT_MAX →
                    final.projectiles.length
                      = state.projectiles.length
                        + (if 1 ≤ numshots then numshots.toNat else 1))
                ∧ (numshots = INT_MIN →
                    final.projectiles.length = state.projectiles.length + 2147483648)) := by
  constructor
  · intro now launchjoint targetjoint numshots framedelay state next hok
    unfold idAnimated.Event_LaunchMissilesUpdate at hok
    dsimp only at hok
    split at hok
    · cases hok; exact Or.inl rfl
    · split at hok
      · cases hok
      · split at hok
        · rename_i hk
          cases hok
          exact Or.inr ⟨hk, rfl⟩
        · cases hok; exact Or.inl rfl
  · intro state now projectilename sound launchjoint targetjoint numshots framedelay hdef hjoint
    obtain ⟨next, hnext⟩ := Event_LaunchMissiles_total collaborators now projectilename sound
      launchjoint targetjoint numshots framedelay state hdef hjoint
    obtain ⟨hname, hlen, hshots, hproj⟩ := Event_LaunchMissiles_shots collaborators now
      projectilename sound launchjoint targetjoint numshots framedelay state next hdef hnext
    have hrange := wrapInt_range (numshots - 1)
    refine ⟨next, hnext, by unfold INT_MAX at hrange; omega, ?_⟩
    intro fuel clock hfuel
    obtain ⟨final, hfinal, hempty, hcount⟩ := RunEvents_drains collaborators projectilename hdef
      fuel clock next hname (by omega)
    refine ⟨final, hfinal, hempty, by omega, ?_, ?_⟩
    · intro hlo hhi
      have hw : wrapInt (numshots - 1) = numshots - 1 :=
        wrapInt_of_range _ (by unfold INT_MIN at hlo ⊢; omega) (by omega)
      rw [hw] at hshots
      split <;> omega
    · intro hmin
      have hw : wrapInt (numshots - 1) = 2147483647 := by
        rw [hmin]
        decide
      rw [hw] at hshots
      omega

/-- Witness for C11: a call with three shots and frame delay 0 on an empty queue. -/
theorem launchMissiles_chain_terminates_witness :
    exampleMissiles.FindEntityDefDict "rocket" = some ⟨true⟩
    ∧ exampleMissiles.GetJointHandle "muzzle" ≠ INVALID_JOINT
    ∧ ∃ next, idAnimated.Event_LaunchMissiles exampleMissiles 0 "rocket" "snd_rocket"
          "muzzle" "aim" 3 0 {} = .ok next
        ∧ ∃ final, RunEvents exampleMissiles 3 0 next = .ok final
            ∧ final.events = []
            ∧ final.projectiles.length = 3 := by
  obtain ⟨next, hnext, _, hrun⟩ :=
    (launchMissiles_chain_terminates exampleMissiles).2 {} 0 "rocket" "snd_rocket" "muzzle"
      "aim" 3 0 rfl (by decide)
  obtain ⟨final, hfinal, hempty, _, hcount, _⟩ := hrun 3 0 (by decide)
  exact ⟨rfl, by decide, next, hnext, final, hfinal, hempty,
    hcount (by decide) (by decide)⟩

/-! ## idAnimated: launchMissiles with an unknown joint -/

/-- C12 (what the code does): a `launchMissiles` call with a known projectile definition
and a joint name that is unknown. With an unknown launch joint the call ends in the fatal
error "Unknown joint". With a known launch joint and an unknown target joint there is no
return after the warning, and the call is no no-op: it is the call of the first update,
aimed along the invalid target handle, on the state in which the warning is logged, the
two spawn arguments are set and the pending updates are cancelled. So, when the definition
spawns an idProjectile, the call returns with the warning logged, the spawn arguments set,
one projectile launched from the launch joint towards the invalid handle, and the queue
holding the events that are not updates and, when the 32-bit value of numshots - 1 is
positive, the next update; when it does not, the call ends in the fatal error
"is not an idProjectile". -/
theorem launchMissiles_unknown_joint (collaborators : MissileCollaborators) (now : Int)
    (projectilename sound launchjoint targetjoint : String) (numshots framedelay : Int)
    (state : MissileState) (projectileDef : idDeclEntityDef)
    (hdef : collaborators.FindEntityDefDict projectilename = some projectileDef) :
    (collaborators.GetJointHandle launchjoint = INVALID_JOINT →
      idAnimated.Event_LaunchMissiles collaborators now projectilename sound launchjoint
          targetjoint numshots framedelay state
        = .error (.Error ("Unknown joint " ++ launchjoint)))
    ∧ (collaborators.GetJointHandle launchjoint ≠ INVALID_JOINT →
      collaborators.GetJointHandle targetjoint = INVALID_JOINT →
      idAnimated.Event_LaunchMissiles collaborators now projectilename sound launchjoint
          targetjoint numshots framedelay state
        = idAnimated.Event_LaunchMissilesUpdate collaborators now
            (collaborators.GetJointHandle launchjoint) INVALID_JOINT (wrapInt (numshots - 1))
            framedelay
            { self := { state.self with
                spawnArgs := (state.self.spawnArgs.Set "projectilename" projectilename).Set
                  "missilesound" sound }
              events := CancelEvents state.events .EV_LaunchMissilesUpdate
              projectiles := state.projectiles
              warnings := state.warnings ++ ["unknown target joint " ++ targetjoint] }
      ∧ (projectileDef.spawnsProjectile = false →
          idAnimated.Event_LaunchMissiles collaborators now projectilename sound launchjoint
              targetjoint numshots framedelay state
            = .error (.Error (projectilename ++ " is not an idProjectile")))
      ∧ (projectileDef.spawnsProjectile = true →
          ∃ next, idAnimated.Event_LaunchMissiles collaborators now projectilename sound
              launchjoint targetjoint numshots framedelay state = .ok next
            ∧ next.warnings = state.warnings ++ ["unknown target joint " ++ targetjoint]
            ∧ next.self.spawnArgs
                = (state.self.spawnArgs.Set "projectilename" projectilename).Set
                    "missilesound" sound
            ∧ next.projectiles = state.projectiles
                ++ [⟨projectilename, collaborators.GetJointHandle launchjoint, INVALID_JOINT,
                      now⟩]
            ∧ next.events
                = if wrapInt (numshots - 1) > 0 then
                    PostEventMS (CancelEvents state.events .EV_LaunchMissilesUpdate) now
                      .EV_LaunchMissilesUpdate (collaborators.FRAME2MS framedelay)
                      [collaborators.GetJointHandle launchjoint, INVALID_JOINT,
                        wrapInt (numshots - 1) - 1, framedelay]
                  else CancelEvents state.events .EV_LaunchMissilesUpdate)) := by
  constructor
  · intro hjoint
    unfold idAnimated.Event_LaunchMissiles
    simp only [hdef, hjoint, if_true]
  · intro hjoint htarget
    refine ⟨?_, ?_, ?_⟩
    · unfold idAnimated.Event_LaunchMissiles
      simp only [hdef, if_neg hjoint, htarget, if_true]
    · intro hno
      rw [Event_LaunchMissiles_eq collaborators now projectilename sound launchjoint
        targetjoint numshots framedelay state projectileDef hdef hjoint, hno]
      rfl
    · intro hyes
      rw [Event_LaunchMissiles_eq collaborators now projectilename sound launchjoint
        targetjoint numshots framedelay state projectileDef hdef hjoint, hyes, if_pos rfl,
        htarget, if_pos rfl]
      exact ⟨_, rfl, rfl, rfl, rfl, rfl⟩

/-- Witness for C12: the definition "rocket" is known and spawns a projectile, the launch
joint "muzzle" resolves, the target joint "tail" does not; an update of an earlier chain is
pending. With the unknown name as the launch joint the call ends in the fatal error; with
it as the target joint the call returns with the warning logged, a projectile launched
towards the invalid handle, the earlier update cancelled and its own next update posted. -/
theorem launchMissiles_unknown_joint_witness :
    exampleMissiles.FindEntityDefDict "rocket" = some ⟨true⟩
    ∧ exampleMissiles.GetJointHandle "muzzle" ≠ INVALID_JOINT
    ∧ exampleMissiles.GetJointHandle "tail" = INVALID_JOINT
    ∧ idAnimated.Event_LaunchMissiles exampleMissiles 10 "rocket" "snd_rocket" "tail" "aim" 2 1
          exampleChain = .error (.Error "Unknown joint tail")
    ∧ ∃ next, idAnimated.Event_LaunchMissiles exampleMissiles 10 "rocket" "snd_rocket"
          "muzzle" "tail" 2 1 exampleChain = .ok next
        ∧ next.warnings = exampleChain.warnings ++ ["unknown target joint tail"]
        ∧ next.projectiles = exampleChain.projectiles ++ [⟨"rocket", 3, INVALID_JOINT, 10⟩]
        ∧ next.events = [⟨.EV_LaunchMissilesUpdate, 51, [3, INVALID_JOINT, 0, 1]⟩] := by
  obtain ⟨next, hnext, hwarn, _, hproj, hevents⟩ :=
    ((launchMissiles_unknown_joint exampleMissiles 10 "rocket" "snd_rocket" "muzzle" "tail" 2 1
      exampleChain ⟨true⟩ rfl).2 (by decide) rfl).2.2 rfl
  exact ⟨rfl, by decide, rfl, rfl, next, hnext, hwarn, hproj, hevents.trans rfl⟩

/-! ## idDamagable::Spawn -/

theorem idDict.GetString_absent (args : idDict) (key defaultString : String)
    (habsent : args.find? (fun kv => kv.1 == key) = none) :
    args.GetString key defaultString = defaultString := by
  unfold idDict.GetString
  rw [habsent]

/-- C13: idDamagable::Spawn ends in a fatal error if and only if the "broken" key is
non-empty and the model manager cannot load that model. When it does, the entity is left
with the takedamage flag and the contents it had: the later steps are not performed. When
it does not, the entity ends with takedamage set, solid contents, nextTriggerTime 0, and
health and count read from the configuration, 5 and 1 when the keys are absent. -/
theorem idDamagable.Spawn_aborts_iff_broken_model_unloadable (CheckModel : String → Bool)
    (self : idDamagable) :
    ((∃ fault aborted, idDamagable.Spawn CheckModel self = .error (fault, aborted))
      ↔ ((self.spawnArgs.GetString "broken" "").length ≠ 0
          ∧ CheckModel (self.spawnArgs.GetString "broken" "") = false))
    ∧ (∀ fault aborted, idDamagable.Spawn CheckModel self = .error (fault, aborted) →
        aborted.fl.takedamage = self.fl.takedamage ∧ aborted.contents = self.contents)
    ∧ (∀ spawned, idDamagable.Spawn CheckModel self = .ok spawned →
        spawned.fl.takedamage = true
        ∧ spawned.contents = CONTENTS_SOLID
        ∧ spawned.nextTriggerTime = 0
        ∧ spawned.health = atoi (self.spawnArgs.GetString "health" "5")
        ∧ spawned.count = atoi (self.spawnArgs.GetString "count" "1")
        ∧ (self.spawnArgs.find? (fun kv => kv.1 == "health") = none → spawned.health = 5)
        ∧ (self.spawnArgs.find? (fun kv => kv.1 == "count") = none → spawned.count = 1)) := by
  unfold idDamagable.Spawn
  dsimp only
  by_cases h : (self.spawnArgs.GetString "broken" "").length ≠ 0
      ∧ CheckModel (self.spawnArgs.GetString "broken" "") = false
  · rw [if_pos h]
    refine ⟨⟨fun _ => h, fun _ => ⟨_, _, rfl⟩⟩, ?_, ?_⟩
    · intro fault aborted heq
      cases heq
      exact ⟨rfl, rfl⟩
    · intro spawned heq
      cases heq
  · rw [if_neg h]
    refine ⟨⟨?_, fun h' => absurd h' h⟩, ?_, ?_⟩
    · rintro ⟨fault, aborted, heq⟩
      cases heq
    · intro fault aborted heq
      cases heq
    · intro spawned heq
      cases heq
      refine ⟨rfl, rfl, rfl, rfl, rfl, ?_, ?_⟩
      · intro habsent
        show idDict.GetInt self.spawnArgs "health" "5" = 5
        unfold idDict.GetInt
        rw [idDict.GetString_absent _ _ _ habsent]
        decide
      · intro habsent
        show idDict.GetInt self.spawnArgs "count" "1" = 1
        unfold idDict.GetInt
        rw [idDict.GetString_absent _ _ _ habsent]
        decide

/-- Witness for C13: a crate whose broken model loads; the "count" key is absent. -/
theorem idDamagable.Spawn_aborts_iff_broken_model_unloadable_witness :
    ∃ spawned, idDamagable.Spawn (fun _ => true) exampleCrate = .ok spawned
      ∧ spawned.fl.takedamage = true
      ∧ spawned.contents = CONTENTS_SOLID
      ∧ spawned.nextTriggerTime = 0
      ∧ spawned.health = atoi (exampleCrate.spawnArgs.GetString "health" "5")
      ∧ spawned.count = atoi (exampleCrate.spawnArgs.GetString "count" "1")
      ∧ (exampleCrate.spawnArgs.find? (fun kv => kv.1 == "health") = none → spawned.health = 5)
      ∧ (exampleCrate.spawnArgs.find? (fun kv => kv.1 == "count") = none → spawned.count = 1) :=
  ⟨_, rfl,
    (idDamagable.Spawn_aborts_iff_broken_model_unloadable (fun _ => true) exampleCrate).2.2 _
      rfl⟩

/-! ## idLocationSeparatorEntity::Spawn without a portal -/

/-- C14 (what the code does): when the bounds contact no portal, Spawn of
idLocationSeparatorEntity logs its warning and then, with no return after it, goes on to
make a SetPortalState call with portal handle 0; Spawn of idVacuumSeparatorEntity in the
same situation returns after its warning and makes no call. -/
theorem idLocationSeparatorEntity.Spawn_without_portal_sets_portal_state (HUMANHEAD : Bool)
    (collaborators : PortalCollaborators) (gameLocal : idGameLocal)
    (self : idLocationSeparatorEntity) (vacuum : idVacuumSeparatorEntity)
    (hsame : vacuum.spawnArgs = self.spawnArgs)
    (hnone : collaborators.FindPortal
      ((idBounds.ofPoint (collaborators.GetVector self.spawnArgs "origin")).Expand 16) = 0) :
    (idLocationSeparatorEntity.Spawn HUMANHEAD collaborators gameLocal self).warnings
        = gameLocal.warnings
          ++ ["LocationSeparator " ++ self.spawnArgs.GetString "name"
                ++ " did not contact a portal"]
    ∧ (idLocationSeparatorEntity.Spawn HUMANHEAD collaborators gameLocal self).portalCalls
        = gameLocal.portalCalls
          ++ [(0, if HUMANHEAD then Int.lor (gameLocal.portalState 0) PS_BLOCK_LOCATION
                  else PS_BLOCK_LOCATION)]
    ∧ (idVacuumSeparatorEntity.Spawn collaborators gameLocal vacuum).2.portalCalls
        = gameLocal.portalCalls := by
  unfold idLocationSeparatorEntity.Spawn idVacuumSeparatorEntity.Spawn
  rw [hsame]
  simp only [hnone, if_true]
  cases HUMANHEAD <;> exact ⟨rfl, rfl, rfl⟩

/-- Witness for C14: a separator in a map without portals. -/
theorem idLocationSeparatorEntity.Spawn_without_portal_sets_portal_state_witness :
    exampleNoPortals.FindPortal
        ((idBounds.ofPoint
          (exampleNoPortals.GetVector exampleSeparator.spawnArgs "origin")).Expand 16) = 0
    ∧ (idLocationSeparatorEntity.Spawn false exampleNoPortals {} exampleSeparator).portalCalls
        = ({} : idGameLocal).portalCalls
          ++ [(0, if false = true then Int.lor (({} : idGameLocal).portalState 0)
                    PS_BLOCK_LOCATION
                  else PS_BLOCK_LOCATION)] :=
  ⟨rfl,
    (idLocationSeparatorEntity.Spawn_without_portal_sets_portal_state false exampleNoPortals {}
      exampleSeparator { spawnArgs := exampleSeparator.spawnArgs } rfl rfl).2.1⟩

/-! ## idFuncPortal: only the view bit of the portal flags is rewritten -/

theorem testBit_PS_BLOCK_VIEW (k : Nat) : PS_BLOCK_VIEW.testBit k = decide (k = 0) := by
  show Nat.testBit 1 k = decide (k = 0)
  cases k with
  | zero => rfl
  | succ n => simp [Nat.testBit_succ]

theorem PortalFlagsUpdated_intro (old : Int) (state : Bool) :
    PortalFlagsUpdated old
      (if state then Int.lor old PS_BLOCK_VIEW else Int.land old (Int.lnot PS_BLOCK_VIEW))
      state := by
  refine ⟨rfl, ?_, ?_⟩
  · cases state
    · simp [Int.testBit_land, Int.testBit_lnot, testBit_PS_BLOCK_VIEW]
    · simp [Int.testBit_lor, testBit_PS_BLOCK_VIEW]
  · intro k hk
    cases state
    · simp [Int.testBit_land, Int.testBit_lnot, testBit_PS_BLOCK_VIEW, hk]
    · simp [Int.testBit_lor, testBit_PS_BLOCK_VIEW, hk]

/-- C18: in the HUMANHEAD build, for idFuncPortal with portal > 0, Event_Activate toggles
state and Spawn reads state from the configuration, and each writes back, for its own
portal only, the flag word it read with just the PS_BLOCK_VIEW bit rewritten: set when
state is true, cleared when it is false, every other bit preserved. With portal <= 0
Event_Activate changes neither the entity nor the game state. -/
theorem idFuncPortal.rewrites_only_block_view (collaborators : PortalCollaborators)
    (gameLocal : idGameLocal) (self : idFuncPortal) :
    (self.portal > 0 →
      (idFuncPortal.Event_Activate true gameLocal self).1.state = !self.state
      ∧ (idFuncPortal.Event_Activate true gameLocal self).1.portal = self.portal
      ∧ PortalFlagsUpdated (gameLocal.portalState self.portal)
          ((idFuncPortal.Event_Activate true gameLocal self).2.portalState self.portal)
          (!self.state)
      ∧ (∀ other, other ≠ self.portal →
          (idFuncPortal.Event_Activate true gameLocal self).2.portalState other
            = gameLocal.portalState other)
      ∧ (idFuncPortal.Event_Activate true gameLocal self).2.portalCalls
          = gameLocal.portalCalls
            ++ [(self.portal,
                  (idFuncPortal.Event_Activate true gameLocal self).2.portalState self.portal)])
    ∧ (self.portal ≤ 0 → idFuncPortal.Event_Activate true gameLocal self = (self, gameLocal))
    ∧ (collaborators.FindPortal ((collaborators.GetAbsBounds self.toidEntity).Expand 32) > 0 →
      (idFuncPortal.Spawn true collaborators gameLocal self).1.portal
          = collaborators.FindPortal ((collaborators.GetAbsBounds self.toidEntity).Expand 32)
      ∧ (idFuncPortal.Spawn true collaborators gameLocal self).1.state
          = self.spawnArgs.GetBool "start_on"
      ∧ PortalFlagsUpdated
          (gameLocal.portalState (idFuncPortal.Spawn true collaborators gameLocal self).1.portal)
          ((idFuncPortal.Spawn true collaborators gameLocal self).2.portalState
            (idFuncPortal.Spawn true collaborators gameLocal self).1.portal)
          (self.spawnArgs.GetBool "start_on")
      ∧ (∀ other, other ≠ (idFuncPortal.Spawn true collaborators gameLocal self).1.portal →
          (idFuncPortal.Spawn true collaborators gameLocal self).2.portalState other
            = gameLocal.portalState other)) := by
  refine ⟨?_, ?_, ?_⟩
  · intro hportal
    unfold idFuncPortal.Event_Activate
    simp only [hportal, if_true]
    refine ⟨trivial, trivial, ?_, ?_, ?_⟩
    · simp only [idGameLocal.SetPortalState, idGameLocal.GetPortalState, Function.update_same]
      exact PortalFlagsUpdated_intro _ _
    · intro other hother
      simp only [idGameLocal.SetPortalState, Function.update_noteq hother]
    · simp only [idGameLocal.SetPortalState, idGameLocal.GetPortalState, Function.update_same]
  · intro hportal
    unfold idFuncPortal.Event_Activate
    rw [if_neg (by omega)]
  · intro hportal
    unfold idFuncPortal.Spawn
    simp only [hportal, if_true]
    refine ⟨trivial, trivial, ?_, ?_⟩
    · simp only [idGameLocal.SetPortalState, idGameLocal.GetPortalState, Function.update_same]
      exact PortalFlagsUpdated_intro _ _
    · intro other hother
      simp only [idGameLocal.SetPortalState, Function.update_noteq hother]

/-- Witness for C18: a trigger of an open portal entity bound to portal 3. -/
theorem idFuncPortal.rewrites_only_block_view_witness :
    examplePortalEntity.portal > 0
    ∧ (idFuncPortal.Event_Activate true {} examplePortalEntity).1.state
        = !examplePortalEntity.state
    ∧ PortalFlagsUpdated (({} : idGameLocal).portalState examplePortalEntity.portal)
        ((idFuncPortal.Event_Activate true {} examplePortalEntity).2.portalState
          examplePortalEntity.portal)
        (!examplePortalEntity.state) :=
  ⟨by decide,
    ((idFuncPortal.rewrites_only_block_view examplePortals {} examplePortalEntity).1
      (by decide)).1,
    ((idFuncPortal.rewrites_only_block_view examplePortals {} examplePortalEntity).1
      (by decide)).2.2.1⟩

/-! ## idPhantomObjects::Think: the last position with a clear line -/

theorem gameEntity.toEntity_withEntity (ent : gameEntity) (base : idEntity) :
    (ent.withEntity base).toEntity = base := by
  cases ent <;> rfl

theorem gameEntity.toEntity_EnableDamageIfMoveable (ent : gameEntity) :
    ent.EnableDamageIfMoveable.toEntity = ent.toEntity := by
  cases ent <;> rfl

theorem idPhantomObjects.ThinkObject_processed
    (collaborators : ThinkCollaborators) (gameLocal : idGameLocal) (targetEnt : Nat)
    (toPos : idVec3) (i : Nat) (targetPtr : idEntityPtr) (state : ThinkState)
    (entNum : Nat) (ent : gameEntity) (targetTime : Int)
    (hent : targetPtr.GetEntity state.entities = some (entNum, ent))
    (hshown : ent.toEntity.fl.hidden = false)
    (htime : state.self.targetTime[i]? = some targetTime)
    (hpending : targetTime ≠ 0)
    (hdue : ¬ MS2SEC (targetTime - gameLocal.time) > state.self.shake_time)
    (hrange : i < state.self.lastTargetPos.length) :
    ∃ next, idPhantomObjects.ThinkObject collaborators gameLocal targetEnt toPos i targetPtr
        state = .ok next
      ∧ (((collaborators.TracePoint ent.toEntity.origin toPos entNum).fraction ≥ 1
            ∨ (collaborators.TracePoint ent.toEntity.origin toPos entNum).entity
                = some targetEnt) →
          next.self.lastTargetPos = state.self.lastTargetPos.set i toPos
          ∧ next.self.lastTargetPos[i]? = some toPos)
      ∧ (¬ ((collaborators.TracePoint ent.toEntity.origin toPos entNum).fraction ≥ 1
            ∨ (collaborators.TracePoint ent.toEntity.origin toPos entNum).entity
                = some targetEnt) →
          next.self.lastTargetPos = state.self.lastTargetPos)
      ∧ (MS2SEC (targetTime - gameLocal.time) < 0 →
          ∃ aimPos thrown, next.self.lastTargetPos[i]? = some aimPos
            ∧ next.entities entNum = some thrown
            ∧ thrown.toEntity.linearVelocity
                = (collaborators.PredictTrajectory ent.toEntity.origin aimPos state.self.speed
                    entNum).scale state.self.speed) := by
  unfold idPhantomObjects.ThinkObject
  rw [hent]
  dsimp only
  rw [if_neg (by rw [hshown]; decide), htime]
  dsimp only
  rw [if_neg hpending, if_neg hdue]
  have hnotle : decide (state.self.lastTargetPos.length ≤ i) = false := by
    simp only [decide_eq_false_iff_not]; omega
  rw [hnotle, Bool.and_false, if_neg (by decide)]
  by_cases hclear : (collaborators.TracePoint ent.toEntity.origin toPos entNum).fraction ≥ 1
      ∨ (collaborators.TracePoint ent.toEntity.origin toPos entNum).entity = some targetEnt
  · have hc : (decide ((collaborators.TracePoint ent.toEntity.origin toPos entNum).fraction ≥ 1)
        || decide ((collaborators.TracePoint ent.toEntity.origin toPos entNum).entity
            = some targetEnt)) = true := by
      simpa using hclear
    have hget : (state.self.lastTargetPos.set i toPos)[i]? = some toPos := by
      simp [hrange]
    simp only [hc, if_true]
    by_cases hthrow : MS2SEC (targetTime - gameLocal.time) < 0
    · rw [if_pos hthrow, hget]
      dsimp only
      refine ⟨_, rfl, fun _ => ⟨rfl, hget⟩, fun h => absurd hclear h,
        fun _ => ⟨toPos, _, hget, Function.update_same _ _ _, ?_⟩⟩
      rw [gameEntity.toEntity_EnableDamageIfMoveable, gameEntity.toEntity_withEntity]
    · rw [if_neg hthrow]
      exact ⟨_, rfl, fun _ => ⟨rfl, hget⟩, fun h => absurd hclear h, fun h => absurd h hthrow⟩
  · have hc : (decide ((collaborators.TracePoint ent.toEntity.origin toPos entNum).fraction ≥ 1)
        || decide ((collaborators.TracePoint ent.toEntity.origin toPos entNum).entity
            = some targetEnt)) = false := by
      simpa using hclear
    have hget : state.self.lastTargetPos[i]? = some (state.self.lastTargetPos.get ⟨i, hrange⟩) :=
      List.getElem?_eq_getElem hrange
    simp only [hc, Bool.false_eq_true, if_false]
    by_cases hthrow : MS2SEC (targetTime - gameLocal.time) < 0
    · rw [if_pos hthrow, hget]
      dsimp only
      refine ⟨_, rfl, fun h => absurd h hclear, fun _ => rfl,
        fun _ => ⟨_, _, hget, Function.update_same _ _ _, ?_⟩⟩
      rw [gameEntity.toEntity_EnableDamageIfMoveable, gameEntity.toEntity_withEntity]
    · rw [if_neg hthrow]
      exact ⟨_, rfl, fun h => absurd h hclear, fun _ => rfl, fun h => absurd h hthrow⟩

theorem idPhantomObjects.ThinkObject_other_index (collaborators : ThinkCollaborators)
    (gameLocal : idGameLocal) (targetEnt : Nat) (toPos : idVec3) (i j : Nat)
    (targetPtr : idEntityPtr) (state next : ThinkState) (hne : j ≠ i)
    (hok : idPhantomObjects.ThinkObject collaborators gameLocal targetEnt toPos j targetPtr state
      = .ok next) :
    next.self.lastTargetPos[i]? = state.self.lastTargetPos[i]? := by
  have hset : ∀ (c : Bool) (v : idVec3),
      (if c = true then state.self.lastTargetPos.set j v else state.self.lastTargetPos)[i]?
        = state.self.lastTargetPos[i]? := by
    intro c v
    cases c
    · rfl
    · simp [List.getElem?_set_ne hne]
  unfold idPhantomObjects.ThinkObject at hok
  split at hok
  · cases hok; rfl
  · split at hok
    · cases hok; rfl
    · split at hok
      · cases hok
      · split at hok
        · cases hok; rfl
        · dsimp only at hok
          split at hok
          · cases hok; rfl
          · split at hok
            · cases hok
            · split at hok
              · split at hok
                · cases hok
                · cases hok
                  exact hset _ _
              · cases hok
                exact hset _ _

/-! ## Think without a stimulus: idForceField and idStaticEntity -/

theorem idStaticEntity.GuiStateChanged_thinkFlags (gameLocal : idGameLocal) (self : idEntity) :
    (idStaticEntity.GuiStateChanged gameLocal self).thinkFlags = self.thinkFlags := by
  unfold idStaticEntity.GuiStateChanged
  dsimp only
  split <;> split <;> rfl

theorem idStaticEntity.Think_steady (collaborators : TickCollaborators)
    (hThink : ∀ e, (collaborators.Think e).thinkFlags &&& TH_THINK = e.thinkFlags &&& TH_THINK)
    (gameLocal : idGameLocal) (self : idStaticEntity)
    (hactive : self.thinkFlags &&& TH_THINK ≠ 0) (hfade : self.fadeEnd = 0) :
    (idStaticEntity.Think collaborators gameLocal self).thinkFlags &&& TH_THINK ≠ 0
    ∧ (idStaticEntity.Think collaborators gameLocal self).spawnTime = self.spawnTime
    ∧ (idStaticEntity.Think collaborators gameLocal self).active = self.active
    ∧ (idStaticEntity.Think collaborators gameLocal self).fadeFrom = self.fadeFrom
    ∧ (idStaticEntity.Think collaborators gameLocal self).fadeTo = self.fadeTo
    ∧ (idStaticEntity.Think collaborators gameLocal self).fadeStart = self.fadeStart
    ∧ (idStaticEntity.Think collaborators gameLocal self).fadeEnd = self.fadeEnd
    ∧ (idStaticEntity.Think collaborators gameLocal self).runGui = self.runGui := by
  have hflag : (collaborators.Think self.toidEntity).thinkFlags &&& TH_THINK ≠ 0 := by
    rw [hThink]; exact hactive
  unfold idStaticEntity.Think
  dsimp only
  rw [if_pos hflag]
  have hnofade : ¬ self.fadeEnd > 0 := by omega
  by_cases hgui : self.runGui = true
      ∧ (collaborators.Think self.toidEntity).renderEntity.gui 0 = true
  · rw [if_pos hgui]
    cases hplayer : gameLocal.GetLocalPlayer with
    | none =>
      dsimp only
      rw [if_neg hnofade]
      exact ⟨hflag, rfl, rfl, rfl, rfl, rfl, rfl, rfl⟩
    | some player =>
      dsimp only
      rw [if_neg hnofade]
      refine ⟨?_, rfl, rfl, rfl, rfl, rfl, rfl, rfl⟩
      show (idStaticEntity.GuiStateChanged gameLocal _).thinkFlags &&& TH_THINK ≠ 0
      rw [idStaticEntity.GuiStateChanged_thinkFlags]
      exact hflag
  · rw [if_neg hgui]
    dsimp only
    rw [if_neg hnofade]
    exact ⟨hflag, rfl, rfl, rfl, rfl, rfl, rfl, rfl⟩

theorem idStaticEntity_ThinkTicks_steady (collaborators : TickCollaborators)
    (hThink : ∀ e, (collaborators.Think e).thinkFlags &&& TH_THINK = e.thinkFlags &&& TH_THINK)
    (ticks : List idGameLocal) :
    ∀ (self : idStaticEntity), self.thinkFlags &&& TH_THINK ≠ 0 → self.fadeEnd = 0 →
      (idStaticEntity.ThinkTicks collaborators ticks self).thinkFlags &&& TH_THINK ≠ 0
      ∧ (idStaticEntity.ThinkTicks collaborators ticks self).spawnTime = self.spawnTime
      ∧ (idStaticEntity.ThinkTicks collaborators ticks self).active = self.active
      ∧ (idStaticEntity.ThinkTicks collaborators ticks self).fadeFrom = self.fadeFrom
      ∧ (idStaticEntity.ThinkTicks collaborators ticks self).fadeTo = self.fadeTo
      ∧ (idStaticEntity.ThinkTicks collaborators ticks self).fadeStart = self.fadeStart
      ∧ (idStaticEntity.ThinkTicks collaborators ticks self).fadeEnd = self.fadeEnd
      ∧ (idStaticEntity.ThinkTicks collaborators ticks self).runGui = self.runGui := by
  induction ticks with
  | nil => intro self hactive _; exact ⟨hactive, rfl, rfl, rfl, rfl, rfl, rfl, rfl⟩
  | cons gameLocal ticks ih =>
    intro self hactive hfade
    obtain ⟨h0, h1, h2, h3, h4, h5, h6, h7⟩ :=
      idStaticEntity.Think_steady collaborators hThink gameLocal self hactive hfade
    obtain ⟨k0, k1, k2, k3, k4, k5, k6, k7⟩ :=
      ih (idStaticEntity.Think collaborators gameLocal self) h0 (by rw [h6]; exact hfade)
    unfold idStaticEntity.ThinkTicks
    exact ⟨k0, k1.trans h1, k2.trans h2, k3.trans h3, k4.trans h4, k5.trans h5, k6.trans h6,
      k7.trans h7⟩

theorem idForceField_ThinkTicks_steady (collaborators : TickCollaborators)
    (hPresent : ∀ e,
      (collaborators.Present e).thinkFlags &&& TH_THINK = e.thinkFlags &&& TH_THINK)
    (ticks : List idGameLocal) :
    ∀ (state : idForceField × EntityRegistry), state.1.thinkFlags &&& TH_THINK ≠ 0 →
      (idForceField.ThinkTicks collaborators ticks state).1.thinkFlags &&& TH_THINK ≠ 0
      ∧ (idForceField.ThinkTicks collaborators ticks state).1.forceField
          = state.1.forceField := by
  induction ticks with
  | nil => intro state hactive; exact ⟨hactive, rfl⟩
  | cons gameLocal ticks ih =>
    intro state hactive
    have hstep : (idForceField.Think collaborators gameLocal state.2 state.1).1.thinkFlags
        &&& TH_THINK ≠ 0 := by
      show (collaborators.Present state.1.toidEntity).thinkFlags &&& TH_THINK ≠ 0
      rw [hPresent]; exact hactive
    obtain ⟨k0, k1⟩ := ih (idForceField.Think collaborators gameLocal state.2 state.1) hstep
    unfold idForceField.ThinkTicks
    exact ⟨k0, k1⟩

/-- C16: any number of consecutive Think calls, with no event between them, on an
idForceField with TH_THINK set, or on an idStaticEntity with TH_THINK set and no fade in
progress (fadeEnd = 0), leaves TH_THINK set and every field the class's Save writes
unchanged, so that Save writes the same items as before. The Think and Present of the base
entity are collaborators outside Misc.cpp, taken to leave the TH_THINK bit alone. -/
theorem Think_without_stimulus_is_steady (collaborators : TickCollaborators)
    (hThink : ∀ e, (collaborators.Think e).thinkFlags &&& TH_THINK = e.thinkFlags &&& TH_THINK)
    (hPresent : ∀ e,
      (collaborators.Present e).thinkFlags &&& TH_THINK = e.thinkFlags &&& TH_THINK)
    (ticks : List idGameLocal) :
    (∀ (self : idForceField) (entities : EntityRegistry), self.thinkFlags &&& TH_THINK ≠ 0 →
      (idForceField.ThinkTicks collaborators ticks (self, entities)).1.thinkFlags &&& TH_THINK
          ≠ 0
      ∧ (idForceField.ThinkTicks collaborators ticks (self, entities)).1.forceField
          = self.forceField
      ∧ (idForceField.ThinkTicks collaborators ticks (self, entities)).1.Save []
          = self.Save [])
    ∧ (∀ (self : idStaticEntity), self.thinkFlags &&& TH_THINK ≠ 0 → self.fadeEnd = 0 →
      (idStaticEntity.ThinkTicks collaborators ticks self).thinkFlags &&& TH_THINK ≠ 0
      ∧ (idStaticEntity.ThinkTicks collaborators ticks self).spawnTime = self.spawnTime
      ∧ (idStaticEntity.ThinkTicks collaborators ticks self).active = self.active
      ∧ (idStaticEntity.ThinkTicks collaborators ticks self).fadeFrom = self.fadeFrom
      ∧ (idStaticEntity.ThinkTicks collaborators ticks self).fadeTo = self.fadeTo
      ∧ (idStaticEntity.ThinkTicks collaborators ticks self).fadeStart = self.fadeStart
      ∧ (idStaticEntity.ThinkTicks collaborators ticks self).fadeEnd = self.fadeEnd
      ∧ (idStaticEntity.ThinkTicks collaborators ticks self).runGui = self.runGui
      ∧ (idStaticEntity.ThinkTicks collaborators ticks self).Save [] = self.Save []) := by
  constructor
  · intro self entities hactive
    obtain ⟨h0, h1⟩ := idForceField_ThinkTicks_steady collaborators hPresent ticks
      (self, entities) hactive
    refine ⟨h0, h1, ?_⟩
    unfold idForceField.Save
    rw [h1]
  · intro self hactive hfade
    obtain ⟨h0, h1, h2, h3, h4, h5, h6, h7⟩ :=
      idStaticEntity_ThinkTicks_steady collaborators hThink ticks self hactive hfade
    refine ⟨h0, h1, h2, h3, h4, h5, h6, h7, ?_⟩
    unfold idStaticEntity.Save
    rw [h1, h2, h3, h4, h5, h6, h7]

theorem TH_THINK_kept_of_clear_visuals (flags : Nat) :
    (flags &&& compl32 TH_UPDATEVISUALS) &&& TH_THINK = flags &&& TH_THINK := by
  apply Nat.eq_of_testBit_eq
  intro i
  simp only [Nat.testBit_and, compl32, TH_UPDATEVISUALS, TH_THINK, Nat.testBit_xor]
  by_cases hi : i = 0
  · subst hi; cases (flags.testBit 0) <;> decide
  · have h1 : Nat.testBit 1 i = false := by
      cases i with
      | zero => exact absurd rfl hi
      | succ n => simp [Nat.testBit_succ]
    rw [h1]; simp

/-- Witness for C16: ten ticks of a static entity that runs its user interface, with
base-entity collaborators that clear the pending visual update. -/
theorem Think_without_stimulus_is_steady_witness :
    exampleGuiStatic.thinkFlags &&& TH_THINK ≠ 0
    ∧ exampleGuiStatic.fadeEnd = 0
    ∧ (idStaticEntity.ThinkTicks exampleTick (List.replicate 10 {}) exampleGuiStatic).thinkFlags
          &&& TH_THINK ≠ 0
    ∧ (idStaticEntity.ThinkTicks exampleTick (List.replicate 10 {}) exampleGuiStatic).Save []
        = exampleGuiStatic.Save [] :=
  ⟨by decide, rfl,
    ((Think_without_stimulus_is_steady exampleTick
        (fun e => TH_THINK_kept_of_clear_visuals e.thinkFlags)
        (fun e => TH_THINK_kept_of_clear_visuals e.thinkFlags)
        (List.replicate 10 {})).2 exampleGuiStatic (by decide) rfl).1,
    ((Think_without_stimulus_is_steady exampleTick
        (fun e => TH_THINK_kept_of_clear_visuals e.thinkFlags)
        (fun e => TH_THINK_kept_of_clear_visuals e.thinkFlags)
        (List.replicate 10 {})).2 exampleGuiStatic (by decide) rfl).2.2.2.2.2.2.2.2⟩

/-! ## idFuncSmoke: the particle flag -/

theorem TH_UPDATEPARTICLES_set (flags : Nat) :
    (flags ||| TH_UPDATEPARTICLES) &&& TH_UPDATEPARTICLES ≠ 0 := by
  intro h
  have hbit := congrArg (fun n => Nat.testBit n 4) h
  have h16 : Nat.testBit 16 4 = true := by decide
  simp [TH_UPDATEPARTICLES, Nat.testBit_and, Nat.testBit_or, h16] at hbit

theorem TH_UPDATEPARTICLES_cleared (flags : Nat) :
    (flags &&& compl32 TH_UPDATEPARTICLES) &&& TH_UPDATEPARTICLES = 0 := by
  apply Nat.eq_of_testBit_eq
  intro i
  simp only [Nat.testBit_and, compl32, TH_UPDATEPARTICLES, Nat.testBit_xor, Nat.zero_testBit]
  by_cases hi : i = 4
  · subst hi
    have h1 : Nat.testBit 16 4 = true := by decide
    have h2 : Nat.testBit 4294967295 4 = true := by decide
    rw [h1, h2]; simp
  · have h1 : Nat.testBit 16 i = false := by
      have : (16 : Nat) = 2 ^ 4 := by norm_num
      rw [this, Nat.testBit_two_pow]
      simpa using fun h => hi h.symm
    rw [h1]; simp

theorem TH_UPDATEPARTICLES_kept_of_clear_visuals (flags : Nat) :
    (flags &&& compl32 TH_UPDATEVISUALS) &&& TH_UPDATEPARTICLES
      = flags &&& TH_UPDATEPARTICLES := by
  apply Nat.eq_of_testBit_eq
  intro i
  simp only [Nat.testBit_and, compl32, TH_UPDATEPARTICLES, TH_UPDATEVISUALS, Nat.testBit_xor]
  by_cases hi : i = 4
  · subst hi
    have h1 : Nat.testBit 8 4 = false := by decide
    have h2 : Nat.testBit 4294967295 4 = true := by decide
    rw [h1, h2]; simp
  · have h1 : Nat.testBit 16 i = false := by
      have : (16 : Nat) = 2 ^ 4 := by norm_num
      rw [this, Nat.testBit_two_pow]
      simpa using fun h => hi h.symm
    rw [h1]; simp

theorem idFuncSmoke.Spawn_flag (collaborators : SmokeCollaborators) (gameLocal : idGameLocal)
    (self : idFuncSmoke) (hflag : self.thinkFlags &&& TH_UPDATEPARTICLES = 0)
    (hshown : self.fl.hidden = false) (htime : 0 ≤ gameLocal.time)
    (hset : (idFuncSmoke.Spawn collaborators gameLocal self).thinkFlags &&& TH_UPDATEPARTICLES
      ≠ 0) :
    (idFuncSmoke.Spawn collaborators gameLocal self).smokeTime ≠ -1
    ∧ (idFuncSmoke.Spawn collaborators gameLocal self).fl.hidden = false
    ∧ (idFuncSmoke.Spawn collaborators gameLocal self).smoke ≠ none := by
  unfold idFuncSmoke.Spawn at hset ⊢
  dsimp only at hset ⊢
  by_cases h1 : self.spawnArgs.GetString "smoke" ≠ ""
  · rw [if_pos h1] at hset ⊢
    dsimp only at hset ⊢
    by_cases h2 : self.spawnArgs.GetBool "start_off" = true
    · rw [if_pos h2] at hset
      exact absurd hflag hset
    · rw [if_neg h2] at hset ⊢
      by_cases h3 : collaborators.FindType (self.spawnArgs.GetString "smoke") ≠ none
      · rw [if_pos h3]
        exact ⟨by show gameLocal.time ≠ -1; omega, hshown, h3⟩
      · rw [if_neg h3] at hset
        exact absurd hflag hset
  · rw [if_neg h1] at hset ⊢
    dsimp only at hset ⊢
    by_cases h2 : self.spawnArgs.GetBool "start_off" = true
    · rw [if_pos h2] at hset
      exact absurd hflag hset
    · rw [if_neg h2, if_neg (by simp)] at hset
      exact absurd hflag hset

theorem idFuncSmoke.Event_Activate_flag (gameLocal : idGameLocal) (self : idFuncSmoke)
    (htime : 0 ≤ gameLocal.time)
    (hset : (idFuncSmoke.Event_Activate gameLocal self).thinkFlags &&& TH_UPDATEPARTICLES ≠ 0) :
    (idFuncSmoke.Event_Activate gameLocal self).smokeTime ≠ -1
    ∧ (idFuncSmoke.Event_Activate gameLocal self).fl.hidden = false := by
  unfold idFuncSmoke.Event_Activate at hset ⊢
  by_cases h1 : self.spawnArgs.GetBool "cycletrigger" = true
  · rw [if_pos h1]
    exact ⟨by show gameLocal.time ≠ -1; omega, rfl⟩
  · rw [if_neg h1] at hset ⊢
    by_cases h2 : self.IsHidden = true
    · rw [if_pos h2]
      exact ⟨by show gameLocal.time ≠ -1; omega, rfl⟩
    · rw [if_neg h2] at hset
      exact absurd (TH_UPDATEPARTICLES_cleared _) hset

theorem idFuncSmoke.Think_flag (collaborators : SmokeCollaborators) (random : idRandom)
    (self : idFuncSmoke)
    (hset : (idFuncSmoke.Think collaborators random self).1.thinkFlags &&& TH_UPDATEPARTICLES
      ≠ 0) :
    self.thinkFlags &&& TH_UPDATEPARTICLES ≠ 0
    ∧ (idFuncSmoke.Think collaborators random self).1.smokeTime = self.smokeTime
    ∧ (idFuncSmoke.Think collaborators random self).1.fl.hidden = self.fl.hidden
    ∧ (idFuncSmoke.Think collaborators random self).1.smoke = self.smoke := by
  have hvis : ∀ presented : idFuncSmoke,
      presented = (if self.thinkFlags &&& TH_UPDATEVISUALS ≠ 0 then
          { self with toidEntity := self.toidEntity.BecomeInactive TH_UPDATEVISUALS }
        else self) →
      presented.thinkFlags &&& TH_UPDATEPARTICLES = self.thinkFlags &&& TH_UPDATEPARTICLES
      ∧ presented.smokeTime = self.smokeTime ∧ presented.fl.hidden = self.fl.hidden
      ∧ presented.smoke = self.smoke := by
    intro presented hp
    subst hp
    split
    · exact ⟨TH_UPDATEPARTICLES_kept_of_clear_visuals _, rfl, rfl, rfl⟩
    · exact ⟨rfl, rfl, rfl, rfl⟩
  revert hset
  unfold idFuncSmoke.Think
  dsimp only
  generalize hp : (if self.thinkFlags &&& TH_UPDATEVISUALS ≠ 0 then
      ({ self with toidEntity := self.toidEntity.BecomeInactive TH_UPDATEVISUALS } : idFuncSmoke)
    else self) = presented
  obtain ⟨k0, k1, k2, k3⟩ := hvis presented hp.symm
  split
  · intro hset
    exact ⟨by rw [← k0]; exact hset, k1, k2, k3⟩
  · split
    · split
      · intro hset
        exact absurd (TH_UPDATEPARTICLES_cleared _) hset
      · intro hset
        exact ⟨by rw [← k0]; exact hset, k1, k2, k3⟩
    · intro hset
      exact ⟨by rw [← k0]; exact hset, k1, k2, k3⟩

/-- The invariant of the particle flag: it is set only while the start time is not -1 and
the entity is visible. -/
theorem idFuncSmoke.Reachable_flag (collaborators : SmokeCollaborators) (self : idFuncSmoke)
    (h : idFuncSmoke.Reachable collaborators self) :
    self.thinkFlags &&& TH_UPDATEPARTICLES ≠ 0 → self.smokeTime ≠ -1 ∧ self.fl.hidden = false := by
  induction h with
  | spawn gameLocal base hflag hshown htime =>
    intro hset
    have := idFuncSmoke.Spawn_flag collaborators gameLocal { toidEntity := base } hflag hshown
      htime hset
    exact ⟨this.1, this.2.1⟩
  | activate gameLocal self htime _ ih =>
    exact idFuncSmoke.Event_Activate_flag gameLocal self htime
  | think random self _ ih =>
    intro hset
    obtain ⟨hbefore, h1, h2, _⟩ := idFuncSmoke.Think_flag collaborators random self hset
    rw [h1, h2]
    exact ih hbefore

/-- C17 (counterexample): a smoke entity without a "smoke" key that starts off is spawned
and then triggered. Event_Activate sets TH_UPDATEPARTICLES although the smoke definition is
null, and Think, which returns at once for a null definition, leaves the flag set. -/
theorem idFuncSmoke.particle_flag_set_with_null_smoke :
    idFuncSmoke.Reachable exampleSmoke exampleSmokeTriggered
    ∧ exampleSmokeTriggered.thinkFlags &&& TH_UPDATEPARTICLES ≠ 0
    ∧ exampleSmokeTriggered.smoke = none
    ∧ (idFuncSmoke.Think exampleSmoke {} exampleSmokeTriggered).1.thinkFlags
        &&& TH_UPDATEPARTICLES ≠ 0 :=
  ⟨.activate { time := 100 } _ (by decide)
      (.spawn {} { spawnArgs := [("start_off", "1")] } (by decide) rfl (by decide)),
    by decide, rfl, by decide⟩

/-- C17 (amended): in every state of an idFuncSmoke reachable from Spawn through any
sequence of Event_Activate and Think calls, TH_UPDATEPARTICLES is set only if
smokeTime != -1 and the entity is not hidden; and when Spawn itself sets the flag, the
smoke definition is non-null. -/
theorem idFuncSmoke.particle_flag_only_while_running (collaborators : SmokeCollaborators) :
    (∀ self, idFuncSmoke.Reachable collaborators self →
      self.thinkFlags &&& TH_UPDATEPARTICLES ≠ 0 →
      self.smokeTime ≠ -1 ∧ self.IsHidden = false)
    ∧ (∀ (gameLocal : idGameLocal) (base : idEntity),
      base.thinkFlags &&& TH_UPDATEPARTICLES = 0 → base.fl.hidden = false →
      0 ≤ gameLocal.time →
      (idFuncSmoke.Spawn collaborators gameLocal { toidEntity := base }).thinkFlags
          &&& TH_UPDATEPARTICLES ≠ 0 →
      (idFuncSmoke.Spawn collaborators gameLocal { toidEntity := base }).smoke ≠ none) :=
  ⟨fun self h hset => idFuncSmoke.Reachable_flag collaborators self h hset,
    fun gameLocal base hflag hshown htime hset =>
      (idFuncSmoke.Spawn_flag collaborators gameLocal { toidEntity := base } hflag hshown htime
        hset).2.2⟩

/-- Witness for C17: the triggered smoke entity is reachable and has the flag set. -/
theorem idFuncSmoke.particle_flag_only_while_running_witness :
    idFuncSmoke.Reachable exampleSmoke exampleSmokeTriggered
    ∧ exampleSmokeTriggered.thinkFlags &&& TH_UPDATEPARTICLES ≠ 0
    ∧ exampleSmokeTriggered.smokeTime ≠ -1
    ∧ exampleSmokeTriggered.IsHidden = false :=
  ⟨.activate { time := 100 } _ (by decide)
      (.spawn {} { spawnArgs := [("start_off", "1")] } (by decide) rfl (by decide)),
    by decide,
    (idFuncSmoke.particle_flag_only_while_running exampleSmoke).1 exampleSmokeTriggered
      (.activate { time := 100 } _ (by decide)
        (.spawn {} { spawnArgs := [("start_off", "1")] } (by decide) rfl (by decide)))
      (by decide)⟩

/-! ## idPathCorner::RandomPath -/

theorem idRandom.RandomIntMax_range (random : idRandom) (max : Int) (hmax : 0 < max) :
    0 ≤ (random.RandomIntMax max).1 ∧ (random.RandomIntMax max).1 < max := by
  unfold idRandom.RandomIntMax
  rw [if_neg (by omega)]
  dsimp only [idRandom.RandomInt]
  exact ⟨Int.tmod_nonneg _ (Int.ofNat_nonneg _), Int.tmod_lt_of_pos _ hmax⟩

theorem idPathCorner.CollectPaths_eq (entities : EntityRegistry) (ignore : Option Nat) :
    ∀ (targets : List idEntityPtr) (path : List Nat), path.length < MAX_GENTITIES →
      idPathCorner.CollectPaths entities ignore targets path
        = .ok ((path ++ targets.filterMap (idPathCorner.Eligible entities ignore)).take
            MAX_GENTITIES) := by
  intro targets
  induction targets with
  | nil =>
    intro path hlen
    unfold idPathCorner.CollectPaths
    simp only [List.filterMap_nil, List.append_nil]
    rw [List.take_of_length_le (by omega)]
  | cons targetPtr targets ih =>
    intro path hlen
    unfold idPathCorner.CollectPaths
    cases hel : idPathCorner.Eligible entities ignore targetPtr with
    | none =>
      simp only [List.filterMap_cons, hel]
      exact ih path hlen
    | some ent =>
      simp only [List.filterMap_cons, hel]
      rw [if_neg (by omega)]
      by_cases hfull : (path ++ [ent]).length ≥ MAX_GENTITIES
      · rw [if_pos hfull]
        have hexact : (path ++ [ent]).length = MAX_GENTITIES := by
          simp only [List.length_append, List.length_singleton] at hfull ⊢
          omega
        have : path ++ ent :: targets.filterMap (idPathCorner.Eligible entities ignore)
            = (path ++ [ent]) ++ targets.filterMap (idPathCorner.Eligible entities ignore) := by
          simp
        rw [this, List.take_append_of_le_length (by omega), List.take_of_length_le (by omega)]
      · rw [if_neg hfull]
        have := ih (path ++ [ent]) (by omega)
        rw [this]
        simp

theorem idPathCorner.Eligible_some (entities : EntityRegistry) (ignore : Option Nat)
    (targetPtr : idEntityPtr) (ent : Nat)
    (h : idPathCorner.Eligible entities ignore targetPtr = some ent) :
    some ent ≠ ignore ∧ ∃ e, targetPtr.GetEntity entities = some (ent, .PathCorner e) := by
  unfold idPathCorner.Eligible at h
  split at h
  · rename_i num e heq
    split at h
    · rename_i hne
      cases h
      exact ⟨hne, e, heq⟩
    · cases h
  · cases h

/-- C20: idPathCorner::RandomPath returns, without ever writing outside its local buffer.
With `eligible` the entries of the targets of the source that resolve to a live
idPathCorner other than `ignore`, in targets order and cut off at MAX_GENTITIES, it returns
NULL if and only if no entry of the targets is eligible, and otherwise the element of
`eligible` at index RandomInt( num ), which is a live idPathCorner named by the targets and
is not `ignore`. -/
theorem idPathCorner.RandomPath_picks_eligible (entities : EntityRegistry) (random : idRandom)
    (source : idEntity) (ignore : Option Nat) :
    idPathCorner.CollectPaths entities ignore source.targets []
        = .ok ((source.targets.filterMap (idPathCorner.Eligible entities ignore)).take
            MAX_GENTITIES)
    ∧ ∃ result random', idPathCorner.RandomPath entities random source ignore
          = .ok (result, random')
        ∧ (result = none
            ↔ ∀ targetPtr ∈ source.targets,
                idPathCorner.Eligible entities ignore targetPtr = none)
        ∧ (∀ ent, result = some ent →
            ((source.targets.filterMap (idPathCorner.Eligible entities ignore)).take
                MAX_GENTITIES)[(random.RandomIntMax (Int.ofNat
                  ((source.targets.filterMap (idPathCorner.Eligible entities ignore)).take
                    MAX_GENTITIES).length)).1.toNat]? = some ent
            ∧ some ent ≠ ignore
            ∧ ∃ targetPtr ∈ source.targets, ∃ e,
                targetPtr.GetEntity entities = some (ent, .PathCorner e)) := by
  have hcollect := idPathCorner.CollectPaths_eq entities ignore source.targets []
    (by decide)
  rw [List.nil_append] at hcollect
  refine ⟨hcollect, ?_⟩
  unfold idPathCorner.RandomPath
  rw [hcollect]
  dsimp only
  generalize helig : (source.targets.filterMap (idPathCorner.Eligible entities ignore)).take
    MAX_GENTITIES = eligible
  have hmem : ∀ ent ∈ eligible, some ent ≠ ignore
      ∧ ∃ targetPtr ∈ source.targets, ∃ e,
          targetPtr.GetEntity entities = some (ent, .PathCorner e) := by
    intro ent hent
    rw [← helig] at hent
    obtain ⟨targetPtr, htarget, hel⟩ := List.mem_filterMap.mp (List.mem_of_mem_take hent)
    obtain ⟨hne, e, he⟩ := idPathCorner.Eligible_some entities ignore targetPtr ent hel
    exact ⟨hne, targetPtr, htarget, e, he⟩
  have hnone : eligible = [] ↔ ∀ targetPtr ∈ source.targets,
      idPathCorner.Eligible entities ignore targetPtr = none := by
    rw [← helig]
    constructor
    · intro hnil targetPtr htarget
      cases hel : idPathCorner.Eligible entities ignore targetPtr with
      | none => rfl
      | some ent =>
        have hin : ent ∈ source.targets.filterMap (idPathCorner.Eligible entities ignore) :=
          List.mem_filterMap.mpr ⟨targetPtr, htarget, hel⟩
        have hpos : 0 < (source.targets.filterMap
            (idPathCorner.Eligible entities ignore)).length := List.length_pos_of_mem hin
        have hlen := congrArg List.length hnil
        rw [List.length_take, List.length_nil] at hlen
        have : 0 < MAX_GENTITIES := by decide
        omega
    · intro hall
      have : source.targets.filterMap (idPathCorner.Eligible entities ignore) = [] := by
        rw [List.filterMap_eq_nil_iff]
        exact hall
      rw [this, List.take_nil]
  by_cases hempty : eligible.length = 0
  · rw [if_pos hempty]
    refine ⟨none, random, rfl, ⟨fun _ => hnone.mp (List.length_eq_zero.mp hempty), fun _ => rfl⟩,
      ?_⟩
    intro ent hent
    cases hent
  · rw [if_neg hempty]
    obtain ⟨hlo, hhi⟩ := idRandom.RandomIntMax_range random (Int.ofNat eligible.length)
      (by simp only [Int.ofNat_eq_coe]; omega)
    rw [if_neg (by omega)]
    have hidx : (random.RandomIntMax (Int.ofNat eligible.length)).1.toNat < eligible.length := by
      simp only [Int.ofNat_eq_coe] at hhi ⊢
      omega
    rw [List.getElem?_eq_getElem hidx]
    dsimp only
    refine ⟨_, _, rfl, ⟨fun h => Option.noConfusion h, ?_⟩, ?_⟩
    · intro hall
      exact absurd (List.length_eq_zero.mpr (hnone.mpr hall)) hempty
    · intro ent hent
      cases hent
      exact ⟨rfl, hmem _ (List.getElem_mem _)⟩

/-- Witness for C20: the targets name the path corners 2, 3 and 5; with 3 ignored and the
stream drawing 7, the result is the element at index 7 mod 2 of [2, 5]. -/
theorem idPathCorner.RandomPath_picks_eligible_witness :
    idPathCorner.RandomPath examplePaths { stream := fun _ => 7 } examplePathSource (some 3)
        = .ok (some 5, { stream := fun _ => 7, position := 1 })
    ∧ idPathCorner.CollectPaths examplePaths (some 3) examplePathSource.targets []
        = .ok ((examplePathSource.targets.filterMap
            (idPathCorner.Eligible examplePaths (some 3))).take MAX_GENTITIES) :=
  ⟨rfl,
    (idPathCorner.RandomPath_picks_eligible examplePaths { stream := fun _ => 7 }
      examplePathSource (some 3)).1⟩

/-! ## idPhantomObjects::Event_Activate: the schedule of the throws -/

theorem ftoi_ge (f : Rat) (z : Int) (hz : (z : Rat) ≤ f) : z ≤ ftoi f := by
  unfold ftoi
  split
  · exact Int.le_floor.mpr hz
  · exact Int.cast_le.mp (le_trans hz (Int.le_ceil f))

theorem ftoi_lt_add_one (f : Rat) : (ftoi f : Rat) < f + 1 := by
  unfold ftoi
  split
  · exact lt_of_le_of_lt (Int.floor_le f) (by linarith)
  · exact Int.ceil_lt_add_one f

theorem idDamagable.BecomeBrokenCount_frame (self : idDamagable) :
    self.BecomeBrokenCount.nextTriggerTime = self.nextTriggerTime
    ∧ self.BecomeBrokenCount.spawnArgs = self.spawnArgs := by
  unfold idDamagable.BecomeBrokenCount
  by_cases h : self.count > 0
  · rw [if_pos h]
    dsimp only
    by_cases h0 : self.count - 1 = 0
    · rw [if_pos h0]
      exact ⟨rfl, rfl⟩
    · rw [if_neg h0]
      exact ⟨rfl, rfl⟩
  · rw [if_neg h]
    exact ⟨rfl, rfl⟩

theorem idDamagable.BecomeBrokenMode_frame (atof : String → Rat) (random : idRandom)
    (self : idDamagable) :
    (idDamagable.BecomeBrokenMode atof random self).1.nextTriggerTime = self.nextTriggerTime
    ∧ (idDamagable.BecomeBrokenMode atof random self).1.spawnArgs = self.spawnArgs := by
  unfold idDamagable.BecomeBrokenMode
  dsimp only
  split_ifs <;> exact ⟨rfl, rfl⟩

/-- C29: while the game time is less than nextTriggerTime, BecomeBroken leaves the whole
state as it is (count, health, takedamage, nextTriggerTime, model, shader parameters,
target activations and pending events) and Killed changes nothing but health, to which it
adds the damage. A BecomeBroken that is not rate-limited sets nextTriggerTime to the
current time plus SEC2MS of the "wait" key (default 0.1), records one target activation,
and posts exactly one event, EV_RestoreDamagable with delay nextTriggerTime minus the
current time, when "hideWhenBroken" is set, and no event otherwise. -/
theorem idDamagable.BecomeBroken_rate_limit (atof : String → Rat) (gameLocal : idGameLocal)
    (activator : Option Nat) (damage : Int) (state : DamagableState) :
    (gameLocal.time < state.self.nextTriggerTime →
      idDamagable.BecomeBroken atof gameLocal activator state = state
      ∧ idDamagable.Killed atof gameLocal activator damage state
          = { state with self := { state.self with toidEntity := { state.self.toidEntity with
                                     health := state.self.health + damage } } })
    ∧ (¬ gameLocal.time < state.self.nextTriggerTime →
        (idDamagable.BecomeBroken atof gameLocal activator state).self.nextTriggerTime
            = gameLocal.time + SEC2MS (atof (state.self.spawnArgs.GetString "wait" "0.1"))
        ∧ (idDamagable.BecomeBroken atof gameLocal activator state).activations
            = state.activations ++ [activator]
        ∧ (idDamagable.BecomeBroken atof gameLocal activator state).events
            = (if state.self.spawnArgs.GetBool "hideWhenBroken" then
                PostEventMS state.events gameLocal.time EV_RestoreDamagable
                  ((idDamagable.BecomeBroken atof gameLocal activator state).self.nextTriggerTime
                    - gameLocal.time) []
              else state.events)
        ∧ idDamagable.Killed atof gameLocal activator damage state
            = idDamagable.BecomeBroken atof gameLocal activator state) := by
  refine ⟨fun h => ⟨?_, ?_⟩, fun h => ?_⟩
  · unfold idDamagable.BecomeBroken
    rw [if_pos h]
  · unfold idDamagable.Killed
    rw [if_pos h]
  · have hk : idDamagable.Killed atof gameLocal activator damage state
        = idDamagable.BecomeBroken atof gameLocal activator state := by
      unfold idDamagable.Killed
      rw [if_neg h]
    have hnt : (idDamagable.BecomeBroken atof gameLocal activator state).self.nextTriggerTime
        = gameLocal.time + SEC2MS (atof (state.self.spawnArgs.GetString "wait" "0.1")) := by
      unfold idDamagable.BecomeBroken
      rw [if_neg h]
      dsimp only
      obtain ⟨hc1, -⟩ := idDamagable.BecomeBrokenCount_frame
        (idDamagable.mk state.self.toidEntity state.self.count
          (gameLocal.time + SEC2MS (idDict.GetFloat atof state.self.spawnArgs "wait" "0.1")))
      generalize idDamagable.BecomeBrokenCount _ = a at hc1 ⊢
      obtain ⟨hm1, -⟩ := idDamagable.BecomeBrokenMode_frame atof state.random
        (idDamagable.mk (a.toidEntity.SetShaderParm SHADERPARM_TIMEOFFSET
          (-MS2SEC gameLocal.time)) a.count a.nextTriggerTime)
      generalize idDamagable.BecomeBrokenMode _ _ _ = b at hm1 ⊢
      have htime : b.1.nextTriggerTime = gameLocal.time
          + SEC2MS (atof (state.self.spawnArgs.GetString "wait" "0.1")) := hm1.trans hc1
      split_ifs <;> exact htime
    refine ⟨hnt, ?_, ?_, hk⟩
    · unfold idDamagable.BecomeBroken
      rw [if_neg h]
      dsimp only
      split_ifs <;> rfl
    · rw [hnt]
      unfold idDamagable.BecomeBroken
      rw [if_neg h]
      dsimp only
      obtain ⟨hc1, hc2⟩ := idDamagable.BecomeBrokenCount_frame
        (idDamagable.mk state.self.toidEntity state.self.count
          (gameLocal.time + SEC2MS (idDict.GetFloat atof state.self.spawnArgs "wait" "0.1")))
      generalize idDamagable.BecomeBrokenCount _ = a at hc1 hc2 ⊢
      obtain ⟨hm1, hm2⟩ := idDamagable.BecomeBrokenMode_frame atof state.random
        (idDamagable.mk (a.toidEntity.SetShaderParm SHADERPARM_TIMEOFFSET
          (-MS2SEC gameLocal.time)) a.count a.nextTriggerTime)
      generalize idDamagable.BecomeBrokenMode _ _ _ = b at hm1 hm2 ⊢
      have hargs : b.1.spawnArgs = state.self.spawnArgs := hm2.trans hc2
      have htime : b.1.nextTriggerTime = gameLocal.time
          + SEC2MS (atof (state.self.spawnArgs.GetString "wait" "0.1")) := hm1.trans hc1
      clear hc1 hc2 hm1 hm2
      split_ifs
      all_goals first
        | (show PostEventMS _ _ _ (b.1.nextTriggerTime - _) _ = _
           rw [htime]
           done)
        | rfl
        | (exfalso
           have hx : b.1.spawnArgs.GetBool "hideWhenBroken" = true := by assumption
           rw [hargs] at hx
           contradiction)
        | (exfalso
           have hx : ¬ b.1.spawnArgs.GetBool "hideWhenBroken" = true := by assumption
           rw [hargs] at hx
           contradiction)

/-- Witness for C29: a crate due again at time 3000 is hit at time 1000 for 7 points, and
broken again at time 5000. -/
theorem idDamagable.BecomeBroken_rate_limit_witness :
    idDamagable.BecomeBroken (fun _ => 2) { time := 1000 } (some 1) exampleBrokenCrate
        = exampleBrokenCrate
    ∧ (idDamagable.Killed (fun _ => 2) { time := 1000 } (some 1) 7 exampleBrokenCrate).self.health
        = 4
    ∧ (idDamagable.BecomeBroken (fun _ => 2) { time := 5000 } (some 1)
          exampleBrokenCrate).self.nextTriggerTime = 5000 + SEC2MS 2
    ∧ (idDamagable.BecomeBroken (fun _ => 2) { time := 5000 } (some 1) exampleBrokenCrate).events
        = PostEventMS [] 5000 EV_RestoreDamagable
            ((idDamagable.BecomeBroken (fun _ => 2) { time := 5000 } (some 1)
              exampleBrokenCrate).self.nextTriggerTime - 5000) [] := by
  obtain ⟨h1, h2⟩ := (idDamagable.BecomeBroken_rate_limit (fun _ => 2) { time := 1000 } (some 1) 7
    exampleBrokenCrate).1 (by decide)
  obtain ⟨h3, -, h4, -⟩ := (idDamagable.BecomeBroken_rate_limit (fun _ => 2) { time := 5000 }
    (some 1) 7 exampleBrokenCrate).2 (by decide)
  exact ⟨h1, by rw [h2]; rfl, h3, h4.trans (if_pos (by decide))⟩

/-! ## idAnimated: the index of the animation sequence -/

theorem idAnimated.SpawnLookups_index (collaborators : AnimatorCollaborators)
    (self : idAnimated) :
    (idAnimated.SpawnLookups collaborators self).current_anim_index = 0
    ∧ (idAnimated.SpawnLookups collaborators self).num_anims
        = self.spawnArgs.GetInt "num_anims" "0" := by
  exact ⟨rfl, rfl⟩

theorem idAnimated.SpawnWait_self (atof : String → Rat) (gameLocal : idGameLocal) (this : Nat)
    (state : AnimationState) :
    (idAnimated.SpawnWait atof gameLocal this state).self = state.self := by
  unfold idAnimated.SpawnWait
  dsimp only
  split_ifs <;> rfl

theorem idAnimated.Spawn_index (atof : String → Rat) (collaborators : AnimatorCollaborators)
    (gameLocal : idGameLocal) (this : Nat) (state spawned : AnimationState)
    (h : idAnimated.Spawn atof collaborators gameLocal this state = .ok spawned
      ∨ ∃ fault, idAnimated.Spawn atof collaborators gameLocal this state
          = .error (fault, spawned)) :
    spawned.self.current_anim_index = 0
    ∧ spawned.self.num_anims = state.self.spawnArgs.GetInt "num_anims" "0" := by
  unfold idAnimated.Spawn at h
  dsimp only at h
  obtain ⟨h1, h2⟩ := idAnimated.SpawnLookups_index collaborators state.self
  generalize idAnimated.SpawnLookups collaborators state.self = e at h h1 h2
  generalize (if collaborators.GetJointHandle (state.self.spawnArgs.GetString "sound_bone"
      "origin") = INVALID_JOINT ∧ collaborators.ModelDef = true then _ else _ : List String)
    = w at h
  rw [← h2, ← h1]
  rcases h with h | ⟨fault, h⟩
  all_goals
    repeat' split at h
  all_goals first
    | (cases h; rw [idAnimated.SpawnWait_self]; exact ⟨rfl, rfl⟩)
    | (cases h; exact ⟨rfl, rfl⟩)
    | cases h

theorem idAnimated.PlayNextAnim_index (collaborators : AnimatorCollaborators)
    (gameLocal : idGameLocal) (state : AnimationState) :
    (idAnimated.PlayNextAnim collaborators gameLocal state).self.num_anims
        = state.self.num_anims
    ∧ (state.self.current_anim_index < state.self.num_anims →
        (idAnimated.PlayNextAnim collaborators gameLocal state).self.current_anim_index
          = state.self.current_anim_index + 1)
    ∧ (¬ state.self.current_anim_index < state.self.num_anims →
        (idAnimated.PlayNextAnim collaborators gameLocal state).self.fl.hidden = true
        ∧ (state.self.spawnArgs.GetBool "remove" = true →
            (idAnimated.PlayNextAnim collaborators gameLocal state).self.current_anim_index
              = state.self.current_anim_index
            ∧ (idAnimated.PlayNextAnim collaborators gameLocal state).events
              = PostEventMS state.events gameLocal.time EV_Remove 0 [])
        ∧ (state.self.spawnArgs.GetBool "remove" = false →
            (idAnimated.PlayNextAnim collaborators gameLocal state).self.current_anim_index = 0
            ∧ (idAnimated.PlayNextAnim collaborators gameLocal state).events
              = state.events)) := by
  unfold idAnimated.PlayNextAnim
  dsimp only
  by_cases hge : state.self.current_anim_index ≥ state.self.num_anims
  · rw [if_pos hge]
    by_cases hremove : state.self.toidEntity.Hide.spawnArgs.GetBool "remove" = true
    · rw [if_pos hremove]
      replace hremove : state.self.spawnArgs.GetBool "remove" = true := hremove
      refine ⟨rfl, fun hlt => absurd hlt (not_lt.mpr hge), fun _ => ⟨rfl, fun _ => ⟨rfl, rfl⟩, ?_⟩⟩
      intro hfalse
      rw [hremove] at hfalse
      cases hfalse
    · rw [if_neg hremove]
      replace hremove : ¬ state.self.spawnArgs.GetBool "remove" = true := hremove
      refine ⟨rfl, fun hlt => absurd hlt (not_lt.mpr hge), fun _ => ⟨rfl, ?_, fun _ => ⟨rfl, rfl⟩⟩⟩
      intro htrue
      exact absurd htrue hremove
  · rw [if_neg hge]
    refine ⟨?_, fun _ => ?_, fun hnlt => absurd (not_lt.mp hnlt) hge⟩
    · split
      · rfl
      · split_ifs <;> rfl
    · split
      · rfl
      · split_ifs <;> rfl

theorem idAnimated.PlayNextAnim_in_range (collaborators : AnimatorCollaborators)
    (gameLocal : idGameLocal) (state : AnimationState)
    (h : 0 ≤ state.self.current_anim_index
      ∧ state.self.current_anim_index ≤ state.self.num_anims) :
    0 ≤ (idAnimated.PlayNextAnim collaborators gameLocal state).self.current_anim_index
    ∧ (idAnimated.PlayNextAnim collaborators gameLocal state).self.current_anim_index
        ≤ (idAnimated.PlayNextAnim collaborators gameLocal state).self.num_anims := by
  obtain ⟨hnum, hlt, hge⟩ := idAnimated.PlayNextAnim_index collaborators gameLocal state
  rw [hnum]
  by_cases hbelow : state.self.current_anim_index < state.self.num_anims
  · rw [hlt hbelow]
    omega
  · obtain ⟨-, hremove, hreset⟩ := hge hbelow
    cases hkey : state.self.spawnArgs.GetBool "remove"
    · rw [(hreset hkey).1]
      omega
    · rw [(hremove hkey).1]
      exact h

theorem idAnimated.Event_Start_in_range (collaborators : AnimatorCollaborators)
    (gameLocal : idGameLocal) (state : AnimationState)
    (h : 0 ≤ state.self.current_anim_index
      ∧ state.self.current_anim_index ≤ state.self.num_anims) :
    0 ≤ (idAnimated.Event_Start collaborators gameLocal state).self.current_anim_index
    ∧ (idAnimated.Event_Start collaborators gameLocal state).self.current_anim_index
        ≤ (idAnimated.Event_Start collaborators gameLocal state).self.num_anims := by
  unfold idAnimated.Event_Start
  dsimp only
  split_ifs
  all_goals first
    | exact h
    | exact idAnimated.PlayNextAnim_in_range collaborators gameLocal _ h

theorem idAnimated.Event_Activate_in_range (collaborators : AnimatorCollaborators)
    (gameLocal : idGameLocal) (_activator : Option Nat) (state : AnimationState)
    (h : 0 ≤ state.self.current_anim_index
      ∧ state.self.current_anim_index ≤ state.self.num_anims) :
    0 ≤ (idAnimated.Event_Activate collaborators gameLocal _activator state).self.current_anim_index
    ∧ (idAnimated.Event_Activate collaborators gameLocal _activator state).self.current_anim_index
        ≤ (idAnimated.Event_Activate collaborators gameLocal _activator state).self.num_anims := by
  unfold idAnimated.Event_Activate
  dsimp only
  split_ifs
  all_goals first
    | exact h
    | exact idAnimated.PlayNextAnim_in_range collaborators gameLocal _ h
    | exact idAnimated.Event_Start_in_range collaborators gameLocal _ h

theorem idAnimated.Event_AnimDone_in_range (collaborators : AnimatorCollaborators)
    (gameLocal : idGameLocal) (animindex : Int) (state : AnimationState)
    (h : 0 ≤ state.self.current_anim_index
      ∧ state.self.current_anim_index ≤ state.self.num_anims) :
    0 ≤ (idAnimated.Event_AnimDone collaborators gameLocal animindex state).self.current_anim_index
    ∧ (idAnimated.Event_AnimDone collaborators gameLocal animindex state).self.current_anim_index
        ≤ (idAnimated.Event_AnimDone collaborators gameLocal animindex state).self.num_anims := by
  unfold idAnimated.Event_AnimDone
  dsimp only
  split_ifs
  all_goals first
    | exact h
    | exact idAnimated.PlayNextAnim_in_range collaborators gameLocal _ h

/-- C27: when the "num_anims" key read by Spawn is not negative, Spawn leaves the entity
with 0 <= current_anim_index <= num_anims, whether it completes or ends in its fatal
error. From a state in that range, PlayNextAnim keeps num_anims and the range, and so do
Event_Activate, Event_Start and Event_AnimDone. PlayNextAnim adds exactly one to the index
when it is below num_anims; otherwise it hides the entity and, when the "remove" key is
set, leaves the index as it is and posts EV_Remove with delay 0, and when the key is not
set, resets the index to 0 and posts nothing. -/
theorem idAnimated.current_anim_index_in_range (atof : String → Rat)
    (collaborators : AnimatorCollaborators) (gameLocal : idGameLocal) (this : Nat)
    (state : AnimationState) :
    (∀ spawned, 0 ≤ state.self.spawnArgs.GetInt "num_anims" "0" →
      (idAnimated.Spawn atof collaborators gameLocal this state = .ok spawned
        ∨ ∃ fault, idAnimated.Spawn atof collaborators gameLocal this state
            = .error (fault, spawned)) →
      spawned.self.num_anims = state.self.spawnArgs.GetInt "num_anims" "0"
      ∧ 0 ≤ spawned.self.current_anim_index
      ∧ spawned.self.current_anim_index ≤ spawned.self.num_anims)
    ∧ ((0 ≤ state.self.current_anim_index
          ∧ state.self.current_anim_index ≤ state.self.num_anims) →
      (idAnimated.PlayNextAnim collaborators gameLocal state).self.num_anims
          = state.self.num_anims
      ∧ (0 ≤ (idAnimated.PlayNextAnim collaborators gameLocal state).self.current_anim_index
        ∧ (idAnimated.PlayNextAnim collaborators gameLocal state).self.current_anim_index
            ≤ (idAnimated.PlayNextAnim collaborators gameLocal state).self.num_anims)
      ∧ (state.self.current_anim_index < state.self.num_anims →
          (idAnimated.PlayNextAnim collaborators gameLocal state).self.current_anim_index
            = state.self.current_anim_index + 1)
      ∧ (¬ state.self.current_anim_index < state.self.num_anims →
          (idAnimated.PlayNextAnim collaborators gameLocal state).self.fl.hidden = true
          ∧ (state.self.spawnArgs.GetBool "remove" = true →
              (idAnimated.PlayNextAnim collaborators gameLocal state).self.current_anim_index
                = state.self.current_anim_index
              ∧ (idAnimated.PlayNextAnim collaborators gameLocal state).events
                = PostEventMS state.events gameLocal.time EV_Remove 0 [])
          ∧ (state.self.spawnArgs.GetBool "remove" = false →
              (idAnimated.PlayNextAnim collaborators gameLocal state).self.current_anim_index = 0
              ∧ (idAnimated.PlayNextAnim collaborators gameLocal state).events
                = state.events))
      ∧ (∀ _activator,
          0 ≤ (idAnimated.Event_Activate collaborators gameLocal _activator
                state).self.current_anim_index
          ∧ (idAnimated.Event_Activate collaborators gameLocal _activator
                state).self.current_anim_index
              ≤ (idAnimated.Event_Activate collaborators gameLocal _activator
                  state).self.num_anims)
      ∧ (0 ≤ (idAnimated.Event_Start collaborators gameLocal state).self.current_anim_index
        ∧ (idAnimated.Event_Start collaborators gameLocal state).self.current_anim_index
            ≤ (idAnimated.Event_Start collaborators gameLocal state).self.num_anims)
      ∧ (∀ animindex,
          0 ≤ (idAnimated.Event_AnimDone collaborators gameLocal animindex
                state).self.current_anim_index
          ∧ (idAnimated.Event_AnimDone collaborators gameLocal animindex
                state).self.current_anim_index
              ≤ (idAnimated.Event_AnimDone collaborators gameLocal animindex
                  state).self.num_anims)) := by
  refine ⟨fun spawned hnum hspawn => ?_, fun h => ?_⟩
  · obtain ⟨hindex, hread⟩ :=
      idAnimated.Spawn_index atof collaborators gameLocal this state spawned hspawn
    rw [hindex, hread]
    exact ⟨rfl, le_refl 0, hnum⟩
  · obtain ⟨hkeep, hlt, hge⟩ := idAnimated.PlayNextAnim_index collaborators gameLocal state
    exact ⟨hkeep, idAnimated.PlayNextAnim_in_range collaborators gameLocal state h, hlt, hge,
      fun _activator =>
        idAnimated.Event_Activate_in_range collaborators gameLocal _activator state h,
      idAnimated.Event_Start_in_range collaborators gameLocal state h,
      fun animindex =>
        idAnimated.Event_AnimDone_in_range collaborators gameLocal animindex state h⟩

/-- Witness for C27: a sequence of two animations is spawned, and its first animation is
played. -/
theorem idAnimated.current_anim_index_in_range_witness :
    (∃ spawned, idAnimated.Spawn (fun _ => -1) exampleAnimator {} 7 exampleSequence = .ok spawned
      ∧ spawned.self.num_anims = 2
      ∧ 0 ≤ spawned.self.current_anim_index
      ∧ spawned.self.current_anim_index ≤ spawned.self.num_anims)
    ∧ (idAnimated.PlayNextAnim exampleAnimator {}
        { exampleSequence with self := { exampleSequence.self with num_anims := 2 } }
        ).self.current_anim_index = 1 := by
  refine ⟨⟨_, rfl, ?_⟩, ?_⟩
  · exact (idAnimated.current_anim_index_in_range (fun _ => -1) exampleAnimator {} 7
      exampleSequence).1 _ (by decide) (Or.inl rfl)
  · exact ((idAnimated.current_anim_index_in_range (fun _ => -1) exampleAnimator {} 7
      { exampleSequence with self := { exampleSequence.self with num_anims := 2 } }).2
        ⟨by decide, by decide⟩).2.2.1 (by decide)

/-! ## idEarthQuake: the shake time and the think flag -/

theorem TH_THINK_lor_of_set (flags : Nat) (h : flags &&& TH_THINK ≠ 0) :
    flags ||| TH_THINK = flags := by
  apply Nat.eq_of_testBit_eq
  intro i
  simp only [TH_THINK, Nat.testBit_or]
  cases i with
  | zero =>
    have hbit : flags.testBit 0 = true := by
      rw [Nat.testBit_zero]
      simp only [TH_THINK, Nat.and_one_is_mod] at h
      simp only [decide_eq_true_eq]
      omega
    rw [hbit]
    rfl
  | succ n => simp [Nat.testBit_succ]

theorem idEarthQuake.Spawn_shake (atof : String → Rat) (gameLocal : idGameLocal) (this : Nat)
    (state : QuakeState) :
    (idEarthQuake.Spawn atof gameLocal this state).self.shakeStopTime = 0 := rfl

theorem idEarthQuake.Event_ActivateQuake_shake (gameLocal : idGameLocal) (this : Nat)
    (activator : Option Nat) (player : Nat) (state : QuakeState)
    (h : state.self.shakeStopTime > gameLocal.time → state.self.thinkFlags &&& TH_THINK ≠ 0) :
    (idEarthQuake.Event_ActivateQuake gameLocal this activator player state).self.shakeStopTime
        > gameLocal.time →
      (idEarthQuake.Event_ActivateQuake gameLocal this activator player state).self.thinkFlags
        &&& TH_THINK ≠ 0 := by
  unfold idEarthQuake.Event_ActivateQuake
  dsimp only
  by_cases hshake : state.self.shakeTime > 0
  · rw [if_pos hshake]
    dsimp only
    intro _
    split_ifs <;> exact TH_THINK_set_of_lor _
  · rw [if_neg hshake]
    split_ifs <;> exact h

theorem idEarthQuake.Event_Activate_shake (gameLocal : idGameLocal) (this : Nat)
    (activator : Option Nat) (state : QuakeState)
    (h : state.self.shakeStopTime > gameLocal.time → state.self.thinkFlags &&& TH_THINK ≠ 0) :
    (idEarthQuake.Event_Activate gameLocal this activator state).self.shakeStopTime
        > gameLocal.time →
      (idEarthQuake.Event_Activate gameLocal this activator state).self.thinkFlags
        &&& TH_THINK ≠ 0 := by
  unfold idEarthQuake.Event_Activate
  split_ifs
  · exact h
  · exact h
  · split
    · exact h
    · dsimp only
      split_ifs
      · exact h
      · exact idEarthQuake.Event_ActivateQuake_shake gameLocal this activator _ _ h
      · exact idEarthQuake.Event_ActivateQuake_shake gameLocal this activator _ _ h

theorem idEarthQuake.Think_shake (collaborators : QuakeCollaborators) (gameLocal : idGameLocal)
    (state next : QuakeState)
    (h : state.self.shakeStopTime > gameLocal.time → state.self.thinkFlags &&& TH_THINK ≠ 0)
    (hstep : idEarthQuake.Think collaborators gameLocal state = .ok next) :
    next.self.shakeStopTime > gameLocal.time → next.self.thinkFlags &&& TH_THINK ≠ 0 := by
  unfold idEarthQuake.Think at hstep
  dsimp only at hstep
  by_cases hflag : state.self.thinkFlags &&& TH_THINK ≠ 0
  · rw [if_pos hflag] at hstep
    by_cases hover : gameLocal.time > state.self.shakeStopTime
    · rw [if_pos hover] at hstep
      have hstop : next.self.shakeStopTime = state.self.shakeStopTime := by
        split_ifs at hstep <;> (cases hstep; rfl)
      intro hlater
      rw [hstop] at hlater
      omega
    · rw [if_neg hover] at hstep
      cases hplayer : gameLocal.GetLocalPlayer with
      | none =>
        rw [hplayer] at hstep
        cases hstep
      | some player =>
        rw [hplayer] at hstep
        cases hstep
        intro _
        show (state.self.thinkFlags &&& compl32 TH_UPDATEVISUALS) &&& TH_THINK ≠ 0
        rw [TH_THINK_kept_of_clear_visuals]
        exact hflag
  · rw [if_neg hflag] at hstep
    cases hstep
    intro hlater
    exact absurd (h hlater) hflag

theorem idEarthQuake.RestoreObject_SaveObject (s y : idEarthQuake) (gameLocal : idGameLocal)
    (rest : List SaveItem) (build : Int) :
    ∃ restored savefile,
      y.RestoreObject gameLocal ⟨s.SaveObject [] ++ rest, [], build⟩ = some (restored, savefile)
      ∧ savefile.file = rest
      ∧ restored.shakeStopTime = s.shakeStopTime
      ∧ restored.thinkFlags
          = (if s.shakeStopTime > gameLocal.time then s.thinkFlags ||| TH_THINK
             else s.thinkFlags) := by
  by_cases h : s.shakeStopTime > gameLocal.time
  · rw [if_pos h]
    refine ⟨?r1, ?sf1, ?eq1, ?props1⟩
    case eq1 =>
      show (if s.shakeStopTime > gameLocal.time then _ else _) = _
      rw [if_pos h]
      exact rfl
    case props1 => exact ⟨rfl, rfl, rfl⟩
  · rw [if_neg h]
    refine ⟨?r2, ?sf2, ?eq2, ?props2⟩
    case eq2 =>
      show (if s.shakeStopTime > gameLocal.time then _ else _) = _
      rw [if_neg h]
      exact rfl
    case props2 => exact ⟨rfl, rfl, rfl⟩

theorem idEarthQuake.Reachable_shake (collaborators : QuakeCollaborators) (this : Nat)
    (state : QuakeState) (now : Int)
    (h : idEarthQuake.Reachable collaborators this state now) :
    state.self.shakeStopTime > now → state.self.thinkFlags &&& TH_THINK ≠ 0 := by
  induction h with
  | spawn atof gameLocal state htime =>
    intro hlater
    rw [idEarthQuake.Spawn_shake] at hlater
    omega
  | activate gameLocal activator state now _ htime ih =>
    exact idEarthQuake.Event_Activate_shake gameLocal this activator state
      (fun hlater => ih (by omega))
  | think gameLocal state next now _ htime hstep ih =>
    exact idEarthQuake.Think_shake collaborators gameLocal state next
      (fun hlater => ih (by omega)) hstep
  | pass state now later _ htime ih =>
    intro hlater
    exact ih (by omega)

/-- C23: in every state of an idEarthQuake reached from Spawn at a non-negative game time
through Event_Activate and Think calls at game times that do not decrease, a shakeStopTime
later than the current time implies that TH_THINK is set. Hence saving such a state and
restoring it at the current or any later game time succeeds and gives back the saved
activation mask: the BecomeActive( TH_THINK ) of Restore sets no flag that was clear. -/
theorem idEarthQuake.shake_pending_implies_think_flag (collaborators : QuakeCollaborators)
    (this : Nat) (state : QuakeState) (now : Int)
    (h : idEarthQuake.Reachable collaborators this state now) :
    (state.self.shakeStopTime > now → state.self.thinkFlags &&& TH_THINK ≠ 0)
    ∧ ∀ (gameLocal : idGameLocal) (y : idEarthQuake) (rest : List SaveItem) (build : Int),
        now ≤ gameLocal.time →
        ∃ restored savefile,
          y.RestoreObject gameLocal ⟨state.self.SaveObject [] ++ rest, [], build⟩
            = some (restored, savefile)
          ∧ savefile.file = rest
          ∧ restored.shakeStopTime = state.self.shakeStopTime
          ∧ restored.thinkFlags = state.self.thinkFlags := by
  have hinv := idEarthQuake.Reachable_shake collaborators this state now h
  refine ⟨hinv, fun gameLocal y rest build htime => ?_⟩
  obtain ⟨restored, savefile, heq, hfile, hstop, hflags⟩ :=
    idEarthQuake.RestoreObject_SaveObject state.self y gameLocal rest build
  refine ⟨restored, savefile, heq, hfile, hstop, ?_⟩
  rw [hflags]
  by_cases hlater : state.self.shakeStopTime > gameLocal.time
  · rw [if_pos hlater]
    exact TH_THINK_lor_of_set _ (hinv (by omega))
  · rw [if_neg hlater]

/-- Witness for C23: an earthquake with shake time 1 is spawned at time 0 and activated by
itself at time 2000; it shakes until time 3000 and has TH_THINK set. -/
theorem idEarthQuake.shake_pending_implies_think_flag_witness :
    (idEarthQuake.Event_Activate exampleGameWithPlayer 7 (some 7)
        (idEarthQuake.Spawn (fun _ => 1) {} 7 {})).self.shakeStopTime = 3000
    ∧ (idEarthQuake.Event_Activate exampleGameWithPlayer 7 (some 7)
        (idEarthQuake.Spawn (fun _ => 1) {} 7 {})).self.thinkFlags &&& TH_THINK ≠ 0 := by
  have hms : SEC2MS 1 = 1000 := by norm_num [SEC2MS, ftoi]
  have hstop : (idEarthQuake.Event_Activate exampleGameWithPlayer 7 (some 7)
      (idEarthQuake.Spawn (fun _ => 1) {} 7 {})).self.shakeStopTime = 3000 := by
    show (2000 : Int) + SEC2MS 1 = 3000
    rw [hms]
    rfl
  exact ⟨hstop, (idEarthQuake.shake_pending_implies_think_flag exampleQuiet 7 _ _
    (idEarthQuake.Reachable.activate exampleGameWithPlayer (some 7) _ _
      (idEarthQuake.Reachable.spawn (fun _ => 1) {} {} (by decide)) (by decide))).1
    (by rw [hstop]; decide)⟩

/-! ## idEarthQuake::Event_Activate: the self-activations posted -/

theorem idEarthQuake.Event_ActivateQuake_repeating (gameLocal : idGameLocal) (this : Nat)
    (activator : Option Nat) (player : Nat) (state : QuakeState)
    (htriggered : state.self.triggered = false) (hwait : state.self.wait > 0) :
    (idEarthQuake.Event_ActivateQuake gameLocal this activator player state).events
        = PostEventSec state.events gameLocal.time EV_Activate
            (state.self.wait + state.self.random * state.random.CRandomFloat.1)
            [Int.ofNat this]
    ∧ (idEarthQuake.Event_ActivateQuake gameLocal this activator player state).activations
        = state.activations ++ [activator]
    ∧ (idEarthQuake.Event_ActivateQuake gameLocal this activator player state).self.disabled
        = state.self.disabled := by
  unfold idEarthQuake.Event_ActivateQuake
  dsimp only
  by_cases hshake : state.self.shakeTime > 0
  · rw [if_pos hshake]
    dsimp only
    rw [if_pos hwait, if_pos htriggered]
    exact ⟨rfl, rfl, rfl⟩
  · rw [if_neg hshake]
    rw [if_pos hwait, if_pos htriggered]
    exact ⟨rfl, rfl, rfl⟩

/-- C24: for an idEarthQuake that is not triggered, has wait > 0, sees a local player and
is past its nextTriggerTime, one Event_Activate call posts: exactly one EV_Activate to
itself when the activator is the earthquake itself and it is not disabled; exactly two
when another activator finds it disabled, which enables it; and nothing, without
activating the targets, when another activator finds it enabled, which disables it. The
delays are wait + random * CRandomFloat() seconds, one random draw for each post. -/
theorem idEarthQuake.Event_Activate_posts (gameLocal : idGameLocal) (this : Nat)
    (activator : Option Nat) (player : Nat) (state : QuakeState)
    (htriggered : state.self.triggered = false) (hwait : state.self.wait > 0)
    (hplayer : gameLocal.GetLocalPlayer = some player)
    (hguard : ¬ state.self.nextTriggerTime > gameLocal.time) :
    (activator = some this → state.self.disabled = false →
      (idEarthQuake.Event_Activate gameLocal this activator state).events
          = PostEventSec state.events gameLocal.time EV_Activate
              (state.self.wait + state.self.random * state.random.CRandomFloat.1)
              [Int.ofNat this]
      ∧ (idEarthQuake.Event_Activate gameLocal this activator state).activations
          = state.activations ++ [activator])
    ∧ (activator ≠ some this → state.self.disabled = true →
      (idEarthQuake.Event_Activate gameLocal this activator state).events
          = PostEventSec
              (PostEventSec state.events gameLocal.time EV_Activate
                (state.self.wait + state.self.random * state.random.CRandomFloat.1)
                [Int.ofNat this])
              gameLocal.time EV_Activate
              (state.self.wait
                + state.self.random * state.random.CRandomFloat.2.CRandomFloat.1)
              [Int.ofNat this]
      ∧ (idEarthQuake.Event_Activate gameLocal this activator state).activations
          = state.activations ++ [activator]
      ∧ (idEarthQuake.Event_Activate gameLocal this activator state).self.disabled = false)
    ∧ (activator ≠ some this → state.self.disabled = false →
      (idEarthQuake.Event_Activate gameLocal this activator state).events = state.events
      ∧ (idEarthQuake.Event_Activate gameLocal this activator state).activations
          = state.activations
      ∧ (idEarthQuake.Event_Activate gameLocal this activator state).self.disabled = true) := by
  unfold idEarthQuake.Event_Activate
  rw [if_neg hguard, hplayer]
  dsimp only
  refine ⟨fun hself hdisabled => ?_, fun hother hdisabled => ?_, fun hother hdisabled => ?_⟩
  · rw [if_neg (fun hc => by rw [hdisabled] at hc; cases hc.1)]
    rw [if_neg (fun hc => hc.2 hself)]
    have hquake := idEarthQuake.Event_ActivateQuake_repeating gameLocal this activator player
      { state with self := { state.self with nextTriggerTime := 0 } } htriggered hwait
    exact ⟨hquake.1, hquake.2.1⟩
  · rw [if_neg (fun hc => hother hc.2)]
    rw [if_pos ⟨htriggered, hother⟩]
    rw [hdisabled]
    exact idEarthQuake.Event_ActivateQuake_repeating gameLocal this activator player _
      htriggered hwait
  · rw [if_neg (fun hc => hother hc.2)]
    rw [if_pos ⟨htriggered, hother⟩]
    rw [hdisabled]
    exact ⟨rfl, rfl, rfl⟩

/-- Witness for C24: at time 2000, with local player 0, earthquake 7 activates itself, is
enabled again by entity 3, and is disabled by entity 3. -/
theorem idEarthQuake.Event_Activate_posts_witness :
    (idEarthQuake.Event_Activate exampleGameWithPlayer 7 (some 7) exampleQuake).events.length = 1
    ∧ (idEarthQuake.Event_Activate exampleGameWithPlayer 7 (some 3)
        exampleQuakeDisabled).events.length = 2
    ∧ (idEarthQuake.Event_Activate exampleGameWithPlayer 7 (some 3) exampleQuake).events = []
    ∧ (idEarthQuake.Event_Activate exampleGameWithPlayer 7 (some 3) exampleQuake).activations
        = [] := by
  have hself := (idEarthQuake.Event_Activate_posts exampleGameWithPlayer 7 (some 7) 0
    exampleQuake rfl (by decide) rfl (by decide)).1 rfl rfl
  have henable := (idEarthQuake.Event_Activate_posts exampleGameWithPlayer 7 (some 3) 0
    exampleQuakeDisabled rfl (by decide) rfl (by decide)).2.1 (by decide) rfl
  have hdisable := (idEarthQuake.Event_Activate_posts exampleGameWithPlayer 7 (some 3) 0
    exampleQuake rfl (by decide) rfl (by decide)).2.2 (by decide) rfl
  refine ⟨?_, ?_, hdisable.1, hdisable.2.1⟩
  · rw [hself.1]
    simp [PostEventSec, length_PostEventMS, exampleQuake]
  · rw [henable.1]
    simp [PostEventSec, length_PostEventMS, exampleQuakeDisabled]

/-! ## idStaticEntity: the fade -/

theorem idStaticEntity.Think_fading (collaborators : TickCollaborators)
    (gameLocal : idGameLocal) (self : idStaticEntity)
    (hflag : (collaborators.Think self.toidEntity).thinkFlags &&& TH_THINK ≠ 0)
    (hfade : self.fadeEnd > 0) :
    ∃ e : idEntity, e.thinkFlags = (collaborators.Think self.toidEntity).thinkFlags
      ∧ idStaticEntity.Think collaborators gameLocal self
          = if gameLocal.time < self.fadeEnd then
              { self with toidEntity := e.SetColor (idVec4.Lerp self.fadeFrom self.fadeTo
                  (idStaticEntity.FadeFraction gameLocal.time self.fadeStart self.fadeEnd)) }
            else
              { self with toidEntity := (e.BecomeInactive TH_THINK).SetColor self.fadeTo
                          fadeEnd := 0 } := by
  unfold idStaticEntity.Think
  dsimp only
  rw [if_pos hflag]
  by_cases hgui : self.runGui = true ∧ (collaborators.Think self.toidEntity).renderEntity.gui 0 = true
  · rw [if_pos hgui]
    cases hplayer : gameLocal.GetLocalPlayer with
    | none =>
      dsimp only
      rw [if_pos hfade]
      exact ⟨_, rfl, rfl⟩
    | some player =>
      dsimp only
      rw [if_pos hfade]
      exact ⟨_, idStaticEntity.GuiStateChanged_thinkFlags gameLocal _, rfl⟩
  · rw [if_neg hgui]
    dsimp only
    rw [if_pos hfade]
    exact ⟨_, rfl, rfl⟩

theorem idStaticEntity.Think_fade_fields (collaborators : TickCollaborators)
    (gameLocal : idGameLocal) (self : idStaticEntity) :
    (idStaticEntity.Think collaborators gameLocal self).fadeStart = self.fadeStart
    ∧ ((idStaticEntity.Think collaborators gameLocal self).fadeEnd = self.fadeEnd
        ∨ (idStaticEntity.Think collaborators gameLocal self).fadeEnd = 0) := by
  by_cases hflag : (collaborators.Think self.toidEntity).thinkFlags &&& TH_THINK ≠ 0
  · by_cases hfade : self.fadeEnd > 0
    · obtain ⟨e, -, heq⟩ := idStaticEntity.Think_fading collaborators gameLocal self hflag hfade
      rw [heq]
      split_ifs
      · exact ⟨rfl, Or.inl rfl⟩
      · exact ⟨rfl, Or.inr rfl⟩
    · unfold idStaticEntity.Think
      dsimp only
      rw [if_pos hflag]
      by_cases hgui : self.runGui = true
          ∧ (collaborators.Think self.toidEntity).renderEntity.gui 0 = true
      · rw [if_pos hgui]
        cases hplayer : gameLocal.GetLocalPlayer with
        | none =>
          dsimp only
          rw [if_neg hfade]
          exact ⟨rfl, Or.inl rfl⟩
        | some player =>
          dsimp only
          rw [if_neg hfade]
          exact ⟨rfl, Or.inl rfl⟩
      · rw [if_neg hgui]
        dsimp only
        rw [if_neg hfade]
        exact ⟨rfl, Or.inl rfl⟩
  · unfold idStaticEntity.Think
    dsimp only
    rw [if_neg hflag]
    exact ⟨rfl, Or.inl rfl⟩

theorem idStaticEntity.ThinkTicks_fade_fields (collaborators : TickCollaborators)
    (ticks : List idGameLocal) (self : idStaticEntity) :
    (idStaticEntity.ThinkTicks collaborators ticks self).fadeStart = self.fadeStart
    ∧ ((idStaticEntity.ThinkTicks collaborators ticks self).fadeEnd = self.fadeEnd
        ∨ (idStaticEntity.ThinkTicks collaborators ticks self).fadeEnd = 0) := by
  induction ticks generalizing self with
  | nil => exact ⟨rfl, Or.inl rfl⟩
  | cons gameLocal ticks ih =>
    unfold idStaticEntity.ThinkTicks
    obtain ⟨hstart, hend⟩ := ih (idStaticEntity.Think collaborators gameLocal self)
    obtain ⟨hstart1, hend1⟩ := idStaticEntity.Think_fade_fields collaborators gameLocal self
    refine ⟨hstart.trans hstart1, ?_⟩
    rcases hend with hend | hend
    · rcases hend1 with hend1 | hend1
      · exact Or.inl (hend.trans hend1)
      · exact Or.inr (hend.trans hend1)
    · exact Or.inr hend

theorem SEC2MS_nonpos (t : Rat) (h : t ≤ 0) : SEC2MS t ≤ 0 := by
  unfold SEC2MS ftoi
  have h1000 : t * 1000 ≤ 0 := by linarith
  split_ifs with h0
  · have hz : t * 1000 = 0 := le_antisymm h1000 h0
    rw [hz]
    simp
  · exact Int.ceil_le.mpr (by exact_mod_cast h1000)

theorem idStaticEntity.Think_fading_colour (collaborators : TickCollaborators)
    (gameLocal : idGameLocal) (self : idStaticEntity)
    (hflag : (collaborators.Think self.toidEntity).thinkFlags &&& TH_THINK ≠ 0)
    (hfade : self.fadeEnd > 0) (hbefore : gameLocal.time < self.fadeEnd) :
    (idStaticEntity.Think collaborators gameLocal self).toidEntity.GetColor
        = idVec4.Lerp self.fadeFrom self.fadeTo
            (idStaticEntity.FadeFraction gameLocal.time self.fadeStart self.fadeEnd)
    ∧ (idStaticEntity.Think collaborators gameLocal self).fadeEnd = self.fadeEnd := by
  obtain ⟨e, -, heq⟩ := idStaticEntity.Think_fading collaborators gameLocal self hflag hfade
  rw [heq, if_pos hbefore]
  exact ⟨rfl, rfl⟩

theorem idStaticEntity.FadeFraction_range (time fadeStart fadeEnd : Int)
    (hnum : 0 ≤ time - fadeStart) (hlt : time - fadeStart < fadeEnd - fadeStart) :
    0 < itof (fadeEnd - fadeStart)
    ∧ 0 ≤ idStaticEntity.FadeFraction time fadeStart fadeEnd
    ∧ idStaticEntity.FadeFraction time fadeStart fadeEnd ≤ 1
    ∧ (fadeEnd - fadeStart ≤ 16777216 →
        idStaticEntity.FadeFraction time fadeStart fadeEnd < 1) := by
  have hden1 : (1 : Rat) ≤ itof (fadeEnd - fadeStart) := by
    have h := itof_mono (show (1 : Int) ≤ fadeEnd - fadeStart by omega)
    rwa [itof_exact 1 (by decide), Int.cast_one] at h
  have hnum0 : (0 : Rat) ≤ itof (time - fadeStart) := by
    have h := itof_mono hnum
    rwa [itof_exact 0 (by decide), Int.cast_zero] at h
  have hle : itof (time - fadeStart) ≤ itof (fadeEnd - fadeStart) := itof_mono (le_of_lt hlt)
  have hden0 : (0 : Rat) < itof (fadeEnd - fadeStart) := by linarith
  have hq0 : 0 ≤ itof (time - fadeStart) / itof (fadeEnd - fadeStart) :=
    div_nonneg hnum0 (le_of_lt hden0)
  have hq1 : itof (time - fadeStart) / itof (fadeEnd - fadeStart) ≤ 1 :=
    (div_le_one hden0).mpr hle
  refine ⟨hden0, f32_nonneg hq0, ?_, ?_⟩
  · have h := f32_mono hq1
    rwa [f32_one] at h
  · intro hshort
    have hnumabs : |time - fadeStart| ≤ 16777216 := by
      rw [abs_of_nonneg hnum]
      omega
    have hdenabs : |fadeEnd - fadeStart| ≤ 16777216 := by
      rw [abs_of_nonneg (by omega)]
      exact hshort
    have hdenQ : (0 : Rat) < ((fadeEnd - fadeStart : Int) : Rat) := by
      exact_mod_cast (show (0 : Int) < fadeEnd - fadeStart by omega)
    have hdenle : ((fadeEnd - fadeStart : Int) : Rat) ≤ 16777216 := by exact_mod_cast hshort
    have hnumle : ((time - fadeStart : Int) : Rat) ≤ ((fadeEnd - fadeStart : Int) : Rat) - 1 := by
      have : time - fadeStart ≤ fadeEnd - fadeStart - 1 := by omega
      exact_mod_cast this
    have hq : ((time - fadeStart : Int) : Rat) / ((fadeEnd - fadeStart : Int) : Rat)
        ≤ 1 - 1 / 16777216 := by
      rw [div_le_iff₀ hdenQ]
      linarith
    have h := f32_mono hq
    rw [f32_fix (1 - 1 / 16777216) 16777215 (-24) (by norm_num) (by norm_num) (by norm_num)]
      at h
    unfold idStaticEntity.FadeFraction
    rw [itof_exact _ hnumabs, itof_exact _ hdenabs]
    linarith

/-- C25 (counterexample): a fade of 16778 s starts at time 0, so fadeStart = 0 and
fadeEnd = 16778000. A Think at time 16777999 takes the interpolation branch, and the
fraction it hands to Lerp is exactly 1: the int 16777999 has no float of its own and is
converted to 16778000, the value of the divisor. With TH_THINK set the colour of that Think
is the one interpolated at 1. So the fraction is not always less than 1. -/
theorem idStaticEntity.fade_fraction_reaches_one :
    (idStaticEntity.Fade { time := 0 } {} ⟨0, 0, 0, 1⟩ 16778).fadeStart = 0
    ∧ (idStaticEntity.Fade { time := 0 } {} ⟨0, 0, 0, 1⟩ 16778).fadeEnd = 16778000
    ∧ (0 : Int) < 16778000 ∧ (16777999 : Int) < 16778000
    ∧ idStaticEntity.FadeFraction 16777999 0 16778000 = 1
    ∧ ¬ idStaticEntity.FadeFraction 16777999 0 16778000 < 1
    ∧ (idStaticEntity.Think exampleTick { time := 16777999 }
          (idStaticEntity.Fade { time := 0 } {} ⟨0, 0, 0, 1⟩ 16778)).toidEntity.GetColor
        = idVec4.Lerp
            (idStaticEntity.Fade { time := 0 } {} ⟨0, 0, 0, 1⟩ 16778).fadeFrom
            (idStaticEntity.Fade { time := 0 } {} ⟨0, 0, 0, 1⟩ 16778).fadeTo 1 := by
  have hms : SEC2MS 16778 = 16778000 := by norm_num [SEC2MS, ftoi]
  have hend : (idStaticEntity.Fade { time := 0 } {} ⟨0, 0, 0, 1⟩ 16778).fadeEnd
      = 16778000 := by
    show (0 : Int) + SEC2MS 16778 = 16778000
    rw [hms]
    rfl
  have hone : idStaticEntity.FadeFraction 16777999 0 16778000 = 1 := by
    unfold idStaticEntity.FadeFraction
    rw [Int.sub_zero, Int.sub_zero, itof_16777999, itof_16778000, div_self (by norm_num),
      f32_one]
  refine ⟨rfl, hend, by decide, by decide, hone, by rw [hone]; exact lt_irrefl 1, ?_⟩
  have hcolour := (idStaticEntity.Think_fading_colour exampleTick { time := 16777999 }
    (idStaticEntity.Fade { time := 0 } {} ⟨0, 0, 0, 1⟩ 16778) (by decide)
    (by rw [hend]; decide) (by rw [hend]; decide)).1
  have hfraction : idStaticEntity.FadeFraction ({ time := 16777999 } : idGameLocal).time
      (idStaticEntity.Fade { time := 0 } {} ⟨0, 0, 0, 1⟩ 16778).fadeStart
      (idStaticEntity.Fade { time := 0 } {} ⟨0, 0, 0, 1⟩ 16778).fadeEnd = 1 := by
    rw [hend]
    exact hone
  rw [hfraction] at hcolour
  exact hcolour

/-- C25 (amended): after Fade( to, fadeTime ) at game time t0, followed by any number of
Think calls, a Think at a game time t >= t0 that finds fadeEnd > 0 and t < fadeEnd divides
by a strictly positive divisor: fadeEnd - fadeStart > 0, and so is its float. The fraction
( float )( t - fadeStart ) / ( float )( fadeEnd - fadeStart ) it hands to Lerp is at least 0
and at most 1, and it is less than 1 when the fade is no longer than 2^24 ms, where both
ints are converted exactly; with TH_THINK set that Think sets the colour to the
interpolated one and keeps fadeEnd. This holds for every fadeTime; for a fadeTime that is
zero or negative the interpolation branch is never taken. -/
theorem idStaticEntity.fade_fraction_in_range (collaborators : TickCollaborators)
    (start : idGameLocal) (self : idStaticEntity) (toColor : idVec4) (fadeTime : Rat)
    (ticks : List idGameLocal) (gameLocal : idGameLocal)
    (hlater : start.time ≤ gameLocal.time) :
    ((idStaticEntity.ThinkTicks collaborators ticks
          (idStaticEntity.Fade start self toColor fadeTime)).fadeEnd > 0 →
      gameLocal.time < (idStaticEntity.ThinkTicks collaborators ticks
          (idStaticEntity.Fade start self toColor fadeTime)).fadeEnd →
      0 < (idStaticEntity.ThinkTicks collaborators ticks
              (idStaticEntity.Fade start self toColor fadeTime)).fadeEnd
            - (idStaticEntity.ThinkTicks collaborators ticks
                (idStaticEntity.Fade start self toColor fadeTime)).fadeStart
      ∧ 0 < itof ((idStaticEntity.ThinkTicks collaborators ticks
              (idStaticEntity.Fade start self toColor fadeTime)).fadeEnd
            - (idStaticEntity.ThinkTicks collaborators ticks
                (idStaticEntity.Fade start self toColor fadeTime)).fadeStart)
      ∧ 0 ≤ idStaticEntity.FadeFraction gameLocal.time
            (idStaticEntity.ThinkTicks collaborators ticks
              (idStaticEntity.Fade start self toColor fadeTime)).fadeStart
            (idStaticEntity.ThinkTicks collaborators ticks
              (idStaticEntity.Fade start self toColor fadeTime)).fadeEnd
      ∧ idStaticEntity.FadeFraction gameLocal.time
            (idStaticEntity.ThinkTicks collaborators ticks
              (idStaticEntity.Fade start self toColor fadeTime)).fadeStart
            (idStaticEntity.ThinkTicks collaborators ticks
              (idStaticEntity.Fade start self toColor fadeTime)).fadeEnd
          ≤ 1
      ∧ ((idStaticEntity.ThinkTicks collaborators ticks
              (idStaticEntity.Fade start self toColor fadeTime)).fadeEnd
            - (idStaticEntity.ThinkTicks collaborators ticks
                (idStaticEntity.Fade start self toColor fadeTime)).fadeStart ≤ 16777216 →
          idStaticEntity.FadeFraction gameLocal.time
              (idStaticEntity.ThinkTicks collaborators ticks
                (idStaticEntity.Fade start self toColor fadeTime)).fadeStart
              (idStaticEntity.ThinkTicks collaborators ticks
                (idStaticEntity.Fade start self toColor fadeTime)).fadeEnd
            < 1)
      ∧ ((collaborators.Think (idStaticEntity.ThinkTicks collaborators ticks
              (idStaticEntity.Fade start self toColor fadeTime)).toidEntity).thinkFlags
            &&& TH_THINK ≠ 0 →
          (idStaticEntity.Think collaborators gameLocal
              (idStaticEntity.ThinkTicks collaborators ticks
                (idStaticEntity.Fade start self toColor fadeTime))).toidEntity.GetColor
            = idVec4.Lerp
                (idStaticEntity.ThinkTicks collaborators ticks
                  (idStaticEntity.Fade start self toColor fadeTime)).fadeFrom
                (idStaticEntity.ThinkTicks collaborators ticks
                  (idStaticEntity.Fade start self toColor fadeTime)).fadeTo
                (idStaticEntity.FadeFraction gameLocal.time
                  (idStaticEntity.ThinkTicks collaborators ticks
                    (idStaticEntity.Fade start self toColor fadeTime)).fadeStart
                  (idStaticEntity.ThinkTicks collaborators ticks
                    (idStaticEntity.Fade start self toColor fadeTime)).fadeEnd)
          ∧ (idStaticEntity.Think collaborators gameLocal
              (idStaticEntity.ThinkTicks collaborators ticks
                (idStaticEntity.Fade start self toColor fadeTime))).fadeEnd
            = (idStaticEntity.ThinkTicks collaborators ticks
                (idStaticEntity.Fade start self toColor fadeTime)).fadeEnd))
    ∧ (fadeTime ≤ 0 →
        ¬ ((idStaticEntity.ThinkTicks collaborators ticks
              (idStaticEntity.Fade start self toColor fadeTime)).fadeEnd > 0
          ∧ gameLocal.time < (idStaticEntity.ThinkTicks collaborators ticks
              (idStaticEntity.Fade start self toColor fadeTime)).fadeEnd)) := by
  obtain ⟨hstart, hend⟩ := idStaticEntity.ThinkTicks_fade_fields collaborators ticks
    (idStaticEntity.Fade start self toColor fadeTime)
  generalize idStaticEntity.ThinkTicks collaborators ticks
    (idStaticEntity.Fade start self toColor fadeTime) = s at hstart hend ⊢
  have hstart0 : s.fadeStart = start.time := hstart
  have hend0 : s.fadeEnd = start.time + SEC2MS fadeTime ∨ s.fadeEnd = 0 := hend
  clear hstart hend
  refine ⟨fun hpos hbefore => ?_, fun hnonpos hbranch => ?_⟩
  · have hden : 0 < s.fadeEnd - s.fadeStart := by omega
    obtain ⟨hfloat, hlo, hhi, hstrict⟩ := idStaticEntity.FadeFraction_range gameLocal.time
      s.fadeStart s.fadeEnd (by omega) (by omega)
    refine ⟨hden, hfloat, hlo, hhi, hstrict, ?_⟩
    intro hflag
    exact idStaticEntity.Think_fading_colour collaborators gameLocal s hflag hpos hbefore
  · have hms := SEC2MS_nonpos fadeTime hnonpos
    omega

/-- Witness for C25: a fade of two seconds starts at time 1000 and Think runs at time
2000: the divisor is 2000 and the fraction is below 1. -/
theorem idStaticEntity.fade_fraction_in_range_witness :
    (idStaticEntity.ThinkTicks exampleTick []
        (idStaticEntity.Fade { time := 1000 } {} ⟨0, 0, 0, 1⟩ 2)).fadeStart = 1000
    ∧ (idStaticEntity.ThinkTicks exampleTick []
        (idStaticEntity.Fade { time := 1000 } {} ⟨0, 0, 0, 1⟩ 2)).fadeEnd = 3000
    ∧ 0 < itof (3000 - 1000)
    ∧ 0 ≤ idStaticEntity.FadeFraction 2000 1000 3000
    ∧ idStaticEntity.FadeFraction 2000 1000 3000 < 1 := by
  have hms : SEC2MS 2 = 2000 := by norm_num [SEC2MS, ftoi]
  have hend : (idStaticEntity.ThinkTicks exampleTick []
      (idStaticEntity.Fade { time := 1000 } {} ⟨0, 0, 0, 1⟩ 2)).fadeEnd = 3000 := by
    show (1000 : Int) + SEC2MS 2 = 3000
    rw [hms]
    rfl
  have h := (idStaticEntity.fade_fraction_in_range exampleTick { time := 1000 } {} ⟨0, 0, 0, 1⟩
    2 [] { time := 2000 } (by decide)).1 (by rw [hend]; decide) (by rw [hend]; decide)
  rw [hend] at h
  exact ⟨rfl, hend, h.2.1, h.2.2.1, h.2.2.2.2.1 (by decide)⟩

/-! ## idStaticEntity: the end of a fade -/

theorem TH_THINK_cleared (flags : Nat) : (flags &&& compl32 TH_THINK) &&& TH_THINK = 0 := by
  apply Nat.eq_of_testBit_eq
  intro i
  simp only [Nat.testBit_and, compl32, TH_THINK, Nat.testBit_xor, Nat.zero_testBit]
  cases i with
  | zero => simp
  | succ n => simp [Nat.testBit_succ]

/-- C26: idStaticEntity::Spawn of an entity that is not inline sets runGui from the
"runGui" key and, when it is set, TH_THINK. For an idStaticEntity with TH_THINK set and
fadeEnd > 0, a Think at a game time t >= fadeEnd sets the colour to fadeTo, resets fadeEnd
to 0 and clears TH_THINK, whatever runGui is, and leaves runGui as it is; every later
Think, as long as nothing sets TH_THINK again, only runs the Think of the base entity, so
it makes no user-interface update. The Think of the base entity is a collaborator outside
Misc.cpp, taken to leave the TH_THINK bit alone. -/
theorem idStaticEntity.fade_end_clears_think_flag (collaborators : TickCollaborators)
    (gameLocal : idGameLocal) (self : idStaticEntity) :
    (∀ world random spawned random1,
      idStaticEntity.Spawn gameLocal world random self = .ok (spawned, random1) →
      ¬ (self.spawnArgs.GetInt "inline" ≠ 0 ∨ world.GetBool "inlineAllStatics" = true) →
      spawned.runGui = self.spawnArgs.GetBool "runGui"
      ∧ spawned.fadeEnd = 0
      ∧ (spawned.runGui = true → spawned.thinkFlags &&& TH_THINK ≠ 0))
    ∧ ((∀ e, (collaborators.Think e).thinkFlags &&& TH_THINK = e.thinkFlags &&& TH_THINK) →
      self.thinkFlags &&& TH_THINK ≠ 0 → self.fadeEnd > 0 → self.fadeEnd ≤ gameLocal.time →
      (idStaticEntity.Think collaborators gameLocal self).toidEntity.GetColor = self.fadeTo
      ∧ (idStaticEntity.Think collaborators gameLocal self).fadeEnd = 0
      ∧ (idStaticEntity.Think collaborators gameLocal self).thinkFlags &&& TH_THINK = 0
      ∧ (idStaticEntity.Think collaborators gameLocal self).runGui = self.runGui
      ∧ ∀ later : idGameLocal,
          idStaticEntity.Think collaborators later
              (idStaticEntity.Think collaborators gameLocal self)
            = { idStaticEntity.Think collaborators gameLocal self with
                toidEntity := collaborators.Think
                  (idStaticEntity.Think collaborators gameLocal self).toidEntity }) := by
  refine ⟨fun world random spawned random1 hspawn hinline => ?_,
    fun hThink hactive hfade hdone => ?_⟩
  · unfold idStaticEntity.Spawn at hspawn
    rw [if_neg hinline] at hspawn
    dsimp only at hspawn
    cases hspawn
    refine ⟨rfl, rfl, ?_⟩
    intro hgui
    replace hgui : self.spawnArgs.GetBool "runGui" = true := hgui
    show (if self.spawnArgs.GetBool "runGui" = true then _ else _ : idEntity).thinkFlags
      &&& TH_THINK ≠ 0
    rw [if_pos hgui]
    exact TH_THINK_set_of_lor _
  · have hflag : (collaborators.Think self.toidEntity).thinkFlags &&& TH_THINK ≠ 0 := by
      rw [hThink]
      exact hactive
    obtain ⟨e, he, heq⟩ := idStaticEntity.Think_fading collaborators gameLocal self hflag hfade
    rw [heq, if_neg (not_lt.mpr hdone)]
    have hclear : ((e.BecomeInactive TH_THINK).SetColor self.fadeTo).thinkFlags &&& TH_THINK
        = 0 := TH_THINK_cleared e.thinkFlags
    refine ⟨rfl, rfl, hclear, rfl, fun later => ?_⟩
    unfold idStaticEntity.Think
    dsimp only
    rw [if_neg]
    rw [hThink]
    exact not_not.mpr hclear

/-- Witness for C26: an entity that runs its user interface completes its fade at time
3000. -/
theorem idStaticEntity.fade_end_clears_think_flag_witness :
    (idStaticEntity.Think exampleTick { time := 3000 } exampleFadingGui).fadeEnd = 0
    ∧ (idStaticEntity.Think exampleTick { time := 3000 } exampleFadingGui).thinkFlags
        &&& TH_THINK = 0
    ∧ (idStaticEntity.Think exampleTick { time := 3000 } exampleFadingGui).runGui = true := by
  have h := (idStaticEntity.fade_end_clears_think_flag exampleTick { time := 3000 }
    exampleFadingGui).2 (fun e => TH_THINK_kept_of_clear_visuals e.thinkFlags) (by decide)
    (by decide) (by decide)
  exact ⟨h.2.1, h.2.2.1, h.2.2.2.1⟩

/-! ## idFuncSmoke: hidden and stopped -/

theorem idFuncSmoke.Think_keeps_hidden (collaborators : SmokeCollaborators) (random : idRandom)
    (self : idFuncSmoke) :
    (idFuncSmoke.Think collaborators random self).1.smokeTime = self.smokeTime
    ∧ (idFuncSmoke.Think collaborators random self).1.fl.hidden = self.fl.hidden := by
  unfold idFuncSmoke.Think
  dsimp only
  generalize hp : (if self.thinkFlags &&& TH_UPDATEVISUALS ≠ 0 then
      ({ self with toidEntity := self.toidEntity.BecomeInactive TH_UPDATEVISUALS } : idFuncSmoke)
    else self) = presented
  have hkeep : presented.smokeTime = self.smokeTime ∧ presented.fl.hidden = self.fl.hidden := by
    subst hp
    split
    · exact ⟨rfl, rfl⟩
    · exact ⟨rfl, rfl⟩
  split_ifs <;> exact hkeep

theorem idFuncSmoke.Spawn_hidden_iff (collaborators : SmokeCollaborators)
    (gameLocal : idGameLocal) (base : idEntity) (hshown : base.fl.hidden = false)
    (htime : 0 ≤ gameLocal.time) :
    (idFuncSmoke.Spawn collaborators gameLocal { toidEntity := base }).fl.hidden = true
      ↔ (idFuncSmoke.Spawn collaborators gameLocal { toidEntity := base }).smokeTime = -1 := by
  unfold idFuncSmoke.Spawn
  dsimp only
  split_ifs
  all_goals first
    | exact ⟨fun _ => rfl, fun _ => rfl⟩
    | (constructor
       · intro hhidden
         exact absurd (hshown ▸ hhidden) (by decide)
       · intro hstopped
         exfalso
         first
           | exact hstopped
           | (have hs : gameLocal.time = -1 := hstopped
              omega))

theorem idFuncSmoke.Event_Activate_toggle (gameLocal : idGameLocal) (self : idFuncSmoke) :
    (self.spawnArgs.GetBool "cycletrigger" = false →
      (self.fl.hidden = true →
        (idFuncSmoke.Event_Activate gameLocal self).fl.hidden = false
        ∧ (idFuncSmoke.Event_Activate gameLocal self).smokeTime = gameLocal.time
        ∧ (idFuncSmoke.Event_Activate gameLocal self).thinkFlags &&& TH_UPDATEPARTICLES ≠ 0)
      ∧ (self.fl.hidden = false →
        (idFuncSmoke.Event_Activate gameLocal self).fl.hidden = true
        ∧ (idFuncSmoke.Event_Activate gameLocal self).smokeTime = -1
        ∧ (idFuncSmoke.Event_Activate gameLocal self).thinkFlags &&& TH_UPDATEPARTICLES = 0))
    ∧ (self.spawnArgs.GetBool "cycletrigger" = true →
        (idFuncSmoke.Event_Activate gameLocal self).fl.hidden = false
        ∧ (idFuncSmoke.Event_Activate gameLocal self).smokeTime = gameLocal.time
        ∧ (idFuncSmoke.Event_Activate gameLocal self).thinkFlags &&& TH_UPDATEPARTICLES ≠ 0) := by
  unfold idFuncSmoke.Event_Activate
  refine ⟨fun hcycle => ⟨fun hhidden => ?_, fun hshown => ?_⟩, fun hcycle => ?_⟩
  · rw [if_neg (by rw [hcycle]; decide)]
    have hh : self.IsHidden = true := hhidden
    rw [if_pos hh]
    exact ⟨rfl, rfl, TH_UPDATEPARTICLES_set _⟩
  · rw [if_neg (by rw [hcycle]; decide)]
    have hh : ¬ self.IsHidden = true := by
      show ¬ self.fl.hidden = true
      rw [hshown]
      decide
    rw [if_neg hh]
    exact ⟨rfl, rfl, TH_UPDATEPARTICLES_cleared _⟩
  · rw [if_pos hcycle]
    exact ⟨rfl, rfl, TH_UPDATEPARTICLES_set _⟩

theorem idFuncSmoke.Event_Activate_hidden_iff (gameLocal : idGameLocal) (self : idFuncSmoke)
    (htime : 0 ≤ gameLocal.time) :
    (idFuncSmoke.Event_Activate gameLocal self).fl.hidden = true
      ↔ (idFuncSmoke.Event_Activate gameLocal self).smokeTime = -1 := by
  obtain ⟨htoggle, hcycle⟩ := idFuncSmoke.Event_Activate_toggle gameLocal self
  cases hkey : self.spawnArgs.GetBool "cycletrigger"
  · cases hhidden : self.fl.hidden
    · obtain ⟨h1, h2, -⟩ := (htoggle hkey).2 hhidden
      rw [h1, h2]
      exact ⟨fun _ => rfl, fun _ => rfl⟩
    · obtain ⟨h1, h2, -⟩ := (htoggle hkey).1 hhidden
      rw [h1, h2]
      constructor
      · intro h
        cases h
      · intro h
        omega
  · obtain ⟨h1, h2, -⟩ := hcycle hkey
    rw [h1, h2]
    constructor
    · intro h
      cases h
    · intro h
      omega

/-- C28: in every state of an idFuncSmoke reached by Spawn of an entity that is visible, as
its constructor leaves it, and then by Event_Activate (and Think) calls at non-negative game
times, the entity is hidden exactly when smokeTime is -1. Without the "cycletrigger" key
Event_Activate turns a hidden entity into a shown one with smokeTime the current time and
TH_UPDATEPARTICLES set, and a shown entity into a hidden one with smokeTime -1 and
TH_UPDATEPARTICLES cleared; with the key it always ends shown with smokeTime the current
time. -/
theorem idFuncSmoke.hidden_iff_smoke_stopped (collaborators : SmokeCollaborators) :
    (∀ self, idFuncSmoke.Reachable collaborators self →
      (self.fl.hidden = true ↔ self.smokeTime = -1))
    ∧ ∀ (gameLocal : idGameLocal) (self : idFuncSmoke),
        (self.spawnArgs.GetBool "cycletrigger" = false →
          (self.fl.hidden = true →
            (idFuncSmoke.Event_Activate gameLocal self).fl.hidden = false
            ∧ (idFuncSmoke.Event_Activate gameLocal self).smokeTime = gameLocal.time
            ∧ (idFuncSmoke.Event_Activate gameLocal self).thinkFlags &&& TH_UPDATEPARTICLES
                ≠ 0)
          ∧ (self.fl.hidden = false →
            (idFuncSmoke.Event_Activate gameLocal self).fl.hidden = true
            ∧ (idFuncSmoke.Event_Activate gameLocal self).smokeTime = -1
            ∧ (idFuncSmoke.Event_Activate gameLocal self).thinkFlags &&& TH_UPDATEPARTICLES
                = 0))
        ∧ (self.spawnArgs.GetBool "cycletrigger" = true →
            (idFuncSmoke.Event_Activate gameLocal self).fl.hidden = false
            ∧ (idFuncSmoke.Event_Activate gameLocal self).smokeTime = gameLocal.time
            ∧ (idFuncSmoke.Event_Activate gameLocal self).thinkFlags &&& TH_UPDATEPARTICLES
                ≠ 0) := by
  refine ⟨fun self h => ?_, fun gameLocal self =>
    idFuncSmoke.Event_Activate_toggle gameLocal self⟩
  induction h with
  | spawn gameLocal base _ hshown htime =>
    exact idFuncSmoke.Spawn_hidden_iff collaborators gameLocal base hshown htime
  | activate gameLocal self htime _ _ =>
    exact idFuncSmoke.Event_Activate_hidden_iff gameLocal self htime
  | think random self _ ih =>
    obtain ⟨htime, hhidden⟩ := idFuncSmoke.Think_keeps_hidden collaborators random self
    rw [htime, hhidden]
    exact ih

/-- Witness for C28: a smoke entity that starts off is triggered at time 100, and again at
time 200. -/
theorem idFuncSmoke.hidden_iff_smoke_stopped_witness :
    (exampleSmokeTriggered.fl.hidden = true ↔ exampleSmokeTriggered.smokeTime = -1)
    ∧ (idFuncSmoke.Event_Activate { time := 200 } exampleSmokeTriggered).fl.hidden = true
    ∧ (idFuncSmoke.Event_Activate { time := 200 } exampleSmokeTriggered).smokeTime = -1 := by
  have htoggle := (((idFuncSmoke.hidden_iff_smoke_stopped exampleSmoke).2 { time := 200 }
    exampleSmokeTriggered).1 rfl).2 rfl
  exact ⟨(idFuncSmoke.hidden_iff_smoke_stopped exampleSmoke).1 exampleSmokeTriggered
      (.activate { time := 100 } _ (by decide)
        (.spawn {} { spawnArgs := [("start_off", "1")] } (by decide) rfl (by decide))),
    htoggle.1, htoggle.2.1⟩

/-! ## idPhantomObjects: the two lists have the same length -/

theorem idPhantomObjects.Spawn_lists (atof : String → Rat) (ParseVector : String → idVec3)
    (self : idPhantomObjects) :
    (idPhantomObjects.Spawn atof ParseVector self).targetTime = self.targetTime
    ∧ (idPhantomObjects.Spawn atof ParseVector self).lastTargetPos = self.lastTargetPos := by
  unfold idPhantomObjects.Spawn
  dsimp only
  split_ifs <;> exact ⟨rfl, rfl⟩

theorem idPhantomObjects.RelativeTimes_length (num : Nat) :
    ∀ (remaining i : Nat) (time : Rat) (random : idRandom),
      (idPhantomObjects.RelativeTimes num remaining i time random).1.length = remaining := by
  intro remaining
  induction remaining with
  | zero =>
    intro i time random
    rfl
  | succ n ih =>
    intro i time random
    unfold idPhantomObjects.RelativeTimes
    dsimp only
    rw [List.length_cons, ih]

theorem idPhantomObjects.Event_Activate_lists (atof : String → Rat) (gameLocal : idGameLocal)
    (entities : EntityRegistry) (random random1 : idRandom) (activator : Option Nat)
    (self next : idPhantomObjects)
    (hlen : self.targetTime.length = self.lastTargetPos.length)
    (hstep : idPhantomObjects.Event_Activate atof gameLocal entities random activator self
      = .ok (next, random1)) :
    next.targetTime.length = next.lastTargetPos.length := by
  unfold idPhantomObjects.Event_Activate at hstep
  dsimp only at hstep
  split_ifs at hstep
  · cases hstep
    exact hlen
  · cases hstep
    exact hlen
  · split at hstep
    · cases hstep
      show (List.map _ _).length = (List.replicate _ _).length
      rw [List.length_map, List.length_replicate, idPhantomObjects.RelativeTimes_length]
    · cases hstep

theorem idPhantomObjects.ThinkObject_lists (collaborators : ThinkCollaborators)
    (gameLocal : idGameLocal) (targetEnt : Nat) (toPos : idVec3) (i : Nat)
    (targetPtr : idEntityPtr) (state next : ThinkState)
    (hok : idPhantomObjects.ThinkObject collaborators gameLocal targetEnt toPos i targetPtr state
      = .ok next) :
    next.self.targetTime.length = state.self.targetTime.length
    ∧ next.self.lastTargetPos.length = state.self.lastTargetPos.length := by
  have hset : ∀ (c : Bool) (v : idVec3),
      (if c = true then state.self.lastTargetPos.set i v else state.self.lastTargetPos).length
        = state.self.lastTargetPos.length := by
    intro c v
    cases c
    · rfl
    · simp
  unfold idPhantomObjects.ThinkObject at hok
  split at hok
  · cases hok
    exact ⟨rfl, rfl⟩
  · split at hok
    · cases hok
      exact ⟨rfl, rfl⟩
    · split at hok
      · cases hok
      · split at hok
        · cases hok
          exact ⟨rfl, rfl⟩
        · dsimp only at hok
          split at hok
          · cases hok
            exact ⟨rfl, rfl⟩
          · split at hok
            · cases hok
            · split at hok
              · split at hok
                · cases hok
                · cases hok
                  refine ⟨?_, hset _ _⟩
                  show (List.set _ _ _).length = _
                  rw [List.length_set]
              · cases hok
                exact ⟨rfl, hset _ _⟩

theorem idPhantomObjects.ThinkLoop_lists (collaborators : ThinkCollaborators)
    (gameLocal : idGameLocal) (targetEnt : Nat) (toPos : idVec3) :
    ∀ (targets : List idEntityPtr) (i : Nat) (state next : ThinkState),
      idPhantomObjects.ThinkLoop collaborators gameLocal targetEnt toPos i targets state
        = .ok next →
      next.self.targetTime.length = state.self.targetTime.length
      ∧ next.self.lastTargetPos.length = state.self.lastTargetPos.length := by
  intro targets
  induction targets with
  | nil =>
    intro i state next hok
    unfold idPhantomObjects.ThinkLoop at hok
    cases hok
    exact ⟨rfl, rfl⟩
  | cons targetPtr targets ih =>
    intro i state next hok
    unfold idPhantomObjects.ThinkLoop at hok
    cases hobject : idPhantomObjects.ThinkObject collaborators gameLocal targetEnt toPos i
        targetPtr state with
    | error fault =>
      rw [hobject] at hok
      cases hok
    | ok middle =>
      rw [hobject] at hok
      obtain ⟨h1, h2⟩ := idPhantomObjects.ThinkObject_lists collaborators gameLocal targetEnt
        toPos i targetPtr state middle hobject
      obtain ⟨h3, h4⟩ := ih (i + 1) middle next hok
      exact ⟨h3.trans h1, h4.trans h2⟩

theorem idPhantomObjects.Think_lists (collaborators : ThinkCollaborators)
    (gameLocal : idGameLocal) (entities entities1 : EntityRegistry) (random random1 : idRandom)
    (self next : idPhantomObjects)
    (hstep : idPhantomObjects.Think collaborators gameLocal entities random self
      = .ok (next, entities1, random1)) :
    next.targetTime.length = self.targetTime.length
    ∧ next.lastTargetPos.length = self.lastTargetPos.length := by
  unfold idPhantomObjects.Think at hstep
  split_ifs at hstep
  · cases hstep
    exact ⟨rfl, rfl⟩
  · cases hstep
    exact ⟨rfl, rfl⟩
  · dsimp only at hstep
    split at hstep
    · cases hstep
    · split at hstep
      · cases hstep
      · rename_i state hloop
        obtain ⟨h1, h2⟩ := idPhantomObjects.ThinkLoop_lists collaborators gameLocal _ _ _ _ _ _
          hloop
        have h3 : state.self.targetTime.length = self.targetTime.length := by
          rw [h1]
          split_ifs <;> rfl
        have h4 : state.self.lastTargetPos.length = self.lastTargetPos.length := by
          rw [h2]
          split_ifs <;> rfl
        split_ifs at hstep
        · cases hstep
          exact ⟨h3, h4⟩
        · cases hstep
          exact ⟨h3, h4⟩

theorem idPhantomObjects.RestoreTargetTime_length :
    ∀ (remaining i : Nat) (targetTime restored : List Int) (savefile savefile1 : idRestoreGame),
      idPhantomObjects.RestoreTargetTime remaining i targetTime savefile
        = some (restored, savefile1) →
      restored.length = targetTime.length := by
  intro remaining
  induction remaining with
  | zero =>
    intro i targetTime restored savefile savefile1 h
    unfold idPhantomObjects.RestoreTargetTime at h
    cases h
    rfl
  | succ n ih =>
    intro i targetTime restored savefile savefile1 h
    unfold idPhantomObjects.RestoreTargetTime at h
    cases hread : savefile.ReadInt with
    | none =>
      rw [hread] at h
      cases h
    | some read =>
      rw [hread] at h
      have hlen := ih (i + 1) (targetTime.set i read.1) restored read.2 savefile1 h
      rw [hlen, List.length_set]

theorem idPhantomObjects.RestoreLastTargetPos_length :
    ∀ (remaining i : Nat) (lastTargetPos restored : List idVec3)
      (savefile savefile1 : idRestoreGame),
      idPhantomObjects.RestoreLastTargetPos remaining i lastTargetPos savefile
        = some (restored, savefile1) →
      restored.length = lastTargetPos.length := by
  intro remaining
  induction remaining with
  | zero =>
    intro i lastTargetPos restored savefile savefile1 h
    unfold idPhantomObjects.RestoreLastTargetPos at h
    cases h
    rfl
  | succ n ih =>
    intro i lastTargetPos restored savefile savefile1 h
    unfold idPhantomObjects.RestoreLastTargetPos at h
    cases hread : savefile.ReadVec3 with
    | none =>
      rw [hread] at h
      cases h
    | some read =>
      rw [hread] at h
      have hlen := ih (i + 1) (lastTargetPos.set i read.1) restored read.2 savefile1 h
      rw [hlen, List.length_set]

theorem idPhantomObjects.ZeroLastTargetPos_length :
    ∀ (remaining i : Nat) (lastTargetPos : List idVec3),
      (idPhantomObjects.ZeroLastTargetPos remaining i lastTargetPos).length
        = lastTargetPos.length := by
  intro remaining
  induction remaining with
  | zero =>
    intro i lastTargetPos
    rfl
  | succ n ih =>
    intro i lastTargetPos
    unfold idPhantomObjects.ZeroLastTargetPos
    rw [ih, List.length_set]

theorem idPhantomObjects.Restore_lists (self next : idPhantomObjects) (junkTime : Int)
    (junkPos : idVec3) (savefile savefile1 : idRestoreGame)
    (hstep : idPhantomObjects.Restore self junkTime junkPos savefile = some (next, savefile1)) :
    next.targetTime.length = next.lastTargetPos.length := by
  unfold idPhantomObjects.Restore at hstep
  simp only [Option.bind_eq_bind] at hstep
  obtain ⟨⟨end_time, s1⟩, -, hstep⟩ := Option.bind_eq_some.mp hstep
  dsimp only at hstep
  obtain ⟨⟨throw_time, s2⟩, -, hstep⟩ := Option.bind_eq_some.mp hstep
  dsimp only at hstep
  obtain ⟨⟨shake_time, s3⟩, -, hstep⟩ := Option.bind_eq_some.mp hstep
  dsimp only at hstep
  obtain ⟨⟨shake_ang, s4⟩, -, hstep⟩ := Option.bind_eq_some.mp hstep
  dsimp only at hstep
  obtain ⟨⟨speed, s5⟩, -, hstep⟩ := Option.bind_eq_some.mp hstep
  dsimp only at hstep
  obtain ⟨⟨min_wait, s6⟩, -, hstep⟩ := Option.bind_eq_some.mp hstep
  dsimp only at hstep
  obtain ⟨⟨max_wait, s7⟩, -, hstep⟩ := Option.bind_eq_some.mp hstep
  dsimp only at hstep
  obtain ⟨⟨target, s8⟩, -, hstep⟩ := Option.bind_eq_some.mp hstep
  dsimp only at hstep
  obtain ⟨⟨num, s9⟩, -, hstep⟩ := Option.bind_eq_some.mp hstep
  dsimp only at hstep
  by_cases hneg : num < 0
  · rw [if_pos hneg] at hstep
    cases hstep
  · rw [if_neg hneg] at hstep
    obtain ⟨⟨targetTime, s10⟩, htimes, hstep⟩ := Option.bind_eq_some.mp hstep
    dsimp only at hstep
    have h1 := idPhantomObjects.RestoreTargetTime_length _ _ _ _ _ _ htimes
    rw [idList.SetNum_length] at h1
    by_cases hbuild : s10.GetBuildNumber = INITIAL_RELEASE_BUILD_NUMBER
    · rw [if_pos hbuild] at hstep
      cases hstep
      show targetTime.length = (idPhantomObjects.ZeroLastTargetPos _ _ _).length
      rw [idPhantomObjects.ZeroLastTargetPos_length, idList.SetNum_length, h1]
    · rw [if_neg hbuild] at hstep
      obtain ⟨⟨lastTargetPos, s11⟩, hpos, hstep⟩ := Option.bind_eq_some.mp hstep
      have h2 := idPhantomObjects.RestoreLastTargetPos_length _ _ _ _ _ _ hpos
      rw [idList.SetNum_length] at h2
      cases hstep
      show targetTime.length = lastTargetPos.length
      rw [h1, h2]

theorem idPhantomObjects.Reachable_lists (collaborators : ThinkCollaborators)
    (self : idPhantomObjects) (h : idPhantomObjects.Reachable collaborators self) :
    self.targetTime.length = self.lastTargetPos.length := by
  induction h with
  | construct base => rfl
  | spawn atof ParseVector self _ ih =>
    obtain ⟨h1, h2⟩ := idPhantomObjects.Spawn_lists atof ParseVector self
    rw [h1, h2]
    exact ih
  | activate atof gameLocal entities random random1 activator self next _ hstep ih =>
    exact idPhantomObjects.Event_Activate_lists atof gameLocal entities random random1 activator
      self next ih hstep
  | think gameLocal entities entities1 random random1 self next _ hstep ih =>
    obtain ⟨h1, h2⟩ := idPhantomObjects.Think_lists collaborators gameLocal entities entities1
      random random1 self next hstep
    rw [h1, h2]
    exact ih
  | restore junkTime junkPos savefile savefile1 self next _ hstep _ =>
    exact idPhantomObjects.Restore_lists self next junkTime junkPos savefile savefile1 hstep

/-- C22: in every state of an idPhantomObjects reached from the constructor through Spawn,
Event_Activate, Think and Restore, targetTime and lastTargetPos have the same number of
elements. So Save writes the count targetTime.Num(), then that many integers and that many
vectors, and Restore applied to what Save wrote (an archive that is not of the first
release) reads all of it back and gives both lists as they were saved. -/
theorem idPhantomObjects.lists_have_the_same_length (collaborators : ThinkCollaborators)
    (self : idPhantomObjects) (h : idPhantomObjects.Reachable collaborators self) :
    self.targetTime.length = self.lastTargetPos.length
    ∧ self.Save [] = [.int self.end_time, .float self.throw_time, .float self.shake_time,
          .vec3 self.shake_ang, .float self.speed, .int self.min_wait, .int self.max_wait,
          .object self.target, .int (Int.ofNat self.targetTime.length)]
        ++ self.targetTime.map SaveItem.int ++ self.lastTargetPos.map SaveItem.vec3
    ∧ (self.lastTargetPos.map SaveItem.vec3).length = self.targetTime.length
    ∧ ∀ (y : idPhantomObjects) (junkTime : Int) (junkPos : idVec3) (rest : List SaveItem)
        (build : Int), build ≠ INITIAL_RELEASE_BUILD_NUMBER →
        ∃ restored reads,
          y.Restore junkTime junkPos ⟨self.Save [] ++ rest, [], build⟩
            = some (restored, ⟨rest, reads, build⟩)
          ∧ restored.targetTime = self.targetTime
          ∧ restored.lastTargetPos = self.lastTargetPos := by
  have hlen := idPhantomObjects.Reachable_lists collaborators self h
  refine ⟨hlen, idPhantomObjects.Save_eq self, ?_, ?_⟩
  · rw [List.length_map, hlen]
  · intro y junkTime junkPos rest build hbuild
    exact ⟨_, _, idPhantomObjects.Restore_Save self y junkTime junkPos rest build hlen hbuild,
      rfl, rfl⟩

/-- Witness for C22: the state restored from the saved example with two scheduled objects
is reachable and has two entries in each list. -/
theorem idPhantomObjects.lists_have_the_same_length_witness :
    examplePhantomRestored.targetTime.length = examplePhantomRestored.lastTargetPos.length
    ∧ (examplePhantomRestored.lastTargetPos.map SaveItem.vec3).length = 2 :=
  ⟨(idPhantomObjects.lists_have_the_same_length exampleBlocked examplePhantomRestored
      (.restore 0 idVec3.Zero ⟨examplePhantom.Save [], [], 1305⟩ _ {} _ (.construct {})
        (idPhantomObjects.Restore_Save examplePhantom {} 0 idVec3.Zero [] 1305 rfl
          (by decide)))).1,
    (idPhantomObjects.lists_have_the_same_length exampleBlocked examplePhantomRestored
      (.restore 0 idVec3.Zero ⟨examplePhantom.Save [], [], 1305⟩ _ {} _ (.construct {})
        (idPhantomObjects.Restore_Save examplePhantom {} 0 idVec3.Zero [] 1305 rfl
          (by decide)))).2.2.1⟩

/-! ## idForceField::Spawn: the field type, the apply type and the think flag -/

theorem idForceField.Spawn_calls (atof : String → Rat) (ParseVector : String → idVec3)
    (state : ForceFieldState) :
    (idForceField.Spawn atof ParseVector state).calls
      = state.calls
        ++ ((match state.self.spawnArgs.FindKey "uniform" with
             | some uniform => [ForceFieldCall.Uniform (ParseVector uniform)]
             | none =>
               match state.self.spawnArgs.FindKey "explosion" with
               | some explosion => [ForceFieldCall.Explosion (atof explosion)]
               | none =>
                 match state.self.spawnArgs.FindKey "implosion" with
                 | some implosion => [ForceFieldCall.Implosion (atof implosion)]
                 | none => [])
          ++ (match state.self.spawnArgs.FindKey "randomTorque" with
              | some randomTorque => [ForceFieldCall.RandomTorque (atof randomTorque)]
              | none => [])
          ++ [ForceFieldCall.SetApplyType
                (if state.self.spawnArgs.GetBool "applyForce" "0" then
                  forceFieldApplyType.FORCEFIELD_APPLY_FORCE
                 else if state.self.spawnArgs.GetBool "applyImpulse" "0" then
                  forceFieldApplyType.FORCEFIELD_APPLY_IMPULSE
                 else forceFieldApplyType.FORCEFIELD_APPLY_VELOCITY),
              ForceFieldCall.SetPlayerOnly (state.self.spawnArgs.GetBool "playerOnly" "0"),
              ForceFieldCall.SetMonsterOnly (state.self.spawnArgs.GetBool "monsterOnly" "0"),
              ForceFieldCall.SetClipModel]) := by
  unfold idForceField.Spawn
  dsimp only
  cases state.self.spawnArgs.FindKey "uniform" <;>
    cases state.self.spawnArgs.FindKey "explosion" <;>
    cases state.self.spawnArgs.FindKey "implosion" <;>
    cases state.self.spawnArgs.FindKey "randomTorque" <;>
    cases state.self.spawnArgs.GetBool "applyForce" "0" <;>
    cases state.self.spawnArgs.GetBool "applyImpulse" "0" <;>
    simp

theorem idForceField.Spawn_thinkFlags (atof : String → Rat) (ParseVector : String → idVec3)
    (state : ForceFieldState) :
    (idForceField.Spawn atof ParseVector state).self.thinkFlags
      = (if state.self.spawnArgs.GetBool "start_on" then state.self.thinkFlags ||| TH_THINK
         else state.self.thinkFlags) := by
  unfold idForceField.Spawn
  dsimp only
  split_ifs <;> rfl

/-- C21: idForceField::Spawn adds to the calls made on the force object at most one call
that chooses the field type: Uniform when the "uniform" key is present, otherwise
Explosion when "explosion" is present, otherwise Implosion when "implosion" is present,
otherwise none, each with the value of its key; so a configuration with only an
"explosion" key gives one Explosion call with the number that key reads as. It adds exactly
one SetApplyType call: FORCE if "applyForce" is true, otherwise IMPULSE if "applyImpulse"
is true, otherwise VELOCITY. The activation mask afterwards is the one before with
TH_THINK added when "start_on" is true, and unchanged otherwise; from a mask without
TH_THINK, the flag is set afterwards if and only if "start_on" is true. -/
theorem idForceField.Spawn_configuration (atof : String → Rat) (ParseVector : String → idVec3)
    (state : ForceFieldState) :
    ∃ added, (idForceField.Spawn atof ParseVector state).calls = state.calls ++ added
      ∧ added.filter ForceFieldCall.isFieldType
          = (match state.self.spawnArgs.FindKey "uniform" with
             | some uniform => [ForceFieldCall.Uniform (ParseVector uniform)]
             | none =>
               match state.self.spawnArgs.FindKey "explosion" with
               | some explosion => [ForceFieldCall.Explosion (atof explosion)]
               | none =>
                 match state.self.spawnArgs.FindKey "implosion" with
                 | some implosion => [ForceFieldCall.Implosion (atof implosion)]
                 | none => [])
      ∧ (added.filter ForceFieldCall.isFieldType).length ≤ 1
      ∧ (∀ explosion, state.self.spawnArgs.FindKey "uniform" = none →
          state.self.spawnArgs.FindKey "explosion" = some explosion →
          added.filter ForceFieldCall.isFieldType = [ForceFieldCall.Explosion (atof explosion)])
      ∧ (state.self.spawnArgs.FindKey "uniform" = none →
          state.self.spawnArgs.FindKey "explosion" = none →
          state.self.spawnArgs.FindKey "implosion" = none →
          added.filter ForceFieldCall.isFieldType = [])
      ∧ added.filter ForceFieldCall.isApplyType
          = [ForceFieldCall.SetApplyType
              (if state.self.spawnArgs.GetBool "applyForce" "0" then
                forceFieldApplyType.FORCEFIELD_APPLY_FORCE
               else if state.self.spawnArgs.GetBool "applyImpulse" "0" then
                forceFieldApplyType.FORCEFIELD_APPLY_IMPULSE
               else forceFieldApplyType.FORCEFIELD_APPLY_VELOCITY)]
      ∧ (idForceField.Spawn atof ParseVector state).self.thinkFlags
          = (if state.self.spawnArgs.GetBool "start_on" then state.self.thinkFlags ||| TH_THINK
             else state.self.thinkFlags)
      ∧ (state.self.thinkFlags &&& TH_THINK = 0 →
          ((idForceField.Spawn atof ParseVector state).self.thinkFlags &&& TH_THINK ≠ 0
            ↔ state.self.spawnArgs.GetBool "start_on" = true)) := by
  refine ⟨_, idForceField.Spawn_calls atof ParseVector state, ?_, ?_, ?_, ?_, ?_,
    idForceField.Spawn_thinkFlags atof ParseVector state, ?_⟩
  · cases state.self.spawnArgs.FindKey "uniform" <;>
      cases state.self.spawnArgs.FindKey "explosion" <;>
      cases state.self.spawnArgs.FindKey "implosion" <;>
      cases state.self.spawnArgs.FindKey "randomTorque" <;>
      simp [List.filter_cons, ForceFieldCall.isFieldType]
  · cases state.self.spawnArgs.FindKey "uniform" <;>
      cases state.self.spawnArgs.FindKey "explosion" <;>
      cases state.self.spawnArgs.FindKey "implosion" <;>
      cases state.self.spawnArgs.FindKey "randomTorque" <;>
      simp [List.filter_cons, ForceFieldCall.isFieldType]
  · intro explosion huniform hexplosion
    rw [huniform, hexplosion]
    cases state.self.spawnArgs.FindKey "randomTorque" <;>
      simp [List.filter_cons, ForceFieldCall.isFieldType]
  · intro huniform hexplosion himplosion
    rw [huniform, hexplosion, himplosion]
    cases state.self.spawnArgs.FindKey "randomTorque" <;>
      simp [List.filter_cons, ForceFieldCall.isFieldType]
  · cases state.self.spawnArgs.FindKey "uniform" <;>
      cases state.self.spawnArgs.FindKey "explosion" <;>
      cases state.self.spawnArgs.FindKey "implosion" <;>
      cases state.self.spawnArgs.FindKey "randomTorque" <;>
      simp [List.filter_cons, ForceFieldCall.isApplyType]
  · intro hclear
    rw [idForceField.Spawn_thinkFlags]
    cases hstart : state.self.spawnArgs.GetBool "start_on"
    · simp [hclear]
    · simp only [if_true, iff_true]
      exact TH_THINK_set_of_lor _

/-- Witness for C21: a configuration with only explosion = 500, spawned from a fresh
entity. -/
theorem idForceField.Spawn_configuration_witness :
    ∃ added, (idForceField.Spawn exampleAtof (fun _ => vec3_origin) exampleExplosionField).calls
        = [] ++ added
      ∧ added.filter ForceFieldCall.isFieldType = [ForceFieldCall.Explosion 500]
      ∧ added.filter ForceFieldCall.isApplyType
          = [ForceFieldCall.SetApplyType forceFieldApplyType.FORCEFIELD_APPLY_VELOCITY]
      ∧ ((idForceField.Spawn exampleAtof (fun _ => vec3_origin)
            exampleExplosionField).self.thinkFlags &&& TH_THINK ≠ 0
          ↔ exampleExplosionField.self.spawnArgs.GetBool "start_on" = true) := by
  obtain ⟨added, hcalls, -, -, hexplosion, -, happly, -, hflag⟩ :=
    idForceField.Spawn_configuration exampleAtof (fun _ => vec3_origin) exampleExplosionField
  exact ⟨added, hcalls, hexplosion "500" rfl rfl, happly, hflag rfl⟩

/-! ## idPhantomObjects::Think: the loop around one object -/

theorem idPhantomObjects.ThinkObject_total (collaborators : ThinkCollaborators)
    (gameLocal : idGameLocal) (targetEnt : Nat) (toPos : idVec3) (j : Nat)
    (targetPtr : idEntityPtr) (state : ThinkState)
    (htimes : j < state.self.targetTime.length)
    (hpositions : j < state.self.lastTargetPos.length) :
    ∃ next, idPhantomObjects.ThinkObject collaborators gameLocal targetEnt toPos j targetPtr
      state = .ok next := by
  have hnotle : decide (state.self.lastTargetPos.length ≤ j) = false := by
    simp only [decide_eq_false_iff_not]; omega
  have hset : ∀ (c : Bool) (v : idVec3),
      (if c = true then state.self.lastTargetPos.set j v else state.self.lastTargetPos)[j]?
        ≠ none := by
    intro c v
    cases c
    · simp only [Bool.false_eq_true, if_false]
      rw [List.getElem?_eq_getElem hpositions]
      exact Option.some_ne_none _
    · simp [hpositions]
  unfold idPhantomObjects.ThinkObject
  split
  · exact ⟨_, rfl⟩
  · split
    · exact ⟨_, rfl⟩
    · split
      · rename_i hnone
        rw [List.getElem?_eq_getElem htimes] at hnone
        cases hnone
      · split
        · exact ⟨_, rfl⟩
        · dsimp only
          split
          · exact ⟨_, rfl⟩
          · rw [hnotle, Bool.and_false, if_neg (by decide)]
            split
            · split
              · rename_i hnone
                exact absurd hnone (hset _ _)
              · exact ⟨_, rfl⟩
            · exact ⟨_, rfl⟩

theorem idEntityPtr.GetEntity_eq_some {α : Type} (entities : Nat → Option α) (p : idEntityPtr)
    (num : Nat) (e : α) :
    p.GetEntity entities = some (num, e) ↔ p.spawnId = some num ∧ entities num = some e := by
  unfold idEntityPtr.GetEntity
  constructor
  · intro h
    split at h
    · cases h
    · rename_i n hn
      split at h
      · cases h
      · rename_i e1 he
        cases h
        exact ⟨hn, he⟩
  · rintro ⟨h1, h2⟩
    rw [h1]
    dsimp only
    rw [h2]

theorem idPhantomObjects.ThinkObject_frame (collaborators : ThinkCollaborators)
    (gameLocal : idGameLocal) (targetEnt : Nat) (toPos : idVec3) (j : Nat)
    (targetPtr : idEntityPtr) (state next : ThinkState)
    (hok : idPhantomObjects.ThinkObject collaborators gameLocal targetEnt toPos j targetPtr state
      = .ok next) :
    next.self.shake_time = state.self.shake_time
    ∧ next.self.speed = state.self.speed
    ∧ (∀ i, i ≠ j → next.self.targetTime[i]? = state.self.targetTime[i]?)
    ∧ (∀ num, (next.entities num).map (fun e => (e.toEntity.fl.hidden, e.toEntity.origin))
        = (state.entities num).map (fun e => (e.toEntity.fl.hidden, e.toEntity.origin)))
    ∧ (∀ num, (∀ e, targetPtr.GetEntity state.entities ≠ some (num, e)) →
        next.entities num = state.entities num) := by
  have hupdate : ∀ (entNum : Nat) (ent changed : gameEntity),
      targetPtr.GetEntity state.entities = some (entNum, ent) →
      changed.toEntity.fl.hidden = ent.toEntity.fl.hidden →
      changed.toEntity.origin = ent.toEntity.origin →
      (∀ num, (Function.update state.entities entNum (some changed) num).map
          (fun e => (e.toEntity.fl.hidden, e.toEntity.origin))
        = (state.entities num).map (fun e => (e.toEntity.fl.hidden, e.toEntity.origin)))
      ∧ (∀ num, (∀ e, targetPtr.GetEntity state.entities ≠ some (num, e)) →
          Function.update state.entities entNum (some changed) num = state.entities num) := by
    intro entNum ent changed hent hhidden horigin
    have hat := ((idEntityPtr.GetEntity_eq_some state.entities targetPtr entNum ent).mp hent).2
    constructor
    · intro num
      by_cases hnum : num = entNum
      · subst hnum
        rw [Function.update_same, hat]
        simp only [Option.map_some', hhidden, horigin]
      · rw [Function.update_noteq hnum]
    · intro num hother
      have hnum : num ≠ entNum := by
        intro h
        subst h
        exact hother ent hent
      rw [Function.update_noteq hnum]
  unfold idPhantomObjects.ThinkObject at hok
  split at hok
  · cases hok
    exact ⟨rfl, rfl, fun _ _ => rfl, fun _ => rfl, fun _ _ => rfl⟩
  · rename_i entNum ent hent
    split at hok
    · cases hok
      exact ⟨rfl, rfl, fun _ _ => rfl, fun _ => rfl, fun _ _ => rfl⟩
    · split at hok
      · cases hok
      · split at hok
        · cases hok
          exact ⟨rfl, rfl, fun _ _ => rfl, fun _ => rfl, fun _ _ => rfl⟩
        · dsimp only at hok
          split at hok
          · cases hok
            exact ⟨rfl, rfl, fun _ _ => rfl, fun _ => rfl, fun _ _ => rfl⟩
          · split at hok
            · cases hok
            · split at hok
              · split at hok
                · cases hok
                · cases hok
                  refine ⟨rfl, rfl, ?_, hupdate entNum ent _ hent ?_ ?_⟩
                  · intro i hi
                    show (List.set _ _ _)[i]? = _
                    rw [List.getElem?_set_ne (Ne.symm hi)]
                  · rw [gameEntity.toEntity_EnableDamageIfMoveable,
                      gameEntity.toEntity_withEntity]
                  · rw [gameEntity.toEntity_EnableDamageIfMoveable,
                      gameEntity.toEntity_withEntity]
              · cases hok
                refine ⟨rfl, rfl, fun _ _ => rfl, hupdate entNum ent _ hent ?_ ?_⟩
                · rw [gameEntity.toEntity_withEntity]
                · rw [gameEntity.toEntity_withEntity]

theorem idEntityPtr.GetEntity_transfer (a b : EntityRegistry) (p : idEntityPtr)
    (hsame : ∀ num, (a num).map (fun e => (e.toEntity.fl.hidden, e.toEntity.origin))
      = (b num).map (fun e => (e.toEntity.fl.hidden, e.toEntity.origin)))
    (num : Nat) (e : gameEntity) (hres : p.GetEntity b = some (num, e)) :
    ∃ e1, p.GetEntity a = some (num, e1)
      ∧ e1.toEntity.fl.hidden = e.toEntity.fl.hidden
      ∧ e1.toEntity.origin = e.toEntity.origin := by
  obtain ⟨hid, hat⟩ := (idEntityPtr.GetEntity_eq_some b p num e).mp hres
  have h := hsame num
  rw [hat] at h
  cases ha : a num with
  | none =>
    rw [ha] at h
    cases h
  | some e1 =>
    rw [ha] at h
    simp only [Option.map_some', Option.some.injEq, Prod.mk.injEq] at h
    exact ⟨e1, (idEntityPtr.GetEntity_eq_some a p num e1).mpr ⟨hid, ha⟩, h.1, h.2⟩

theorem idPhantomObjects.ThinkLoop_frame (collaborators : ThinkCollaborators)
    (gameLocal : idGameLocal) (targetEnt : Nat) (toPos : idVec3) :
    ∀ (targets : List idEntityPtr) (base : Nat) (state : ThinkState),
      base + targets.length ≤ state.self.targetTime.length →
      base + targets.length ≤ state.self.lastTargetPos.length →
      ∃ final, idPhantomObjects.ThinkLoop collaborators gameLocal targetEnt toPos base targets
          state = .ok final
        ∧ (∀ i, (i < base ∨ base + targets.length ≤ i) →
            final.self.lastTargetPos[i]? = state.self.lastTargetPos[i]?)
        ∧ (∀ num, (∀ p ∈ targets, ∀ e, p.GetEntity state.entities ≠ some (num, e)) →
            final.entities num = state.entities num) := by
  intro targets
  induction targets with
  | nil =>
    intro base state _ _
    exact ⟨state, rfl, fun _ _ => rfl, fun _ _ => rfl⟩
  | cons targetPtr targets ih =>
    intro base state htimes hpositions
    rw [List.length_cons] at htimes hpositions
    obtain ⟨middle, hmiddle⟩ := idPhantomObjects.ThinkObject_total collaborators gameLocal
      targetEnt toPos base targetPtr state (by omega) (by omega)
    obtain ⟨hlen1, hlen2⟩ := idPhantomObjects.ThinkObject_lists collaborators gameLocal
      targetEnt toPos base targetPtr state middle hmiddle
    obtain ⟨_, _, _, hbodies, hother⟩ := idPhantomObjects.ThinkObject_frame collaborators
      gameLocal targetEnt toPos base targetPtr state middle hmiddle
    obtain ⟨final, hfinal, hkeep, huntouched⟩ := ih (base + 1) middle (by omega) (by omega)
    refine ⟨final, ?_, ?_, ?_⟩
    · unfold idPhantomObjects.ThinkLoop
      rw [hmiddle]
      exact hfinal
    · intro i hi
      rw [hkeep i (by rw [List.length_cons] at hi; omega)]
      exact idPhantomObjects.ThinkObject_other_index collaborators gameLocal targetEnt toPos i
        base targetPtr state middle (by rw [List.length_cons] at hi; omega) hmiddle
    · intro num hnone
      rw [huntouched num, hother num (hnone targetPtr (List.mem_cons_self _ _))]
      intro p hp e hres
      obtain ⟨e1, hres1, _, _⟩ := idEntityPtr.GetEntity_transfer state.entities middle.entities
        p (fun n => (hbodies n).symm) num e hres
      exact hnone p (List.mem_cons_of_mem _ hp) e1 hres1

/-- The loop of Think seen from one of its objects: object `i`, the entry `i - base` of the
part of the list the loop has before it, is live, shown, not yet thrown and due. -/
theorem idPhantomObjects.ThinkLoop_at (collaborators : ThinkCollaborators)
    (gameLocal : idGameLocal) (targetEnt : Nat) (toPos : idVec3) (i entNum : Nat)
    (targetPtr : idEntityPtr) (targetTime : Int) (oldPos : idVec3) (hpending : targetTime ≠ 0) :
    ∀ (targets : List idEntityPtr) (base : Nat) (state : ThinkState) (ent : gameEntity),
      base ≤ i → targets[i - base]? = some targetPtr →
      base + targets.length ≤ state.self.targetTime.length →
      base + targets.length ≤ state.self.lastTargetPos.length →
      targetPtr.GetEntity state.entities = some (entNum, ent) →
      ent.toEntity.fl.hidden = false →
      state.self.targetTime[i]? = some targetTime →
      ¬ MS2SEC (targetTime - gameLocal.time) > state.self.shake_time →
      state.self.lastTargetPos[i]? = some oldPos →
      ∃ final, idPhantomObjects.ThinkLoop collaborators gameLocal targetEnt toPos base targets
          state = .ok final
        ∧ (((collaborators.TracePoint ent.toEntity.origin toPos entNum).fraction ≥ 1
              ∨ (collaborators.TracePoint ent.toEntity.origin toPos entNum).entity
                  = some targetEnt) →
            final.self.lastTargetPos[i]? = some toPos)
        ∧ (¬ ((collaborators.TracePoint ent.toEntity.origin toPos entNum).fraction ≥ 1
              ∨ (collaborators.TracePoint ent.toEntity.origin toPos entNum).entity
                  = some targetEnt) →
            final.self.lastTargetPos[i]? = some oldPos)
        ∧ (MS2SEC (targetTime - gameLocal.time) < 0 →
            (∀ (k : Nat) (p : idEntityPtr) (e : gameEntity), i - base < k →
              targets[k]? = some p → p.GetEntity state.entities ≠ some (entNum, e)) →
            ∃ aimPos thrown, final.self.lastTargetPos[i]? = some aimPos
              ∧ final.entities entNum = some thrown
              ∧ thrown.toEntity.linearVelocity
                  = (collaborators.PredictTrajectory ent.toEntity.origin aimPos
                      state.self.speed entNum).scale state.self.speed) := by
  intro targets
  induction targets with
  | nil =>
    intro base state ent _ hptr
    simp at hptr
  | cons first targets ih =>
    intro base state ent hbase hptr htimes hpositions hent hshown htime hdue hold
    rw [List.length_cons] at htimes hpositions
    rcases Nat.eq_or_lt_of_le hbase with heq | hlt
    · -- the object is the one the loop has reached
      subst heq
      rw [Nat.sub_self, List.getElem?_cons_zero] at hptr
      cases hptr
      obtain ⟨middle, hmiddle, hclear, hblocked, hthrow⟩ :=
        idPhantomObjects.ThinkObject_processed collaborators gameLocal targetEnt toPos base
          targetPtr state entNum ent targetTime hent hshown htime hpending hdue (by omega)
      obtain ⟨hlen1, hlen2⟩ := idPhantomObjects.ThinkObject_lists collaborators gameLocal
        targetEnt toPos base targetPtr state middle hmiddle
      obtain ⟨_, _, _, hbodies, _⟩ := idPhantomObjects.ThinkObject_frame collaborators
        gameLocal targetEnt toPos base targetPtr state middle hmiddle
      obtain ⟨final, hfinal, hkeep, huntouched⟩ := idPhantomObjects.ThinkLoop_frame collaborators
        gameLocal targetEnt toPos targets (base + 1) middle (by omega) (by omega)
      have hsame := hkeep base (Or.inl (Nat.lt_succ_self base))
      refine ⟨final, ?_, ?_, ?_, ?_⟩
      · unfold idPhantomObjects.ThinkLoop
        rw [hmiddle]
        exact hfinal
      · intro hc
        rw [hsame]
        exact (hclear hc).2
      · intro hc
        rw [hsame, hblocked hc]
        exact hold
      · intro hneg hdistinct
        obtain ⟨aimPos, thrown, haim, hthrown, hvel⟩ := hthrow hneg
        refine ⟨aimPos, thrown, by rw [hsame]; exact haim, ?_, hvel⟩
        rw [huntouched entNum, hthrown]
        intro p hp e hres
        obtain ⟨k, hk⟩ := List.getElem?_of_mem hp
        obtain ⟨e1, hres1, _, _⟩ := idEntityPtr.GetEntity_transfer state.entities
          middle.entities p (fun n => (hbodies n).symm) entNum e hres
        exact hdistinct (k + 1) p e1 (by omega) (by rw [List.getElem?_cons_succ]; exact hk) hres1
    · -- the loop first handles an earlier object
      have hindex : i - base = (i - (base + 1)) + 1 := by omega
      rw [hindex, List.getElem?_cons_succ] at hptr
      obtain ⟨middle, hmiddle⟩ := idPhantomObjects.ThinkObject_total collaborators gameLocal
        targetEnt toPos base first state (by omega) (by omega)
      obtain ⟨hlen1, hlen2⟩ := idPhantomObjects.ThinkObject_lists collaborators gameLocal
        targetEnt toPos base first state middle hmiddle
      obtain ⟨hshake, hspeed, htimes1, hbodies, hother⟩ := idPhantomObjects.ThinkObject_frame
        collaborators gameLocal targetEnt toPos base first state middle hmiddle
      have hpos1 := idPhantomObjects.ThinkObject_other_index collaborators gameLocal targetEnt
        toPos i base first state middle (by omega) hmiddle
      obtain ⟨ent1, hent1, hshown1, horigin1⟩ := idEntityPtr.GetEntity_transfer middle.entities
        state.entities targetPtr hbodies entNum ent hent
      obtain ⟨final, hfinal, hclear, hblocked, hthrow⟩ := ih (base + 1) middle ent1 (by omega)
        hptr (by omega) (by omega) hent1 (by rw [hshown1]; exact hshown)
        (by rw [htimes1 i (by omega)]; exact htime) (by rw [hshake]; exact hdue)
        (by rw [hpos1]; exact hold)
      rw [horigin1] at hclear hblocked hthrow
      refine ⟨final, ?_, hclear, hblocked, ?_⟩
      · unfold idPhantomObjects.ThinkLoop
        rw [hmiddle]
        exact hfinal
      · intro hneg hdistinct
        rw [hspeed] at hthrow
        apply hthrow hneg
        intro k p e hk hp hres
        obtain ⟨e1, hres1, _, _⟩ := idEntityPtr.GetEntity_transfer state.entities
          middle.entities p (fun n => (hbodies n).symm) entNum e hres
        exact hdistinct (k + 1) p e1 (by omega) (by rw [List.getElem?_cons_succ]; exact hp) hres1

/-- C15: a Think call of an entity that is not dormant, has TH_THINK set, a target that
resolves to a live actor, and as many scheduled times and remembered positions as targets.
Let object i be processed in this tick: targets[i] resolves to a live entity that is not
hidden, targetTime[i] is not 0, and targetTime[i] lies within shake_time of the current
time. Then the call returns and, with the trace taken from the origin of the object to the
eye position of the target: lastTargetPos[i] is that eye position when the trace is
unobstructed (fraction >= 1) or hits the target itself, and is left as it was when the
line is blocked by anything else. When the object is thrown in this tick (its time has
passed) and no later entry of the list refers to the same entity, the entity ends the call
with the linear velocity predicted towards lastTargetPos[i] as it stands after the call,
scaled by speed. -/
theorem idPhantomObjects.Think_keeps_last_clear_position (collaborators : ThinkCollaborators)
    (gameLocal : idGameLocal) (entities : EntityRegistry) (random : idRandom)
    (self : idPhantomObjects) (targetNum : Nat) (actor : idActor) (i entNum : Nat)
    (targetPtr : idEntityPtr) (ent : gameEntity) (targetTime : Int) (oldPos : idVec3)
    (hawake : collaborators.CheckDormant = false)
    (hthink : self.thinkFlags &&& TH_THINK ≠ 0)
    (htarget : self.target.GetEntity entities = some (targetNum, .Actor actor))
    (htimes : self.targetTime.length = self.targets.length)
    (hpositions : self.lastTargetPos.length = self.targets.length)
    (hptr : self.targets[i]? = some targetPtr)
    (hent : targetPtr.GetEntity entities = some (entNum, ent))
    (hshown : ent.toEntity.fl.hidden = false)
    (htime : self.targetTime[i]? = some targetTime)
    (hpending : targetTime ≠ 0)
    (hdue : ¬ MS2SEC (targetTime - gameLocal.time) > self.shake_time)
    (hold : self.lastTargetPos[i]? = some oldPos) :
    ∃ next entities1 random1,
      idPhantomObjects.Think collaborators gameLocal entities random self
        = .ok (next, entities1, random1)
      ∧ (((collaborators.TracePoint ent.toEntity.origin actor.eyePosition entNum).fraction ≥ 1
            ∨ (collaborators.TracePoint ent.toEntity.origin actor.eyePosition entNum).entity
                = some targetNum) →
          next.lastTargetPos[i]? = some actor.eyePosition)
      ∧ (¬ ((collaborators.TracePoint ent.toEntity.origin actor.eyePosition entNum).fraction ≥ 1
            ∨ (collaborators.TracePoint ent.toEntity.origin actor.eyePosition entNum).entity
                = some targetNum) →
          next.lastTargetPos[i]? = some oldPos)
      ∧ (MS2SEC (targetTime - gameLocal.time) < 0 →
          (∀ (k : Nat) (p : idEntityPtr) (e : gameEntity), i < k →
            self.targets[k]? = some p → p.GetEntity entities ≠ some (entNum, e)) →
          ∃ aimPos thrown, next.lastTargetPos[i]? = some aimPos
            ∧ entities1 entNum = some thrown
            ∧ thrown.toEntity.linearVelocity
                = (collaborators.PredictTrajectory ent.toEntity.origin aimPos self.speed
                    entNum).scale self.speed) := by
  unfold idPhantomObjects.Think
  rw [if_neg (by rw [hawake]; exact Bool.false_ne_true), if_neg hthink, htarget]
  dsimp only
  generalize hstop : (decide (actor.health ≤ 0)
      || (decide (self.end_time ≠ 0) && decide (gameLocal.time > self.end_time))
      || gameLocal.inCinematic) = stop
  obtain ⟨self1, hself1, h1, h2, h3, h4, h5⟩ : ∃ self1 : idPhantomObjects,
      (if stop = true then
          { self with toidEntity := self.toidEntity.BecomeInactive TH_THINK }
        else self) = self1
      ∧ self1.targets = self.targets ∧ self1.targetTime = self.targetTime
      ∧ self1.lastTargetPos = self.lastTargetPos ∧ self1.shake_time = self.shake_time
      ∧ self1.speed = self.speed := by
    cases stop
    · exact ⟨self, rfl, rfl, rfl, rfl, rfl, rfl⟩
    · exact ⟨_, rfl, rfl, rfl, rfl, rfl, rfl⟩
  rw [hself1]
  obtain ⟨final, hfinal, hclear, hblocked, hthrow⟩ := idPhantomObjects.ThinkLoop_at collaborators
    gameLocal targetNum actor.eyePosition i entNum targetPtr targetTime oldPos hpending
    self1.targets 0 ⟨self1, entities, random, 0⟩ ent (Nat.zero_le i)
    (by rw [Nat.sub_zero, h1]; exact hptr)
    (by show 0 + self1.targets.length ≤ self1.targetTime.length; rw [h1, h2]; omega)
    (by show 0 + self1.targets.length ≤ self1.lastTargetPos.length; rw [h1, h3]; omega)
    hent hshown (by show self1.targetTime[i]? = _; rw [h2]; exact htime)
    (by show ¬ _ > self1.shake_time; rw [h4]; exact hdue)
    (by show self1.lastTargetPos[i]? = _; rw [h3]; exact hold)
  rw [hfinal]
  dsimp only
  have hthrow1 : MS2SEC (targetTime - gameLocal.time) < 0 →
      (∀ (k : Nat) (p : idEntityPtr) (e : gameEntity), i < k →
        self.targets[k]? = some p → p.GetEntity entities ≠ some (entNum, e)) →
      ∃ aimPos thrown, final.self.lastTargetPos[i]? = some aimPos
        ∧ final.entities entNum = some thrown
        ∧ thrown.toEntity.linearVelocity
            = (collaborators.PredictTrajectory ent.toEntity.origin aimPos self.speed
                entNum).scale self.speed := by
    intro hneg hdistinct
    have := hthrow hneg (by
      intro k p e hk hp
      rw [Nat.sub_zero] at hk
      rw [h1] at hp
      exact hdistinct k p e hk hp)
    rw [show ({ self := self1, entities := entities, random := random, num := 0 }
      : ThinkState).self.speed = self.speed from h5] at this
    exact this
  by_cases hnum : final.num = 0
  · rw [if_pos hnum]
    exact ⟨_, _, _, rfl, hclear, hblocked, hthrow1⟩
  · rw [if_neg hnum]
    exact ⟨_, _, _, rfl, hclear, hblocked, hthrow1⟩

/-- Witness for C15: at time 1000 object 0 is overdue and every trace is blocked half way,
so the remembered position (1, 2, 3) stays and the throw is aimed at it, not at the eye
position (0, 0, 64) of the target: with a prediction that points at the aim and speed 2
the crate gets the velocity (2, 4, 6). -/
theorem idPhantomObjects.Think_keeps_last_clear_position_witness :
    ∃ next entities1 random1,
      idPhantomObjects.Think exampleBlocked { time := 1000 } exampleThinkRegistry {}
          exampleThinkingPhantom = .ok (next, entities1, random1)
      ∧ next.lastTargetPos[0]? = some ⟨1, 2, 3⟩
      ∧ ∃ thrown, entities1 7 = some thrown ∧ thrown.toEntity.linearVelocity = ⟨2, 4, 6⟩ := by
  obtain ⟨next, entities1, random1, hok, _, hblocked, hthrow⟩ :=
    idPhantomObjects.Think_keeps_last_clear_position exampleBlocked { time := 1000 }
      exampleThinkRegistry {} exampleThinkingPhantom 5 { eyePosition := ⟨0, 0, 64⟩ } 0 7
      ⟨some 7⟩ exampleThrowable 900 ⟨1, 2, 3⟩ rfl (by decide) rfl rfl rfl rfl rfl rfl rfl
      (by decide)
      (not_lt.mpr (le_trans (le_of_lt (MS2SEC_neg _ (by decide)))
        (show (0 : Rat) ≤ exampleThinkingPhantom.shake_time by
          norm_num [exampleThinkingPhantom])))
      rfl
  have hkeep := hblocked (by
    norm_num [exampleBlocked]
    exact fun h => Option.noConfusion h)
  obtain ⟨aimPos, thrown, haim, hthrown, hvel⟩ := hthrow (MS2SEC_neg _ (by decide)) (by
    intro k p e hk hp
    cases k with
    | zero => exact absurd hk (lt_irrefl 0)
    | succ k => cases hp)
  rw [hkeep] at haim
  cases haim
  refine ⟨next, entities1, random1, hok, hkeep, thrown, hthrown, ?_⟩
  rw [hvel]
  norm_num [exampleBlocked, exampleThinkingPhantom, idVec3.scale]

end Misc
